import Mathlib

/-!
# Smart Traffic Management System

A shallow embedding of the controller `TrafficSystem` (src/trafficsystem.cpp,
src/trafficsystem.h) and of the tracker of `ProcessingWorker` (src/processingworker.cpp,
src/processingworker.h), and the properties of the light state machine, of the
violation reports, of the serial link, of the frame scheduler and of the tracker.

Conventions of the embedding.

* C++ `int` is `Int`.  The arrays `std::array<T, 4>` (`roads`, `currentLights`, the
  sensor states, the cooldown flags) and `std::array<int, 5>` (`lightDurations`) are
  total maps `Int → T`; the code only ever indexes them after a range check, in a loop
  over `0..3` or with `currentRoadIndex`, which is shown to stay in `0..3`
  (`reachable_currentRoadIndex_range`).
* C++ `%` truncates towards zero: it is `Int.tmod`.
* Qt signals are appended to `events` (oldest first); bytes written to the serial
  port are appended to `serialOut`.  Timestamps and pixel data are not modelled.
* A `QByteArray` is the list of its bytes, written as characters; decoding it as UTF-8
  leaves the (ASCII) bytes of the protocol as they are.
* A `QTimer` is its `active` flag and its interval in milliseconds.  The calls of
  `QTimer::singleShot` are appended to `singleShots`, with the delay and what the lambda
  does; when a single shot fires is left open in the untimed transition system and
  fixed by the clock in `TimedSystem`.
* Everything the environment decides (does the camera open, does a read deliver a
  frame, which serial ports exist, which bytes arrive, does `cv::imwrite` succeed, what
  does the detector find) is an explicit argument of the operation.
* `lightHistory` is a ghost field: `setTrafficLight` appends the light array to it
  after every write, so that the configurations *between* the individual
  `setTrafficLight` calls of one operation can be stated.  No code reads it.
* The control thread and the worker thread are joined in `Plant`: the two queued
  signal connections between them are the lists `jobs` (`requestFrameProcessing`) and
  `results` (`processingFinished`), oldest first.
-/

namespace STMS

/-! ## traffic_types.h -/

/-- The enum `TrafficLight` of traffic_types.h. -/
inductive TrafficLight where
  | OFF | RED | YELLOW | GREEN
  deriving DecidableEq, Repr

/-- The enum `TrafficDensity` of traffic_types.h. -/
inductive TrafficDensity where
  | OFF | LOW | MEDIUM | HIGH | VERY_HIGH
  deriving DecidableEq, Repr

/-- The cast `static_cast<int>(density)`. -/
def TrafficDensity.toInt : TrafficDensity → Int
  | .OFF => 0
  | .LOW => 1
  | .MEDIUM => 2
  | .HIGH => 3
  | .VERY_HIGH => 4

/-! ## trafficsystem.h -/

/-- A `cv::Rect`: top-left corner, width and height. -/
structure Rect where
  x : Int
  y : Int
  width : Int
  height : Int
  deriving DecidableEq, Repr

/-- A `cv::Mat` frame, reduced to its dimensions; an empty `cv::Mat` is `none`
wherever a frame is held. -/
structure Frame where
  cols : Int
  rows : Int
  deriving DecidableEq, Repr

/-- The struct `RoadData`; `camera` is reduced to `camera.isOpened()`, the set
`violatedIDs` is a duplicate-free list in insertion order. -/
structure RoadData where
  vehicleCount : Int := 0
  density : TrafficDensity := TrafficDensity.OFF
  cameraOpened : Bool := false
  currentFrame : Option Frame := none
  cameraConnected : Bool := false
  cameraSource : String := ""
  roi : Rect := ⟨0, 0, 0, 0⟩
  violatedIDs : List Int := []

/-- The struct `ArduinoData`: a `QByteArray` is the list of its bytes, written as
characters; `irSensorStates`, which no code reads or writes, is left out. -/
structure ArduinoData where
  connected : Bool := false
  portName : String := ""
  buffer : List Char := []
  irSensorPreviousStates : Int → Bool := fun _ => false

/-- A `QTimer`: whether it is running, and its interval in milliseconds. -/
structure QTimer where
  active : Bool := false
  interval : Int := 0
  deriving DecidableEq, Repr

/-- The timer after `start(msec)`. -/
def QTimer.start (_t : QTimer) (msec : Int) : QTimer := ⟨true, msec⟩

/-- The timer after `stop()`. -/
def QTimer.stop (t : QTimer) : QTimer := { t with active := false }

/-- The signals of `TrafficSystem`. -/
inductive Event where
  | vehicleCountChanged (roadIndex : Int) (count : Int)
  | densityChanged (roadIndex : Int) (density : TrafficDensity)
  | trafficLightChanged (roadIndex : Int) (light : TrafficLight)
  | frameUpdated (roadIndex : Int)
  | violationDetected (roadIndex : Int) (reason : String) (frame : Option Frame)
  | logMessage (message : String) (level : String)
  | cameraStatusChanged (roadIndex : Int) (connected : Bool)
  | arduinoStatusChanged (connected : Bool) (portName : String)
  | energySavingStatusChanged (active : Bool)
  | requestFrameProcessing (roadIndex : Int) (frame : Frame) (roi : Rect)
      (currentLight : TrafficLight)
  | requestYoloThresholdUpdate
  deriving DecidableEq

/-- What the lambda of a `QTimer::singleShot` call of `parseArduinoData` does when it
fires: write screenshot `imageNum` of an approach, or clear the IR cooldown of an
approach. -/
inductive SingleShot where
  | screenshot (roadIndex : Int) (imageNum : Int)
  | cooldownOff (roadIndex : Int)
  deriving DecidableEq, Repr

/-- The members of class `TrafficSystem`, with the function-local static
`roadToProcess` of `onMainTimerTimeout`, the emitted signals, the serial output, the
`QTimer::singleShot` calls made (delay in milliseconds and what fires) and the ghost
history of light arrays. -/
structure TrafficSystem where
  roads : Int → RoadData
  currentLights : Int → TrafficLight
  systemRunning : Bool
  m_workerBusy : Bool
  currentRoadIndex : Int
  lightTimeRemaining : Int
  yellowLightActive : Bool
  yellowLightFixedDuration : Int
  energySavingMode : Bool
  energySavingEnabled : Bool
  lightDurations : Int → Int
  violationDetectionEnabled : Bool
  irViolationCooldownActive : Int → Bool
  mainTimer : QTimer
  lightTimer : QTimer
  sensorTimer : QTimer
  arduinoExists : Bool
  arduinoOpen : Bool
  arduinoData : ArduinoData
  roadToProcess : Int
  events : List Event
  serialOut : List String
  singleShots : List (Int × SingleShot)
  lightHistory : List (Int → TrafficLight)

/-- The state built by the constructor `TrafficSystem::TrafficSystem`. -/
def TrafficSystem.constructed : TrafficSystem where
  roads := fun _ => {}
  currentLights := fun _ => TrafficLight.OFF
  systemRunning := false
  m_workerBusy := false
  currentRoadIndex := 0
  lightTimeRemaining := 0
  yellowLightActive := false
  yellowLightFixedDuration := 3
  energySavingMode := false
  energySavingEnabled := true
  lightDurations := fun k =>
    if k = TrafficDensity.OFF.toInt then 5
    else if k = TrafficDensity.LOW.toInt then 8
    else if k = TrafficDensity.MEDIUM.toInt then 12
    else if k = TrafficDensity.HIGH.toInt then 18
    else if k = TrafficDensity.VERY_HIGH.toInt then 25
    else 0
  violationDetectionEnabled := true
  irViolationCooldownActive := fun _ => false
  mainTimer := {}
  lightTimer := {}
  sensorTimer := {}
  arduinoExists := false
  arduinoOpen := false
  arduinoData := {}
  roadToProcess := 0
  events := []
  serialOut := []
  singleShots := []
  lightHistory := []

/-! ## trafficsystem.cpp -/

/-- The statement `emit signal(...)`. -/
def emit (s : TrafficSystem) (e : Event) : TrafficSystem :=
  { s with events := s.events ++ [e] }

/-- Assignment to `roads[roadIndex]`. -/
def setRoad (s : TrafficSystem) (roadIndex : Int) (r : RoadData) : TrafficSystem :=
  { s with roads := Function.update s.roads roadIndex r }

/-- `TrafficSystem::getRedLightDuration`. -/
def getRedLightDuration (s : TrafficSystem) (density : TrafficDensity) : Int :=
  s.lightDurations density.toInt

/-- `TrafficSystem::sendArduinoCommand`. -/
def sendArduinoCommand (s : TrafficSystem) (command : String) : TrafficSystem :=
  if s.arduinoData.connected = false ∨ s.arduinoExists = false ∨ s.arduinoOpen = false then s
  else { s with serialOut := s.serialOut ++ [command ++ "\n"] }

/-- The letter `l_char` that `setTrafficLight` puts in the command. -/
def lightChar (light : TrafficLight) : Char :=
  if light = TrafficLight.RED then 'R'
  else if light = TrafficLight.YELLOW then 'Y'
  else if light = TrafficLight.GREEN then 'G'
  else 'F'

/-- `TrafficSystem::setTrafficLight`. -/
def setTrafficLight (s : TrafficSystem) (roadIndex : Int) (light : TrafficLight) :
    TrafficSystem :=
  if roadIndex < 0 ∨ roadIndex ≥ 4 ∨ s.currentLights roadIndex = light then s
  else
    let lights := Function.update s.currentLights roadIndex light
    let s1 := { s with currentLights := lights, lightHistory := s.lightHistory ++ [lights] }
    let s2 := emit s1 (Event.trafficLightChanged roadIndex light)
    sendArduinoCommand s2
      ("L_" ++ toString roadIndex ++ "_" ++ String.singleton (lightChar light))

/-- `TrafficSystem::setAllTrafficLights`: the loop `for (i = 0; i < 4; ++i)`. -/
def setAllTrafficLights (s : TrafficSystem) (light : TrafficLight) : TrafficSystem :=
  [0, 1, 2, 3].foldl (fun st i => setTrafficLight st i light) s

/-- The loop `for (i = 0; i < 4; ++i)` of `processTrafficCycle`. -/
def cycleLights (s : TrafficSystem) : TrafficSystem :=
  [0, 1, 2, 3].foldl
    (fun st i => setTrafficLight st i
      (if i = st.currentRoadIndex then TrafficLight.GREEN else TrafficLight.RED)) s

/-- `TrafficSystem::processTrafficCycle`. -/
def processTrafficCycle (s : TrafficSystem) : TrafficSystem :=
  if s.systemRunning = false ∨ s.energySavingMode = true ∨ s.yellowLightActive = true
      ∨ s.lightTimer.active = true then s
  else
    let s1 := cycleLights s
    { s1 with
      lightTimeRemaining := getRedLightDuration s1 (s1.roads s1.currentRoadIndex).density
      lightTimer := s1.lightTimer.start 1000 }

/-- `TrafficSystem::switchToNextRoad`. -/
def switchToNextRoad (s : TrafficSystem) : TrafficSystem :=
  if s.energySavingMode = true then s
  else if s.yellowLightActive = false then
    let s1 := setTrafficLight s s.currentRoadIndex TrafficLight.YELLOW
    { s1 with
      yellowLightActive := true
      lightTimeRemaining := s1.yellowLightFixedDuration
      lightTimer := s1.lightTimer.start 1000 }
  else
    let s1 := { s with yellowLightActive := false }
    let s2 := setTrafficLight s1 s1.currentRoadIndex TrafficLight.RED
    let s3 := setRoad s2 s2.currentRoadIndex
      { s2.roads s2.currentRoadIndex with violatedIDs := [] }
    let s4 := { s3 with currentRoadIndex := Int.tmod (s3.currentRoadIndex + 1) 4 }
    let s5 := setRoad s4 s4.currentRoadIndex
      { s4.roads s4.currentRoadIndex with violatedIDs := [] }
    processTrafficCycle s5

/-- `TrafficSystem::onLightTimerTimeout`, the slot of the 1-Hz phase decrementer. -/
def onLightTimerTimeout (s : TrafficSystem) : TrafficSystem :=
  if s.systemRunning = false ∨ s.energySavingMode = true then
    { s with lightTimer := s.lightTimer.stop }
  else
    let s1 := if s.lightTimeRemaining > 0 then
      { s with lightTimeRemaining := s.lightTimeRemaining - 1 } else s
    if s1.lightTimeRemaining ≤ 0 then
      switchToNextRoad { s1 with lightTimer := s1.lightTimer.stop }
    else s1

/-- The flag `allRoadsEmpty` computed by the loop of `processEnergySaving`. -/
def allRoadsEmpty (s : TrafficSystem) : Bool :=
  [0, 1, 2, 3].all (fun i => !((s.roads i).cameraConnected && decide ((s.roads i).vehicleCount > 0)))

/-- `TrafficSystem::processEnergySaving`. -/
def processEnergySaving (s : TrafficSystem) : TrafficSystem :=
  if s.energySavingEnabled = false then
    if s.energySavingMode = true then
      let s1 := { s with energySavingMode := false }
      let s2 := emit s1 (Event.energySavingStatusChanged false)
      processTrafficCycle s2
    else s
  else if allRoadsEmpty s = true ∧ s.energySavingMode = false then
    let s1 := { s with energySavingMode := true, lightTimer := s.lightTimer.stop }
    let s2 := setAllTrafficLights s1 TrafficLight.OFF
    emit s2 (Event.energySavingStatusChanged true)
  else if allRoadsEmpty s = false ∧ s.energySavingMode = true then
    let s1 := { s with energySavingMode := false }
    let s2 := emit s1 (Event.energySavingStatusChanged false)
    processTrafficCycle s2
  else s

/-- `TrafficSystem::updateTrafficLights`. -/
def updateTrafficLights (s : TrafficSystem) : TrafficSystem :=
  if s.systemRunning = false then s
  else
    let s1 := processEnergySaving s
    if s1.energySavingMode = true then s1
    else if s1.currentLights s1.currentRoadIndex = TrafficLight.OFF
        ∧ (s1.roads s1.currentRoadIndex).vehicleCount > 0 then
      processTrafficCycle s1
    else s1

/-- The density bucket `newDensity` computed in `handleProcessingFinished`. -/
def newDensity (vehicleCount : Int) : TrafficDensity :=
  if vehicleCount < 3 then TrafficDensity.OFF
  else if vehicleCount ≤ 4 then TrafficDensity.LOW
  else if vehicleCount ≤ 6 then TrafficDensity.MEDIUM
  else if vehicleCount ≤ 9 then TrafficDensity.HIGH
  else TrafficDensity.VERY_HIGH

/-- The count and density update of `handleProcessingFinished` (lines 145-153). -/
def updateCount (s : TrafficSystem) (roadIndex : Int) (vehicleCount : Int) : TrafficSystem :=
  if (s.roads roadIndex).vehicleCount ≠ vehicleCount then
    let s1 := setRoad s roadIndex { s.roads roadIndex with vehicleCount := vehicleCount }
    let s2 := emit s1 (Event.vehicleCountChanged roadIndex vehicleCount)
    if (s2.roads roadIndex).density ≠ newDensity vehicleCount then
      let s3 := setRoad s2 roadIndex
        { s2.roads roadIndex with density := newDensity vehicleCount }
      emit s3 (Event.densityChanged roadIndex (newDensity vehicleCount))
    else s2
  else s

/-- The loop over `violatingVehicleIDs` of `handleProcessingFinished` (lines 158-169). -/
def reportViolations (s : TrafficSystem) (roadIndex : Int) : List Int → TrafficSystem
  | [] => s
  | id :: rest =>
    let s1 :=
      if id ∈ (s.roads roadIndex).violatedIDs then s
      else
        let s2 := emit s (Event.violationDetected roadIndex
          ("Vehicle ID " ++ toString id ++ " ran red light") (s.roads roadIndex).currentFrame)
        setRoad s2 roadIndex
          { s2.roads roadIndex with violatedIDs := (s2.roads roadIndex).violatedIDs ++ [id] }
    reportViolations s1 roadIndex rest

/-- `TrafficSystem::handleProcessingFinished`; the rendered frame is not modelled. -/
def handleProcessingFinished (s : TrafficSystem) (roadIndex : Int) (vehicleCount : Int)
    (violatingVehicleIDs : List Int) : TrafficSystem :=
  let s0 := { s with m_workerBusy := false }
  if roadIndex < 0 ∨ roadIndex ≥ 4 then s0
  else
    let s1 := updateCount s0 roadIndex vehicleCount
    let s2 := emit s1 (Event.frameUpdated roadIndex)
    let s3 := if s2.violationDetectionEnabled = true then
      reportViolations s2 roadIndex violatingVehicleIDs else s2
    updateTrafficLights s3

/-- `TrafficSystem::startSystem`. -/
def startSystem (s : TrafficSystem) : TrafficSystem :=
  if s.systemRunning = true then s
  else
    let s1 := { s with
      systemRunning := true
      currentRoadIndex := 0
      yellowLightActive := false
      lightTimeRemaining := 0
      mainTimer := s.mainTimer.start 50 }
    let s2 := if s1.arduinoData.connected = true then
      { s1 with sensorTimer := s1.sensorTimer.start 250 } else s1
    let s3 := processTrafficCycle s2
    emit s3 (Event.logMessage "Traffic system started." "INFO")

/-- `TrafficSystem::stopSystem`. -/
def stopSystem (s : TrafficSystem) : TrafficSystem :=
  if s.systemRunning = false then s
  else
    let s1 := { s with
      systemRunning := false
      mainTimer := s.mainTimer.stop
      lightTimer := s.lightTimer.stop
      sensorTimer := s.sensorTimer.stop }
    let s2 := setAllTrafficLights s1
      (if s1.energySavingEnabled = true then TrafficLight.OFF else TrafficLight.RED)
    emit s2 (Event.logMessage "Traffic system stopped." "INFO")

/-- `TrafficSystem::onSensorTimerTimeout`. -/
def onSensorTimerTimeout (s : TrafficSystem) : TrafficSystem :=
  if s.arduinoData.connected = true then sendArduinoCommand s "GET_SENSORS" else s

/-- `TrafficSystem::onMainTimerTimeout`, the slot of the 50-ms scheduler.  The argument
`readFrame` is what `camera.read` delivers: `none` when the read fails or the frame is
empty. -/
def onMainTimerTimeout (s : TrafficSystem) (readFrame : Option Frame) : TrafficSystem :=
  if s.systemRunning = false ∨ s.m_workerBusy = true then s
  else
    let s1 := { s with roadToProcess := Int.tmod (s.roadToProcess + 1) 4 }
    if (s1.roads s1.roadToProcess).cameraConnected = true
        ∧ (s1.roads s1.roadToProcess).cameraOpened = true then
      match readFrame with
      | none => s1
      | some frame =>
        let s2 := { s1 with m_workerBusy := true }
        let s3 := setRoad s2 s2.roadToProcess
          { s2.roads s2.roadToProcess with currentFrame := some frame }
        emit s3 (Event.requestFrameProcessing s3.roadToProcess frame
          (s3.roads s3.roadToProcess).roi (s3.currentLights s3.roadToProcess))
    else s1

/-- `TrafficSystem::disconnectCamera`. -/
def disconnectCamera (s : TrafficSystem) (roadIndex : Int) : TrafficSystem :=
  if roadIndex < 0 ∨ roadIndex ≥ 4 ∨ (s.roads roadIndex).cameraConnected = false then s
  else
    let s1 := setRoad s roadIndex
      { s.roads roadIndex with
        cameraOpened := false
        vehicleCount := 0
        density := TrafficDensity.OFF
        cameraConnected := false
        cameraSource := ""
        roi := ⟨0, 0, 0, 0⟩
        violatedIDs := [] }
    let s2 := emit s1 (Event.cameraStatusChanged roadIndex false)
    emit s2 (Event.logMessage ("Camera " ++ toString (roadIndex + 1) ++ " disconnected.") "INFO")

/-- `TrafficSystem::connectCamera`.  The argument `opened` is the outcome of `cap.open`
(`cap.isOpened()`).  The result is the returned `bool` and the new state. -/
def connectCamera (s : TrafficSystem) (roadIndex : Int) (source : String) (opened : Bool) :
    Bool × TrafficSystem :=
  if roadIndex < 0 ∨ roadIndex ≥ 4 then (false, s)
  else
    let s1 := disconnectCamera s roadIndex
    if opened = true then
      let s2 := setRoad s1 roadIndex
        { s1.roads roadIndex with
          cameraOpened := true
          cameraConnected := true
          cameraSource := source }
      let s3 := emit s2 (Event.cameraStatusChanged roadIndex true)
      (true, emit s3 (Event.logMessage
        ("Camera " ++ toString (roadIndex + 1) ++ " connected to source: " ++ source) "INFO"))
    else
      (false, emit s1 (Event.logMessage ("Failed to open camera source: " ++ source) "ERROR"))

/-- `TrafficSystem::initializeArduino`.  The arguments `availablePorts` and `openOk` are
what `QSerialPortInfo::availablePorts()` and `arduino->open` deliver. -/
def initializeArduino (s : TrafficSystem) (portName : String) (availablePorts : List String)
    (openOk : Bool) : Bool × TrafficSystem :=
  let s1 := if s.arduinoExists = true ∧ s.arduinoOpen = true then
    { s with arduinoOpen := false } else s
  let s2 := if s1.arduinoExists = false then { s1 with arduinoExists := true } else s1
  let portToUse :=
    if portName.isEmpty = true then
      match availablePorts with
      | [] => portName
      | p :: _ => p
    else portName
  if portToUse.isEmpty = true then
    (false, emit s2 (Event.logMessage "No Arduino ports found. Using simulation." "WARNING"))
  else if openOk = true then
    let s3 := { s2 with
      arduinoOpen := true
      serialOut := s2.serialOut ++ ["INIT\n"]
      arduinoData := { s2.arduinoData with connected := true, portName := portToUse } }
    let s4 := emit s3 (Event.arduinoStatusChanged true portToUse)
    let s5 := emit s4 (Event.logMessage ("Arduino connected on port " ++ portToUse) "INFO")
    let s6 := if s5.systemRunning = true then
      { s5 with sensorTimer := s5.sensorTimer.start 250 } else s5
    (true, s6)
  else
    (false, emit s2 (Event.logMessage ("Failed to open Arduino port " ++ portToUse) "ERROR"))

/-- `TrafficSystem::setArduinoSimulationMode`. -/
def setArduinoSimulationMode (s : TrafficSystem) (simActive : Bool)
    (availablePorts : List String) (openOk : Bool) : TrafficSystem :=
  if simActive = true ∧ s.arduinoData.connected = true then
    let s1 := if s.arduinoExists = true ∧ s.arduinoOpen = true then
      { s with arduinoOpen := false } else s
    let s2 := { s1 with
      arduinoData := { s1.arduinoData with connected := false }
      sensorTimer := s1.sensorTimer.stop }
    emit s2 (Event.arduinoStatusChanged false "Simulation")
  else if simActive = false ∧ s.arduinoData.connected = false then
    (initializeArduino s "" availablePorts openOk).2
  else s

/-- The handler of `QSerialPort::errorOccurred` installed by `initializeArduino`, for an
error other than `NoError`; `errorString` is the text the port reports. -/
def onArduinoError (s : TrafficSystem) (errorString : String) : TrafficSystem :=
  if s.arduinoData.connected = true then
    let s1 := emit s (Event.logMessage ("Arduino Error: " ++ errorString) "ERROR")
    let s2 := { s1 with arduinoData := { s1.arduinoData with connected := false } }
    emit s2 (Event.arduinoStatusChanged false "")
  else s

/-- `TrafficSystem::setLightTiming`. -/
def setLightTiming (s : TrafficSystem) (d : TrafficDensity) (secs : Int) : TrafficSystem :=
  { s with lightDurations := Function.update s.lightDurations d.toInt secs }

/-- `TrafficSystem::setYellowLightDuration`. -/
def setYellowLightDuration (s : TrafficSystem) (secs : Int) : TrafficSystem :=
  { s with yellowLightFixedDuration := secs }

/-- `TrafficSystem::setEnergySavingEnabled`. -/
def setEnergySavingEnabled (s : TrafficSystem) (enabled : Bool) : TrafficSystem :=
  { s with energySavingEnabled := enabled }

/-- `TrafficSystem::setViolationDetectionEnabled`. -/
def setViolationDetectionEnabled (s : TrafficSystem) (enabled : Bool) : TrafficSystem :=
  { s with violationDetectionEnabled := enabled }

/-- `TrafficSystem::setRoadROI`. -/
def setRoadROI (s : TrafficSystem) (roadIndex : Int) (roi : Rect) : TrafficSystem :=
  if roadIndex ≥ 0 ∧ roadIndex < 4 then
    setRoad s roadIndex { s.roads roadIndex with roi := roi }
  else s

/-- `TrafficSystem::setYoloThresholds`; the two floats only travel to the worker. -/
def setYoloThresholds (s : TrafficSystem) : TrafficSystem :=
  emit s Event.requestYoloThresholdUpdate

/-- `TrafficSystem::initializeSystem` on the freshly constructed object, when the
worker loads its models (the only case in which the main window goes on to use the
object); `initializeTimers` creates the three timers, stopped. -/
def initializeSystem (availablePorts : List String) (openOk : Bool) : TrafficSystem :=
  let s0 := TrafficSystem.constructed
  let s1 := emit s0 (Event.logMessage "Initializing Traffic System..." "INFO")
  let s2 := emit s1 (Event.logMessage "Processing worker thread started." "INFO")
  (initializeArduino s2 "" availablePorts openOk).2

/-! ## The inbound serial path -/

/-- The member `violationDir`, set by the constructor to the directory `stms_violations`
under the application's data path.  The data path depends on the installation and is
left out. -/
def violationDir : String := "stms_violations"

/-- `TrafficSystem::saveViolationScreenshot`; `imwriteOk` is what `cv::imwrite` returns.
The file name carries a timestamp, which is not modelled: `baseTimestamp` is the empty
string here.  On failure the code logs the full path `QDir(violationDir).filePath(filename)`,
on success the file name only. -/
def saveViolationScreenshot (s : TrafficSystem) (roadIndex : Int) (imageNum : Int)
    (imwriteOk : Bool) : TrafficSystem :=
  match (s.roads roadIndex).currentFrame with
  | none => s
  | some _ =>
    let filename :=
      "VIO_IR__R" ++ toString (roadIndex + 1) ++ "_IMG" ++ toString imageNum ++ ".jpg"
    let fullPath := violationDir ++ "/" ++ filename
    if imwriteOk = false then
      emit s (Event.logMessage ("Failed to save IR violation image: " ++ fullPath) "ERROR")
    else
      emit s (Event.logMessage ("Saved IR violation image: " ++ filename) "INFO")

/-- The reason text of an IR violation on approach `i`. -/
def irReason (i : Int) : String :=
  "IR sensor triggered on red light for Road " ++ toString (i + 1)

/-- The body of the second loop `for (i = 0; i < 4; ++i)` of `parseArduinoData`, for
one `i`; `imwriteOk` is what `cv::imwrite` returns for the first screenshot. -/
def checkSensor (s : TrafficSystem) (newStates : Int → Bool) (imwriteOk : Int → Bool)
    (i : Int) : TrafficSystem :=
  if newStates i = true ∧ s.arduinoData.irSensorPreviousStates i = false
      ∧ s.irViolationCooldownActive i = false then
    if s.currentLights i = TrafficLight.RED ∧ s.violationDetectionEnabled = true then
      let s1 := saveViolationScreenshot s i 1 (imwriteOk i)
      let s2 := emit s1 (Event.violationDetected i (irReason i) (s1.roads i).currentFrame)
      let s3 := emit s2 (Event.logMessage (irReason i) "VIOLATION")
      { s3 with
        singleShots := s3.singleShots ++
          [(500, SingleShot.screenshot i 2), (1000, SingleShot.screenshot i 3),
           (5000, SingleShot.cooldownOff i)]
        irViolationCooldownActive := Function.update s3.irViolationCooldownActive i true }
    else s
  else s

/-- `QString::split(sep)`: the parts between the separators, empty ones included. -/
def splitChar (sep : Char) : List Char → List (List Char)
  | [] => [[]]
  | c :: cs =>
    if c = sep then [] :: splitChar sep cs
    else
      match splitChar sep cs with
      | [] => [[c]]
      | p :: ps => (c :: p) :: ps

/-- The array `newStates` that `parseArduinoData` reads off the four parts. -/
def sensorStates (states : List (List Char)) : Int → Bool :=
  fun i => decide (0 ≤ i ∧ i < 4 ∧ states.getD i.toNat [] = ['1'])

/-- `TrafficSystem::parseArduinoData`. -/
def parseArduinoData (s : TrafficSystem) (data : List Char) (imwriteOk : Int → Bool) :
    TrafficSystem :=
  if "SENSORS:".data.isPrefixOf data = true then
    let states := (splitChar ',' (data.drop 8)).filter (fun p => decide (p ≠ []))
    if states.length = 4 then
      let newStates := sensorStates states
      let s1 := [0, 1, 2, 3].foldl (fun st i => checkSensor st newStates imwriteOk i) s
      { s1 with arduinoData := { s1.arduinoData with irSensorPreviousStates := newStates } }
    else s
  else s

/-- The loop `while (arduinoData.buffer.contains('\n'))` of `onArduinoDataReceived`, run
for at most `fuel` rounds. -/
def drainBuffer (imwriteOk : Int → Bool) : Nat → TrafficSystem → TrafficSystem
  | 0, s => s
  | fuel + 1, s =>
    if '\n' ∈ s.arduinoData.buffer then
      let line := s.arduinoData.buffer.takeWhile (fun c => decide (c ≠ '\n'))
      let s1 := { s with
        arduinoData := { s.arduinoData with
          buffer := s.arduinoData.buffer.drop (line.length + 1) } }
      drainBuffer imwriteOk fuel (parseArduinoData s1 line imwriteOk)
    else s

/-- `TrafficSystem::onArduinoDataReceived`; `received` is what `readAll()` returns.
Every round of the loop removes a line and its LF from the buffer, so the length of
the buffer bounds the number of rounds (`drainBuffer_no_lf`). -/
def onArduinoDataReceived (s : TrafficSystem) (received : List Char)
    (imwriteOk : Int → Bool) : TrafficSystem :=
  if s.arduinoExists = false ∨ s.arduinoOpen = false then s
  else
    let s1 := { s with
      arduinoData := { s.arduinoData with buffer := s.arduinoData.buffer ++ received } }
    drainBuffer imwriteOk s1.arduinoData.buffer.length s1

/-- What a `QTimer::singleShot` lambda of `parseArduinoData` does when it fires. -/
def onSingleShot (s : TrafficSystem) (shot : SingleShot) (imwriteOk : Bool) :
    TrafficSystem :=
  match shot with
  | .screenshot roadIndex imageNum => saveViolationScreenshot s roadIndex imageNum imwriteOk
  | .cooldownOff roadIndex =>
    { s with
      irViolationCooldownActive := Function.update s.irViolationCooldownActive roadIndex false }

/-! ## The controller as a transition system -/

/-- Everything that can happen to the controller on its control thread: the calls of
the configuration surface, the three timer slots, a result from the worker, a serial
error, bytes arriving on the serial port and a single shot firing, each with what the
environment decides. -/
inductive Action where
  | startSystem
  | stopSystem
  | lightTimerTimeout
  | mainTimerTimeout (readFrame : Option Frame)
  | sensorTimerTimeout
  | processingFinished (roadIndex : Int) (vehicleCount : Int) (violatingVehicleIDs : List Int)
  | connectCamera (roadIndex : Int) (source : String) (opened : Bool)
  | disconnectCamera (roadIndex : Int)
  | initializeArduino (portName : String) (availablePorts : List String) (openOk : Bool)
  | setArduinoSimulationMode (simActive : Bool) (availablePorts : List String) (openOk : Bool)
  | arduinoError (errorString : String)
  | setLightTiming (d : TrafficDensity) (secs : Int)
  | setYellowLightDuration (secs : Int)
  | setEnergySavingEnabled (enabled : Bool)
  | setViolationDetectionEnabled (enabled : Bool)
  | setRoadROI (roadIndex : Int) (roi : Rect)
  | setYoloThresholds
  | arduinoDataReceived (received : List Char) (imwriteOk : Int → Bool)
  | singleShotTimeout (shot : SingleShot) (imwriteOk : Bool)

/-- When an action can occur: a timer slot runs only while its timer is active, the
worker reports the size of a tracker map, which is not negative, and a single shot fires
only if `parseArduinoData` has asked for it (when it fires is left open here; the timed
model is `TimedSystem`). -/
def Action.enabled (s : TrafficSystem) : Action → Prop
  | .lightTimerTimeout => s.lightTimer.active = true
  | .mainTimerTimeout _ => s.mainTimer.active = true
  | .sensorTimerTimeout => s.sensorTimer.active = true
  | .processingFinished _ vehicleCount _ => 0 ≤ vehicleCount
  | .singleShotTimeout shot _ => shot ∈ s.singleShots.map Prod.snd
  | _ => True

/-- The state after an action. -/
def step (s : TrafficSystem) : Action → TrafficSystem
  | .startSystem => startSystem s
  | .stopSystem => stopSystem s
  | .lightTimerTimeout => onLightTimerTimeout s
  | .mainTimerTimeout readFrame => onMainTimerTimeout s readFrame
  | .sensorTimerTimeout => onSensorTimerTimeout s
  | .processingFinished roadIndex vehicleCount ids =>
      handleProcessingFinished s roadIndex vehicleCount ids
  | .connectCamera roadIndex source opened => (connectCamera s roadIndex source opened).2
  | .disconnectCamera roadIndex => disconnectCamera s roadIndex
  | .initializeArduino portName availablePorts openOk =>
      (initializeArduino s portName availablePorts openOk).2
  | .setArduinoSimulationMode simActive availablePorts openOk =>
      setArduinoSimulationMode s simActive availablePorts openOk
  | .arduinoError errorString => onArduinoError s errorString
  | .setLightTiming d secs => setLightTiming s d secs
  | .setYellowLightDuration secs => setYellowLightDuration s secs
  | .setEnergySavingEnabled enabled => setEnergySavingEnabled s enabled
  | .setViolationDetectionEnabled enabled => setViolationDetectionEnabled s enabled
  | .setRoadROI roadIndex roi => setRoadROI s roadIndex roi
  | .setYoloThresholds => setYoloThresholds s
  | .arduinoDataReceived received imwriteOk => onArduinoDataReceived s received imwriteOk
  | .singleShotTimeout shot imwriteOk => onSingleShot s shot imwriteOk

/-- The states the controller can be in: those of `initializeSystem`, closed under the
enabled actions. -/
inductive Reachable : TrafficSystem → Prop where
  | init (availablePorts : List String) (openOk : Bool) :
      Reachable (initializeSystem availablePorts openOk)
  | step {s : TrafficSystem} (a : Action) :
      Reachable s → a.enabled s → Reachable (step s a)

/-- Run a list of actions, oldest first. -/
def run (s : TrafficSystem) (as : List Action) : TrafficSystem :=
  as.foldl step s

/-- The state after `n` ticks of the phase decrementer. -/
def ticks (n : Nat) (s : TrafficSystem) : TrafficSystem :=
  (onLightTimerTimeout)^[n] s

/-! ## processingworker.h, processingworker.cpp

Conventions of the embedding of the worker.

* A `std::map<int, TrackedVehicle>` is the list of its entries in ascending key order,
  which is the order in which the loops of the code visit it; `mapSet` is `m[k] = v`.
* `std::vector<bool> usedDetections` is a `List Bool`; an index is a `Nat`, and
  `bestDetIdx`, which starts at `-1`, an `Int`.
* A `cv::Rect` has four 32-bit `int` members.  `cv::Rect::area()` multiplies two of them
  in `int`: the product is taken modulo `2^32` into the range `-2^31 .. 2^31 - 1`
  (`wrap32`).  `a & b` and `a | b` are the rectangles the library documents (the
  intersection, the smallest rectangle containing both).  The library computes their
  edges in `int` as well; statements about them are made for rectangles whose members
  and far edges `x + width`, `y + height` are 32-bit values (`Rect.fits32`, for the
  region of interest against the frame) or which lie in a small window (`Rect.inRange`,
  for the boxes of the tracker), where no edge leaves the 32-bit range.
* The score of a track and a detection is the quotient of two such areas.  The code
  converts both to `double` (exactly) and divides; the model takes the exact rational
  quotient, with `0` for a denominator `0`.  For boxes inside the window of `Rect.inRange`
  (8192 by 8192 pixels around the origin) both areas are the unwrapped pixel counts, at
  most `2^26`, a denominator `0` comes with a numerator `0` (the code's `NaN`, which is
  greater than nothing), the score lies between 0 and 1, two scores that differ differ
  by at least `2^-52`, and a score above 3/10 by at least `1 / (10 * 2^26)`
  (`score_inRange`, `score_gap`).  The rounding of a `double` quotient up to 1 is at
  most `2^-54`, so the two comparisons the code makes (`iou > maxIoU`, `maxIoU > 0.3`)
  come out on the rounded quotients as on the exact ones.  Statements about the value of
  the score are made for boxes in that window.
* The detector `detectVehiclesYOLO` is a black box: what it returns for the region it
  is handed is an argument.
-/

/-- The value of a 32-bit `int` computation: `n` modulo `2^32`, in the range
`-2^31 .. 2^31 - 1`. -/
def wrap32 (n : Int) : Int := (n + 2147483648) % 4294967296 - 2147483648

/-- `cv::Rect::area`: `width * height`, computed in 32-bit `int`. -/
def Rect.area (r : Rect) : Int := wrap32 (r.width * r.height)

/-- The number of pixels of a rectangle, as a number: `width * height` without the 32-bit
wrap of `cv::Rect::area`. -/
def Rect.pixels (r : Rect) : Int := r.width * r.height

/-- The members of the rectangle, its far edges `x + width`, `y + height` and the product
`width * height` are 32-bit `int` values: nothing computed from the rectangle overflows. -/
def Rect.fits32 (r : Rect) : Prop :=
  (-2147483648 ≤ r.x ∧ r.x < 2147483648) ∧ (-2147483648 ≤ r.y ∧ r.y < 2147483648)
  ∧ (-2147483648 ≤ r.width ∧ r.width < 2147483648)
  ∧ (-2147483648 ≤ r.height ∧ r.height < 2147483648)
  ∧ (-2147483648 ≤ r.x + r.width ∧ r.x + r.width < 2147483648)
  ∧ (-2147483648 ≤ r.y + r.height ∧ r.y + r.height < 2147483648)
  ∧ (-2147483648 ≤ r.width * r.height ∧ r.width * r.height < 2147483648)

instance Rect.fits32.dec (r : Rect) : Decidable r.fits32 := by
  unfold Rect.fits32
  exact inferInstance

/-- The rectangle lies in the window of 8192 by 8192 pixels around the origin (left and
top edge from -4096 on, right and bottom edge up to 4096), and its width and height are
not below -8192. -/
def Rect.inRange (r : Rect) : Prop :=
  -4096 ≤ r.x ∧ -4096 ≤ r.y ∧ r.x + r.width ≤ 4096 ∧ r.y + r.height ≤ 4096
  ∧ -8192 ≤ r.width ∧ -8192 ≤ r.height

instance Rect.inRange.dec (r : Rect) : Decidable r.inRange := by
  unfold Rect.inRange
  exact inferInstance

/-- `cv::Rect::empty`. -/
def Rect.empty (r : Rect) : Bool := decide (r.width ≤ 0 ∨ r.height ≤ 0)

/-- OpenCV's `a & b` on `cv::Rect`: the intersection of the two rectangles, `Rect()`
when they do not overlap. -/
def Rect.inter (a b : Rect) : Rect :=
  let x1 := max a.x b.x
  let y1 := max a.y b.y
  let w := min (a.x + a.width) (b.x + b.width) - x1
  let h := min (a.y + a.height) (b.y + b.height) - y1
  if w ≤ 0 ∨ h ≤ 0 then ⟨0, 0, 0, 0⟩ else ⟨x1, y1, w, h⟩

/-- OpenCV's `a | b` on `cv::Rect`: the smallest rectangle that contains both; an empty
operand is ignored. -/
def Rect.union (a b : Rect) : Rect :=
  if a.empty = true then b
  else if b.empty = true then a
  else
    let x1 := min a.x b.x
    let y1 := min a.y b.y
    ⟨x1, y1, max (a.x + a.width) (b.x + b.width) - x1,
      max (a.y + a.height) (b.y + b.height) - y1⟩

/-- The score `iou` that `updateTrackers` computes for a track box and a detection:
`(double)(a & b).area() / (double)(a | b).area()`. -/
def iou (a b : Rect) : ℚ :=
  ((a.inter b).area : ℚ) / ((a.union b).area : ℚ)

/-- The struct `TrackedVehicle`. -/
structure TrackedVehicle where
  id : Int
  boundingBox : Rect
  framesWithoutDetection : Int := 0
  isViolationCandidate : Bool := false
  violationFrameCount : Int := 0
  deriving DecidableEq, Repr

/-- The signal `processingFinished`, without the image. -/
structure ProcessingFinished where
  roadIndex : Int
  vehicleCount : Int
  violatingVehicleIDs : List Int
  deriving DecidableEq, Repr

/-- The members of class `ProcessingWorker` that the tracker uses. -/
structure ProcessingWorker where
  yoloInitialized : Bool
  roadTrackers : Int → List (Int × TrackedVehicle)
  nextVehicleID : Int → Int

/-- The state built by the constructor `ProcessingWorker::ProcessingWorker`. -/
def ProcessingWorker.constructed : ProcessingWorker where
  yoloInitialized := false
  roadTrackers := fun _ => []
  nextVehicleID := fun _ => 0

/-- `ProcessingWorker::initializeModels`; `loaded` is whether both files were read. -/
def initializeModels (w : ProcessingWorker) (loaded : Bool) : Bool × ProcessingWorker :=
  if loaded = true then (true, { w with yoloInitialized := true }) else (false, w)

/-- The assignment `m[k] = v` on a `std::map`. -/
def mapSet (m : List (Int × TrackedVehicle)) (k : Int) (v : TrackedVehicle) :
    List (Int × TrackedVehicle) :=
  match m with
  | [] => [(k, v)]
  | (k1, v1) :: rest =>
    if k < k1 then (k, v) :: (k1, v1) :: rest
    else if k = k1 then (k, v) :: rest
    else (k1, v1) :: mapSet rest k v

/-- The inner loop `for (size_t i = 0; i < detections.size(); ++i)` of
`updateTrackers`: the final `bestDetIdx` and `maxIoU`. -/
def bestDetection (boundingBox : Rect) (detections : List Rect)
    (usedDetections : List Bool) : Int × ℚ :=
  (List.range detections.length).foldl
    (fun (acc : Int × ℚ) (i : Nat) =>
      if usedDetections.getD i false = false then
        if iou boundingBox (detections.getD i ⟨0, 0, 0, 0⟩) > acc.2 then
          ((i : Int), iou boundingBox (detections.getD i ⟨0, 0, 0, 0⟩))
        else acc
      else acc)
    (-1, 0)

/-- The body of the loop `for (auto& pair : trackers)` of `updateTrackers`, for one
track: the track and `usedDetections` afterwards. -/
def matchTracker (detections : List Rect) (currentLight : TrafficLight)
    (tracker : TrackedVehicle) (usedDetections : List Bool) :
    TrackedVehicle × List Bool :=
  let t1 := { tracker with framesWithoutDetection := tracker.framesWithoutDetection + 1 }
  let best := bestDetection t1.boundingBox detections usedDetections
  if best.2 > 3 / 10 then
    let t2 := { t1 with
      boundingBox := detections.getD best.1.toNat ⟨0, 0, 0, 0⟩
      framesWithoutDetection := 0 }
    let used := usedDetections.set best.1.toNat true
    if currentLight = TrafficLight.RED then
      ({ t2 with
          violationFrameCount := t2.violationFrameCount + 1
          isViolationCandidate := true }, used)
    else
      ({ t2 with violationFrameCount := 0, isViolationCandidate := false }, used)
  else (t1, usedDetections)

/-- The loop `for (auto& pair : trackers)` of `updateTrackers`: the map and
`usedDetections` afterwards. -/
def matchTrackers (detections : List Rect) (currentLight : TrafficLight) :
    List (Int × TrackedVehicle) → List Bool → List (Int × TrackedVehicle) × List Bool
  | [], usedDetections => ([], usedDetections)
  | (k, tracker) :: rest, usedDetections =>
    let r := matchTracker detections currentLight tracker usedDetections
    let rs := matchTrackers detections currentLight rest r.2
    ((k, r.1) :: rs.1, rs.2)

/-- The loop of `updateTrackers` that erases the tracks lost for more than
`maxFramesDisappeared = 15` frames. -/
def eraseLost (trackers : List (Int × TrackedVehicle)) : List (Int × TrackedVehicle) :=
  trackers.filter (fun p => decide (¬ p.2.framesWithoutDetection > 15))

/-- The last loop of `updateTrackers`: every detection not used becomes a track under
the next free ID; the map and `nextVehicleID[roadIndex]` afterwards. -/
def registerNew (detections : List Rect) (usedDetections : List Bool)
    (trackers : List (Int × TrackedVehicle)) (nextID : Int) :
    List (Int × TrackedVehicle) × Int :=
  (List.range detections.length).foldl
    (fun (acc : List (Int × TrackedVehicle) × Int) (i : Nat) =>
      if usedDetections.getD i false = false then
        let newVehicle : TrackedVehicle :=
          { id := acc.2, boundingBox := detections.getD i ⟨0, 0, 0, 0⟩ }
        (mapSet acc.1 newVehicle.id newVehicle, acc.2 + 1)
      else acc)
    (trackers, nextID)

/-- `ProcessingWorker::updateTrackers`. -/
def updateTrackers (w : ProcessingWorker) (roadIndex : Int) (detections : List Rect)
    (currentLight : TrafficLight) : ProcessingWorker :=
  let usedDetections := List.replicate detections.length false
  let matched := matchTrackers detections currentLight (w.roadTrackers roadIndex)
    usedDetections
  let kept := eraseLost matched.1
  let registered := registerNew detections matched.2 kept (w.nextVehicleID roadIndex)
  { w with
    roadTrackers := Function.update w.roadTrackers roadIndex registered.1
    nextVehicleID := Function.update w.nextVehicleID roadIndex registered.2 }

/-- The region of the frame that `processFrame` hands to the detector. -/
def processingRegion (frame : Frame) (roi : Rect) : Rect :=
  if roi.area > 0 then roi.inter ⟨0, 0, frame.cols, frame.rows⟩
  else ⟨0, 0, frame.cols, frame.rows⟩

/-- The IDs `processFrame` collects from a tracker map. -/
def violatingIDs (trackers : List (Int × TrackedVehicle)) : List Int :=
  (trackers.filter
    (fun p => p.2.isViolationCandidate && decide (p.2.violationFrameCount > 15))).map
    Prod.fst

/-- `ProcessingWorker::processFrame`; `frame` is `none` for an empty `cv::Mat`, and
`detectVehiclesYOLO` gives what the detector returns for the region it is handed.  The
result is the worker afterwards and the signal `processingFinished`, if emitted. -/
def processFrame (w : ProcessingWorker) (roadIndex : Int) (frame : Option Frame)
    (roi : Rect) (currentLight : TrafficLight) (detectVehiclesYOLO : Rect → List Rect) :
    ProcessingWorker × Option ProcessingFinished :=
  match frame with
  | none => (w, none)
  | some f =>
    if w.yoloInitialized = false then (w, none)
    else
      let detections := detectVehiclesYOLO (processingRegion f roi)
      let w1 := updateTrackers w roadIndex detections currentLight
      (w1, some
        { roadIndex := roadIndex
          vehicleCount := ((w1.roadTrackers roadIndex).length : Int)
          violatingVehicleIDs := violatingIDs (w1.roadTrackers roadIndex) })

/-! ## Predicates on states -/

/-- Mutual exclusion on a light array: if approach `i` (in `0..3`) is GREEN, every
other approach is RED or OFF. -/
def Excl (L : Int → TrafficLight) : Prop :=
  ∀ i j : Int, 0 ≤ i → i < 4 → 0 ≤ j → j < 4 → i ≠ j →
    L i = TrafficLight.GREEN → L j = TrafficLight.RED ∨ L j = TrafficLight.OFF

/-- Every approach other than `c` is RED or OFF. -/
def NoOther (c : Int) (L : Int → TrafficLight) : Prop :=
  ∀ i : Int, i ≠ c → L i = TrafficLight.RED ∨ L i = TrafficLight.OFF

/-- Every light array the controller has ever written satisfies mutual exclusion. -/
def HistOK (s : TrafficSystem) : Prop :=
  ∀ L ∈ s.lightHistory, Excl L

/-- The ghost history is up to date: its last entry is the current light array, or nothing
has been written yet and the lights are as the constructor left them. -/
def HistCurrent (s : TrafficSystem) : Prop :=
  s.lightHistory.getLast? = some s.currentLights
    ∨ (s.lightHistory = [] ∧ s.currentLights = TrafficSystem.constructed.currentLights)

/-- The invariant of the phase controller. -/
structure Inv (s : TrafficSystem) : Prop where
  range : 0 ≤ s.currentRoadIndex ∧ s.currentRoadIndex < 4
  green : ∀ i, s.currentLights i = TrafficLight.GREEN →
    i = s.currentRoadIndex ∧ s.yellowLightActive = false ∧ s.systemRunning = true
      ∧ s.energySavingMode = false
  yellow : ∀ i, s.currentLights i = TrafficLight.YELLOW →
    i = s.currentRoadIndex ∧ s.yellowLightActive = true ∧ s.systemRunning = true
      ∧ s.energySavingMode = false
  timer : s.systemRunning = false ∨ s.energySavingMode = true → s.lightTimer.active = false
  hist : HistOK s

/-- A running state that is neither in energy-saving mode nor in the yellow sub-phase has
its current approach GREEN. -/
def AwakeGreen (s : TrafficSystem) : Prop :=
  s.systemRunning = true → s.energySavingMode = false → s.yellowLightActive = false →
    s.currentLights s.currentRoadIndex = TrafficLight.GREEN

/-- Counts are not negative and every density is the bucket of its count. -/
def CountsOK (s : TrafficSystem) : Prop :=
  ∀ i : Int, 0 ≤ (s.roads i).vehicleCount ∧ (s.roads i).density = newDensity (s.roads i).vehicleCount

/-- The two states agree on everything the phase invariant reads. -/
def SameCore (t s : TrafficSystem) : Prop :=
  t.currentLights = s.currentLights ∧ t.currentRoadIndex = s.currentRoadIndex
    ∧ t.yellowLightActive = s.yellowLightActive ∧ t.systemRunning = s.systemRunning
    ∧ t.energySavingMode = s.energySavingMode ∧ t.lightTimer = s.lightTimer
    ∧ t.lightHistory = s.lightHistory

/-- The events of `t` are those of `s` followed by events none of which is an
`energySavingStatusChanged`. -/
def QuietExt (s t : TrafficSystem) : Prop :=
  ∃ l : List Event, t.events = s.events ++ l ∧ ∀ b, Event.energySavingStatusChanged b ∉ l

/-! ## Intermediate states of the operations -/

/-- The state `handleProcessingFinished` hands to `updateTrafficLights`, for an approach
in `0..3`: the busy flag cleared, the count and density updated, the frame and the new
violations reported. -/
def afterCounts (s : TrafficSystem) (roadIndex : Int) (vehicleCount : Int)
    (violatingVehicleIDs : List Int) : TrafficSystem :=
  if s.violationDetectionEnabled = true then
    reportViolations
      (emit (updateCount { s with m_workerBusy := false } roadIndex vehicleCount)
        (Event.frameUpdated roadIndex))
      roadIndex violatingVehicleIDs
  else
    emit (updateCount { s with m_workerBusy := false } roadIndex vehicleCount)
      (Event.frameUpdated roadIndex)

/-- The state in which `onLightTimerTimeout` calls `switchToNextRoad`: the counter
decremented if it was positive, the decrementer stopped. -/
def atExpiry (s : TrafficSystem) : TrafficSystem :=
  { s with
    lightTimeRemaining :=
      if s.lightTimeRemaining > 0 then s.lightTimeRemaining - 1 else s.lightTimeRemaining
    lightTimer := s.lightTimer.stop }

/-- The state `switchToNextRoad` hands to `processTrafficCycle` at the end of the yellow
sub-phase: the yellow flag cleared, the outgoing approach RED, both `violatedIDs` sets
cleared, `currentRoadIndex` advanced. -/
def afterYellow (s : TrafficSystem) : TrafficSystem :=
  setRoad
    { setRoad (setTrafficLight { s with yellowLightActive := false } s.currentRoadIndex
          TrafficLight.RED) s.currentRoadIndex
        { s.roads s.currentRoadIndex with violatedIDs := [] } with
      currentRoadIndex := Int.tmod (s.currentRoadIndex + 1) 4 }
    (Int.tmod (s.currentRoadIndex + 1) 4)
    { (Function.update s.roads s.currentRoadIndex
          { s.roads s.currentRoadIndex with violatedIDs := [] })
        (Int.tmod (s.currentRoadIndex + 1) 4) with violatedIDs := [] }

/-- The signals emitted on the way from `s` to `t`. -/
def emitted (s t : TrafficSystem) : List Event :=
  t.events.drop s.events.length

/-! ## Running lists of actions -/

/-- An action that can occur is decidably so. -/
instance Action.decEnabled (s : TrafficSystem) (a : Action) : Decidable (a.enabled s) :=
  match a with
  | .lightTimerTimeout => inferInstanceAs (Decidable (s.lightTimer.active = true))
  | .mainTimerTimeout _ => inferInstanceAs (Decidable (s.mainTimer.active = true))
  | .sensorTimerTimeout => inferInstanceAs (Decidable (s.sensorTimer.active = true))
  | .processingFinished _ vehicleCount _ => inferInstanceAs (Decidable (0 ≤ vehicleCount))
  | .startSystem => isTrue trivial
  | .stopSystem => isTrue trivial
  | .connectCamera _ _ _ => isTrue trivial
  | .disconnectCamera _ => isTrue trivial
  | .initializeArduino _ _ _ => isTrue trivial
  | .setArduinoSimulationMode _ _ _ => isTrue trivial
  | .arduinoError _ => isTrue trivial
  | .setLightTiming _ _ => isTrue trivial
  | .setYellowLightDuration _ => isTrue trivial
  | .setEnergySavingEnabled _ => isTrue trivial
  | .setViolationDetectionEnabled _ => isTrue trivial
  | .setRoadROI _ _ => isTrue trivial
  | .setYoloThresholds => isTrue trivial
  | .arduinoDataReceived _ _ => isTrue trivial
  | .singleShotTimeout shot _ =>
    inferInstanceAs (Decidable (shot ∈ s.singleShots.map Prod.snd))

/-- Every action of the list can occur when its turn comes. -/
def runEnabled (s : TrafficSystem) : List Action → Bool
  | [] => true
  | a :: as => decide (a.enabled s) && runEnabled (step s a) as

/-! ## Example states -/

/-- The controller right after start-up, no serial port present. -/
def s0 : TrafficSystem := initializeSystem [] false

/-- A camera frame of 640 columns and 480 rows. -/
def frame0 : Frame := ⟨640, 480⟩

/-- Four scheduler ticks: with only approach 0 connected the fourth dispatches a job for
approach 0 (the first three select approaches 1, 2 and 3, which have no camera). -/
def dispatch0 : List Action :=
  [Action.mainTimerTimeout (some frame0), Action.mainTimerTimeout (some frame0),
   Action.mainTimerTimeout (some frame0), Action.mainTimerTimeout (some frame0)]

/-- The controller started from `s0`: approach 0 is GREEN. -/
def demoStarted : TrafficSystem := run s0 [Action.startSystem]

/-- Approach 0 connected, the system started and approach 0 GREEN, one job dispatched
for approach 0: the state in which its result (count 0) will arrive. -/
def demoAwaitingResult : TrafficSystem :=
  run s0 ([Action.connectCamera 0 "0" true, Action.startSystem] ++ dispatch0)

/-- Approach 0 connected, the system started, one job dispatched for approach 0 and its
result reporting 8 vehicles. -/
def demoCount8 : TrafficSystem :=
  run s0 ([Action.connectCamera 0 "0" true, Action.startSystem] ++ dispatch0
    ++ [Action.processingFinished 0 8 []])

/-- Approach 0 connected and reporting 8 vehicles (density HIGH), the system stopped and
started again: approach 0 has just become GREEN with 18 seconds remaining. -/
def demoHighGreen : TrafficSystem :=
  run demoCount8 [Action.stopSystem, Action.startSystem]

/-- Approach 0 in its yellow sub-phase with one second left: `demoHighGreen` after
20 ticks of the decrementer. -/
def demoYellowLast : TrafficSystem := ticks 20 demoHighGreen

/-- Approach 0 connected, the system started, a result with count 0 (which enters
energy-saving mode), and the system stopped again. -/
def demoStoppedAsleep : TrafficSystem :=
  run s0 ([Action.connectCamera 0 "0" true, Action.startSystem] ++ dispatch0
    ++ [Action.processingFinished 0 0 [], Action.stopSystem])

/-- From `demoAwaitingResult`: the result with count 0 has entered energy-saving mode
during the green sub-phase of approach 0, and the next job for approach 0 has been
dispatched. -/
def demoAsleepInGreen : TrafficSystem :=
  run demoAwaitingResult ([Action.processingFinished 0 0 []] ++ dispatch0)

/-- Approach 0 connected with one vehicle reported, and the green phase of approach 0
run down: approach 0 is in its yellow sub-phase with 3 seconds remaining. -/
def demoYellow0 : TrafficSystem :=
  run s0 ([Action.connectCamera 0 "0" true, Action.startSystem] ++ dispatch0
    ++ [Action.processingFinished 0 1 []]
    ++ List.replicate 5 Action.lightTimerTimeout)

/-- From `demoYellow0`: a result with count 0 has entered energy-saving mode during the
yellow sub-phase, and the next job for approach 0 has been dispatched. -/
def demoAsleepInYellow : TrafficSystem :=
  run demoYellow0 (dispatch0 ++ [Action.processingFinished 0 0 []] ++ dispatch0)

/-- Approaches 0 and 1 connected, approach 1 reporting one vehicle, approach 0 run down to
its yellow sub-phase; then approach 1 reports 0 vehicles, which enters energy-saving mode,
and the next job for approach 1 has been dispatched. -/
def demoAsleepTwoCameras : TrafficSystem :=
  run s0 ([Action.connectCamera 0 "0" true, Action.connectCamera 1 "1" true,
      Action.startSystem,
      Action.mainTimerTimeout (some frame0), Action.processingFinished 1 1 []]
    ++ List.replicate 5 Action.lightTimerTimeout
    ++ [Action.mainTimerTimeout (some frame0), Action.mainTimerTimeout (some frame0),
      Action.mainTimerTimeout (some frame0), Action.processingFinished 0 0 [],
      Action.mainTimerTimeout (some frame0), Action.processingFinished 1 0 [],
      Action.mainTimerTimeout (some frame0), Action.mainTimerTimeout (some frame0),
      Action.mainTimerTimeout (some frame0), Action.processingFinished 0 0 [],
      Action.mainTimerTimeout (some frame0)])


/-! ## The outbound serial link -/

/-- The serial link is up: `sendArduinoCommand` writes exactly when this holds. -/
def linkUp (s : TrafficSystem) : Prop :=
  s.arduinoData.connected = true ∧ s.arduinoExists = true ∧ s.arduinoOpen = true

instance linkUp.dec (s : TrafficSystem) : Decidable (linkUp s) := by
  unfold linkUp
  exact inferInstance

/-- The letter of a light in the wire protocol, as the specification lists it:
R for RED, Y for YELLOW, G for GREEN, F for OFF. -/
def lightLetter : TrafficLight → String
  | .RED => "R"
  | .YELLOW => "Y"
  | .GREEN => "G"
  | .OFF => "F"

/-- The light command of the wire protocol for an approach and a light, LF included. -/
def lightCommand (c : Int × TrafficLight) : String :=
  "L_" ++ toString c.1 ++ "_" ++ lightLetter c.2 ++ "\n"

/-- The controller with a serial port open on `COM3`, not started. -/
def s0Linked : TrafficSystem := initializeSystem ["COM3"] true

/-- The controller with a serial port open on `COM3`, started: approach 0 GREEN, the
others RED. -/
def demoLinkedStarted : TrafficSystem := run s0Linked [Action.startSystem]

/-- The command is a light command: it starts with `L_`. -/
def isLightCommand (cmd : String) : Bool := decide (cmd.data.take 2 = ['L', '_'])

/-- The approach and the light of a `trafficLightChanged` event. -/
def lightChange : Event → Option (Int × TrafficLight)
  | .trafficLightChanged i l => some (i, l)
  | _ => none

/-- What was written to the serial port on the way from `s` to `t`. -/
def sent (s t : TrafficSystem) : List String :=
  t.serialOut.drop s.serialOut.length

/-- The link is up before every action of the list, run from `s`. -/
def linkStaysUp (s : TrafficSystem) : List Action → Bool
  | [] => true
  | a :: as => decide (linkUp s) && linkStaysUp (step s a) as

/-- On the way from `s` to `t` events were emitted and commands written, and the light
commands among the commands are, in order, those of the `trafficLightChanged` events. -/
def Paired (s t : TrafficSystem) : Prop :=
  ∃ (evs : List Event) (cmds : List String),
    t.events = s.events ++ evs ∧ t.serialOut = s.serialOut ++ cmds
      ∧ cmds.filter isLightCommand = (evs.filterMap lightChange).map lightCommand

/-- If the link is up in `s`, it is up in `t` and the way from `s` to `t` is `Paired`. -/
def Synced (s t : TrafficSystem) : Prop :=
  linkUp s → linkUp t ∧ Paired s t

/-- A start, two polls of the sensors, a tick and a stop. -/
def startPollStop : List Action :=
  [Action.startSystem, Action.sensorTimerTimeout, Action.lightTimerTimeout,
   Action.sensorTimerTimeout, Action.stopSystem]

/-! ## Reading a rendered number back -/

/-- The number a list of decimal digit characters stands for. -/
def digitsValue (l : List Char) : Nat :=
  l.foldl (fun acc c => acc * 10 + (c.toNat - 48)) 0

/-- The reason text of a tracker violation of vehicle `id`, as
`handleProcessingFinished` builds it. -/
def vehicleReason (id : Int) : String :=
  "Vehicle ID " ++ toString id ++ " ran red light"

/-! ## Which events an operation emits -/

/-- The event is a `violationDetected`. -/
def Event.isViolation : Event → Bool
  | .violationDetected _ _ _ => true
  | _ => false

/-- The events of `t` are those of `s` followed by events on which `P` is false. -/
def Silent (P : Event → Bool) (s t : TrafficSystem) : Prop :=
  ∃ l : List Event, t.events = s.events ++ l ∧ ∀ e ∈ l, P e = false

/-- The event is the tracker violation of vehicle `v` on approach `i`:
`violationDetected` for `i` with the reason text of `v`. -/
def isVehicleViolation (i v : Int) : Event → Bool
  | .violationDetected j reason _ => decide (j = i ∧ reason = vehicleReason v)
  | _ => false

/-- The event is an IR violation on approach `i`: `violationDetected` for `i` with the
reason text of the IR sensor of `i`. -/
def isIRViolation (i : Int) : Event → Bool
  | .violationDetected j reason _ => decide (j = i ∧ reason = irReason i)
  | _ => false

/-- No action of the list, run from `s`, removes an ID from the `violatedIDs` of
approach `i`. -/
def keepsIDs (i : Int) (s : TrafficSystem) : List Action → Bool
  | [] => true
  | a :: as =>
    (s.roads i).violatedIDs.all (fun v => decide (v ∈ ((step s a).roads i).violatedIDs))
      && keepsIDs i (step s a) as

/-- Violation detection is off before every action of the list, run from `s`. -/
def detectionOff (s : TrafficSystem) : List Action → Bool
  | [] => true
  | a :: as => (!s.violationDetectionEnabled) && detectionOff (step s a) as

/-- On the way from `s` to `t` the tracker violation of vehicle `v` on approach `i` is
emitted at most once: not at all if `v` is in the `violatedIDs` of `i` in `s` or
violation detection is off in `s`, and if it is emitted then `v` is in the
`violatedIDs` of `i` in `t`. -/
def Once (i v : Int) (s t : TrafficSystem) : Prop :=
  ∃ l : List Event, t.events = s.events ++ l
    ∧ (l.filter (isVehicleViolation i v)).length ≤ 1
    ∧ (v ∈ (s.roads i).violatedIDs → l.filter (isVehicleViolation i v) = [])
    ∧ (l.filter (isVehicleViolation i v) ≠ [] → v ∈ (t.roads i).violatedIDs)
    ∧ (s.violationDetectionEnabled = false → l.filter (isVehicleViolation i v) = [])

/-- The light timer fires in `s` and the yellow sub-phase expires: the system runs, not
in energy-saving mode, with the yellow flag set and at most one second remaining, so that
`onLightTimerTimeout` reaches the second branch of `switchToNextRoad`. -/
def yellowExpires (s : TrafficSystem) : Bool :=
  s.systemRunning && !s.energySavingMode && s.yellowLightActive
    && decide (s.lightTimeRemaining ≤ 1)

/-- The action, taken in `s`, is one of the events that clear the `violatedIDs` of
approach `i`: a yellow expiry with `i` the current approach or the one after it, or a
disconnect of `i`, be it by `disconnectCamera` or by `connectCamera`, which disconnects
first. -/
def Action.clearsIDs (i : Int) (s : TrafficSystem) : Action → Bool
  | .lightTimerTimeout =>
    yellowExpires s
      && decide (s.currentRoadIndex = i ∨ Int.tmod (s.currentRoadIndex + 1) 4 = i)
  | .disconnectCamera roadIndex => decide (roadIndex = i)
  | .connectCamera roadIndex _ _ => decide (roadIndex = i)
  | _ => false

/-- No action of the list, run from `s`, is a yellow expiry that clears the
`violatedIDs` of approach `i` or a disconnect of `i`. -/
def noClearing (i : Int) (s : TrafficSystem) : List Action → Bool
  | [] => true
  | a :: as => !(a.clearsIDs i s) && noClearing i (step s a) as

/-- The action switches violation detection on. -/
def Action.enablesDetection : Action → Bool
  | .setViolationDetectionEnabled enabled => enabled
  | _ => false

/-- Results for approach 1 that all list vehicle 7, with a scheduler tick, a tick of the
decrementer, a result for another approach and a reconnect of another approach in
between. -/
def resultsFor7Mixed : List Action :=
  [Action.processingFinished 1 3 [7], Action.lightTimerTimeout,
   Action.processingFinished 1 3 [7], Action.mainTimerTimeout none,
   Action.processingFinished 2 1 [], Action.connectCamera 3 "0" true,
   Action.processingFinished 1 4 [7, 7]]

/-- While the yellow flag is set and the decrementer runs, the current approach shows
YELLOW. -/
def YellowLit (s : TrafficSystem) : Prop :=
  s.yellowLightActive = true → s.lightTimer.active = true →
    s.currentLights s.currentRoadIndex = TrafficLight.YELLOW

/-- The action is a disconnect of approach `i`, by `disconnectCamera` or by
`connectCamera`, which disconnects first. -/
def Action.disconnects (i : Int) : Action → Bool
  | .disconnectCamera roadIndex => decide (roadIndex = i)
  | .connectCamera roadIndex _ _ => decide (roadIndex = i)
  | _ => false

/-- The light of approach `i` is RED in `s` and after every action of the list, run
from `s`. -/
def staysRed (i : Int) (s : TrafficSystem) : List Action → Bool
  | [] => decide (s.currentLights i = TrafficLight.RED)
  | a :: as => decide (s.currentLights i = TrafficLight.RED) && staysRed i (step s a) as

/-- The controller with approach 1 connected, started: approach 0 is GREEN, approach 1
RED. -/
def demoRed1 : TrafficSystem :=
  run s0 [Action.connectCamera 1 "1" true, Action.startSystem]

/-! ## The receive buffer -/

/-- The state with the receive buffer replaced. -/
def setBuffer (s : TrafficSystem) (b : List Char) : TrafficSystem :=
  { s with arduinoData := { s.arduinoData with buffer := b } }

/-- The complete lines of a byte string, in order, and what follows its last LF. -/
def splitLines : List Char → List (List Char) × List Char
  | [] => ([], [])
  | c :: cs =>
    if c = '\n' then ([] :: (splitLines cs).1, (splitLines cs).2)
    else
      match (splitLines cs).1 with
      | [] => ([], c :: (splitLines cs).2)
      | l :: ls => ((c :: l) :: ls, (splitLines cs).2)

/-- The state after `parseArduinoData` has been handed the lines, one after the other. -/
def parseLines (s : TrafficSystem) (lines : List (List Char)) (imwriteOk : Int → Bool) :
    TrafficSystem :=
  lines.foldl (fun st line => parseArduinoData st line imwriteOk) s

/-! ## Sensor messages -/

/-- The byte of a sensor bit. -/
def bitChar (b : Bool) : Char := if b = true then '1' else '0'

/-- The well-formed message `SENSORS:b0,b1,b2,b3` for the bits of approaches 0 to 3,
without the LF. -/
def sensorMessage (bits : Int → Bool) : List Char :=
  "SENSORS:".data
    ++ [bitChar (bits 0), ',', bitChar (bits 1), ',', bitChar (bits 2), ',', bitChar (bits 3)]

/-- The condition under which a message with the bits `bits` is an IR violation on
approach `i` in state `s`: the bit is set, the stored bit is not, the light is RED,
violation detection is on and the cooldown of `i` is not active. -/
def irFires (s : TrafficSystem) (bits : Int → Bool) (i : Int) : Prop :=
  bits i = true ∧ s.arduinoData.irSensorPreviousStates i = false
    ∧ s.currentLights i = TrafficLight.RED ∧ s.violationDetectionEnabled = true
    ∧ s.irViolationCooldownActive i = false

instance irFires.dec (s : TrafficSystem) (bits : Int → Bool) (i : Int) :
    Decidable (irFires s bits i) := by
  unfold irFires
  exact inferInstance

/-- The events of `t` are those of `s` followed by events of which exactly `n`
satisfy `P`. -/
def Emits (P : Event → Bool) (n : Nat) (s t : TrafficSystem) : Prop :=
  ∃ l : List Event, t.events = s.events ++ l ∧ (l.filter P).length = n

/-- The bits of the message `SENSORS:0,1,0,0`. -/
def bits0100 : Int → Bool := fun i => decide (i = 1)

/-! ## The controller with a clock

The untimed transition system leaves open when a single shot fires.  Here the event
loop keeps the time: a single shot asked for at time `t` with delay `d` fires when the
clock reaches `t + d`, before anything else that happens at that time or later. -/

/-- The controller with the clock of its event loop: the time in milliseconds, the
single shots asked for and not yet fired, each with the time at which it fires, and the
events emitted so far, each with the time at which it was emitted. -/
structure TimedSystem where
  sys : TrafficSystem
  now : Int
  pending : List (Int × SingleShot)
  log : List (Int × Event)

/-- The clock started on a controller state: time 0, nothing pending, nothing logged. -/
def TimedSystem.start (s : TrafficSystem) : TimedSystem :=
  { sys := s, now := 0, pending := [], log := [] }

/-- The controller has moved on to `s1` at the present time: its new events are logged
with the time, the single shots it has asked for become pending. -/
def TimedSystem.absorb (T : TimedSystem) (s1 : TrafficSystem) : TimedSystem :=
  { sys := s1
    now := T.now
    pending := T.pending
      ++ (s1.singleShots.drop T.sys.singleShots.length).map (fun p => (T.now + p.1, p.2))
    log := T.log ++ (emitted T.sys s1).map (fun e => (T.now, e)) }

/-- A single shot fires at its time `p.1`; `imwriteOk` is what `cv::imwrite` returns if
it writes a screenshot. -/
def TimedSystem.fire (imwriteOk : Bool) (T : TimedSystem) (p : Int × SingleShot) :
    TimedSystem :=
  { T with
    sys := onSingleShot T.sys p.2 imwriteOk
    log := T.log ++ (emitted T.sys (onSingleShot T.sys p.2 imwriteOk)).map (fun e => (p.1, e)) }

/-- The clock moves to `t`: the pending single shots due by then fire, earliest first. -/
def TimedSystem.advance (T : TimedSystem) (t : Int) (imwriteOk : Bool) : TimedSystem :=
  let due := (T.pending.filter (fun p => decide (p.1 ≤ t))).insertionSort
    (fun a b => a.1 ≤ b.1)
  let T1 := due.foldl (TimedSystem.fire imwriteOk)
    { T with pending := T.pending.filter (fun p => decide (¬ p.1 ≤ t)) }
  { T1 with now := t }

/-- An action happens `e.1` milliseconds after the previous one, after the single shots
due by then; a single shot itself fires only when the clock says so. -/
def timedStep (imwriteOk : Bool) (T : TimedSystem) (e : Nat × Action) : TimedSystem :=
  match e.2 with
  | .singleShotTimeout _ _ => T.advance (T.now + e.1) imwriteOk
  | a =>
    (T.advance (T.now + e.1) imwriteOk).absorb (step (T.advance (T.now + e.1) imwriteOk).sys a)

/-- Run a list of actions, each with its delay after the previous one. -/
def timedRun (imwriteOk : Bool) (T : TimedSystem) (es : List (Nat × Action)) : TimedSystem :=
  es.foldl (timedStep imwriteOk) T

/-- The times at which the IR violation of approach `i` was emitted, oldest first. -/
def irTimes (i : Int) (T : TimedSystem) : List Int :=
  (T.log.filter (fun p => isIRViolation i p.2)).map Prod.fst

/-- The pending single shots that end the cooldown of approach `i`. -/
def cooldownShots (i : Int) (pending : List (Int × SingleShot)) : List (Int × SingleShot) :=
  pending.filter (fun p => decide (p.2 = SingleShot.cooldownOff i))

/-- What an operation that takes `s` to `t` does about the IR violation of approach `i`:
either it emits none, leaves the cooldown flag of `i` alone and asks for no single shot
that ends the cooldown of `i`; or it emits one, the flag was off and is on afterwards,
and it asks for one such single shot, after 5000 ms. -/
def IRStep (i : Int) (s t : TrafficSystem) : Prop :=
  ∃ (l : List Event) (sh : List (Int × SingleShot)),
    t.events = s.events ++ l ∧ t.singleShots = s.singleShots ++ sh
    ∧ ((l.filter (isIRViolation i) = []
          ∧ t.irViolationCooldownActive i = s.irViolationCooldownActive i
          ∧ cooldownShots i sh = [])
        ∨ ((l.filter (isIRViolation i)).length = 1
          ∧ s.irViolationCooldownActive i = false
          ∧ t.irViolationCooldownActive i = true
          ∧ cooldownShots i sh = [(5000, SingleShot.cooldownOff i)]))

/-- The invariant of the timed controller behind the spacing of the IR violations of
approach `i`. -/
structure TimedInv (i : Int) (T : TimedSystem) : Prop where
  past : ∀ τ ∈ irTimes i T, τ ≤ T.now
  idle : T.sys.irViolationCooldownActive i = false → cooldownShots i T.pending = []
  single : (cooldownShots i T.pending).length ≤ 1
  ahead : ∀ p ∈ cooldownShots i T.pending, ∀ τ ∈ irTimes i T, τ + 5000 ≤ p.1
  cooled : ∀ τ ∈ irTimes i T, τ + 5000 ≤ T.now ∨ T.sys.irViolationCooldownActive i = true
  spaced : (irTimes i T).Pairwise (fun a b => a + 5000 ≤ b)

/-- A sensor message with its LF. -/
def sensorLine (bits : Int → Bool) : List Char := sensorMessage bits ++ ['\n']

/-- The bits of the message `SENSORS:0,0,0,0`. -/
def bits0000 : Int → Bool := fun _ => false

/-- Sensor 1 rises at 0 s, 2 s and 6 s and falls one second later each time; the entries
are the delays after the previous message. -/
def risingAt026 : List (Nat × Action) :=
  [(0, Action.arduinoDataReceived (sensorLine bits0100) (fun _ => true)),
   (1000, Action.arduinoDataReceived (sensorLine bits0000) (fun _ => true)),
   (1000, Action.arduinoDataReceived (sensorLine bits0100) (fun _ => true)),
   (1000, Action.arduinoDataReceived (sensorLine bits0000) (fun _ => true)),
   (3000, Action.arduinoDataReceived (sensorLine bits0100) (fun _ => true)),
   (1000, Action.arduinoDataReceived (sensorLine bits0000) (fun _ => true))]

/-! ## The tracker: what an update binds -/

/-- The detection a track with the box `box` is bound to when it is examined with
`usedDetections` as given: the `bestDetIdx` of the inner loop if `maxIoU > 0.3`. -/
def boundDetection (box : Rect) (detections : List Rect) (usedDetections : List Bool) :
    Option Nat :=
  if (bestDetection box detections usedDetections).2 > 3 / 10 then
    some (bestDetection box detections usedDetections).1.toNat
  else none

/-- The vector `usedDetections` at the moment the loop over the tracks, started with
`usedDetections`, examines the track with key `key`. -/
def usedWhen (detections : List Rect) (currentLight : TrafficLight) :
    List (Int × TrackedVehicle) → List Bool → Int → List Bool
  | [], usedDetections, _ => usedDetections
  | (k, tracker) :: rest, usedDetections, key =>
    if k = key then usedDetections
    else usedWhen detections currentLight rest
      (matchTracker detections currentLight tracker usedDetections).2 key

/-- The detection the track with key `key` is bound to by the loop over the tracks,
started with `usedDetections`; `none` if it is not bound, or there is no such track. -/
def bindingOf (detections : List Rect) (currentLight : TrafficLight) :
    List (Int × TrackedVehicle) → List Bool → Int → Option Nat
  | [], _, _ => none
  | (k, tracker) :: rest, usedDetections, key =>
    if k = key then boundDetection tracker.boundingBox detections usedDetections
    else bindingOf detections currentLight rest
      (matchTracker detections currentLight tracker usedDetections).2 key

/-- The keys of the tracks the loop examines before the track with key `key`. -/
def examinedBefore (trackers : List (Int × TrackedVehicle)) (key : Int) : List Int :=
  (trackers.takeWhile (fun p => decide (p.1 ≠ key))).map Prod.fst

/-- The detection the track with key `key` of approach `roadIndex` is bound to in an
update with these detections. -/
def boundIn (w : ProcessingWorker) (roadIndex : Int) (detections : List Rect)
    (currentLight : TrafficLight) (key : Int) : Option Nat :=
  bindingOf detections currentLight (w.roadTrackers roadIndex)
    (List.replicate detections.length false) key

/-- The track a bound track becomes. -/
def boundTrack (currentLight : TrafficLight) (tracker : TrackedVehicle) (detection : Rect) :
    TrackedVehicle :=
  { tracker with
    boundingBox := detection
    framesWithoutDetection := 0
    violationFrameCount :=
      if currentLight = TrafficLight.RED then tracker.violationFrameCount + 1 else 0
    isViolationCandidate := decide (currentLight = TrafficLight.RED) }

/-- The track an unbound track becomes. -/
def missedTrack (tracker : TrackedVehicle) : TrackedVehicle :=
  { tracker with framesWithoutDetection := tracker.framesWithoutDetection + 1 }

/-- The invariant of the tracker map of an approach: the keys ascend strictly, every key
is below the next free ID, and no live track has been lost for more than 15 frames or
for a negative number of frames. -/
structure TrackerOK (w : ProcessingWorker) (roadIndex : Int) : Prop where
  sorted : ((w.roadTrackers roadIndex).map Prod.fst).Pairwise (fun a b => a < b)
  fresh : ∀ k ∈ (w.roadTrackers roadIndex).map Prod.fst, k < w.nextVehicleID roadIndex
  lost : ∀ p ∈ w.roadTrackers roadIndex,
    0 ≤ p.2.framesWithoutDetection ∧ p.2.framesWithoutDetection ≤ 15

/-- The worker states that occur: the constructed worker, after any calls of
`initializeModels` and `processFrame`. -/
inductive WorkerReachable : ProcessingWorker → Prop where
  | constructed : WorkerReachable ProcessingWorker.constructed
  | initializeModels {w : ProcessingWorker} (loaded : Bool) :
      WorkerReachable w → WorkerReachable (initializeModels w loaded).2
  | processFrame {w : ProcessingWorker} (roadIndex : Int) (frame : Option Frame) (roi : Rect)
      (currentLight : TrafficLight) (detectVehiclesYOLO : Rect → List Rect) :
      WorkerReachable w →
      WorkerReachable (processFrame w roadIndex frame roi currentLight detectVehiclesYOLO).1

/-- A series of updates of the tracker map of an approach, each with its detections and
its light stamp. -/
def updateAll (w : ProcessingWorker) (roadIndex : Int)
    (us : List (List Rect × TrafficLight)) : ProcessingWorker :=
  us.foldl (fun st u => updateTrackers st roadIndex u.1 u.2) w

/-- The track with key `key` is bound in none of the updates of the series. -/
def missedRun (w : ProcessingWorker) (roadIndex : Int) (key : Int) :
    List (List Rect × TrafficLight) → Bool
  | [] => true
  | u :: rest =>
    decide (boundIn w roadIndex u.1 u.2 key = none)
      && missedRun (updateTrackers w roadIndex u.1 u.2) roadIndex key rest

/-- A frame handed to `processFrame`: the frame, which is not empty, the region of
interest, and what the detector returns for the region it is handed. -/
structure Job where
  frame : Frame
  roi : Rect
  detectVehiclesYOLO : Rect → List Rect

/-- The detections of a job. -/
def Job.detections (job : Job) : List Rect :=
  job.detectVehiclesYOLO (processingRegion job.frame job.roi)

/-- A series of frames of an approach processed with the same light stamp: the worker
afterwards and the signal of the last frame. -/
def processFrames (w : ProcessingWorker) (roadIndex : Int) (currentLight : TrafficLight)
    (jobs : List Job) : ProcessingWorker × Option ProcessingFinished :=
  jobs.foldl
    (fun acc job => processFrame acc.1 roadIndex (some job.frame) job.roi currentLight
      job.detectVehiclesYOLO)
    (w, none)

/-- The track with key `key` is bound in every frame of the series. -/
def boundRun (w : ProcessingWorker) (roadIndex : Int) (currentLight : TrafficLight)
    (key : Int) : List Job → Bool
  | [] => true
  | job :: rest =>
    decide (boundIn w roadIndex job.detections currentLight key ≠ none)
      && boundRun
        (processFrame w roadIndex (some job.frame) job.roi currentLight
          job.detectVehiclesYOLO).1 roadIndex currentLight key rest

/-- The worker with its models loaded. -/
def worker0 : ProcessingWorker := (initializeModels ProcessingWorker.constructed true).2

/-- A frame of 640 by 480 with no region of interest in which the detector finds one
vehicle, in the box at (100, 100) of 50 by 40. -/
def jobOneVehicle : Job :=
  { frame := ⟨640, 480⟩, roi := ⟨0, 0, 0, 0⟩, detectVehiclesYOLO := fun _ => [⟨100, 100, 50, 40⟩] }

/-- The worker after one frame of approach 0 with one vehicle: the tracker of approach 0
holds the one track 0, its counters at 0. -/
def workerSeeded : ProcessingWorker :=
  (processFrames worker0 0 TrafficLight.RED [jobOneVehicle]).1

/-- The IDs a `processingFinished` signal reports, none if there is no signal. -/
def reportedIDs (r : Option ProcessingFinished) : List Int :=
  match r with
  | some res => res.violatingVehicleIDs
  | none => []

/-- The track 0 that the first frame of `workerSeeded` creates. -/
def seedTrack : TrackedVehicle := { id := 0, boundingBox := ⟨100, 100, 50, 40⟩ }

/-! ## The region handed to the detector, the score, and the new tracks of an update -/

/-- `cv::Rect::contains`: the point lies in the rectangle. -/
def Rect.contains (r : Rect) (px py : Int) : Bool :=
  decide (r.x ≤ px ∧ px < r.x + r.width ∧ r.y ≤ py ∧ py < r.y + r.height)

/-- The rectangle `cv::Rect(0, 0, frame.cols, frame.rows)` of a whole frame. -/
def Frame.rect (f : Frame) : Rect := ⟨0, 0, f.cols, f.rows⟩

/-- The intersection over union of two boxes, as the specification words it:
`area(A ∩ B) / (area(A) + area(B) − area(A ∩ B))`. -/
def intersectionOverUnion (a b : Rect) : ℚ :=
  ((a.inter b).pixels : ℚ) / ((a.pixels + b.pixels - (a.inter b).pixels : Int) : ℚ)

/-- A frame of 640 by 480 with no region of interest in which the detector finds one
vehicle in the box at (0, 0) of 10 by 10. -/
def jobBoxA : Job :=
  { frame := ⟨640, 480⟩, roi := ⟨0, 0, 0, 0⟩, detectVehiclesYOLO := fun _ => [⟨0, 0, 10, 10⟩] }

/-- The same frame with the vehicle three pixels further right and down. -/
def jobBoxB : Job :=
  { frame := ⟨640, 480⟩, roi := ⟨0, 0, 0, 0⟩, detectVehiclesYOLO := fun _ => [⟨3, 3, 10, 10⟩] }

/-- The worker after the frame `jobBoxA` of approach 0: one track, 0, with the box at
(0, 0). -/
def workerBoxA : ProcessingWorker :=
  (processFrames worker0 0 TrafficLight.GREEN [jobBoxA]).1

/-- The detections no track is bound to in an update: the indices `i` for which
`usedDetections[i]` is false after the loop over the tracks. -/
def unclaimed (w : ProcessingWorker) (roadIndex : Int) (detections : List Rect)
    (currentLight : TrafficLight) : List Nat :=
  (List.range detections.length).filter
    (fun i => !((matchTrackers detections currentLight (w.roadTrackers roadIndex)
      (List.replicate detections.length false)).2.getD i false))

/-- The tracks the last loop of `updateTrackers` creates for the detections with the
indices `idxs`, in this order, under the IDs from `nextID` on. -/
def newTracks (detections : List Rect) : Int → List Nat → List (Int × TrackedVehicle)
  | _, [] => []
  | nextID, i :: rest =>
    (nextID, { id := nextID, boundingBox := detections.getD i ⟨0, 0, 0, 0⟩ })
      :: newTracks detections (nextID + 1) rest

/-- The IDs an update allocates, in the order of allocation. -/
def allocatedIn (w : ProcessingWorker) (roadIndex : Int) (detections : List Rect)
    (currentLight : TrafficLight) : List Int :=
  (newTracks detections (w.nextVehicleID roadIndex)
    (unclaimed w roadIndex detections currentLight)).map Prod.fst

/-- A series of updates, each of an approach, with its detections and its light stamp. -/
def updateRoads (w : ProcessingWorker) (us : List (Int × List Rect × TrafficLight)) :
    ProcessingWorker :=
  us.foldl (fun st u => updateTrackers st u.1 u.2.1 u.2.2) w

/-- The IDs a series of updates allocates on the approach `roadIndex`, in the order of
allocation. -/
def allocatedOn (roadIndex : Int) (w : ProcessingWorker) :
    List (Int × List Rect × TrafficLight) → List Int
  | [] => []
  | u :: rest =>
    (if u.1 = roadIndex then allocatedIn w roadIndex u.2.1 u.2.2 else [])
      ++ allocatedOn roadIndex (updateTrackers w u.1 u.2.1 u.2.2) rest

/-- The track of the approach a detection of an update ends up in: the track bound to
it, or else the track created for it. -/
def trackOf (w : ProcessingWorker) (roadIndex : Int) (detections : List Rect)
    (currentLight : TrafficLight) (j : Nat) : Int :=
  match ((w.roadTrackers roadIndex).map Prod.fst).find?
      (fun k => decide (boundIn w roadIndex detections currentLight k = some j)) with
  | some k => k
  | none =>
    w.nextVehicleID roadIndex
      + ((unclaimed w roadIndex detections currentLight).indexOf j : Nat)

/-- The IDs of the tracker map of an approach are in order: every track sits under its
own `id`, no ID is negative, and neither is the ID counter. -/
structure IdsOK (w : ProcessingWorker) (roadIndex : Int) : Prop where
  own : ∀ p ∈ w.roadTrackers roadIndex, p.2.id = p.1
  nonneg : ∀ p ∈ w.roadTrackers roadIndex, 0 ≤ p.1
  counter : 0 ≤ w.nextVehicleID roadIndex

/-- A frame in which the detector finds the vehicle of `workerSeeded` again and a second
vehicle, in the box at (300, 300) of 50 by 40. -/
def jobNewcomer : Job :=
  { frame := ⟨640, 480⟩, roi := ⟨0, 0, 0, 0⟩
    detectVehiclesYOLO := fun _ => [⟨100, 100, 50, 40⟩, ⟨300, 300, 50, 40⟩] }

/-- A vehicle seen once on approach 0, then 16 updates without it, then a vehicle in the
same box again, and in between an update of approach 2 with two vehicles. -/
def lostAndBack : List (Int × List Rect × TrafficLight) :=
  [(0, [⟨100, 100, 50, 40⟩], TrafficLight.RED)]
    ++ List.replicate 16 (0, [], TrafficLight.RED)
    ++ [(2, [⟨100, 100, 50, 40⟩, ⟨300, 300, 50, 40⟩], TrafficLight.GREEN),
        (0, [⟨100, 100, 50, 40⟩], TrafficLight.RED)]

/-! ## The scheduler and the jobs it dispatches -/

/-- The approach after `roadIndex` in the cyclic order of the scheduler:
`(roadIndex + 1) % 4`. -/
def nextRoad (roadIndex : Int) : Int := Int.tmod (roadIndex + 1) 4

/-- The camera of the approach is connected and open: the condition under which
`onMainTimerTimeout` reads a frame from it. -/
def cameraReady (s : TrafficSystem) (roadIndex : Int) : Prop :=
  (s.roads roadIndex).cameraConnected = true ∧ (s.roads roadIndex).cameraOpened = true

instance cameraReady.dec (s : TrafficSystem) (roadIndex : Int) :
    Decidable (cameraReady s roadIndex) := by
  unfold cameraReady
  exact inferInstance

/-- The arguments of a `requestFrameProcessing` signal: a job for the worker. -/
structure FrameJob where
  roadIndex : Int
  frame : Frame
  roi : Rect
  currentLight : TrafficLight
  deriving DecidableEq, Repr

/-- The job of a `requestFrameProcessing` signal. -/
def Event.job : Event → Option FrameJob
  | .requestFrameProcessing i f roi l => some ⟨i, f, roi, l⟩
  | _ => none

/-- The jobs dispatched on the way from `s` to `t`. -/
def dispatched (s t : TrafficSystem) : List FrameJob :=
  (emitted s t).filterMap Event.job

/-- A series of scheduler ticks, each with what the read from the camera delivers. -/
def tickAll (reads : List (Option Frame)) : List Action :=
  reads.map Action.mainTimerTimeout

/-- Only approach 2 connected, the system started: running, the worker idle, no tick
taken yet. -/
def demoCamera2 : TrafficSystem :=
  run s0 [Action.connectCamera 2 "0" true, Action.startSystem]

/-! ## The controller without its link -/

/-- The state with the microcontroller link taken out: no port object, nothing connected,
the receive buffer and the stored sensor states as constructed, the sensor poll timer as
constructed, nothing written to the port. -/
def unlinked (s : TrafficSystem) : TrafficSystem :=
  { s with
    arduinoExists := false
    arduinoOpen := false
    arduinoData := {}
    sensorTimer := {}
    serialOut := [] }

/-- The action belongs to the link itself: a call that opens or closes it, a serial
error, or bytes arriving on the port. -/
def Action.ofLink : Action → Bool
  | .initializeArduino _ _ _ => true
  | .setArduinoSimulationMode _ _ _ => true
  | .arduinoError _ => true
  | .arduinoDataReceived _ _ => true
  | _ => false

/-- The controller with a serial port open on `COM3`, approach 0 connected. -/
def s0LinkedCamera : TrafficSystem := run s0Linked [Action.connectCamera 0 "0" true]

/-- A start, a job for approach 0 and its result with 5 vehicles, a configuration call,
six ticks of the decrementer and a stop. -/
def busyDay : List Action :=
  [Action.startSystem] ++ dispatch0
    ++ [Action.processingFinished 0 5 [3], Action.setYellowLightDuration 2]
    ++ List.replicate 6 Action.lightTimerTimeout
    ++ [Action.sensorTimerTimeout, Action.stopSystem]

/-- The state in which `startSystem` calls `processTrafficCycle`, before the sensor poll
timer is looked at: running, approach 0 current, no yellow, the scheduler started. -/
def startState (s : TrafficSystem) : TrafficSystem :=
  { s with
    systemRunning := true
    currentRoadIndex := 0
    yellowLightActive := false
    lightTimeRemaining := 0
    mainTimer := s.mainTimer.start 50 }

/-- The statement `if (arduinoData.connected) sensorTimer->start(250)` of `startSystem`. -/
def withSensorPoll (s : TrafficSystem) : TrafficSystem :=
  if s.arduinoData.connected = true then
    { s with sensorTimer := s.sensorTimer.start 250 } else s

/-- The state in which `stopSystem` calls `setAllTrafficLights`: not running, the three
timers stopped. -/
def stopTimers (s : TrafficSystem) : TrafficSystem :=
  { s with
    systemRunning := false
    mainTimer := s.mainTimer.stop
    lightTimer := s.lightTimer.stop
    sensorTimer := s.sensorTimer.stop }

/-- The body of the loop of `processTrafficCycle` for the approach `i`. -/
def cycleStep (i : Int) (s : TrafficSystem) : TrafficSystem :=
  setTrafficLight s i (if i = s.currentRoadIndex then TrafficLight.GREEN else TrafficLight.RED)

/-! ## The controller and the worker together -/

/-- The signal is a `requestFrameProcessing`. -/
def Event.isRequest : Event → Bool
  | .requestFrameProcessing _ _ _ _ => true
  | _ => false

/-- The action is the handling of a worker result. -/
def Action.isResult : Action → Bool
  | .processingFinished _ _ _ => true
  | _ => false

/-- The control thread and the worker thread with the two queued connections between
them: the `requestFrameProcessing` signals the worker has not processed yet, and the
`processingFinished` signals the controller has not handled yet, oldest first. -/
structure Plant where
  sys : TrafficSystem
  worker : ProcessingWorker
  jobs : List FrameJob
  results : List ProcessingFinished

/-- What can happen in the plant: something happens to the controller (anything but a
result, which only the worker sends), the worker processes the oldest job, with what the
detector finds, or the controller handles the oldest result. -/
inductive PlantAction where
  | control (a : Action)
  | work (detectVehiclesYOLO : Rect → List Rect)
  | deliver

/-- When a plant action can occur. -/
def PlantAction.enabled (p : Plant) : PlantAction → Prop
  | .control a => a.enabled p.sys ∧ a.isResult = false
  | .work _ => p.jobs ≠ []
  | .deliver => p.results ≠ []

/-- One plant action.  Every `requestFrameProcessing` the controller emits is queued for
the worker; the worker's `processingFinished`, if it emits one, is queued for the
controller. -/
def Plant.step (p : Plant) : PlantAction → Plant
  | .control a =>
    { p with sys := STMS.step p.sys a, jobs := p.jobs ++ dispatched p.sys (STMS.step p.sys a) }
  | .work detectVehiclesYOLO =>
    match p.jobs with
    | [] => p
    | job :: rest =>
      { p with
        worker := (processFrame p.worker job.roadIndex (some job.frame) job.roi
          job.currentLight detectVehiclesYOLO).1
        jobs := rest
        results := p.results ++ (processFrame p.worker job.roadIndex (some job.frame) job.roi
          job.currentLight detectVehiclesYOLO).2.toList }
  | .deliver =>
    match p.results with
    | [] => p
    | r :: rest =>
      { p with
        sys := handleProcessingFinished p.sys r.roadIndex r.vehicleCount r.violatingVehicleIDs
        jobs := p.jobs ++ dispatched p.sys
          (handleProcessingFinished p.sys r.roadIndex r.vehicleCount r.violatingVehicleIDs)
        results := rest }

/-- The plant after `initializeSystem`: the worker constructed with its models loaded,
both queues empty. -/
def Plant.init (availablePorts : List String) (openOk : Bool) : Plant :=
  { sys := initializeSystem availablePorts openOk, worker := worker0, jobs := [], results := [] }

/-- The states the plant can be in. -/
inductive PlantReachable : Plant → Prop where
  | init (availablePorts : List String) (openOk : Bool) :
      PlantReachable (Plant.init availablePorts openOk)
  | step {p : Plant} (a : PlantAction) :
      PlantReachable p → a.enabled p → PlantReachable (p.step a)

/-- The jobs in flight: dispatched, and the result not handled yet. -/
def Plant.inFlight (p : Plant) : Nat := p.jobs.length + p.results.length

/-- Run a list of plant actions, oldest first. -/
def Plant.run (p : Plant) (as : List PlantAction) : Plant := as.foldl Plant.step p

/-- A plant action that can occur is decidably so. -/
instance PlantAction.decEnabled (p : Plant) (a : PlantAction) : Decidable (a.enabled p) :=
  match a with
  | .control b => inferInstanceAs (Decidable (b.enabled p.sys ∧ b.isResult = false))
  | .work _ => inferInstanceAs (Decidable (p.jobs ≠ []))
  | .deliver => inferInstanceAs (Decidable (p.results ≠ []))

/-- Every plant action of the list can occur when its turn comes. -/
def plantEnabled (p : Plant) : List PlantAction → Bool
  | [] => true
  | a :: as => decide (a.enabled p) && plantEnabled (p.step a) as

/-- The invariant of the plant: the worker has its models loaded, and a job is in flight
exactly while the busy flag is set, and then it is one job. -/
structure PlantInv (p : Plant) : Prop where
  models : p.worker.yoloInitialized = true
  flight : p.inFlight = if p.sys.m_workerBusy = true then 1 else 0

/-- From start-up: approach 0 connected, the system started, four scheduler ticks, the
fourth of which dispatches a job for approach 0. -/
def plantDispatched : Plant :=
  (Plant.init [] false).run
    ([PlantAction.control (Action.connectCamera 0 "0" true),
      PlantAction.control Action.startSystem] ++ dispatch0.map PlantAction.control)

/-- From `plantDispatched`: more ticks while the job is in flight, the worker processes
it and finds one vehicle, more ticks while the result is queued. -/
def plantProcessed : Plant :=
  plantDispatched.run
    (dispatch0.map PlantAction.control
      ++ [PlantAction.work jobOneVehicle.detectVehiclesYOLO]
      ++ dispatch0.map PlantAction.control)

/-- From `plantProcessed`: the controller handles the result. -/
def plantDelivered : Plant := plantProcessed.run [PlantAction.deliver]

/-- Disconnecting the camera of an approach and connecting it again, successfully. -/
def reconnect (roadIndex : Int) (source : String) : List PlantAction :=
  [PlantAction.control (Action.disconnectCamera roadIndex),
   PlantAction.control (Action.connectCamera roadIndex source true)]

/-- From `plantDelivered`: the camera of approach 0 disconnected and connected again. -/
def plantReconnected : Plant := plantDelivered.run (reconnect 0 "0")

/-- Four scheduler ticks, the fourth of which dispatches a job for approach 0, in which
the detector finds no vehicle, and the handling of the result. -/
def emptyFrame0 : List PlantAction :=
  dispatch0.map PlantAction.control ++ [PlantAction.work (fun _ => []), PlantAction.deliver]

/-- From start-up: approach 0 connected for the first time and the system started. -/
def plantFirstConnect : Plant :=
  (Plant.init [] false).run
    [PlantAction.control (Action.connectCamera 0 "0" true),
     PlantAction.control Action.startSystem]

/-! ## Frame lemmas: what the light-setting helpers leave alone -/

@[simp]
theorem emit_roads (s : TrafficSystem) (e : Event) :
    (emit s e).roads = s.roads := by
  rfl

@[simp]
theorem emit_currentLights (s : TrafficSystem) (e : Event) :
    (emit s e).currentLights = s.currentLights := by
  rfl

@[simp]
theorem emit_systemRunning (s : TrafficSystem) (e : Event) :
    (emit s e).systemRunning = s.systemRunning := by
  rfl

@[simp]
theorem emit_m_workerBusy (s : TrafficSystem) (e : Event) :
    (emit s e).m_workerBusy = s.m_workerBusy := by
  rfl

@[simp]
theorem emit_currentRoadIndex (s : TrafficSystem) (e : Event) :
    (emit s e).currentRoadIndex = s.currentRoadIndex := by
  rfl

@[simp]
theorem emit_lightTimeRemaining (s : TrafficSystem) (e : Event) :
    (emit s e).lightTimeRemaining = s.lightTimeRemaining := by
  rfl

@[simp]
theorem emit_yellowLightActive (s : TrafficSystem) (e : Event) :
    (emit s e).yellowLightActive = s.yellowLightActive := by
  rfl

@[simp]
theorem emit_yellowLightFixedDuration (s : TrafficSystem) (e : Event) :
    (emit s e).yellowLightFixedDuration = s.yellowLightFixedDuration := by
  rfl

@[simp]
theorem emit_energySavingMode (s : TrafficSystem) (e : Event) :
    (emit s e).energySavingMode = s.energySavingMode := by
  rfl

@[simp]
theorem emit_energySavingEnabled (s : TrafficSystem) (e : Event) :
    (emit s e).energySavingEnabled = s.energySavingEnabled := by
  rfl

@[simp]
theorem emit_lightDurations (s : TrafficSystem) (e : Event) :
    (emit s e).lightDurations = s.lightDurations := by
  rfl

@[simp]
theorem emit_violationDetectionEnabled (s : TrafficSystem) (e : Event) :
    (emit s e).violationDetectionEnabled = s.violationDetectionEnabled := by
  rfl

@[simp]
theorem emit_mainTimer (s : TrafficSystem) (e : Event) :
    (emit s e).mainTimer = s.mainTimer := by
  rfl

@[simp]
theorem emit_lightTimer (s : TrafficSystem) (e : Event) :
    (emit s e).lightTimer = s.lightTimer := by
  rfl

@[simp]
theorem emit_sensorTimer (s : TrafficSystem) (e : Event) :
    (emit s e).sensorTimer = s.sensorTimer := by
  rfl

@[simp]
theorem emit_arduinoExists (s : TrafficSystem) (e : Event) :
    (emit s e).arduinoExists = s.arduinoExists := by
  rfl

@[simp]
theorem emit_arduinoOpen (s : TrafficSystem) (e : Event) :
    (emit s e).arduinoOpen = s.arduinoOpen := by
  rfl

@[simp]
theorem emit_arduinoData (s : TrafficSystem) (e : Event) :
    (emit s e).arduinoData = s.arduinoData := by
  rfl

@[simp]
theorem emit_roadToProcess (s : TrafficSystem) (e : Event) :
    (emit s e).roadToProcess = s.roadToProcess := by
  rfl

@[simp]
theorem emit_serialOut (s : TrafficSystem) (e : Event) :
    (emit s e).serialOut = s.serialOut := by
  rfl

@[simp]
theorem emit_lightHistory (s : TrafficSystem) (e : Event) :
    (emit s e).lightHistory = s.lightHistory := by
  rfl

@[simp]
theorem setRoad_currentLights (s : TrafficSystem) (i : Int) (r : RoadData) :
    (setRoad s i r).currentLights = s.currentLights := by
  rfl

@[simp]
theorem setRoad_systemRunning (s : TrafficSystem) (i : Int) (r : RoadData) :
    (setRoad s i r).systemRunning = s.systemRunning := by
  rfl

@[simp]
theorem setRoad_m_workerBusy (s : TrafficSystem) (i : Int) (r : RoadData) :
    (setRoad s i r).m_workerBusy = s.m_workerBusy := by
  rfl

@[simp]
theorem setRoad_currentRoadIndex (s : TrafficSystem) (i : Int) (r : RoadData) :
    (setRoad s i r).currentRoadIndex = s.currentRoadIndex := by
  rfl

@[simp]
theorem setRoad_lightTimeRemaining (s : TrafficSystem) (i : Int) (r : RoadData) :
    (setRoad s i r).lightTimeRemaining = s.lightTimeRemaining := by
  rfl

@[simp]
theorem setRoad_yellowLightActive (s : TrafficSystem) (i : Int) (r : RoadData) :
    (setRoad s i r).yellowLightActive = s.yellowLightActive := by
  rfl

@[simp]
theorem setRoad_yellowLightFixedDuration (s : TrafficSystem) (i : Int) (r : RoadData) :
    (setRoad s i r).yellowLightFixedDuration = s.yellowLightFixedDuration := by
  rfl

@[simp]
theorem setRoad_energySavingMode (s : TrafficSystem) (i : Int) (r : RoadData) :
    (setRoad s i r).energySavingMode = s.energySavingMode := by
  rfl

@[simp]
theorem setRoad_energySavingEnabled (s : TrafficSystem) (i : Int) (r : RoadData) :
    (setRoad s i r).energySavingEnabled = s.energySavingEnabled := by
  rfl

@[simp]
theorem setRoad_lightDurations (s : TrafficSystem) (i : Int) (r : RoadData) :
    (setRoad s i r).lightDurations = s.lightDurations := by
  rfl

@[simp]
theorem setRoad_violationDetectionEnabled (s : TrafficSystem) (i : Int) (r : RoadData) :
    (setRoad s i r).violationDetectionEnabled = s.violationDetectionEnabled := by
  rfl

@[simp]
theorem setRoad_mainTimer (s : TrafficSystem) (i : Int) (r : RoadData) :
    (setRoad s i r).mainTimer = s.mainTimer := by
  rfl

@[simp]
theorem setRoad_lightTimer (s : TrafficSystem) (i : Int) (r : RoadData) :
    (setRoad s i r).lightTimer = s.lightTimer := by
  rfl

@[simp]
theorem setRoad_sensorTimer (s : TrafficSystem) (i : Int) (r : RoadData) :
    (setRoad s i r).sensorTimer = s.sensorTimer := by
  rfl

@[simp]
theorem setRoad_arduinoExists (s : TrafficSystem) (i : Int) (r : RoadData) :
    (setRoad s i r).arduinoExists = s.arduinoExists := by
  rfl

@[simp]
theorem setRoad_arduinoOpen (s : TrafficSystem) (i : Int) (r : RoadData) :
    (setRoad s i r).arduinoOpen = s.arduinoOpen := by
  rfl

@[simp]
theorem setRoad_arduinoData (s : TrafficSystem) (i : Int) (r : RoadData) :
    (setRoad s i r).arduinoData = s.arduinoData := by
  rfl

@[simp]
theorem setRoad_roadToProcess (s : TrafficSystem) (i : Int) (r : RoadData) :
    (setRoad s i r).roadToProcess = s.roadToProcess := by
  rfl

@[simp]
theorem setRoad_events (s : TrafficSystem) (i : Int) (r : RoadData) :
    (setRoad s i r).events = s.events := by
  rfl

@[simp]
theorem setRoad_serialOut (s : TrafficSystem) (i : Int) (r : RoadData) :
    (setRoad s i r).serialOut = s.serialOut := by
  rfl

@[simp]
theorem setRoad_lightHistory (s : TrafficSystem) (i : Int) (r : RoadData) :
    (setRoad s i r).lightHistory = s.lightHistory := by
  rfl

@[simp]
theorem sendArduinoCommand_roads (s : TrafficSystem) (c : String) :
    (sendArduinoCommand s c).roads = s.roads := by
  unfold sendArduinoCommand; split_ifs <;> rfl

@[simp]
theorem sendArduinoCommand_currentLights (s : TrafficSystem) (c : String) :
    (sendArduinoCommand s c).currentLights = s.currentLights := by
  unfold sendArduinoCommand; split_ifs <;> rfl

@[simp]
theorem sendArduinoCommand_systemRunning (s : TrafficSystem) (c : String) :
    (sendArduinoCommand s c).systemRunning = s.systemRunning := by
  unfold sendArduinoCommand; split_ifs <;> rfl

@[simp]
theorem sendArduinoCommand_m_workerBusy (s : TrafficSystem) (c : String) :
    (sendArduinoCommand s c).m_workerBusy = s.m_workerBusy := by
  unfold sendArduinoCommand; split_ifs <;> rfl

@[simp]
theorem sendArduinoCommand_currentRoadIndex (s : TrafficSystem) (c : String) :
    (sendArduinoCommand s c).currentRoadIndex = s.currentRoadIndex := by
  unfold sendArduinoCommand; split_ifs <;> rfl

@[simp]
theorem sendArduinoCommand_lightTimeRemaining (s : TrafficSystem) (c : String) :
    (sendArduinoCommand s c).lightTimeRemaining = s.lightTimeRemaining := by
  unfold sendArduinoCommand; split_ifs <;> rfl

@[simp]
theorem sendArduinoCommand_yellowLightActive (s : TrafficSystem) (c : String) :
    (sendArduinoCommand s c).yellowLightActive = s.yellowLightActive := by
  unfold sendArduinoCommand; split_ifs <;> rfl

@[simp]
theorem sendArduinoCommand_yellowLightFixedDuration (s : TrafficSystem) (c : String) :
    (sendArduinoCommand s c).yellowLightFixedDuration = s.yellowLightFixedDuration := by
  unfold sendArduinoCommand; split_ifs <;> rfl

@[simp]
theorem sendArduinoCommand_energySavingMode (s : TrafficSystem) (c : String) :
    (sendArduinoCommand s c).energySavingMode = s.energySavingMode := by
  unfold sendArduinoCommand; split_ifs <;> rfl

@[simp]
theorem sendArduinoCommand_energySavingEnabled (s : TrafficSystem) (c : String) :
    (sendArduinoCommand s c).energySavingEnabled = s.energySavingEnabled := by
  unfold sendArduinoCommand; split_ifs <;> rfl

@[simp]
theorem sendArduinoCommand_lightDurations (s : TrafficSystem) (c : String) :
    (sendArduinoCommand s c).lightDurations = s.lightDurations := by
  unfold sendArduinoCommand; split_ifs <;> rfl

@[simp]
theorem sendArduinoCommand_violationDetectionEnabled (s : TrafficSystem) (c : String) :
    (sendArduinoCommand s c).violationDetectionEnabled = s.violationDetectionEnabled := by
  unfold sendArduinoCommand; split_ifs <;> rfl

@[simp]
theorem sendArduinoCommand_mainTimer (s : TrafficSystem) (c : String) :
    (sendArduinoCommand s c).mainTimer = s.mainTimer := by
  unfold sendArduinoCommand; split_ifs <;> rfl

@[simp]
theorem sendArduinoCommand_lightTimer (s : TrafficSystem) (c : String) :
    (sendArduinoCommand s c).lightTimer = s.lightTimer := by
  unfold sendArduinoCommand; split_ifs <;> rfl

@[simp]
theorem sendArduinoCommand_sensorTimer (s : TrafficSystem) (c : String) :
    (sendArduinoCommand s c).sensorTimer = s.sensorTimer := by
  unfold sendArduinoCommand; split_ifs <;> rfl

@[simp]
theorem sendArduinoCommand_arduinoExists (s : TrafficSystem) (c : String) :
    (sendArduinoCommand s c).arduinoExists = s.arduinoExists := by
  unfold sendArduinoCommand; split_ifs <;> rfl

@[simp]
theorem sendArduinoCommand_arduinoOpen (s : TrafficSystem) (c : String) :
    (sendArduinoCommand s c).arduinoOpen = s.arduinoOpen := by
  unfold sendArduinoCommand; split_ifs <;> rfl

@[simp]
theorem sendArduinoCommand_arduinoData (s : TrafficSystem) (c : String) :
    (sendArduinoCommand s c).arduinoData = s.arduinoData := by
  unfold sendArduinoCommand; split_ifs <;> rfl

@[simp]
theorem sendArduinoCommand_roadToProcess (s : TrafficSystem) (c : String) :
    (sendArduinoCommand s c).roadToProcess = s.roadToProcess := by
  unfold sendArduinoCommand; split_ifs <;> rfl

@[simp]
theorem sendArduinoCommand_events (s : TrafficSystem) (c : String) :
    (sendArduinoCommand s c).events = s.events := by
  unfold sendArduinoCommand; split_ifs <;> rfl

@[simp]
theorem sendArduinoCommand_lightHistory (s : TrafficSystem) (c : String) :
    (sendArduinoCommand s c).lightHistory = s.lightHistory := by
  unfold sendArduinoCommand; split_ifs <;> rfl

@[simp]
theorem setTrafficLight_roads (s : TrafficSystem) (i : Int) (l : TrafficLight) :
    (setTrafficLight s i l).roads = s.roads := by
  unfold setTrafficLight; split_ifs <;> simp

@[simp]
theorem setTrafficLight_systemRunning (s : TrafficSystem) (i : Int) (l : TrafficLight) :
    (setTrafficLight s i l).systemRunning = s.systemRunning := by
  unfold setTrafficLight; split_ifs <;> simp

@[simp]
theorem setTrafficLight_m_workerBusy (s : TrafficSystem) (i : Int) (l : TrafficLight) :
    (setTrafficLight s i l).m_workerBusy = s.m_workerBusy := by
  unfold setTrafficLight; split_ifs <;> simp

@[simp]
theorem setTrafficLight_currentRoadIndex (s : TrafficSystem) (i : Int) (l : TrafficLight) :
    (setTrafficLight s i l).currentRoadIndex = s.currentRoadIndex := by
  unfold setTrafficLight; split_ifs <;> simp

@[simp]
theorem setTrafficLight_lightTimeRemaining (s : TrafficSystem) (i : Int) (l : TrafficLight) :
    (setTrafficLight s i l).lightTimeRemaining = s.lightTimeRemaining := by
  unfold setTrafficLight; split_ifs <;> simp

@[simp]
theorem setTrafficLight_yellowLightActive (s : TrafficSystem) (i : Int) (l : TrafficLight) :
    (setTrafficLight s i l).yellowLightActive = s.yellowLightActive := by
  unfold setTrafficLight; split_ifs <;> simp

@[simp]
theorem setTrafficLight_yellowLightFixedDuration (s : TrafficSystem) (i : Int) (l : TrafficLight) :
    (setTrafficLight s i l).yellowLightFixedDuration = s.yellowLightFixedDuration := by
  unfold setTrafficLight; split_ifs <;> simp

@[simp]
theorem setTrafficLight_energySavingMode (s : TrafficSystem) (i : Int) (l : TrafficLight) :
    (setTrafficLight s i l).energySavingMode = s.energySavingMode := by
  unfold setTrafficLight; split_ifs <;> simp

@[simp]
theorem setTrafficLight_energySavingEnabled (s : TrafficSystem) (i : Int) (l : TrafficLight) :
    (setTrafficLight s i l).energySavingEnabled = s.energySavingEnabled := by
  unfold setTrafficLight; split_ifs <;> simp

@[simp]
theorem setTrafficLight_lightDurations (s : TrafficSystem) (i : Int) (l : TrafficLight) :
    (setTrafficLight s i l).lightDurations = s.lightDurations := by
  unfold setTrafficLight; split_ifs <;> simp

@[simp]
theorem setTrafficLight_violationDetectionEnabled (s : TrafficSystem) (i : Int) (l : TrafficLight) :
    (setTrafficLight s i l).violationDetectionEnabled = s.violationDetectionEnabled := by
  unfold setTrafficLight; split_ifs <;> simp

@[simp]
theorem setTrafficLight_mainTimer (s : TrafficSystem) (i : Int) (l : TrafficLight) :
    (setTrafficLight s i l).mainTimer = s.mainTimer := by
  unfold setTrafficLight; split_ifs <;> simp

@[simp]
theorem setTrafficLight_lightTimer (s : TrafficSystem) (i : Int) (l : TrafficLight) :
    (setTrafficLight s i l).lightTimer = s.lightTimer := by
  unfold setTrafficLight; split_ifs <;> simp

@[simp]
theorem setTrafficLight_sensorTimer (s : TrafficSystem) (i : Int) (l : TrafficLight) :
    (setTrafficLight s i l).sensorTimer = s.sensorTimer := by
  unfold setTrafficLight; split_ifs <;> simp

@[simp]
theorem setTrafficLight_arduinoExists (s : TrafficSystem) (i : Int) (l : TrafficLight) :
    (setTrafficLight s i l).arduinoExists = s.arduinoExists := by
  unfold setTrafficLight; split_ifs <;> simp

@[simp]
theorem setTrafficLight_arduinoOpen (s : TrafficSystem) (i : Int) (l : TrafficLight) :
    (setTrafficLight s i l).arduinoOpen = s.arduinoOpen := by
  unfold setTrafficLight; split_ifs <;> simp

@[simp]
theorem setTrafficLight_arduinoData (s : TrafficSystem) (i : Int) (l : TrafficLight) :
    (setTrafficLight s i l).arduinoData = s.arduinoData := by
  unfold setTrafficLight; split_ifs <;> simp

@[simp]
theorem setTrafficLight_roadToProcess (s : TrafficSystem) (i : Int) (l : TrafficLight) :
    (setTrafficLight s i l).roadToProcess = s.roadToProcess := by
  unfold setTrafficLight; split_ifs <;> simp

@[simp]
theorem setAllTrafficLights_roads (s : TrafficSystem) (l : TrafficLight) :
    (setAllTrafficLights s l).roads = s.roads := by
  simp [setAllTrafficLights]

@[simp]
theorem setAllTrafficLights_systemRunning (s : TrafficSystem) (l : TrafficLight) :
    (setAllTrafficLights s l).systemRunning = s.systemRunning := by
  simp [setAllTrafficLights]

@[simp]
theorem setAllTrafficLights_m_workerBusy (s : TrafficSystem) (l : TrafficLight) :
    (setAllTrafficLights s l).m_workerBusy = s.m_workerBusy := by
  simp [setAllTrafficLights]

@[simp]
theorem setAllTrafficLights_currentRoadIndex (s : TrafficSystem) (l : TrafficLight) :
    (setAllTrafficLights s l).currentRoadIndex = s.currentRoadIndex := by
  simp [setAllTrafficLights]

@[simp]
theorem setAllTrafficLights_lightTimeRemaining (s : TrafficSystem) (l : TrafficLight) :
    (setAllTrafficLights s l).lightTimeRemaining = s.lightTimeRemaining := by
  simp [setAllTrafficLights]

@[simp]
theorem setAllTrafficLights_yellowLightActive (s : TrafficSystem) (l : TrafficLight) :
    (setAllTrafficLights s l).yellowLightActive = s.yellowLightActive := by
  simp [setAllTrafficLights]

@[simp]
theorem setAllTrafficLights_yellowLightFixedDuration (s : TrafficSystem) (l : TrafficLight) :
    (setAllTrafficLights s l).yellowLightFixedDuration = s.yellowLightFixedDuration := by
  simp [setAllTrafficLights]

@[simp]
theorem setAllTrafficLights_energySavingMode (s : TrafficSystem) (l : TrafficLight) :
    (setAllTrafficLights s l).energySavingMode = s.energySavingMode := by
  simp [setAllTrafficLights]

@[simp]
theorem setAllTrafficLights_energySavingEnabled (s : TrafficSystem) (l : TrafficLight) :
    (setAllTrafficLights s l).energySavingEnabled = s.energySavingEnabled := by
  simp [setAllTrafficLights]

@[simp]
theorem setAllTrafficLights_lightDurations (s : TrafficSystem) (l : TrafficLight) :
    (setAllTrafficLights s l).lightDurations = s.lightDurations := by
  simp [setAllTrafficLights]

@[simp]
theorem setAllTrafficLights_violationDetectionEnabled (s : TrafficSystem) (l : TrafficLight) :
    (setAllTrafficLights s l).violationDetectionEnabled = s.violationDetectionEnabled := by
  simp [setAllTrafficLights]

@[simp]
theorem setAllTrafficLights_mainTimer (s : TrafficSystem) (l : TrafficLight) :
    (setAllTrafficLights s l).mainTimer = s.mainTimer := by
  simp [setAllTrafficLights]

@[simp]
theorem setAllTrafficLights_lightTimer (s : TrafficSystem) (l : TrafficLight) :
    (setAllTrafficLights s l).lightTimer = s.lightTimer := by
  simp [setAllTrafficLights]

@[simp]
theorem setAllTrafficLights_sensorTimer (s : TrafficSystem) (l : TrafficLight) :
    (setAllTrafficLights s l).sensorTimer = s.sensorTimer := by
  simp [setAllTrafficLights]

@[simp]
theorem setAllTrafficLights_arduinoExists (s : TrafficSystem) (l : TrafficLight) :
    (setAllTrafficLights s l).arduinoExists = s.arduinoExists := by
  simp [setAllTrafficLights]

@[simp]
theorem setAllTrafficLights_arduinoOpen (s : TrafficSystem) (l : TrafficLight) :
    (setAllTrafficLights s l).arduinoOpen = s.arduinoOpen := by
  simp [setAllTrafficLights]

@[simp]
theorem setAllTrafficLights_arduinoData (s : TrafficSystem) (l : TrafficLight) :
    (setAllTrafficLights s l).arduinoData = s.arduinoData := by
  simp [setAllTrafficLights]

@[simp]
theorem setAllTrafficLights_roadToProcess (s : TrafficSystem) (l : TrafficLight) :
    (setAllTrafficLights s l).roadToProcess = s.roadToProcess := by
  simp [setAllTrafficLights]

@[simp]
theorem cycleLights_roads (s : TrafficSystem) :
    (cycleLights s).roads = s.roads := by
  simp [cycleLights]

@[simp]
theorem cycleLights_systemRunning (s : TrafficSystem) :
    (cycleLights s).systemRunning = s.systemRunning := by
  simp [cycleLights]

@[simp]
theorem cycleLights_m_workerBusy (s : TrafficSystem) :
    (cycleLights s).m_workerBusy = s.m_workerBusy := by
  simp [cycleLights]

@[simp]
theorem cycleLights_currentRoadIndex (s : TrafficSystem) :
    (cycleLights s).currentRoadIndex = s.currentRoadIndex := by
  simp [cycleLights]

@[simp]
theorem cycleLights_lightTimeRemaining (s : TrafficSystem) :
    (cycleLights s).lightTimeRemaining = s.lightTimeRemaining := by
  simp [cycleLights]

@[simp]
theorem cycleLights_yellowLightActive (s : TrafficSystem) :
    (cycleLights s).yellowLightActive = s.yellowLightActive := by
  simp [cycleLights]

@[simp]
theorem cycleLights_yellowLightFixedDuration (s : TrafficSystem) :
    (cycleLights s).yellowLightFixedDuration = s.yellowLightFixedDuration := by
  simp [cycleLights]

@[simp]
theorem cycleLights_energySavingMode (s : TrafficSystem) :
    (cycleLights s).energySavingMode = s.energySavingMode := by
  simp [cycleLights]

@[simp]
theorem cycleLights_energySavingEnabled (s : TrafficSystem) :
    (cycleLights s).energySavingEnabled = s.energySavingEnabled := by
  simp [cycleLights]

@[simp]
theorem cycleLights_lightDurations (s : TrafficSystem) :
    (cycleLights s).lightDurations = s.lightDurations := by
  simp [cycleLights]

@[simp]
theorem cycleLights_violationDetectionEnabled (s : TrafficSystem) :
    (cycleLights s).violationDetectionEnabled = s.violationDetectionEnabled := by
  simp [cycleLights]

@[simp]
theorem cycleLights_mainTimer (s : TrafficSystem) :
    (cycleLights s).mainTimer = s.mainTimer := by
  simp [cycleLights]

@[simp]
theorem cycleLights_lightTimer (s : TrafficSystem) :
    (cycleLights s).lightTimer = s.lightTimer := by
  simp [cycleLights]

@[simp]
theorem cycleLights_sensorTimer (s : TrafficSystem) :
    (cycleLights s).sensorTimer = s.sensorTimer := by
  simp [cycleLights]

@[simp]
theorem cycleLights_arduinoExists (s : TrafficSystem) :
    (cycleLights s).arduinoExists = s.arduinoExists := by
  simp [cycleLights]

@[simp]
theorem cycleLights_arduinoOpen (s : TrafficSystem) :
    (cycleLights s).arduinoOpen = s.arduinoOpen := by
  simp [cycleLights]

@[simp]
theorem cycleLights_arduinoData (s : TrafficSystem) :
    (cycleLights s).arduinoData = s.arduinoData := by
  simp [cycleLights]

@[simp]
theorem cycleLights_roadToProcess (s : TrafficSystem) :
    (cycleLights s).roadToProcess = s.roadToProcess := by
  simp [cycleLights]


/-! ## What `setTrafficLight` and the two loops do to the lights -/

theorem setTrafficLight_currentLights (s : TrafficSystem) (i : Int) (l : TrafficLight) :
    (setTrafficLight s i l).currentLights =
      if 0 ≤ i ∧ i < 4 then Function.update s.currentLights i l else s.currentLights := by
  unfold setTrafficLight
  split_ifs with h1 h2 h2
  · rcases h1 with h | h | h
    · omega
    · omega
    · rw [← h, Function.update_eq_self]
  · rfl
  · simp
  · exfalso
    apply h2
    constructor <;> [skip; skip] <;> by_contra hc <;> apply h1
    · left; omega
    · right; left; omega

theorem setTrafficLight_lightHistory (s : TrafficSystem) (i : Int) (l : TrafficLight) :
    (setTrafficLight s i l).lightHistory = s.lightHistory
    ∨ (setTrafficLight s i l).lightHistory
        = s.lightHistory ++ [(setTrafficLight s i l).currentLights] := by
  unfold setTrafficLight
  split_ifs with h1
  · left; rfl
  · right; simp

theorem noOther_excl {c : Int} {L : Int → TrafficLight} (h : NoOther c L) : Excl L := by
  intro i j _ _ _ _ hij hi
  have hic : i = c := by
    by_contra hne
    rcases h i hne with h1 | h1 <;> rw [h1] at hi <;> cases hi
  exact h j (by rw [← hic]; exact fun e => hij e.symm)

theorem excl_update_dark {L : Int → TrafficLight} (h : Excl L) (i : Int) {l : TrafficLight}
    (hl : l = TrafficLight.RED ∨ l = TrafficLight.OFF) : Excl (Function.update L i l) := by
  intro a b ha0 ha4 hb0 hb4 hab hg
  by_cases hai : a = i
  · subst hai
    rw [Function.update_same] at hg
    rcases hl with h1 | h1 <;> rw [h1] at hg <;> cases hg
  · rw [Function.update_noteq hai] at hg
    by_cases hbi : b = i
    · subst hbi
      rw [Function.update_same]
      exact hl
    · rw [Function.update_noteq hbi]
      exact h a b ha0 ha4 hb0 hb4 hab hg

theorem noOther_update_self {c : Int} {L : Int → TrafficLight} (h : NoOther c L)
    (l : TrafficLight) : NoOther c (Function.update L c l) := by
  intro i hi
  rw [Function.update_noteq hi]
  exact h i hi

theorem noOther_update_dark {c : Int} {L : Int → TrafficLight} (h : NoOther c L) (i : Int)
    {l : TrafficLight} (hl : l = TrafficLight.RED ∨ l = TrafficLight.OFF) :
    NoOther c (Function.update L i l) := by
  intro a ha
  by_cases hai : a = i
  · subst hai
    rw [Function.update_same]
    exact hl
  · rw [Function.update_noteq hai]
    exact h a ha

theorem histOK_setTrafficLight {s : TrafficSystem} (h : HistOK s) (i : Int) (l : TrafficLight)
    (hx : Excl (setTrafficLight s i l).currentLights) : HistOK (setTrafficLight s i l) := by
  intro L hL
  rcases setTrafficLight_lightHistory s i l with e | e
  · rw [e] at hL
    exact h L hL
  · rw [e, List.mem_append, List.mem_singleton] at hL
    rcases hL with hL | hL
    · exact h L hL
    · rw [hL]
      exact hx

/-- A loop of `setTrafficLight` calls keeps every state property `P` that each single
call keeps, and keeps the history good when `P` implies mutual exclusion. -/
theorem foldl_setTrafficLight (P : TrafficSystem → Prop) (g : TrafficSystem → Int → TrafficLight)
    (hstep : ∀ st i, P st → P (setTrafficLight st i (g st i)))
    (hex : ∀ st, P st → Excl st.currentLights) :
    ∀ (is : List Int) (s : TrafficSystem), P s → HistOK s →
      P (is.foldl (fun st i => setTrafficLight st i (g st i)) s)
      ∧ HistOK (is.foldl (fun st i => setTrafficLight st i (g st i)) s) := by
  intro is
  induction is with
  | nil => intro s hp hh; exact ⟨hp, hh⟩
  | cons i rest ih =>
    intro s hp hh
    rw [List.foldl_cons]
    exact ih _ (hstep s i hp) (histOK_setTrafficLight hh i _ (hex _ (hstep s i hp)))

theorem setAllTrafficLights_currentLights (s : TrafficSystem) (l : TrafficLight) (i : Int) :
    (setAllTrafficLights s l).currentLights i =
      if 0 ≤ i ∧ i < 4 then l else s.currentLights i := by
  simp only [setAllTrafficLights, List.foldl_cons, List.foldl_nil, setTrafficLight_currentLights]
  norm_num [Function.update_apply]
  split_ifs <;> first | rfl | omega

theorem cycleLights_currentLights (s : TrafficSystem) (i : Int) :
    (cycleLights s).currentLights i =
      if 0 ≤ i ∧ i < 4 then
        (if i = s.currentRoadIndex then TrafficLight.GREEN else TrafficLight.RED)
      else s.currentLights i := by
  simp only [cycleLights, List.foldl_cons, List.foldl_nil, setTrafficLight_currentLights,
    setTrafficLight_currentRoadIndex]
  norm_num [Function.update_apply]
  split_ifs <;> first | rfl | omega

theorem setAllTrafficLights_histOK {s : TrafficSystem} (h : HistOK s)
    (hx : Excl s.currentLights) {l : TrafficLight}
    (hl : l = TrafficLight.RED ∨ l = TrafficLight.OFF) :
    HistOK (setAllTrafficLights s l) := by
  refine (foldl_setTrafficLight (fun st => Excl st.currentLights) (fun _ _ => l) ?_ ?_
    [0, 1, 2, 3] s hx h).2
  · intro st i hst
    simp only [setTrafficLight_currentLights]
    split_ifs
    · exact excl_update_dark hst i hl
    · exact hst
  · intro st hst
    exact hst

theorem cycleLights_histOK {s : TrafficSystem} (h : HistOK s)
    (hx : NoOther s.currentRoadIndex s.currentLights) : HistOK (cycleLights s) := by
  refine (foldl_setTrafficLight
    (fun st => st.currentRoadIndex = s.currentRoadIndex
      ∧ NoOther s.currentRoadIndex st.currentLights)
    (fun st i => if i = st.currentRoadIndex then TrafficLight.GREEN else TrafficLight.RED)
    ?_ ?_ [0, 1, 2, 3] s ⟨rfl, hx⟩ h).2
  · intro st i ⟨hc, hn⟩
    refine ⟨by simp [hc], ?_⟩
    simp only [setTrafficLight_currentLights]
    split_ifs with h1 h2
    · rw [h2, hc]; exact noOther_update_self hn _
    · exact noOther_update_dark hn i (Or.inl rfl)
    · exact hn
  · intro st hst
    exact noOther_excl hst.2

/-! ## Frame lemmas for the operations -/

section

set_option linter.unnecessarySeqFocus false
set_option linter.unusedTactic false
set_option linter.unreachableTactic false

@[simp]
theorem processTrafficCycle_roads (s : TrafficSystem) :
    (processTrafficCycle s).roads = s.roads := by
  unfold processTrafficCycle; split_ifs <;> (try simp) <;> (try split_ifs) <;> (try simp)

@[simp]
theorem processTrafficCycle_systemRunning (s : TrafficSystem) :
    (processTrafficCycle s).systemRunning = s.systemRunning := by
  unfold processTrafficCycle; split_ifs <;> (try simp) <;> (try split_ifs) <;> (try simp)

@[simp]
theorem processTrafficCycle_m_workerBusy (s : TrafficSystem) :
    (processTrafficCycle s).m_workerBusy = s.m_workerBusy := by
  unfold processTrafficCycle; split_ifs <;> (try simp) <;> (try split_ifs) <;> (try simp)

@[simp]
theorem processTrafficCycle_currentRoadIndex (s : TrafficSystem) :
    (processTrafficCycle s).currentRoadIndex = s.currentRoadIndex := by
  unfold processTrafficCycle; split_ifs <;> (try simp) <;> (try split_ifs) <;> (try simp)

@[simp]
theorem processTrafficCycle_yellowLightActive (s : TrafficSystem) :
    (processTrafficCycle s).yellowLightActive = s.yellowLightActive := by
  unfold processTrafficCycle; split_ifs <;> (try simp) <;> (try split_ifs) <;> (try simp)

@[simp]
theorem processTrafficCycle_yellowLightFixedDuration (s : TrafficSystem) :
    (processTrafficCycle s).yellowLightFixedDuration = s.yellowLightFixedDuration := by
  unfold processTrafficCycle; split_ifs <;> (try simp) <;> (try split_ifs) <;> (try simp)

@[simp]
theorem processTrafficCycle_energySavingMode (s : TrafficSystem) :
    (processTrafficCycle s).energySavingMode = s.energySavingMode := by
  unfold processTrafficCycle; split_ifs <;> (try simp) <;> (try split_ifs) <;> (try simp)

@[simp]
theorem processTrafficCycle_energySavingEnabled (s : TrafficSystem) :
    (processTrafficCycle s).energySavingEnabled = s.energySavingEnabled := by
  unfold processTrafficCycle; split_ifs <;> (try simp) <;> (try split_ifs) <;> (try simp)

@[simp]
theorem processTrafficCycle_lightDurations (s : TrafficSystem) :
    (processTrafficCycle s).lightDurations = s.lightDurations := by
  unfold processTrafficCycle; split_ifs <;> (try simp) <;> (try split_ifs) <;> (try simp)

@[simp]
theorem processTrafficCycle_violationDetectionEnabled (s : TrafficSystem) :
    (processTrafficCycle s).violationDetectionEnabled = s.violationDetectionEnabled := by
  unfold processTrafficCycle; split_ifs <;> (try simp) <;> (try split_ifs) <;> (try simp)

@[simp]
theorem processTrafficCycle_mainTimer (s : TrafficSystem) :
    (processTrafficCycle s).mainTimer = s.mainTimer := by
  unfold processTrafficCycle; split_ifs <;> (try simp) <;> (try split_ifs) <;> (try simp)

@[simp]
theorem processTrafficCycle_sensorTimer (s : TrafficSystem) :
    (processTrafficCycle s).sensorTimer = s.sensorTimer := by
  unfold processTrafficCycle; split_ifs <;> (try simp) <;> (try split_ifs) <;> (try simp)

@[simp]
theorem processTrafficCycle_arduinoExists (s : TrafficSystem) :
    (processTrafficCycle s).arduinoExists = s.arduinoExists := by
  unfold processTrafficCycle; split_ifs <;> (try simp) <;> (try split_ifs) <;> (try simp)

@[simp]
theorem processTrafficCycle_arduinoOpen (s : TrafficSystem) :
    (processTrafficCycle s).arduinoOpen = s.arduinoOpen := by
  unfold processTrafficCycle; split_ifs <;> (try simp) <;> (try split_ifs) <;> (try simp)

@[simp]
theorem processTrafficCycle_arduinoData (s : TrafficSystem) :
    (processTrafficCycle s).arduinoData = s.arduinoData := by
  unfold processTrafficCycle; split_ifs <;> (try simp) <;> (try split_ifs) <;> (try simp)

@[simp]
theorem processTrafficCycle_roadToProcess (s : TrafficSystem) :
    (processTrafficCycle s).roadToProcess = s.roadToProcess := by
  unfold processTrafficCycle; split_ifs <;> (try simp) <;> (try split_ifs) <;> (try simp)

@[simp]
theorem switchToNextRoad_systemRunning (s : TrafficSystem) :
    (switchToNextRoad s).systemRunning = s.systemRunning := by
  unfold switchToNextRoad; split_ifs <;> (try simp) <;> (try split_ifs) <;> (try simp)

@[simp]
theorem switchToNextRoad_m_workerBusy (s : TrafficSystem) :
    (switchToNextRoad s).m_workerBusy = s.m_workerBusy := by
  unfold switchToNextRoad; split_ifs <;> (try simp) <;> (try split_ifs) <;> (try simp)

@[simp]
theorem switchToNextRoad_yellowLightFixedDuration (s : TrafficSystem) :
    (switchToNextRoad s).yellowLightFixedDuration = s.yellowLightFixedDuration := by
  unfold switchToNextRoad; split_ifs <;> (try simp) <;> (try split_ifs) <;> (try simp)

@[simp]
theorem switchToNextRoad_energySavingMode (s : TrafficSystem) :
    (switchToNextRoad s).energySavingMode = s.energySavingMode := by
  unfold switchToNextRoad; split_ifs <;> (try simp) <;> (try split_ifs) <;> (try simp)

@[simp]
theorem switchToNextRoad_energySavingEnabled (s : TrafficSystem) :
    (switchToNextRoad s).energySavingEnabled = s.energySavingEnabled := by
  unfold switchToNextRoad; split_ifs <;> (try simp) <;> (try split_ifs) <;> (try simp)

@[simp]
theorem switchToNextRoad_lightDurations (s : TrafficSystem) :
    (switchToNextRoad s).lightDurations = s.lightDurations := by
  unfold switchToNextRoad; split_ifs <;> (try simp) <;> (try split_ifs) <;> (try simp)

@[simp]
theorem switchToNextRoad_violationDetectionEnabled (s : TrafficSystem) :
    (switchToNextRoad s).violationDetectionEnabled = s.violationDetectionEnabled := by
  unfold switchToNextRoad; split_ifs <;> (try simp) <;> (try split_ifs) <;> (try simp)

@[simp]
theorem switchToNextRoad_mainTimer (s : TrafficSystem) :
    (switchToNextRoad s).mainTimer = s.mainTimer := by
  unfold switchToNextRoad; split_ifs <;> (try simp) <;> (try split_ifs) <;> (try simp)

@[simp]
theorem switchToNextRoad_sensorTimer (s : TrafficSystem) :
    (switchToNextRoad s).sensorTimer = s.sensorTimer := by
  unfold switchToNextRoad; split_ifs <;> (try simp) <;> (try split_ifs) <;> (try simp)

@[simp]
theorem switchToNextRoad_arduinoExists (s : TrafficSystem) :
    (switchToNextRoad s).arduinoExists = s.arduinoExists := by
  unfold switchToNextRoad; split_ifs <;> (try simp) <;> (try split_ifs) <;> (try simp)

@[simp]
theorem switchToNextRoad_arduinoOpen (s : TrafficSystem) :
    (switchToNextRoad s).arduinoOpen = s.arduinoOpen := by
  unfold switchToNextRoad; split_ifs <;> (try simp) <;> (try split_ifs) <;> (try simp)

@[simp]
theorem switchToNextRoad_arduinoData (s : TrafficSystem) :
    (switchToNextRoad s).arduinoData = s.arduinoData := by
  unfold switchToNextRoad; split_ifs <;> (try simp) <;> (try split_ifs) <;> (try simp)

@[simp]
theorem switchToNextRoad_roadToProcess (s : TrafficSystem) :
    (switchToNextRoad s).roadToProcess = s.roadToProcess := by
  unfold switchToNextRoad; split_ifs <;> (try simp) <;> (try split_ifs) <;> (try simp)

@[simp]
theorem onLightTimerTimeout_systemRunning (s : TrafficSystem) :
    (onLightTimerTimeout s).systemRunning = s.systemRunning := by
  unfold onLightTimerTimeout; split_ifs <;> simp <;> split_ifs <;> simp

@[simp]
theorem onLightTimerTimeout_m_workerBusy (s : TrafficSystem) :
    (onLightTimerTimeout s).m_workerBusy = s.m_workerBusy := by
  unfold onLightTimerTimeout; split_ifs <;> simp <;> split_ifs <;> simp

@[simp]
theorem onLightTimerTimeout_yellowLightFixedDuration (s : TrafficSystem) :
    (onLightTimerTimeout s).yellowLightFixedDuration = s.yellowLightFixedDuration := by
  unfold onLightTimerTimeout; split_ifs <;> simp <;> split_ifs <;> simp

@[simp]
theorem onLightTimerTimeout_energySavingMode (s : TrafficSystem) :
    (onLightTimerTimeout s).energySavingMode = s.energySavingMode := by
  unfold onLightTimerTimeout; split_ifs <;> simp <;> split_ifs <;> simp

@[simp]
theorem onLightTimerTimeout_energySavingEnabled (s : TrafficSystem) :
    (onLightTimerTimeout s).energySavingEnabled = s.energySavingEnabled := by
  unfold onLightTimerTimeout; split_ifs <;> simp <;> split_ifs <;> simp

@[simp]
theorem onLightTimerTimeout_lightDurations (s : TrafficSystem) :
    (onLightTimerTimeout s).lightDurations = s.lightDurations := by
  unfold onLightTimerTimeout; split_ifs <;> simp <;> split_ifs <;> simp

@[simp]
theorem onLightTimerTimeout_violationDetectionEnabled (s : TrafficSystem) :
    (onLightTimerTimeout s).violationDetectionEnabled = s.violationDetectionEnabled := by
  unfold onLightTimerTimeout; split_ifs <;> simp <;> split_ifs <;> simp

@[simp]
theorem onLightTimerTimeout_mainTimer (s : TrafficSystem) :
    (onLightTimerTimeout s).mainTimer = s.mainTimer := by
  unfold onLightTimerTimeout; split_ifs <;> simp <;> split_ifs <;> simp

@[simp]
theorem onLightTimerTimeout_sensorTimer (s : TrafficSystem) :
    (onLightTimerTimeout s).sensorTimer = s.sensorTimer := by
  unfold onLightTimerTimeout; split_ifs <;> simp <;> split_ifs <;> simp

@[simp]
theorem onLightTimerTimeout_arduinoExists (s : TrafficSystem) :
    (onLightTimerTimeout s).arduinoExists = s.arduinoExists := by
  unfold onLightTimerTimeout; split_ifs <;> simp <;> split_ifs <;> simp

@[simp]
theorem onLightTimerTimeout_arduinoOpen (s : TrafficSystem) :
    (onLightTimerTimeout s).arduinoOpen = s.arduinoOpen := by
  unfold onLightTimerTimeout; split_ifs <;> simp <;> split_ifs <;> simp

@[simp]
theorem onLightTimerTimeout_arduinoData (s : TrafficSystem) :
    (onLightTimerTimeout s).arduinoData = s.arduinoData := by
  unfold onLightTimerTimeout; split_ifs <;> simp <;> split_ifs <;> simp

@[simp]
theorem onLightTimerTimeout_roadToProcess (s : TrafficSystem) :
    (onLightTimerTimeout s).roadToProcess = s.roadToProcess := by
  unfold onLightTimerTimeout; split_ifs <;> simp <;> split_ifs <;> simp

@[simp]
theorem processEnergySaving_roads (s : TrafficSystem) :
    (processEnergySaving s).roads = s.roads := by
  unfold processEnergySaving; split_ifs <;> (try simp) <;> (try split_ifs) <;> (try simp)

@[simp]
theorem processEnergySaving_systemRunning (s : TrafficSystem) :
    (processEnergySaving s).systemRunning = s.systemRunning := by
  unfold processEnergySaving; split_ifs <;> (try simp) <;> (try split_ifs) <;> (try simp)

@[simp]
theorem processEnergySaving_m_workerBusy (s : TrafficSystem) :
    (processEnergySaving s).m_workerBusy = s.m_workerBusy := by
  unfold processEnergySaving; split_ifs <;> (try simp) <;> (try split_ifs) <;> (try simp)

@[simp]
theorem processEnergySaving_currentRoadIndex (s : TrafficSystem) :
    (processEnergySaving s).currentRoadIndex = s.currentRoadIndex := by
  unfold processEnergySaving; split_ifs <;> (try simp) <;> (try split_ifs) <;> (try simp)

@[simp]
theorem processEnergySaving_yellowLightActive (s : TrafficSystem) :
    (processEnergySaving s).yellowLightActive = s.yellowLightActive := by
  unfold processEnergySaving; split_ifs <;> (try simp) <;> (try split_ifs) <;> (try simp)

@[simp]
theorem processEnergySaving_yellowLightFixedDuration (s : TrafficSystem) :
    (processEnergySaving s).yellowLightFixedDuration = s.yellowLightFixedDuration := by
  unfold processEnergySaving; split_ifs <;> (try simp) <;> (try split_ifs) <;> (try simp)

@[simp]
theorem processEnergySaving_energySavingEnabled (s : TrafficSystem) :
    (processEnergySaving s).energySavingEnabled = s.energySavingEnabled := by
  unfold processEnergySaving; split_ifs <;> (try simp) <;> (try split_ifs) <;> (try simp)

@[simp]
theorem processEnergySaving_lightDurations (s : TrafficSystem) :
    (processEnergySaving s).lightDurations = s.lightDurations := by
  unfold processEnergySaving; split_ifs <;> (try simp) <;> (try split_ifs) <;> (try simp)

@[simp]
theorem processEnergySaving_violationDetectionEnabled (s : TrafficSystem) :
    (processEnergySaving s).violationDetectionEnabled = s.violationDetectionEnabled := by
  unfold processEnergySaving; split_ifs <;> (try simp) <;> (try split_ifs) <;> (try simp)

@[simp]
theorem processEnergySaving_mainTimer (s : TrafficSystem) :
    (processEnergySaving s).mainTimer = s.mainTimer := by
  unfold processEnergySaving; split_ifs <;> (try simp) <;> (try split_ifs) <;> (try simp)

@[simp]
theorem processEnergySaving_sensorTimer (s : TrafficSystem) :
    (processEnergySaving s).sensorTimer = s.sensorTimer := by
  unfold processEnergySaving; split_ifs <;> (try simp) <;> (try split_ifs) <;> (try simp)

@[simp]
theorem processEnergySaving_arduinoExists (s : TrafficSystem) :
    (processEnergySaving s).arduinoExists = s.arduinoExists := by
  unfold processEnergySaving; split_ifs <;> (try simp) <;> (try split_ifs) <;> (try simp)

@[simp]
theorem processEnergySaving_arduinoOpen (s : TrafficSystem) :
    (processEnergySaving s).arduinoOpen = s.arduinoOpen := by
  unfold processEnergySaving; split_ifs <;> (try simp) <;> (try split_ifs) <;> (try simp)

@[simp]
theorem processEnergySaving_arduinoData (s : TrafficSystem) :
    (processEnergySaving s).arduinoData = s.arduinoData := by
  unfold processEnergySaving; split_ifs <;> (try simp) <;> (try split_ifs) <;> (try simp)

@[simp]
theorem processEnergySaving_roadToProcess (s : TrafficSystem) :
    (processEnergySaving s).roadToProcess = s.roadToProcess := by
  unfold processEnergySaving; split_ifs <;> (try simp) <;> (try split_ifs) <;> (try simp)

@[simp]
theorem updateTrafficLights_roads (s : TrafficSystem) :
    (updateTrafficLights s).roads = s.roads := by
  unfold updateTrafficLights; split_ifs <;> (try simp) <;> (try split_ifs) <;> (try simp)

@[simp]
theorem updateTrafficLights_systemRunning (s : TrafficSystem) :
    (updateTrafficLights s).systemRunning = s.systemRunning := by
  unfold updateTrafficLights; split_ifs <;> (try simp) <;> (try split_ifs) <;> (try simp)

@[simp]
theorem updateTrafficLights_m_workerBusy (s : TrafficSystem) :
    (updateTrafficLights s).m_workerBusy = s.m_workerBusy := by
  unfold updateTrafficLights; split_ifs <;> (try simp) <;> (try split_ifs) <;> (try simp)

@[simp]
theorem updateTrafficLights_currentRoadIndex (s : TrafficSystem) :
    (updateTrafficLights s).currentRoadIndex = s.currentRoadIndex := by
  unfold updateTrafficLights; split_ifs <;> (try simp) <;> (try split_ifs) <;> (try simp)

@[simp]
theorem updateTrafficLights_yellowLightActive (s : TrafficSystem) :
    (updateTrafficLights s).yellowLightActive = s.yellowLightActive := by
  unfold updateTrafficLights; split_ifs <;> (try simp) <;> (try split_ifs) <;> (try simp)

@[simp]
theorem updateTrafficLights_yellowLightFixedDuration (s : TrafficSystem) :
    (updateTrafficLights s).yellowLightFixedDuration = s.yellowLightFixedDuration := by
  unfold updateTrafficLights; split_ifs <;> (try simp) <;> (try split_ifs) <;> (try simp)

@[simp]
theorem updateTrafficLights_energySavingEnabled (s : TrafficSystem) :
    (updateTrafficLights s).energySavingEnabled = s.energySavingEnabled := by
  unfold updateTrafficLights; split_ifs <;> (try simp) <;> (try split_ifs) <;> (try simp)

@[simp]
theorem updateTrafficLights_lightDurations (s : TrafficSystem) :
    (updateTrafficLights s).lightDurations = s.lightDurations := by
  unfold updateTrafficLights; split_ifs <;> (try simp) <;> (try split_ifs) <;> (try simp)

@[simp]
theorem updateTrafficLights_violationDetectionEnabled (s : TrafficSystem) :
    (updateTrafficLights s).violationDetectionEnabled = s.violationDetectionEnabled := by
  unfold updateTrafficLights; split_ifs <;> (try simp) <;> (try split_ifs) <;> (try simp)

@[simp]
theorem updateTrafficLights_mainTimer (s : TrafficSystem) :
    (updateTrafficLights s).mainTimer = s.mainTimer := by
  unfold updateTrafficLights; split_ifs <;> (try simp) <;> (try split_ifs) <;> (try simp)

@[simp]
theorem updateTrafficLights_sensorTimer (s : TrafficSystem) :
    (updateTrafficLights s).sensorTimer = s.sensorTimer := by
  unfold updateTrafficLights; split_ifs <;> (try simp) <;> (try split_ifs) <;> (try simp)

@[simp]
theorem updateTrafficLights_arduinoExists (s : TrafficSystem) :
    (updateTrafficLights s).arduinoExists = s.arduinoExists := by
  unfold updateTrafficLights; split_ifs <;> (try simp) <;> (try split_ifs) <;> (try simp)

@[simp]
theorem updateTrafficLights_arduinoOpen (s : TrafficSystem) :
    (updateTrafficLights s).arduinoOpen = s.arduinoOpen := by
  unfold updateTrafficLights; split_ifs <;> (try simp) <;> (try split_ifs) <;> (try simp)

@[simp]
theorem updateTrafficLights_arduinoData (s : TrafficSystem) :
    (updateTrafficLights s).arduinoData = s.arduinoData := by
  unfold updateTrafficLights; split_ifs <;> (try simp) <;> (try split_ifs) <;> (try simp)

@[simp]
theorem updateTrafficLights_roadToProcess (s : TrafficSystem) :
    (updateTrafficLights s).roadToProcess = s.roadToProcess := by
  unfold updateTrafficLights; split_ifs <;> (try simp) <;> (try split_ifs) <;> (try simp)

@[simp]
theorem updateCount_currentLights (s : TrafficSystem) (i : Int) (n : Int) :
    (updateCount s i n).currentLights = s.currentLights := by
  unfold updateCount; split_ifs <;> (try simp) <;> (try split_ifs) <;> (try simp)

@[simp]
theorem updateCount_systemRunning (s : TrafficSystem) (i : Int) (n : Int) :
    (updateCount s i n).systemRunning = s.systemRunning := by
  unfold updateCount; split_ifs <;> (try simp) <;> (try split_ifs) <;> (try simp)

@[simp]
theorem updateCount_m_workerBusy (s : TrafficSystem) (i : Int) (n : Int) :
    (updateCount s i n).m_workerBusy = s.m_workerBusy := by
  unfold updateCount; split_ifs <;> (try simp) <;> (try split_ifs) <;> (try simp)

@[simp]
theorem updateCount_currentRoadIndex (s : TrafficSystem) (i : Int) (n : Int) :
    (updateCount s i n).currentRoadIndex = s.currentRoadIndex := by
  unfold updateCount; split_ifs <;> (try simp) <;> (try split_ifs) <;> (try simp)

@[simp]
theorem updateCount_lightTimeRemaining (s : TrafficSystem) (i : Int) (n : Int) :
    (updateCount s i n).lightTimeRemaining = s.lightTimeRemaining := by
  unfold updateCount; split_ifs <;> (try simp) <;> (try split_ifs) <;> (try simp)

@[simp]
theorem updateCount_yellowLightActive (s : TrafficSystem) (i : Int) (n : Int) :
    (updateCount s i n).yellowLightActive = s.yellowLightActive := by
  unfold updateCount; split_ifs <;> (try simp) <;> (try split_ifs) <;> (try simp)

@[simp]
theorem updateCount_yellowLightFixedDuration (s : TrafficSystem) (i : Int) (n : Int) :
    (updateCount s i n).yellowLightFixedDuration = s.yellowLightFixedDuration := by
  unfold updateCount; split_ifs <;> (try simp) <;> (try split_ifs) <;> (try simp)

@[simp]
theorem updateCount_energySavingMode (s : TrafficSystem) (i : Int) (n : Int) :
    (updateCount s i n).energySavingMode = s.energySavingMode := by
  unfold updateCount; split_ifs <;> (try simp) <;> (try split_ifs) <;> (try simp)

@[simp]
theorem updateCount_energySavingEnabled (s : TrafficSystem) (i : Int) (n : Int) :
    (updateCount s i n).energySavingEnabled = s.energySavingEnabled := by
  unfold updateCount; split_ifs <;> (try simp) <;> (try split_ifs) <;> (try simp)

@[simp]
theorem updateCount_lightDurations (s : TrafficSystem) (i : Int) (n : Int) :
    (updateCount s i n).lightDurations = s.lightDurations := by
  unfold updateCount; split_ifs <;> (try simp) <;> (try split_ifs) <;> (try simp)

@[simp]
theorem updateCount_violationDetectionEnabled (s : TrafficSystem) (i : Int) (n : Int) :
    (updateCount s i n).violationDetectionEnabled = s.violationDetectionEnabled := by
  unfold updateCount; split_ifs <;> (try simp) <;> (try split_ifs) <;> (try simp)

@[simp]
theorem updateCount_mainTimer (s : TrafficSystem) (i : Int) (n : Int) :
    (updateCount s i n).mainTimer = s.mainTimer := by
  unfold updateCount; split_ifs <;> (try simp) <;> (try split_ifs) <;> (try simp)

@[simp]
theorem updateCount_lightTimer (s : TrafficSystem) (i : Int) (n : Int) :
    (updateCount s i n).lightTimer = s.lightTimer := by
  unfold updateCount; split_ifs <;> (try simp) <;> (try split_ifs) <;> (try simp)

@[simp]
theorem updateCount_sensorTimer (s : TrafficSystem) (i : Int) (n : Int) :
    (updateCount s i n).sensorTimer = s.sensorTimer := by
  unfold updateCount; split_ifs <;> (try simp) <;> (try split_ifs) <;> (try simp)

@[simp]
theorem updateCount_arduinoExists (s : TrafficSystem) (i : Int) (n : Int) :
    (updateCount s i n).arduinoExists = s.arduinoExists := by
  unfold updateCount; split_ifs <;> (try simp) <;> (try split_ifs) <;> (try simp)

@[simp]
theorem updateCount_arduinoOpen (s : TrafficSystem) (i : Int) (n : Int) :
    (updateCount s i n).arduinoOpen = s.arduinoOpen := by
  unfold updateCount; split_ifs <;> (try simp) <;> (try split_ifs) <;> (try simp)

@[simp]
theorem updateCount_arduinoData (s : TrafficSystem) (i : Int) (n : Int) :
    (updateCount s i n).arduinoData = s.arduinoData := by
  unfold updateCount; split_ifs <;> (try simp) <;> (try split_ifs) <;> (try simp)

@[simp]
theorem updateCount_roadToProcess (s : TrafficSystem) (i : Int) (n : Int) :
    (updateCount s i n).roadToProcess = s.roadToProcess := by
  unfold updateCount; split_ifs <;> (try simp) <;> (try split_ifs) <;> (try simp)

@[simp]
theorem updateCount_serialOut (s : TrafficSystem) (i : Int) (n : Int) :
    (updateCount s i n).serialOut = s.serialOut := by
  unfold updateCount; split_ifs <;> (try simp) <;> (try split_ifs) <;> (try simp)

@[simp]
theorem updateCount_lightHistory (s : TrafficSystem) (i : Int) (n : Int) :
    (updateCount s i n).lightHistory = s.lightHistory := by
  unfold updateCount; split_ifs <;> (try simp) <;> (try split_ifs) <;> (try simp)

@[simp]
theorem reportViolations_currentLights (s : TrafficSystem) (i : Int) (ids : List Int) :
    (reportViolations s i ids).currentLights = s.currentLights := by
  induction ids generalizing s with
  | nil => rfl
  | cons id rest ih => simp only [reportViolations]; split_ifs <;> simp [ih]

@[simp]
theorem reportViolations_systemRunning (s : TrafficSystem) (i : Int) (ids : List Int) :
    (reportViolations s i ids).systemRunning = s.systemRunning := by
  induction ids generalizing s with
  | nil => rfl
  | cons id rest ih => simp only [reportViolations]; split_ifs <;> simp [ih]

@[simp]
theorem reportViolations_m_workerBusy (s : TrafficSystem) (i : Int) (ids : List Int) :
    (reportViolations s i ids).m_workerBusy = s.m_workerBusy := by
  induction ids generalizing s with
  | nil => rfl
  | cons id rest ih => simp only [reportViolations]; split_ifs <;> simp [ih]

@[simp]
theorem reportViolations_currentRoadIndex (s : TrafficSystem) (i : Int) (ids : List Int) :
    (reportViolations s i ids).currentRoadIndex = s.currentRoadIndex := by
  induction ids generalizing s with
  | nil => rfl
  | cons id rest ih => simp only [reportViolations]; split_ifs <;> simp [ih]

@[simp]
theorem reportViolations_lightTimeRemaining (s : TrafficSystem) (i : Int) (ids : List Int) :
    (reportViolations s i ids).lightTimeRemaining = s.lightTimeRemaining := by
  induction ids generalizing s with
  | nil => rfl
  | cons id rest ih => simp only [reportViolations]; split_ifs <;> simp [ih]

@[simp]
theorem reportViolations_yellowLightActive (s : TrafficSystem) (i : Int) (ids : List Int) :
    (reportViolations s i ids).yellowLightActive = s.yellowLightActive := by
  induction ids generalizing s with
  | nil => rfl
  | cons id rest ih => simp only [reportViolations]; split_ifs <;> simp [ih]

@[simp]
theorem reportViolations_yellowLightFixedDuration (s : TrafficSystem) (i : Int) (ids : List Int) :
    (reportViolations s i ids).yellowLightFixedDuration = s.yellowLightFixedDuration := by
  induction ids generalizing s with
  | nil => rfl
  | cons id rest ih => simp only [reportViolations]; split_ifs <;> simp [ih]

@[simp]
theorem reportViolations_energySavingMode (s : TrafficSystem) (i : Int) (ids : List Int) :
    (reportViolations s i ids).energySavingMode = s.energySavingMode := by
  induction ids generalizing s with
  | nil => rfl
  | cons id rest ih => simp only [reportViolations]; split_ifs <;> simp [ih]

@[simp]
theorem reportViolations_energySavingEnabled (s : TrafficSystem) (i : Int) (ids : List Int) :
    (reportViolations s i ids).energySavingEnabled = s.energySavingEnabled := by
  induction ids generalizing s with
  | nil => rfl
  | cons id rest ih => simp only [reportViolations]; split_ifs <;> simp [ih]

@[simp]
theorem reportViolations_lightDurations (s : TrafficSystem) (i : Int) (ids : List Int) :
    (reportViolations s i ids).lightDurations = s.lightDurations := by
  induction ids generalizing s with
  | nil => rfl
  | cons id rest ih => simp only [reportViolations]; split_ifs <;> simp [ih]

@[simp]
theorem reportViolations_violationDetectionEnabled (s : TrafficSystem) (i : Int) (ids : List Int) :
    (reportViolations s i ids).violationDetectionEnabled = s.violationDetectionEnabled := by
  induction ids generalizing s with
  | nil => rfl
  | cons id rest ih => simp only [reportViolations]; split_ifs <;> simp [ih]

@[simp]
theorem reportViolations_mainTimer (s : TrafficSystem) (i : Int) (ids : List Int) :
    (reportViolations s i ids).mainTimer = s.mainTimer := by
  induction ids generalizing s with
  | nil => rfl
  | cons id rest ih => simp only [reportViolations]; split_ifs <;> simp [ih]

@[simp]
theorem reportViolations_lightTimer (s : TrafficSystem) (i : Int) (ids : List Int) :
    (reportViolations s i ids).lightTimer = s.lightTimer := by
  induction ids generalizing s with
  | nil => rfl
  | cons id rest ih => simp only [reportViolations]; split_ifs <;> simp [ih]

@[simp]
theorem reportViolations_sensorTimer (s : TrafficSystem) (i : Int) (ids : List Int) :
    (reportViolations s i ids).sensorTimer = s.sensorTimer := by
  induction ids generalizing s with
  | nil => rfl
  | cons id rest ih => simp only [reportViolations]; split_ifs <;> simp [ih]

@[simp]
theorem reportViolations_arduinoExists (s : TrafficSystem) (i : Int) (ids : List Int) :
    (reportViolations s i ids).arduinoExists = s.arduinoExists := by
  induction ids generalizing s with
  | nil => rfl
  | cons id rest ih => simp only [reportViolations]; split_ifs <;> simp [ih]

@[simp]
theorem reportViolations_arduinoOpen (s : TrafficSystem) (i : Int) (ids : List Int) :
    (reportViolations s i ids).arduinoOpen = s.arduinoOpen := by
  induction ids generalizing s with
  | nil => rfl
  | cons id rest ih => simp only [reportViolations]; split_ifs <;> simp [ih]

@[simp]
theorem reportViolations_arduinoData (s : TrafficSystem) (i : Int) (ids : List Int) :
    (reportViolations s i ids).arduinoData = s.arduinoData := by
  induction ids generalizing s with
  | nil => rfl
  | cons id rest ih => simp only [reportViolations]; split_ifs <;> simp [ih]

@[simp]
theorem reportViolations_roadToProcess (s : TrafficSystem) (i : Int) (ids : List Int) :
    (reportViolations s i ids).roadToProcess = s.roadToProcess := by
  induction ids generalizing s with
  | nil => rfl
  | cons id rest ih => simp only [reportViolations]; split_ifs <;> simp [ih]

@[simp]
theorem reportViolations_serialOut (s : TrafficSystem) (i : Int) (ids : List Int) :
    (reportViolations s i ids).serialOut = s.serialOut := by
  induction ids generalizing s with
  | nil => rfl
  | cons id rest ih => simp only [reportViolations]; split_ifs <;> simp [ih]

@[simp]
theorem reportViolations_lightHistory (s : TrafficSystem) (i : Int) (ids : List Int) :
    (reportViolations s i ids).lightHistory = s.lightHistory := by
  induction ids generalizing s with
  | nil => rfl
  | cons id rest ih => simp only [reportViolations]; split_ifs <;> simp [ih]

@[simp]
theorem handleProcessingFinished_systemRunning (s : TrafficSystem) (i : Int) (n : Int) (ids : List Int) :
    (handleProcessingFinished s i n ids).systemRunning = s.systemRunning := by
  unfold handleProcessingFinished; split_ifs <;> (try simp) <;> (try split_ifs) <;> (try simp)

@[simp]
theorem handleProcessingFinished_currentRoadIndex (s : TrafficSystem) (i : Int) (n : Int) (ids : List Int) :
    (handleProcessingFinished s i n ids).currentRoadIndex = s.currentRoadIndex := by
  unfold handleProcessingFinished; split_ifs <;> (try simp) <;> (try split_ifs) <;> (try simp)

@[simp]
theorem handleProcessingFinished_yellowLightActive (s : TrafficSystem) (i : Int) (n : Int) (ids : List Int) :
    (handleProcessingFinished s i n ids).yellowLightActive = s.yellowLightActive := by
  unfold handleProcessingFinished; split_ifs <;> (try simp) <;> (try split_ifs) <;> (try simp)

@[simp]
theorem handleProcessingFinished_yellowLightFixedDuration (s : TrafficSystem) (i : Int) (n : Int) (ids : List Int) :
    (handleProcessingFinished s i n ids).yellowLightFixedDuration = s.yellowLightFixedDuration := by
  unfold handleProcessingFinished; split_ifs <;> (try simp) <;> (try split_ifs) <;> (try simp)

@[simp]
theorem handleProcessingFinished_energySavingEnabled (s : TrafficSystem) (i : Int) (n : Int) (ids : List Int) :
    (handleProcessingFinished s i n ids).energySavingEnabled = s.energySavingEnabled := by
  unfold handleProcessingFinished; split_ifs <;> (try simp) <;> (try split_ifs) <;> (try simp)

@[simp]
theorem handleProcessingFinished_lightDurations (s : TrafficSystem) (i : Int) (n : Int) (ids : List Int) :
    (handleProcessingFinished s i n ids).lightDurations = s.lightDurations := by
  unfold handleProcessingFinished; split_ifs <;> (try simp) <;> (try split_ifs) <;> (try simp)

@[simp]
theorem handleProcessingFinished_violationDetectionEnabled (s : TrafficSystem) (i : Int) (n : Int) (ids : List Int) :
    (handleProcessingFinished s i n ids).violationDetectionEnabled = s.violationDetectionEnabled := by
  unfold handleProcessingFinished; split_ifs <;> (try simp) <;> (try split_ifs) <;> (try simp)

@[simp]
theorem handleProcessingFinished_mainTimer (s : TrafficSystem) (i : Int) (n : Int) (ids : List Int) :
    (handleProcessingFinished s i n ids).mainTimer = s.mainTimer := by
  unfold handleProcessingFinished; split_ifs <;> (try simp) <;> (try split_ifs) <;> (try simp)

@[simp]
theorem handleProcessingFinished_sensorTimer (s : TrafficSystem) (i : Int) (n : Int) (ids : List Int) :
    (handleProcessingFinished s i n ids).sensorTimer = s.sensorTimer := by
  unfold handleProcessingFinished; split_ifs <;> (try simp) <;> (try split_ifs) <;> (try simp)

@[simp]
theorem handleProcessingFinished_arduinoExists (s : TrafficSystem) (i : Int) (n : Int) (ids : List Int) :
    (handleProcessingFinished s i n ids).arduinoExists = s.arduinoExists := by
  unfold handleProcessingFinished; split_ifs <;> (try simp) <;> (try split_ifs) <;> (try simp)

@[simp]
theorem handleProcessingFinished_arduinoOpen (s : TrafficSystem) (i : Int) (n : Int) (ids : List Int) :
    (handleProcessingFinished s i n ids).arduinoOpen = s.arduinoOpen := by
  unfold handleProcessingFinished; split_ifs <;> (try simp) <;> (try split_ifs) <;> (try simp)

@[simp]
theorem handleProcessingFinished_arduinoData (s : TrafficSystem) (i : Int) (n : Int) (ids : List Int) :
    (handleProcessingFinished s i n ids).arduinoData = s.arduinoData := by
  unfold handleProcessingFinished; split_ifs <;> (try simp) <;> (try split_ifs) <;> (try simp)

@[simp]
theorem handleProcessingFinished_roadToProcess (s : TrafficSystem) (i : Int) (n : Int) (ids : List Int) :
    (handleProcessingFinished s i n ids).roadToProcess = s.roadToProcess := by
  unfold handleProcessingFinished; split_ifs <;> (try simp) <;> (try split_ifs) <;> (try simp)

@[simp]
theorem disconnectCamera_currentLights (s : TrafficSystem) (i : Int) :
    (disconnectCamera s i).currentLights = s.currentLights := by
  unfold disconnectCamera; split_ifs <;> (try simp) <;> (try split_ifs) <;> (try simp)

@[simp]
theorem disconnectCamera_systemRunning (s : TrafficSystem) (i : Int) :
    (disconnectCamera s i).systemRunning = s.systemRunning := by
  unfold disconnectCamera; split_ifs <;> (try simp) <;> (try split_ifs) <;> (try simp)

@[simp]
theorem disconnectCamera_m_workerBusy (s : TrafficSystem) (i : Int) :
    (disconnectCamera s i).m_workerBusy = s.m_workerBusy := by
  unfold disconnectCamera; split_ifs <;> (try simp) <;> (try split_ifs) <;> (try simp)

@[simp]
theorem disconnectCamera_currentRoadIndex (s : TrafficSystem) (i : Int) :
    (disconnectCamera s i).currentRoadIndex = s.currentRoadIndex := by
  unfold disconnectCamera; split_ifs <;> (try simp) <;> (try split_ifs) <;> (try simp)

@[simp]
theorem disconnectCamera_lightTimeRemaining (s : TrafficSystem) (i : Int) :
    (disconnectCamera s i).lightTimeRemaining = s.lightTimeRemaining := by
  unfold disconnectCamera; split_ifs <;> (try simp) <;> (try split_ifs) <;> (try simp)

@[simp]
theorem disconnectCamera_yellowLightActive (s : TrafficSystem) (i : Int) :
    (disconnectCamera s i).yellowLightActive = s.yellowLightActive := by
  unfold disconnectCamera; split_ifs <;> (try simp) <;> (try split_ifs) <;> (try simp)

@[simp]
theorem disconnectCamera_yellowLightFixedDuration (s : TrafficSystem) (i : Int) :
    (disconnectCamera s i).yellowLightFixedDuration = s.yellowLightFixedDuration := by
  unfold disconnectCamera; split_ifs <;> (try simp) <;> (try split_ifs) <;> (try simp)

@[simp]
theorem disconnectCamera_energySavingMode (s : TrafficSystem) (i : Int) :
    (disconnectCamera s i).energySavingMode = s.energySavingMode := by
  unfold disconnectCamera; split_ifs <;> (try simp) <;> (try split_ifs) <;> (try simp)

@[simp]
theorem disconnectCamera_energySavingEnabled (s : TrafficSystem) (i : Int) :
    (disconnectCamera s i).energySavingEnabled = s.energySavingEnabled := by
  unfold disconnectCamera; split_ifs <;> (try simp) <;> (try split_ifs) <;> (try simp)

@[simp]
theorem disconnectCamera_lightDurations (s : TrafficSystem) (i : Int) :
    (disconnectCamera s i).lightDurations = s.lightDurations := by
  unfold disconnectCamera; split_ifs <;> (try simp) <;> (try split_ifs) <;> (try simp)

@[simp]
theorem disconnectCamera_violationDetectionEnabled (s : TrafficSystem) (i : Int) :
    (disconnectCamera s i).violationDetectionEnabled = s.violationDetectionEnabled := by
  unfold disconnectCamera; split_ifs <;> (try simp) <;> (try split_ifs) <;> (try simp)

@[simp]
theorem disconnectCamera_mainTimer (s : TrafficSystem) (i : Int) :
    (disconnectCamera s i).mainTimer = s.mainTimer := by
  unfold disconnectCamera; split_ifs <;> (try simp) <;> (try split_ifs) <;> (try simp)

@[simp]
theorem disconnectCamera_lightTimer (s : TrafficSystem) (i : Int) :
    (disconnectCamera s i).lightTimer = s.lightTimer := by
  unfold disconnectCamera; split_ifs <;> (try simp) <;> (try split_ifs) <;> (try simp)

@[simp]
theorem disconnectCamera_sensorTimer (s : TrafficSystem) (i : Int) :
    (disconnectCamera s i).sensorTimer = s.sensorTimer := by
  unfold disconnectCamera; split_ifs <;> (try simp) <;> (try split_ifs) <;> (try simp)

@[simp]
theorem disconnectCamera_arduinoExists (s : TrafficSystem) (i : Int) :
    (disconnectCamera s i).arduinoExists = s.arduinoExists := by
  unfold disconnectCamera; split_ifs <;> (try simp) <;> (try split_ifs) <;> (try simp)

@[simp]
theorem disconnectCamera_arduinoOpen (s : TrafficSystem) (i : Int) :
    (disconnectCamera s i).arduinoOpen = s.arduinoOpen := by
  unfold disconnectCamera; split_ifs <;> (try simp) <;> (try split_ifs) <;> (try simp)

@[simp]
theorem disconnectCamera_arduinoData (s : TrafficSystem) (i : Int) :
    (disconnectCamera s i).arduinoData = s.arduinoData := by
  unfold disconnectCamera; split_ifs <;> (try simp) <;> (try split_ifs) <;> (try simp)

@[simp]
theorem disconnectCamera_roadToProcess (s : TrafficSystem) (i : Int) :
    (disconnectCamera s i).roadToProcess = s.roadToProcess := by
  unfold disconnectCamera; split_ifs <;> (try simp) <;> (try split_ifs) <;> (try simp)

@[simp]
theorem disconnectCamera_serialOut (s : TrafficSystem) (i : Int) :
    (disconnectCamera s i).serialOut = s.serialOut := by
  unfold disconnectCamera; split_ifs <;> (try simp) <;> (try split_ifs) <;> (try simp)

@[simp]
theorem disconnectCamera_lightHistory (s : TrafficSystem) (i : Int) :
    (disconnectCamera s i).lightHistory = s.lightHistory := by
  unfold disconnectCamera; split_ifs <;> (try simp) <;> (try split_ifs) <;> (try simp)

end

/-! ## Frame lemmas for the inbound serial path -/

section

set_option linter.unnecessarySeqFocus false
set_option linter.unusedTactic false
set_option linter.unreachableTactic false
set_option linter.unusedVariables false

@[simp]
theorem saveViolationScreenshot_roads (s : TrafficSystem) (i n : Int) (ok : Bool) :
    (saveViolationScreenshot s i n ok).roads = s.roads := by
  unfold saveViolationScreenshot; split <;> (try split_ifs) <;> rfl

@[simp]
theorem saveViolationScreenshot_currentLights (s : TrafficSystem) (i n : Int) (ok : Bool) :
    (saveViolationScreenshot s i n ok).currentLights = s.currentLights := by
  unfold saveViolationScreenshot; split <;> (try split_ifs) <;> rfl

@[simp]
theorem saveViolationScreenshot_systemRunning (s : TrafficSystem) (i n : Int) (ok : Bool) :
    (saveViolationScreenshot s i n ok).systemRunning = s.systemRunning := by
  unfold saveViolationScreenshot; split <;> (try split_ifs) <;> rfl

@[simp]
theorem saveViolationScreenshot_m_workerBusy (s : TrafficSystem) (i n : Int) (ok : Bool) :
    (saveViolationScreenshot s i n ok).m_workerBusy = s.m_workerBusy := by
  unfold saveViolationScreenshot; split <;> (try split_ifs) <;> rfl

@[simp]
theorem saveViolationScreenshot_currentRoadIndex (s : TrafficSystem) (i n : Int) (ok : Bool) :
    (saveViolationScreenshot s i n ok).currentRoadIndex = s.currentRoadIndex := by
  unfold saveViolationScreenshot; split <;> (try split_ifs) <;> rfl

@[simp]
theorem saveViolationScreenshot_lightTimeRemaining (s : TrafficSystem) (i n : Int) (ok : Bool) :
    (saveViolationScreenshot s i n ok).lightTimeRemaining = s.lightTimeRemaining := by
  unfold saveViolationScreenshot; split <;> (try split_ifs) <;> rfl

@[simp]
theorem saveViolationScreenshot_yellowLightActive (s : TrafficSystem) (i n : Int) (ok : Bool) :
    (saveViolationScreenshot s i n ok).yellowLightActive = s.yellowLightActive := by
  unfold saveViolationScreenshot; split <;> (try split_ifs) <;> rfl

@[simp]
theorem saveViolationScreenshot_yellowLightFixedDuration (s : TrafficSystem) (i n : Int) (ok : Bool) :
    (saveViolationScreenshot s i n ok).yellowLightFixedDuration = s.yellowLightFixedDuration := by
  unfold saveViolationScreenshot; split <;> (try split_ifs) <;> rfl

@[simp]
theorem saveViolationScreenshot_energySavingMode (s : TrafficSystem) (i n : Int) (ok : Bool) :
    (saveViolationScreenshot s i n ok).energySavingMode = s.energySavingMode := by
  unfold saveViolationScreenshot; split <;> (try split_ifs) <;> rfl

@[simp]
theorem saveViolationScreenshot_energySavingEnabled (s : TrafficSystem) (i n : Int) (ok : Bool) :
    (saveViolationScreenshot s i n ok).energySavingEnabled = s.energySavingEnabled := by
  unfold saveViolationScreenshot; split <;> (try split_ifs) <;> rfl

@[simp]
theorem saveViolationScreenshot_lightDurations (s : TrafficSystem) (i n : Int) (ok : Bool) :
    (saveViolationScreenshot s i n ok).lightDurations = s.lightDurations := by
  unfold saveViolationScreenshot; split <;> (try split_ifs) <;> rfl

@[simp]
theorem saveViolationScreenshot_violationDetectionEnabled (s : TrafficSystem) (i n : Int) (ok : Bool) :
    (saveViolationScreenshot s i n ok).violationDetectionEnabled = s.violationDetectionEnabled := by
  unfold saveViolationScreenshot; split <;> (try split_ifs) <;> rfl

@[simp]
theorem saveViolationScreenshot_mainTimer (s : TrafficSystem) (i n : Int) (ok : Bool) :
    (saveViolationScreenshot s i n ok).mainTimer = s.mainTimer := by
  unfold saveViolationScreenshot; split <;> (try split_ifs) <;> rfl

@[simp]
theorem saveViolationScreenshot_lightTimer (s : TrafficSystem) (i n : Int) (ok : Bool) :
    (saveViolationScreenshot s i n ok).lightTimer = s.lightTimer := by
  unfold saveViolationScreenshot; split <;> (try split_ifs) <;> rfl

@[simp]
theorem saveViolationScreenshot_sensorTimer (s : TrafficSystem) (i n : Int) (ok : Bool) :
    (saveViolationScreenshot s i n ok).sensorTimer = s.sensorTimer := by
  unfold saveViolationScreenshot; split <;> (try split_ifs) <;> rfl

@[simp]
theorem saveViolationScreenshot_arduinoExists (s : TrafficSystem) (i n : Int) (ok : Bool) :
    (saveViolationScreenshot s i n ok).arduinoExists = s.arduinoExists := by
  unfold saveViolationScreenshot; split <;> (try split_ifs) <;> rfl

@[simp]
theorem saveViolationScreenshot_arduinoOpen (s : TrafficSystem) (i n : Int) (ok : Bool) :
    (saveViolationScreenshot s i n ok).arduinoOpen = s.arduinoOpen := by
  unfold saveViolationScreenshot; split <;> (try split_ifs) <;> rfl

@[simp]
theorem saveViolationScreenshot_roadToProcess (s : TrafficSystem) (i n : Int) (ok : Bool) :
    (saveViolationScreenshot s i n ok).roadToProcess = s.roadToProcess := by
  unfold saveViolationScreenshot; split <;> (try split_ifs) <;> rfl

@[simp]
theorem saveViolationScreenshot_serialOut (s : TrafficSystem) (i n : Int) (ok : Bool) :
    (saveViolationScreenshot s i n ok).serialOut = s.serialOut := by
  unfold saveViolationScreenshot; split <;> (try split_ifs) <;> rfl

@[simp]
theorem saveViolationScreenshot_lightHistory (s : TrafficSystem) (i n : Int) (ok : Bool) :
    (saveViolationScreenshot s i n ok).lightHistory = s.lightHistory := by
  unfold saveViolationScreenshot; split <;> (try split_ifs) <;> rfl

@[simp]
theorem checkSensor_roads (s : TrafficSystem) (ns : Int → Bool) (ok : Int → Bool) (i : Int) :
    (checkSensor s ns ok i).roads = s.roads := by
  simp only [checkSensor]; split_ifs <;> simp

@[simp]
theorem checkSensor_currentLights (s : TrafficSystem) (ns : Int → Bool) (ok : Int → Bool) (i : Int) :
    (checkSensor s ns ok i).currentLights = s.currentLights := by
  simp only [checkSensor]; split_ifs <;> simp

@[simp]
theorem checkSensor_systemRunning (s : TrafficSystem) (ns : Int → Bool) (ok : Int → Bool) (i : Int) :
    (checkSensor s ns ok i).systemRunning = s.systemRunning := by
  simp only [checkSensor]; split_ifs <;> simp

@[simp]
theorem checkSensor_m_workerBusy (s : TrafficSystem) (ns : Int → Bool) (ok : Int → Bool) (i : Int) :
    (checkSensor s ns ok i).m_workerBusy = s.m_workerBusy := by
  simp only [checkSensor]; split_ifs <;> simp

@[simp]
theorem checkSensor_currentRoadIndex (s : TrafficSystem) (ns : Int → Bool) (ok : Int → Bool) (i : Int) :
    (checkSensor s ns ok i).currentRoadIndex = s.currentRoadIndex := by
  simp only [checkSensor]; split_ifs <;> simp

@[simp]
theorem checkSensor_lightTimeRemaining (s : TrafficSystem) (ns : Int → Bool) (ok : Int → Bool) (i : Int) :
    (checkSensor s ns ok i).lightTimeRemaining = s.lightTimeRemaining := by
  simp only [checkSensor]; split_ifs <;> simp

@[simp]
theorem checkSensor_yellowLightActive (s : TrafficSystem) (ns : Int → Bool) (ok : Int → Bool) (i : Int) :
    (checkSensor s ns ok i).yellowLightActive = s.yellowLightActive := by
  simp only [checkSensor]; split_ifs <;> simp

@[simp]
theorem checkSensor_yellowLightFixedDuration (s : TrafficSystem) (ns : Int → Bool) (ok : Int → Bool) (i : Int) :
    (checkSensor s ns ok i).yellowLightFixedDuration = s.yellowLightFixedDuration := by
  simp only [checkSensor]; split_ifs <;> simp

@[simp]
theorem checkSensor_energySavingMode (s : TrafficSystem) (ns : Int → Bool) (ok : Int → Bool) (i : Int) :
    (checkSensor s ns ok i).energySavingMode = s.energySavingMode := by
  simp only [checkSensor]; split_ifs <;> simp

@[simp]
theorem checkSensor_energySavingEnabled (s : TrafficSystem) (ns : Int → Bool) (ok : Int → Bool) (i : Int) :
    (checkSensor s ns ok i).energySavingEnabled = s.energySavingEnabled := by
  simp only [checkSensor]; split_ifs <;> simp

@[simp]
theorem checkSensor_lightDurations (s : TrafficSystem) (ns : Int → Bool) (ok : Int → Bool) (i : Int) :
    (checkSensor s ns ok i).lightDurations = s.lightDurations := by
  simp only [checkSensor]; split_ifs <;> simp

@[simp]
theorem checkSensor_violationDetectionEnabled (s : TrafficSystem) (ns : Int → Bool) (ok : Int → Bool) (i : Int) :
    (checkSensor s ns ok i).violationDetectionEnabled = s.violationDetectionEnabled := by
  simp only [checkSensor]; split_ifs <;> simp

@[simp]
theorem checkSensor_mainTimer (s : TrafficSystem) (ns : Int → Bool) (ok : Int → Bool) (i : Int) :
    (checkSensor s ns ok i).mainTimer = s.mainTimer := by
  simp only [checkSensor]; split_ifs <;> simp

@[simp]
theorem checkSensor_lightTimer (s : TrafficSystem) (ns : Int → Bool) (ok : Int → Bool) (i : Int) :
    (checkSensor s ns ok i).lightTimer = s.lightTimer := by
  simp only [checkSensor]; split_ifs <;> simp

@[simp]
theorem checkSensor_sensorTimer (s : TrafficSystem) (ns : Int → Bool) (ok : Int → Bool) (i : Int) :
    (checkSensor s ns ok i).sensorTimer = s.sensorTimer := by
  simp only [checkSensor]; split_ifs <;> simp

@[simp]
theorem checkSensor_arduinoExists (s : TrafficSystem) (ns : Int → Bool) (ok : Int → Bool) (i : Int) :
    (checkSensor s ns ok i).arduinoExists = s.arduinoExists := by
  simp only [checkSensor]; split_ifs <;> simp

@[simp]
theorem checkSensor_arduinoOpen (s : TrafficSystem) (ns : Int → Bool) (ok : Int → Bool) (i : Int) :
    (checkSensor s ns ok i).arduinoOpen = s.arduinoOpen := by
  simp only [checkSensor]; split_ifs <;> simp

@[simp]
theorem checkSensor_roadToProcess (s : TrafficSystem) (ns : Int → Bool) (ok : Int → Bool) (i : Int) :
    (checkSensor s ns ok i).roadToProcess = s.roadToProcess := by
  simp only [checkSensor]; split_ifs <;> simp

@[simp]
theorem checkSensor_serialOut (s : TrafficSystem) (ns : Int → Bool) (ok : Int → Bool) (i : Int) :
    (checkSensor s ns ok i).serialOut = s.serialOut := by
  simp only [checkSensor]; split_ifs <;> simp

@[simp]
theorem checkSensor_lightHistory (s : TrafficSystem) (ns : Int → Bool) (ok : Int → Bool) (i : Int) :
    (checkSensor s ns ok i).lightHistory = s.lightHistory := by
  simp only [checkSensor]; split_ifs <;> simp

@[simp]
theorem parseArduinoData_roads (s : TrafficSystem) (d : List Char) (ok : Int → Bool) :
    (parseArduinoData s d ok).roads = s.roads := by
  simp only [parseArduinoData, List.foldl]; split_ifs <;> simp

@[simp]
theorem parseArduinoData_currentLights (s : TrafficSystem) (d : List Char) (ok : Int → Bool) :
    (parseArduinoData s d ok).currentLights = s.currentLights := by
  simp only [parseArduinoData, List.foldl]; split_ifs <;> simp

@[simp]
theorem parseArduinoData_systemRunning (s : TrafficSystem) (d : List Char) (ok : Int → Bool) :
    (parseArduinoData s d ok).systemRunning = s.systemRunning := by
  simp only [parseArduinoData, List.foldl]; split_ifs <;> simp

@[simp]
theorem parseArduinoData_m_workerBusy (s : TrafficSystem) (d : List Char) (ok : Int → Bool) :
    (parseArduinoData s d ok).m_workerBusy = s.m_workerBusy := by
  simp only [parseArduinoData, List.foldl]; split_ifs <;> simp

@[simp]
theorem parseArduinoData_currentRoadIndex (s : TrafficSystem) (d : List Char) (ok : Int → Bool) :
    (parseArduinoData s d ok).currentRoadIndex = s.currentRoadIndex := by
  simp only [parseArduinoData, List.foldl]; split_ifs <;> simp

@[simp]
theorem parseArduinoData_lightTimeRemaining (s : TrafficSystem) (d : List Char) (ok : Int → Bool) :
    (parseArduinoData s d ok).lightTimeRemaining = s.lightTimeRemaining := by
  simp only [parseArduinoData, List.foldl]; split_ifs <;> simp

@[simp]
theorem parseArduinoData_yellowLightActive (s : TrafficSystem) (d : List Char) (ok : Int → Bool) :
    (parseArduinoData s d ok).yellowLightActive = s.yellowLightActive := by
  simp only [parseArduinoData, List.foldl]; split_ifs <;> simp

@[simp]
theorem parseArduinoData_yellowLightFixedDuration (s : TrafficSystem) (d : List Char) (ok : Int → Bool) :
    (parseArduinoData s d ok).yellowLightFixedDuration = s.yellowLightFixedDuration := by
  simp only [parseArduinoData, List.foldl]; split_ifs <;> simp

@[simp]
theorem parseArduinoData_energySavingMode (s : TrafficSystem) (d : List Char) (ok : Int → Bool) :
    (parseArduinoData s d ok).energySavingMode = s.energySavingMode := by
  simp only [parseArduinoData, List.foldl]; split_ifs <;> simp

@[simp]
theorem parseArduinoData_energySavingEnabled (s : TrafficSystem) (d : List Char) (ok : Int → Bool) :
    (parseArduinoData s d ok).energySavingEnabled = s.energySavingEnabled := by
  simp only [parseArduinoData, List.foldl]; split_ifs <;> simp

@[simp]
theorem parseArduinoData_lightDurations (s : TrafficSystem) (d : List Char) (ok : Int → Bool) :
    (parseArduinoData s d ok).lightDurations = s.lightDurations := by
  simp only [parseArduinoData, List.foldl]; split_ifs <;> simp

@[simp]
theorem parseArduinoData_violationDetectionEnabled (s : TrafficSystem) (d : List Char) (ok : Int → Bool) :
    (parseArduinoData s d ok).violationDetectionEnabled = s.violationDetectionEnabled := by
  simp only [parseArduinoData, List.foldl]; split_ifs <;> simp

@[simp]
theorem parseArduinoData_mainTimer (s : TrafficSystem) (d : List Char) (ok : Int → Bool) :
    (parseArduinoData s d ok).mainTimer = s.mainTimer := by
  simp only [parseArduinoData, List.foldl]; split_ifs <;> simp

@[simp]
theorem parseArduinoData_lightTimer (s : TrafficSystem) (d : List Char) (ok : Int → Bool) :
    (parseArduinoData s d ok).lightTimer = s.lightTimer := by
  simp only [parseArduinoData, List.foldl]; split_ifs <;> simp

@[simp]
theorem parseArduinoData_sensorTimer (s : TrafficSystem) (d : List Char) (ok : Int → Bool) :
    (parseArduinoData s d ok).sensorTimer = s.sensorTimer := by
  simp only [parseArduinoData, List.foldl]; split_ifs <;> simp

@[simp]
theorem parseArduinoData_arduinoExists (s : TrafficSystem) (d : List Char) (ok : Int → Bool) :
    (parseArduinoData s d ok).arduinoExists = s.arduinoExists := by
  simp only [parseArduinoData, List.foldl]; split_ifs <;> simp

@[simp]
theorem parseArduinoData_arduinoOpen (s : TrafficSystem) (d : List Char) (ok : Int → Bool) :
    (parseArduinoData s d ok).arduinoOpen = s.arduinoOpen := by
  simp only [parseArduinoData, List.foldl]; split_ifs <;> simp

@[simp]
theorem parseArduinoData_roadToProcess (s : TrafficSystem) (d : List Char) (ok : Int → Bool) :
    (parseArduinoData s d ok).roadToProcess = s.roadToProcess := by
  simp only [parseArduinoData, List.foldl]; split_ifs <;> simp

@[simp]
theorem parseArduinoData_serialOut (s : TrafficSystem) (d : List Char) (ok : Int → Bool) :
    (parseArduinoData s d ok).serialOut = s.serialOut := by
  simp only [parseArduinoData, List.foldl]; split_ifs <;> simp

@[simp]
theorem parseArduinoData_lightHistory (s : TrafficSystem) (d : List Char) (ok : Int → Bool) :
    (parseArduinoData s d ok).lightHistory = s.lightHistory := by
  simp only [parseArduinoData, List.foldl]; split_ifs <;> simp

@[simp]
theorem drainBuffer_roads (ok : Int → Bool) (n : Nat) (s : TrafficSystem) :
    (drainBuffer ok n s).roads = s.roads := by
  induction n generalizing s with
  | zero => rfl
  | succ n ih => simp only [drainBuffer]; split_ifs <;> simp [ih]

@[simp]
theorem drainBuffer_currentLights (ok : Int → Bool) (n : Nat) (s : TrafficSystem) :
    (drainBuffer ok n s).currentLights = s.currentLights := by
  induction n generalizing s with
  | zero => rfl
  | succ n ih => simp only [drainBuffer]; split_ifs <;> simp [ih]

@[simp]
theorem drainBuffer_systemRunning (ok : Int → Bool) (n : Nat) (s : TrafficSystem) :
    (drainBuffer ok n s).systemRunning = s.systemRunning := by
  induction n generalizing s with
  | zero => rfl
  | succ n ih => simp only [drainBuffer]; split_ifs <;> simp [ih]

@[simp]
theorem drainBuffer_m_workerBusy (ok : Int → Bool) (n : Nat) (s : TrafficSystem) :
    (drainBuffer ok n s).m_workerBusy = s.m_workerBusy := by
  induction n generalizing s with
  | zero => rfl
  | succ n ih => simp only [drainBuffer]; split_ifs <;> simp [ih]

@[simp]
theorem drainBuffer_currentRoadIndex (ok : Int → Bool) (n : Nat) (s : TrafficSystem) :
    (drainBuffer ok n s).currentRoadIndex = s.currentRoadIndex := by
  induction n generalizing s with
  | zero => rfl
  | succ n ih => simp only [drainBuffer]; split_ifs <;> simp [ih]

@[simp]
theorem drainBuffer_lightTimeRemaining (ok : Int → Bool) (n : Nat) (s : TrafficSystem) :
    (drainBuffer ok n s).lightTimeRemaining = s.lightTimeRemaining := by
  induction n generalizing s with
  | zero => rfl
  | succ n ih => simp only [drainBuffer]; split_ifs <;> simp [ih]

@[simp]
theorem drainBuffer_yellowLightActive (ok : Int → Bool) (n : Nat) (s : TrafficSystem) :
    (drainBuffer ok n s).yellowLightActive = s.yellowLightActive := by
  induction n generalizing s with
  | zero => rfl
  | succ n ih => simp only [drainBuffer]; split_ifs <;> simp [ih]

@[simp]
theorem drainBuffer_yellowLightFixedDuration (ok : Int → Bool) (n : Nat) (s : TrafficSystem) :
    (drainBuffer ok n s).yellowLightFixedDuration = s.yellowLightFixedDuration := by
  induction n generalizing s with
  | zero => rfl
  | succ n ih => simp only [drainBuffer]; split_ifs <;> simp [ih]

@[simp]
theorem drainBuffer_energySavingMode (ok : Int → Bool) (n : Nat) (s : TrafficSystem) :
    (drainBuffer ok n s).energySavingMode = s.energySavingMode := by
  induction n generalizing s with
  | zero => rfl
  | succ n ih => simp only [drainBuffer]; split_ifs <;> simp [ih]

@[simp]
theorem drainBuffer_energySavingEnabled (ok : Int → Bool) (n : Nat) (s : TrafficSystem) :
    (drainBuffer ok n s).energySavingEnabled = s.energySavingEnabled := by
  induction n generalizing s with
  | zero => rfl
  | succ n ih => simp only [drainBuffer]; split_ifs <;> simp [ih]

@[simp]
theorem drainBuffer_lightDurations (ok : Int → Bool) (n : Nat) (s : TrafficSystem) :
    (drainBuffer ok n s).lightDurations = s.lightDurations := by
  induction n generalizing s with
  | zero => rfl
  | succ n ih => simp only [drainBuffer]; split_ifs <;> simp [ih]

@[simp]
theorem drainBuffer_violationDetectionEnabled (ok : Int → Bool) (n : Nat) (s : TrafficSystem) :
    (drainBuffer ok n s).violationDetectionEnabled = s.violationDetectionEnabled := by
  induction n generalizing s with
  | zero => rfl
  | succ n ih => simp only [drainBuffer]; split_ifs <;> simp [ih]

@[simp]
theorem drainBuffer_mainTimer (ok : Int → Bool) (n : Nat) (s : TrafficSystem) :
    (drainBuffer ok n s).mainTimer = s.mainTimer := by
  induction n generalizing s with
  | zero => rfl
  | succ n ih => simp only [drainBuffer]; split_ifs <;> simp [ih]

@[simp]
theorem drainBuffer_lightTimer (ok : Int → Bool) (n : Nat) (s : TrafficSystem) :
    (drainBuffer ok n s).lightTimer = s.lightTimer := by
  induction n generalizing s with
  | zero => rfl
  | succ n ih => simp only [drainBuffer]; split_ifs <;> simp [ih]

@[simp]
theorem drainBuffer_sensorTimer (ok : Int → Bool) (n : Nat) (s : TrafficSystem) :
    (drainBuffer ok n s).sensorTimer = s.sensorTimer := by
  induction n generalizing s with
  | zero => rfl
  | succ n ih => simp only [drainBuffer]; split_ifs <;> simp [ih]

@[simp]
theorem drainBuffer_arduinoExists (ok : Int → Bool) (n : Nat) (s : TrafficSystem) :
    (drainBuffer ok n s).arduinoExists = s.arduinoExists := by
  induction n generalizing s with
  | zero => rfl
  | succ n ih => simp only [drainBuffer]; split_ifs <;> simp [ih]

@[simp]
theorem drainBuffer_arduinoOpen (ok : Int → Bool) (n : Nat) (s : TrafficSystem) :
    (drainBuffer ok n s).arduinoOpen = s.arduinoOpen := by
  induction n generalizing s with
  | zero => rfl
  | succ n ih => simp only [drainBuffer]; split_ifs <;> simp [ih]

@[simp]
theorem drainBuffer_roadToProcess (ok : Int → Bool) (n : Nat) (s : TrafficSystem) :
    (drainBuffer ok n s).roadToProcess = s.roadToProcess := by
  induction n generalizing s with
  | zero => rfl
  | succ n ih => simp only [drainBuffer]; split_ifs <;> simp [ih]

@[simp]
theorem drainBuffer_serialOut (ok : Int → Bool) (n : Nat) (s : TrafficSystem) :
    (drainBuffer ok n s).serialOut = s.serialOut := by
  induction n generalizing s with
  | zero => rfl
  | succ n ih => simp only [drainBuffer]; split_ifs <;> simp [ih]

@[simp]
theorem drainBuffer_lightHistory (ok : Int → Bool) (n : Nat) (s : TrafficSystem) :
    (drainBuffer ok n s).lightHistory = s.lightHistory := by
  induction n generalizing s with
  | zero => rfl
  | succ n ih => simp only [drainBuffer]; split_ifs <;> simp [ih]

@[simp]
theorem onArduinoDataReceived_roads (s : TrafficSystem) (d : List Char) (ok : Int → Bool) :
    (onArduinoDataReceived s d ok).roads = s.roads := by
  simp only [onArduinoDataReceived]; split_ifs <;> simp

@[simp]
theorem onArduinoDataReceived_currentLights (s : TrafficSystem) (d : List Char) (ok : Int → Bool) :
    (onArduinoDataReceived s d ok).currentLights = s.currentLights := by
  simp only [onArduinoDataReceived]; split_ifs <;> simp

@[simp]
theorem onArduinoDataReceived_systemRunning (s : TrafficSystem) (d : List Char) (ok : Int → Bool) :
    (onArduinoDataReceived s d ok).systemRunning = s.systemRunning := by
  simp only [onArduinoDataReceived]; split_ifs <;> simp

@[simp]
theorem onArduinoDataReceived_m_workerBusy (s : TrafficSystem) (d : List Char) (ok : Int → Bool) :
    (onArduinoDataReceived s d ok).m_workerBusy = s.m_workerBusy := by
  simp only [onArduinoDataReceived]; split_ifs <;> simp

@[simp]
theorem onArduinoDataReceived_currentRoadIndex (s : TrafficSystem) (d : List Char) (ok : Int → Bool) :
    (onArduinoDataReceived s d ok).currentRoadIndex = s.currentRoadIndex := by
  simp only [onArduinoDataReceived]; split_ifs <;> simp

@[simp]
theorem onArduinoDataReceived_lightTimeRemaining (s : TrafficSystem) (d : List Char) (ok : Int → Bool) :
    (onArduinoDataReceived s d ok).lightTimeRemaining = s.lightTimeRemaining := by
  simp only [onArduinoDataReceived]; split_ifs <;> simp

@[simp]
theorem onArduinoDataReceived_yellowLightActive (s : TrafficSystem) (d : List Char) (ok : Int → Bool) :
    (onArduinoDataReceived s d ok).yellowLightActive = s.yellowLightActive := by
  simp only [onArduinoDataReceived]; split_ifs <;> simp

@[simp]
theorem onArduinoDataReceived_yellowLightFixedDuration (s : TrafficSystem) (d : List Char) (ok : Int → Bool) :
    (onArduinoDataReceived s d ok).yellowLightFixedDuration = s.yellowLightFixedDuration := by
  simp only [onArduinoDataReceived]; split_ifs <;> simp

@[simp]
theorem onArduinoDataReceived_energySavingMode (s : TrafficSystem) (d : List Char) (ok : Int → Bool) :
    (onArduinoDataReceived s d ok).energySavingMode = s.energySavingMode := by
  simp only [onArduinoDataReceived]; split_ifs <;> simp

@[simp]
theorem onArduinoDataReceived_energySavingEnabled (s : TrafficSystem) (d : List Char) (ok : Int → Bool) :
    (onArduinoDataReceived s d ok).energySavingEnabled = s.energySavingEnabled := by
  simp only [onArduinoDataReceived]; split_ifs <;> simp

@[simp]
theorem onArduinoDataReceived_lightDurations (s : TrafficSystem) (d : List Char) (ok : Int → Bool) :
    (onArduinoDataReceived s d ok).lightDurations = s.lightDurations := by
  simp only [onArduinoDataReceived]; split_ifs <;> simp

@[simp]
theorem onArduinoDataReceived_violationDetectionEnabled (s : TrafficSystem) (d : List Char) (ok : Int → Bool) :
    (onArduinoDataReceived s d ok).violationDetectionEnabled = s.violationDetectionEnabled := by
  simp only [onArduinoDataReceived]; split_ifs <;> simp

@[simp]
theorem onArduinoDataReceived_mainTimer (s : TrafficSystem) (d : List Char) (ok : Int → Bool) :
    (onArduinoDataReceived s d ok).mainTimer = s.mainTimer := by
  simp only [onArduinoDataReceived]; split_ifs <;> simp

@[simp]
theorem onArduinoDataReceived_lightTimer (s : TrafficSystem) (d : List Char) (ok : Int → Bool) :
    (onArduinoDataReceived s d ok).lightTimer = s.lightTimer := by
  simp only [onArduinoDataReceived]; split_ifs <;> simp

@[simp]
theorem onArduinoDataReceived_sensorTimer (s : TrafficSystem) (d : List Char) (ok : Int → Bool) :
    (onArduinoDataReceived s d ok).sensorTimer = s.sensorTimer := by
  simp only [onArduinoDataReceived]; split_ifs <;> simp

@[simp]
theorem onArduinoDataReceived_arduinoExists (s : TrafficSystem) (d : List Char) (ok : Int → Bool) :
    (onArduinoDataReceived s d ok).arduinoExists = s.arduinoExists := by
  simp only [onArduinoDataReceived]; split_ifs <;> simp

@[simp]
theorem onArduinoDataReceived_arduinoOpen (s : TrafficSystem) (d : List Char) (ok : Int → Bool) :
    (onArduinoDataReceived s d ok).arduinoOpen = s.arduinoOpen := by
  simp only [onArduinoDataReceived]; split_ifs <;> simp

@[simp]
theorem onArduinoDataReceived_roadToProcess (s : TrafficSystem) (d : List Char) (ok : Int → Bool) :
    (onArduinoDataReceived s d ok).roadToProcess = s.roadToProcess := by
  simp only [onArduinoDataReceived]; split_ifs <;> simp

@[simp]
theorem onArduinoDataReceived_serialOut (s : TrafficSystem) (d : List Char) (ok : Int → Bool) :
    (onArduinoDataReceived s d ok).serialOut = s.serialOut := by
  simp only [onArduinoDataReceived]; split_ifs <;> simp

@[simp]
theorem onArduinoDataReceived_lightHistory (s : TrafficSystem) (d : List Char) (ok : Int → Bool) :
    (onArduinoDataReceived s d ok).lightHistory = s.lightHistory := by
  simp only [onArduinoDataReceived]; split_ifs <;> simp

@[simp]
theorem onSingleShot_roads (s : TrafficSystem) (shot : SingleShot) (ok : Bool) :
    (onSingleShot s shot ok).roads = s.roads := by
  cases shot <;> simp [onSingleShot]

@[simp]
theorem onSingleShot_currentLights (s : TrafficSystem) (shot : SingleShot) (ok : Bool) :
    (onSingleShot s shot ok).currentLights = s.currentLights := by
  cases shot <;> simp [onSingleShot]

@[simp]
theorem onSingleShot_systemRunning (s : TrafficSystem) (shot : SingleShot) (ok : Bool) :
    (onSingleShot s shot ok).systemRunning = s.systemRunning := by
  cases shot <;> simp [onSingleShot]

@[simp]
theorem onSingleShot_m_workerBusy (s : TrafficSystem) (shot : SingleShot) (ok : Bool) :
    (onSingleShot s shot ok).m_workerBusy = s.m_workerBusy := by
  cases shot <;> simp [onSingleShot]

@[simp]
theorem onSingleShot_currentRoadIndex (s : TrafficSystem) (shot : SingleShot) (ok : Bool) :
    (onSingleShot s shot ok).currentRoadIndex = s.currentRoadIndex := by
  cases shot <;> simp [onSingleShot]

@[simp]
theorem onSingleShot_lightTimeRemaining (s : TrafficSystem) (shot : SingleShot) (ok : Bool) :
    (onSingleShot s shot ok).lightTimeRemaining = s.lightTimeRemaining := by
  cases shot <;> simp [onSingleShot]

@[simp]
theorem onSingleShot_yellowLightActive (s : TrafficSystem) (shot : SingleShot) (ok : Bool) :
    (onSingleShot s shot ok).yellowLightActive = s.yellowLightActive := by
  cases shot <;> simp [onSingleShot]

@[simp]
theorem onSingleShot_yellowLightFixedDuration (s : TrafficSystem) (shot : SingleShot) (ok : Bool) :
    (onSingleShot s shot ok).yellowLightFixedDuration = s.yellowLightFixedDuration := by
  cases shot <;> simp [onSingleShot]

@[simp]
theorem onSingleShot_energySavingMode (s : TrafficSystem) (shot : SingleShot) (ok : Bool) :
    (onSingleShot s shot ok).energySavingMode = s.energySavingMode := by
  cases shot <;> simp [onSingleShot]

@[simp]
theorem onSingleShot_energySavingEnabled (s : TrafficSystem) (shot : SingleShot) (ok : Bool) :
    (onSingleShot s shot ok).energySavingEnabled = s.energySavingEnabled := by
  cases shot <;> simp [onSingleShot]

@[simp]
theorem onSingleShot_lightDurations (s : TrafficSystem) (shot : SingleShot) (ok : Bool) :
    (onSingleShot s shot ok).lightDurations = s.lightDurations := by
  cases shot <;> simp [onSingleShot]

@[simp]
theorem onSingleShot_violationDetectionEnabled (s : TrafficSystem) (shot : SingleShot) (ok : Bool) :
    (onSingleShot s shot ok).violationDetectionEnabled = s.violationDetectionEnabled := by
  cases shot <;> simp [onSingleShot]

@[simp]
theorem onSingleShot_mainTimer (s : TrafficSystem) (shot : SingleShot) (ok : Bool) :
    (onSingleShot s shot ok).mainTimer = s.mainTimer := by
  cases shot <;> simp [onSingleShot]

@[simp]
theorem onSingleShot_lightTimer (s : TrafficSystem) (shot : SingleShot) (ok : Bool) :
    (onSingleShot s shot ok).lightTimer = s.lightTimer := by
  cases shot <;> simp [onSingleShot]

@[simp]
theorem onSingleShot_sensorTimer (s : TrafficSystem) (shot : SingleShot) (ok : Bool) :
    (onSingleShot s shot ok).sensorTimer = s.sensorTimer := by
  cases shot <;> simp [onSingleShot]

@[simp]
theorem onSingleShot_arduinoExists (s : TrafficSystem) (shot : SingleShot) (ok : Bool) :
    (onSingleShot s shot ok).arduinoExists = s.arduinoExists := by
  cases shot <;> simp [onSingleShot]

@[simp]
theorem onSingleShot_arduinoOpen (s : TrafficSystem) (shot : SingleShot) (ok : Bool) :
    (onSingleShot s shot ok).arduinoOpen = s.arduinoOpen := by
  cases shot <;> simp [onSingleShot]

@[simp]
theorem onSingleShot_roadToProcess (s : TrafficSystem) (shot : SingleShot) (ok : Bool) :
    (onSingleShot s shot ok).roadToProcess = s.roadToProcess := by
  cases shot <;> simp [onSingleShot]

@[simp]
theorem onSingleShot_serialOut (s : TrafficSystem) (shot : SingleShot) (ok : Bool) :
    (onSingleShot s shot ok).serialOut = s.serialOut := by
  cases shot <;> simp [onSingleShot]

@[simp]
theorem onSingleShot_lightHistory (s : TrafficSystem) (shot : SingleShot) (ok : Bool) :
    (onSingleShot s shot ok).lightHistory = s.lightHistory := by
  cases shot <;> simp [onSingleShot]

end


theorem sameCore_onArduinoDataReceived (s : TrafficSystem) (d : List Char) (ok : Int → Bool) :
    SameCore (onArduinoDataReceived s d ok) s :=
  ⟨by simp, by simp, by simp, by simp, by simp, by simp, by simp⟩

theorem sameCore_onSingleShot (s : TrafficSystem) (shot : SingleShot) (ok : Bool) :
    SameCore (onSingleShot s shot ok) s :=
  ⟨by simp, by simp, by simp, by simp, by simp, by simp, by simp⟩

/-! ## The invariant holds in every reachable state -/

theorem inv_congr {s t : TrafficSystem} (h : Inv s)
    (hl : t.currentLights = s.currentLights) (hc : t.currentRoadIndex = s.currentRoadIndex)
    (hy : t.yellowLightActive = s.yellowLightActive) (hr : t.systemRunning = s.systemRunning)
    (hm : t.energySavingMode = s.energySavingMode) (ht : t.lightTimer = s.lightTimer)
    (hh : t.lightHistory = s.lightHistory) : Inv t := by
  constructor
  · rw [hc]; exact h.range
  · intro i; rw [hl, hc, hy, hr, hm]; exact h.green i
  · intro i; rw [hl, hc, hy, hr, hm]; exact h.yellow i
  · rw [hr, hm, ht]; exact h.timer
  · intro L hL; rw [hh] at hL; exact h.hist L hL

theorem inv_noOther {s : TrafficSystem} (h : Inv s) :
    NoOther s.currentRoadIndex s.currentLights := by
  intro i hi
  cases hL : s.currentLights i with
  | OFF => right; rfl
  | RED => left; rfl
  | YELLOW => exact absurd (h.yellow i hL).1 hi
  | GREEN => exact absurd (h.green i hL).1 hi

theorem inv_excl {s : TrafficSystem} (h : Inv s) : Excl s.currentLights :=
  noOther_excl (inv_noOther h)

/-- In a state that is stopped, in energy-saving mode or in its yellow sub-phase, no
light is GREEN; in a state that is stopped or in energy-saving mode, none is YELLOW. -/
theorem inv_dark {s : TrafficSystem} (h : Inv s)
    (hd : s.systemRunning = false ∨ s.energySavingMode = true) (i : Int) :
    s.currentLights i = TrafficLight.RED ∨ s.currentLights i = TrafficLight.OFF := by
  cases hL : s.currentLights i with
  | OFF => right; rfl
  | RED => left; rfl
  | YELLOW =>
    obtain ⟨_, _, hr, hm⟩ := h.yellow i hL
    rcases hd with hd | hd
    · rw [hr] at hd; cases hd
    · rw [hm] at hd; cases hd
  | GREEN =>
    obtain ⟨_, _, hr, hm⟩ := h.green i hL
    rcases hd with hd | hd
    · rw [hr] at hd; cases hd
    · rw [hm] at hd; cases hd

theorem processTrafficCycle_blocked {s : TrafficSystem}
    (hg : s.systemRunning = false ∨ s.energySavingMode = true ∨ s.yellowLightActive = true
      ∨ s.lightTimer.active = true) : processTrafficCycle s = s := by
  unfold processTrafficCycle
  rw [if_pos hg]

theorem processTrafficCycle_run {s : TrafficSystem}
    (hr : s.systemRunning = true) (hm : s.energySavingMode = false)
    (hy : s.yellowLightActive = false) (ht : s.lightTimer.active = false) :
    processTrafficCycle s =
      { cycleLights s with
        lightTimeRemaining :=
          getRedLightDuration (cycleLights s) (s.roads s.currentRoadIndex).density
        lightTimer := ⟨true, 1000⟩ } := by
  unfold processTrafficCycle
  rw [if_neg (by simp [hr, hm, hy, ht])]
  simp [QTimer.start]

theorem inv_processTrafficCycle {s : TrafficSystem} (h : Inv s) :
    Inv (processTrafficCycle s) := by
  by_cases hg : s.systemRunning = false ∨ s.energySavingMode = true
      ∨ s.yellowLightActive = true ∨ s.lightTimer.active = true
  · rw [processTrafficCycle_blocked hg]; exact h
  · have hr : s.systemRunning = true := by
      cases hx : s.systemRunning <;> simp [hx] at hg ⊢
    have hm : s.energySavingMode = false := by
      cases hx : s.energySavingMode <;> simp [hx] at hg ⊢
    have hy : s.yellowLightActive = false := by
      cases hx : s.yellowLightActive <;> simp [hx] at hg ⊢
    have ht : s.lightTimer.active = false := by
      cases hx : s.lightTimer.active <;> simp [hx] at hg ⊢
    rw [processTrafficCycle_run hr hm hy ht]
    have hrange := h.range
    constructor
    · simpa using hrange
    · intro i hi
      simp only [cycleLights_currentLights] at hi
      simp only [cycleLights_currentRoadIndex, cycleLights_yellowLightActive,
        cycleLights_systemRunning, cycleLights_energySavingMode]
      split_ifs at hi with h1 h2
      · exact ⟨h2, hy, hr, hm⟩
      · exact (h.green i hi)
    · intro i hi
      simp only [cycleLights_currentLights] at hi
      simp only [cycleLights_currentRoadIndex, cycleLights_yellowLightActive,
        cycleLights_systemRunning, cycleLights_energySavingMode]
      split_ifs at hi with h1 h2
      · exact (h.yellow i hi)
    · intro hd
      simp only [cycleLights_systemRunning, cycleLights_energySavingMode] at hd
      rw [hr, hm] at hd
      simp at hd
    · exact cycleLights_histOK h.hist (inv_noOther h)

theorem tmod_succ_range {c : Int} (h0 : 0 ≤ c) (h4 : c < 4) :
    0 ≤ Int.tmod (c + 1) 4 ∧ Int.tmod (c + 1) 4 < 4 ∧ Int.tmod (c + 1) 4 ≠ c
      ∧ Int.tmod (c + 1) 4 = (c + 1) % 4 := by
  rw [Int.tmod_eq_emod (by omega) (by omega)]
  omega

theorem bool_true_of_not_false {b : Bool} (h : ¬ b = false) : b = true := by
  cases b <;> simp at h ⊢

theorem bool_false_of_not_true {b : Bool} (h : ¬ b = true) : b = false := by
  cases b <;> simp at h ⊢

/-- The state `switchToNextRoad` hands to `processTrafficCycle` when the yellow
sub-phase ends. -/
theorem switchToNextRoad_yellow {s : TrafficSystem} (hm : s.energySavingMode = false)
    (hy : s.yellowLightActive = true) :
    switchToNextRoad s =
      processTrafficCycle
        (setRoad
          { setRoad (setTrafficLight { s with yellowLightActive := false } s.currentRoadIndex
                TrafficLight.RED) s.currentRoadIndex
              { s.roads s.currentRoadIndex with violatedIDs := [] } with
            currentRoadIndex := Int.tmod (s.currentRoadIndex + 1) 4 }
          (Int.tmod (s.currentRoadIndex + 1) 4)
          { (Function.update s.roads s.currentRoadIndex
                { s.roads s.currentRoadIndex with violatedIDs := [] })
              (Int.tmod (s.currentRoadIndex + 1) 4) with violatedIDs := [] }) := by
  unfold switchToNextRoad
  rw [if_neg (by simp [hm]), if_neg (by simp [hy])]
  simp [setRoad]

theorem switchToNextRoad_green {s : TrafficSystem} (hm : s.energySavingMode = false)
    (hy : s.yellowLightActive = false) :
    switchToNextRoad s =
      { setTrafficLight s s.currentRoadIndex TrafficLight.YELLOW with
        yellowLightActive := true
        lightTimeRemaining := s.yellowLightFixedDuration
        lightTimer := ⟨true, 1000⟩ } := by
  unfold switchToNextRoad
  rw [if_neg (by simp [hm]), if_pos hy]
  simp [QTimer.start]

theorem inv_switchToNextRoad {s : TrafficSystem} (h : Inv s) (hr : s.systemRunning = true) :
    Inv (switchToNextRoad s) := by
  by_cases hm : s.energySavingMode = true
  · have : switchToNextRoad s = s := by unfold switchToNextRoad; rw [if_pos hm]
    rw [this]; exact h
  · have hm := bool_false_of_not_true hm
    have hrange := h.range
    by_cases hy : s.yellowLightActive = false
    · rw [switchToNextRoad_green hm hy]
      have hL : (setTrafficLight s s.currentRoadIndex TrafficLight.YELLOW).currentLights
          = Function.update s.currentLights s.currentRoadIndex TrafficLight.YELLOW := by
        rw [setTrafficLight_currentLights, if_pos hrange]
      constructor
      · simpa using hrange
      · intro i hi
        simp only [hL] at hi
        by_cases hic : i = s.currentRoadIndex
        · rw [hic, Function.update_same] at hi; cases hi
        · rw [Function.update_noteq hic] at hi
          exact absurd (h.green i hi).1 hic
      · intro i hi
        simp only [hL] at hi
        simp only [setTrafficLight_currentRoadIndex, setTrafficLight_systemRunning,
          setTrafficLight_energySavingMode]
        by_cases hic : i = s.currentRoadIndex
        · exact ⟨hic, trivial, hr, hm⟩
        · rw [Function.update_noteq hic] at hi
          exact absurd (h.yellow i hi).1 hic
      · intro hd
        simp only [setTrafficLight_systemRunning, setTrafficLight_energySavingMode] at hd
        rw [hr, hm] at hd
        simp at hd
      · apply histOK_setTrafficLight h.hist
        rw [hL]
        exact noOther_excl (noOther_update_self (inv_noOther h) _)
    · have hy := bool_true_of_not_false hy
      rw [switchToNextRoad_yellow hm hy]
      apply inv_processTrafficCycle
      obtain ⟨t0, t4, _, _⟩ := tmod_succ_range hrange.1 hrange.2
      have hL : (setTrafficLight { s with yellowLightActive := false } s.currentRoadIndex
            TrafficLight.RED).currentLights
          = Function.update s.currentLights s.currentRoadIndex TrafficLight.RED := by
        rw [setTrafficLight_currentLights, if_pos hrange]
      constructor
      · exact ⟨t0, t4⟩
      · intro i hi
        simp only [setRoad_currentLights, hL] at hi
        by_cases hic : i = s.currentRoadIndex
        · rw [hic, Function.update_same] at hi; cases hi
        · rw [Function.update_noteq hic] at hi
          exact absurd (h.green i hi).1 hic
      · intro i hi
        simp only [setRoad_currentLights, hL] at hi
        by_cases hic : i = s.currentRoadIndex
        · rw [hic, Function.update_same] at hi; cases hi
        · rw [Function.update_noteq hic] at hi
          exact absurd (h.yellow i hi).1 hic
      · intro hd
        simp only [setRoad_systemRunning, setRoad_energySavingMode,
          setTrafficLight_systemRunning, setTrafficLight_energySavingMode, setRoad_lightTimer,
          setTrafficLight_lightTimer] at hd ⊢
        exact h.timer hd
      · have : HistOK (setTrafficLight { s with yellowLightActive := false }
            s.currentRoadIndex TrafficLight.RED) := by
          apply histOK_setTrafficLight (s := { s with yellowLightActive := false }) h.hist
          rw [hL]
          exact excl_update_dark (inv_excl h) _ (Or.inl rfl)
        exact this

theorem onLightTimerTimeout_idle {s : TrafficSystem}
    (h : s.systemRunning = false ∨ s.energySavingMode = true) :
    onLightTimerTimeout s = { s with lightTimer := s.lightTimer.stop } := by
  unfold onLightTimerTimeout
  rw [if_pos h]

theorem onLightTimerTimeout_count {s : TrafficSystem} (hr : s.systemRunning = true)
    (hm : s.energySavingMode = false) (hd : 1 < s.lightTimeRemaining) :
    onLightTimerTimeout s = { s with lightTimeRemaining := s.lightTimeRemaining - 1 } := by
  have h0 : s.lightTimeRemaining > 0 := by omega
  dsimp only [onLightTimerTimeout]
  rw [if_neg (by simp [hr, hm]), if_pos h0]
  dsimp only
  rw [if_neg (by omega)]

theorem onLightTimerTimeout_expire {s : TrafficSystem} (hr : s.systemRunning = true)
    (hm : s.energySavingMode = false) (hd : s.lightTimeRemaining ≤ 1) :
    onLightTimerTimeout s =
      switchToNextRoad { s with
        lightTimeRemaining :=
          if s.lightTimeRemaining > 0 then s.lightTimeRemaining - 1 else s.lightTimeRemaining
        lightTimer := s.lightTimer.stop } := by
  dsimp only [onLightTimerTimeout]
  rw [if_neg (by simp [hr, hm])]
  by_cases h0 : s.lightTimeRemaining > 0
  · rw [if_pos h0, if_pos h0]
    dsimp only
    rw [if_pos (by omega)]
  · rw [if_neg h0, if_neg h0, if_pos (by omega)]

theorem inv_onLightTimerTimeout {s : TrafficSystem} (h : Inv s) :
    Inv (onLightTimerTimeout s) := by
  by_cases h1 : s.systemRunning = false ∨ s.energySavingMode = true
  · rw [onLightTimerTimeout_idle h1]
    exact ⟨h.range, h.green, h.yellow, fun _ => rfl, h.hist⟩
  · have hr : s.systemRunning = true := by
      cases hx : s.systemRunning <;> simp [hx] at h1 ⊢
    have hm : s.energySavingMode = false := by
      cases hx : s.energySavingMode <;> simp [hx] at h1 ⊢
    by_cases hd : 1 < s.lightTimeRemaining
    · rw [onLightTimerTimeout_count hr hm hd]
      exact ⟨h.range, h.green, h.yellow, h.timer, h.hist⟩
    · rw [onLightTimerTimeout_expire hr hm (by omega)]
      have h2 : Inv { s with
          lightTimeRemaining :=
            if s.lightTimeRemaining > 0 then s.lightTimeRemaining - 1
            else s.lightTimeRemaining
          lightTimer := s.lightTimer.stop } :=
        ⟨h.range, h.green, h.yellow, fun _ => rfl, h.hist⟩
      exact inv_switchToNextRoad h2 hr

/-- The state after `setAllTrafficLights` to RED or OFF satisfies the invariant as soon
as its light timer is stopped. -/
theorem inv_setAllDark (s : TrafficSystem)
    (hrange : 0 ≤ s.currentRoadIndex ∧ s.currentRoadIndex < 4)
    (hno : NoOther s.currentRoadIndex s.currentLights) (hhist : HistOK s) {l : TrafficLight}
    (hl : l = TrafficLight.RED ∨ l = TrafficLight.OFF) {t : TrafficSystem}
    (hc : t.currentLights = (setAllTrafficLights s l).currentLights)
    (hi : t.currentRoadIndex = s.currentRoadIndex)
    (hh : t.lightHistory = (setAllTrafficLights s l).lightHistory)
    (ht : t.lightTimer.active = false) : Inv t := by
  have dark : ∀ i, t.currentLights i = TrafficLight.RED ∨ t.currentLights i = TrafficLight.OFF := by
    intro i
    rw [hc, setAllTrafficLights_currentLights]
    split_ifs
    · exact hl
    · exact hno i (by omega)
  constructor
  · rw [hi]; exact hrange
  · intro i hg
    rcases dark i with d | d <;> rw [d] at hg <;> cases hg
  · intro i hg
    rcases dark i with d | d <;> rw [d] at hg <;> cases hg
  · intro _; exact ht
  · intro L hL
    rw [hh] at hL
    exact setAllTrafficLights_histOK hhist (noOther_excl hno) hl L hL

theorem processEnergySaving_exit {s : TrafficSystem} (hm : s.energySavingMode = true)
    (hc : s.energySavingEnabled = false ∨ allRoadsEmpty s = false) :
    processEnergySaving s =
      processTrafficCycle
        (emit { s with energySavingMode := false } (Event.energySavingStatusChanged false)) := by
  simp only [processEnergySaving]
  by_cases he : s.energySavingEnabled = false
  · rw [if_pos he, if_pos hm]
  · have ha : allRoadsEmpty s = false := by
      rcases hc with hc | hc
      · exact absurd hc he
      · exact hc
    rw [if_neg he, if_neg (by simp [hm]), if_pos ⟨ha, hm⟩]

theorem processEnergySaving_enter {s : TrafficSystem} (hm : s.energySavingMode = false)
    (he : s.energySavingEnabled = true) (ha : allRoadsEmpty s = true) :
    processEnergySaving s =
      emit (setAllTrafficLights
          { s with energySavingMode := true, lightTimer := s.lightTimer.stop }
          TrafficLight.OFF)
        (Event.energySavingStatusChanged true) := by
  simp only [processEnergySaving]
  rw [if_neg (by simp [he]), if_pos ⟨ha, hm⟩]

theorem processEnergySaving_keep {s : TrafficSystem}
    (h : (s.energySavingMode = false ∧ (s.energySavingEnabled = false ∨ allRoadsEmpty s = false))
      ∨ (s.energySavingMode = true ∧ s.energySavingEnabled = true ∧ allRoadsEmpty s = true)) :
    processEnergySaving s = s := by
  simp only [processEnergySaving]
  rcases h with ⟨hm, he | ha⟩ | ⟨hm, he, ha⟩
  · rw [if_pos he, if_neg (by simp [hm])]
  · by_cases he : s.energySavingEnabled = false
    · rw [if_pos he, if_neg (by simp [hm])]
    · rw [if_neg he, if_neg (by simp [ha]), if_neg (by simp [hm])]
  · rw [if_neg (by simp [he]), if_neg (by simp [hm]), if_neg (by simp [ha])]

theorem processEnergySaving_cases (s : TrafficSystem) :
    (s.energySavingMode = true ∧ (s.energySavingEnabled = false ∨ allRoadsEmpty s = false))
    ∨ (s.energySavingMode = false ∧ s.energySavingEnabled = true ∧ allRoadsEmpty s = true)
    ∨ ((s.energySavingMode = false
          ∧ (s.energySavingEnabled = false ∨ allRoadsEmpty s = false))
        ∨ (s.energySavingMode = true ∧ s.energySavingEnabled = true
          ∧ allRoadsEmpty s = true)) := by
  cases s.energySavingMode <;> cases s.energySavingEnabled <;> cases allRoadsEmpty s <;> simp

theorem inv_exitEnergySaving {s : TrafficSystem} (h : Inv s)
    (hm : s.energySavingMode = true) :
    Inv (processTrafficCycle
      (emit { s with energySavingMode := false } (Event.energySavingStatusChanged false))) := by
  apply inv_processTrafficCycle
  have dark := inv_dark h (Or.inr hm)
  constructor
  · exact h.range
  · intro i hg
    have hg : s.currentLights i = TrafficLight.GREEN := hg
    rcases dark i with d | d <;> rw [d] at hg <;> cases hg
  · intro i hg
    have hg : s.currentLights i = TrafficLight.YELLOW := hg
    rcases dark i with d | d <;> rw [d] at hg <;> cases hg
  · intro _
    exact h.timer (Or.inr hm)
  · exact h.hist

theorem inv_processEnergySaving {s : TrafficSystem} (h : Inv s) :
    Inv (processEnergySaving s) := by
  rcases processEnergySaving_cases s with ⟨hm, hc⟩ | ⟨hm, he, ha⟩ | hk
  · rw [processEnergySaving_exit hm hc]
    exact inv_exitEnergySaving h hm
  · rw [processEnergySaving_enter hm he ha]
    have hno := inv_noOther h
    have hhist := h.hist
    exact inv_setAllDark { s with energySavingMode := true, lightTimer := s.lightTimer.stop }
      h.range hno hhist (Or.inr rfl) (emit_currentLights _ _)
      (by simp) (emit_lightHistory _ _)
      (by rw [emit_lightTimer, setAllTrafficLights_lightTimer]; rfl)
  · rw [processEnergySaving_keep hk]
    exact h

theorem inv_updateTrafficLights {s : TrafficSystem} (h : Inv s) :
    Inv (updateTrafficLights s) := by
  simp only [updateTrafficLights]
  have := inv_processEnergySaving h
  split_ifs
  · exact h
  · exact this
  · exact inv_processTrafficCycle this
  · exact this

theorem inv_handleProcessingFinished {s : TrafficSystem} (h : Inv s) (i n : Int)
    (ids : List Int) : Inv (handleProcessingFinished s i n ids) := by
  simp only [handleProcessingFinished]
  have h0 : Inv { s with m_workerBusy := false } := inv_congr h rfl rfl rfl rfl rfl rfl rfl
  split_ifs
  · exact h0
  · apply inv_updateTrafficLights
    exact inv_congr h0 (by simp) (by simp) (by simp) (by simp) (by simp) (by simp) (by simp)
  · apply inv_updateTrafficLights
    exact inv_congr h0 (by simp) (by simp) (by simp) (by simp) (by simp) (by simp) (by simp)

theorem inv_startSystem {s : TrafficSystem} (h : Inv s) : Inv (startSystem s) := by
  simp only [startSystem]
  split_ifs with h1 h2
  · exact h
  all_goals
    have hr := bool_false_of_not_true h1
    have dark := inv_dark h (Or.inl hr)
    refine inv_congr (inv_processTrafficCycle ?_) (emit_currentLights _ _)
      (emit_currentRoadIndex _ _) (emit_yellowLightActive _ _) (emit_systemRunning _ _)
      (emit_energySavingMode _ _) (emit_lightTimer _ _) (emit_lightHistory _ _)
    constructor
    · exact ⟨le_refl _, by norm_num⟩
    · intro i hg
      have hg : s.currentLights i = TrafficLight.GREEN := hg
      rcases dark i with d | d <;> rw [d] at hg <;> cases hg
    · intro i hg
      have hg : s.currentLights i = TrafficLight.YELLOW := hg
      rcases dark i with d | d <;> rw [d] at hg <;> cases hg
    · intro _
      exact h.timer (Or.inl hr)
    · exact h.hist

theorem inv_stopSystem {s : TrafficSystem} (h : Inv s) : Inv (stopSystem s) := by
  simp only [stopSystem]
  have hno := inv_noOther h
  have hhist := h.hist
  split_ifs with h1 h2
  · exact h
  · exact inv_setAllDark
      { s with
        systemRunning := false
        mainTimer := s.mainTimer.stop
        lightTimer := s.lightTimer.stop
        sensorTimer := s.sensorTimer.stop }
      h.range hno hhist (Or.inr rfl) (emit_currentLights _ _)
      (by simp) (emit_lightHistory _ _)
      (by rw [emit_lightTimer, setAllTrafficLights_lightTimer]; rfl)
  · exact inv_setAllDark
      { s with
        systemRunning := false
        mainTimer := s.mainTimer.stop
        lightTimer := s.lightTimer.stop
        sensorTimer := s.sensorTimer.stop }
      h.range hno hhist (Or.inl rfl) (emit_currentLights _ _)
      (by simp) (emit_lightHistory _ _)
      (by rw [emit_lightTimer, setAllTrafficLights_lightTimer]; rfl)

/-! ## Operations that do not touch the phase state -/

theorem inv_sameCore {s t : TrafficSystem} (h : Inv s) (c : SameCore t s) : Inv t :=
  inv_congr h c.1 c.2.1 c.2.2.1 c.2.2.2.1 c.2.2.2.2.1 c.2.2.2.2.2.1 c.2.2.2.2.2.2

theorem sameCore_refl (s : TrafficSystem) : SameCore s s :=
  ⟨rfl, rfl, rfl, rfl, rfl, rfl, rfl⟩

theorem sameCore_trans {a b c : TrafficSystem} (h1 : SameCore a b) (h2 : SameCore b c) :
    SameCore a c :=
  ⟨h1.1.trans h2.1, h1.2.1.trans h2.2.1, h1.2.2.1.trans h2.2.2.1,
    h1.2.2.2.1.trans h2.2.2.2.1, h1.2.2.2.2.1.trans h2.2.2.2.2.1,
    h1.2.2.2.2.2.1.trans h2.2.2.2.2.2.1, h1.2.2.2.2.2.2.trans h2.2.2.2.2.2.2⟩

theorem sameCore_emit (s : TrafficSystem) (e : Event) : SameCore (emit s e) s :=
  ⟨rfl, rfl, rfl, rfl, rfl, rfl, rfl⟩

theorem sameCore_setRoad (s : TrafficSystem) (i : Int) (r : RoadData) :
    SameCore (setRoad s i r) s :=
  ⟨rfl, rfl, rfl, rfl, rfl, rfl, rfl⟩

theorem sameCore_sendArduinoCommand (s : TrafficSystem) (c : String) :
    SameCore (sendArduinoCommand s c) s := by
  unfold sendArduinoCommand
  split_ifs
  · exact sameCore_refl s
  · exact ⟨rfl, rfl, rfl, rfl, rfl, rfl, rfl⟩

theorem sameCore_onSensorTimerTimeout (s : TrafficSystem) :
    SameCore (onSensorTimerTimeout s) s := by
  unfold onSensorTimerTimeout
  split_ifs
  · exact sameCore_sendArduinoCommand s _
  · exact sameCore_refl s

theorem sameCore_onMainTimerTimeout (s : TrafficSystem) (f : Option Frame) :
    SameCore (onMainTimerTimeout s f) s := by
  dsimp only [onMainTimerTimeout]
  split_ifs
  · exact sameCore_refl s
  · cases f with
    | none => exact ⟨rfl, rfl, rfl, rfl, rfl, rfl, rfl⟩
    | some frame => exact ⟨rfl, rfl, rfl, rfl, rfl, rfl, rfl⟩
  · exact ⟨rfl, rfl, rfl, rfl, rfl, rfl, rfl⟩

theorem sameCore_disconnectCamera (s : TrafficSystem) (i : Int) :
    SameCore (disconnectCamera s i) s := by
  dsimp only [disconnectCamera]
  split_ifs
  · exact sameCore_refl s
  · exact ⟨rfl, rfl, rfl, rfl, rfl, rfl, rfl⟩

theorem sameCore_connectCamera (s : TrafficSystem) (i : Int) (src : String) (opened : Bool) :
    SameCore (connectCamera s i src opened).2 s := by
  dsimp only [connectCamera]
  split_ifs
  · exact sameCore_refl s
  · exact sameCore_trans ⟨rfl, rfl, rfl, rfl, rfl, rfl, rfl⟩ (sameCore_disconnectCamera s i)
  · exact sameCore_trans ⟨rfl, rfl, rfl, rfl, rfl, rfl, rfl⟩ (sameCore_disconnectCamera s i)

theorem sameCore_initializeArduino (s : TrafficSystem) (portName : String)
    (ports : List String) (openOk : Bool) :
    SameCore (initializeArduino s portName ports openOk).2 s := by
  dsimp only [initializeArduino]
  split_ifs <;> exact ⟨rfl, rfl, rfl, rfl, rfl, rfl, rfl⟩

theorem sameCore_setArduinoSimulationMode (s : TrafficSystem) (simActive : Bool)
    (ports : List String) (openOk : Bool) :
    SameCore (setArduinoSimulationMode s simActive ports openOk) s := by
  dsimp only [setArduinoSimulationMode]
  split_ifs
  · exact ⟨rfl, rfl, rfl, rfl, rfl, rfl, rfl⟩
  · exact ⟨rfl, rfl, rfl, rfl, rfl, rfl, rfl⟩
  · exact sameCore_initializeArduino s _ _ _
  · exact sameCore_refl s

theorem sameCore_onArduinoError (s : TrafficSystem) (e : String) :
    SameCore (onArduinoError s e) s := by
  dsimp only [onArduinoError]
  split_ifs
  · exact ⟨rfl, rfl, rfl, rfl, rfl, rfl, rfl⟩
  · exact sameCore_refl s

theorem sameCore_setRoadROI (s : TrafficSystem) (i : Int) (roi : Rect) :
    SameCore (setRoadROI s i roi) s := by
  dsimp only [setRoadROI]
  split_ifs
  · exact ⟨rfl, rfl, rfl, rfl, rfl, rfl, rfl⟩
  · exact sameCore_refl s

/-! ## Every reachable state satisfies the invariant -/

theorem inv_constructed : Inv TrafficSystem.constructed := by
  constructor
  · exact ⟨le_refl _, by decide⟩
  · intro i hg; cases hg
  · intro i hg; cases hg
  · intro _; rfl
  · intro L hL; cases hL

theorem inv_initializeSystem (ports : List String) (openOk : Bool) :
    Inv (initializeSystem ports openOk) :=
  inv_sameCore inv_constructed
    (sameCore_trans (sameCore_initializeArduino _ _ _ _) ⟨rfl, rfl, rfl, rfl, rfl, rfl, rfl⟩)

theorem inv_step {s : TrafficSystem} (h : Inv s) (a : Action) : Inv (step s a) := by
  cases a with
  | startSystem => exact inv_startSystem h
  | stopSystem => exact inv_stopSystem h
  | lightTimerTimeout => exact inv_onLightTimerTimeout h
  | mainTimerTimeout f => exact inv_sameCore h (sameCore_onMainTimerTimeout s f)
  | sensorTimerTimeout => exact inv_sameCore h (sameCore_onSensorTimerTimeout s)
  | processingFinished i n ids => exact inv_handleProcessingFinished h i n ids
  | connectCamera i src o => exact inv_sameCore h (sameCore_connectCamera s i src o)
  | disconnectCamera i => exact inv_sameCore h (sameCore_disconnectCamera s i)
  | initializeArduino p ps o => exact inv_sameCore h (sameCore_initializeArduino s p ps o)
  | setArduinoSimulationMode b ps o =>
    exact inv_sameCore h (sameCore_setArduinoSimulationMode s b ps o)
  | arduinoError e => exact inv_sameCore h (sameCore_onArduinoError s e)
  | setLightTiming d n => exact inv_sameCore h ⟨rfl, rfl, rfl, rfl, rfl, rfl, rfl⟩
  | setYellowLightDuration n => exact inv_sameCore h ⟨rfl, rfl, rfl, rfl, rfl, rfl, rfl⟩
  | setEnergySavingEnabled b => exact inv_sameCore h ⟨rfl, rfl, rfl, rfl, rfl, rfl, rfl⟩
  | setViolationDetectionEnabled b => exact inv_sameCore h ⟨rfl, rfl, rfl, rfl, rfl, rfl, rfl⟩
  | setRoadROI i r => exact inv_sameCore h (sameCore_setRoadROI s i r)
  | setYoloThresholds => exact inv_sameCore h ⟨rfl, rfl, rfl, rfl, rfl, rfl, rfl⟩
  | arduinoDataReceived d ok => exact inv_sameCore h (sameCore_onArduinoDataReceived s d ok)
  | singleShotTimeout shot ok => exact inv_sameCore h (sameCore_onSingleShot s shot ok)

theorem reachable_inv {s : TrafficSystem} (h : Reachable s) : Inv s := by
  induction h with
  | init ports openOk => exact inv_initializeSystem ports openOk
  | step a _ _ ih => exact inv_step ih a

/-! ## Counts and densities -/

theorem countsOK_congr {s t : TrafficSystem} (h : CountsOK s) (hr : t.roads = s.roads) :
    CountsOK t := by
  intro i
  rw [hr]
  exact h i

theorem countsOK_setRoad {s : TrafficSystem} (h : CountsOK s) (i : Int) (r : RoadData)
    (hr : 0 ≤ r.vehicleCount ∧ r.density = newDensity r.vehicleCount) :
    CountsOK (setRoad s i r) := by
  intro j
  by_cases hji : j = i
  · subst hji
    simp only [setRoad, Function.update_same]
    exact hr
  · simp only [setRoad, Function.update_noteq hji]
    exact h j

theorem countsOK_updateCount {s : TrafficSystem} (h : CountsOK s) (i n : Int) (hn : 0 ≤ n) :
    CountsOK (updateCount s i n) := by
  intro j
  dsimp only [updateCount]
  split_ifs with h1 h2
  · by_cases hji : j = i
    · subst hji
      simp [emit, setRoad, hn]
    · simp [emit, setRoad, Function.update_noteq hji, h j]
  · by_cases hji : j = i
    · subst hji
      simp only [emit, setRoad, Function.update_same, ne_eq, not_not] at h2 ⊢
      exact ⟨hn, h2⟩
    · simp [emit, setRoad, Function.update_noteq hji, h j]
  · exact h j

theorem countsOK_reportViolations (i : Int) (ids : List Int) :
    ∀ {s : TrafficSystem}, CountsOK s → CountsOK (reportViolations s i ids) := by
  induction ids with
  | nil => intro s h; exact h
  | cons id rest ih =>
    intro s h
    simp only [reportViolations]
    apply ih
    split_ifs
    · exact h
    · exact countsOK_setRoad (countsOK_congr h (emit_roads _ _)) i _ (h i)

theorem countsOK_switchToNextRoad {s : TrafficSystem} (h : CountsOK s) :
    CountsOK (switchToNextRoad s) := by
  by_cases hm : s.energySavingMode = true
  · have : switchToNextRoad s = s := by unfold switchToNextRoad; rw [if_pos hm]
    rw [this]; exact h
  · have hm := bool_false_of_not_true hm
    by_cases hy : s.yellowLightActive = false
    · rw [switchToNextRoad_green hm hy]
      exact countsOK_congr h (setTrafficLight_roads _ _ _)
    · rw [switchToNextRoad_yellow hm (bool_true_of_not_false hy)]
      apply countsOK_congr _ (processTrafficCycle_roads _)
      have hs0 : CountsOK { s with yellowLightActive := false } := h
      have hs1 := countsOK_congr hs0
        (setTrafficLight_roads { s with yellowLightActive := false } s.currentRoadIndex
          TrafficLight.RED)
      have hs2 := countsOK_setRoad hs1 s.currentRoadIndex
        { s.roads s.currentRoadIndex with violatedIDs := [] } (h _)
      have key : ∀ j : Int,
          0 ≤ ((Function.update s.roads s.currentRoadIndex
                { s.roads s.currentRoadIndex with violatedIDs := [] }) j).vehicleCount
          ∧ ((Function.update s.roads s.currentRoadIndex
                { s.roads s.currentRoadIndex with violatedIDs := [] }) j).density
              = newDensity ((Function.update s.roads s.currentRoadIndex
                { s.roads s.currentRoadIndex with violatedIDs := [] }) j).vehicleCount := by
        intro j
        by_cases hj : j = s.currentRoadIndex
        · rw [hj, Function.update_same]
          exact h _
        · rw [Function.update_noteq hj]
          exact h j
      exact countsOK_setRoad (countsOK_congr hs2 rfl) _ _ (key _)

theorem countsOK_onLightTimerTimeout {s : TrafficSystem} (h : CountsOK s) :
    CountsOK (onLightTimerTimeout s) := by
  by_cases h1 : s.systemRunning = false ∨ s.energySavingMode = true
  · rw [onLightTimerTimeout_idle h1]
    exact h
  · have hr : s.systemRunning = true := by
      cases hx : s.systemRunning <;> simp [hx] at h1 ⊢
    have hm : s.energySavingMode = false := by
      cases hx : s.energySavingMode <;> simp [hx] at h1 ⊢
    by_cases hd : 1 < s.lightTimeRemaining
    · rw [onLightTimerTimeout_count hr hm hd]
      exact h
    · rw [onLightTimerTimeout_expire hr hm (by omega)]
      exact countsOK_switchToNextRoad (countsOK_congr h rfl)

theorem countsOK_handleProcessingFinished {s : TrafficSystem} (h : CountsOK s) (i n : Int)
    (ids : List Int) (hn : 0 ≤ n) : CountsOK (handleProcessingFinished s i n ids) := by
  dsimp only [handleProcessingFinished]
  have h0 : CountsOK { s with m_workerBusy := false } := h
  have h1 := countsOK_updateCount h0 i n hn
  split_ifs
  · exact h0
  · apply countsOK_congr _ (updateTrafficLights_roads _)
    exact countsOK_reportViolations i ids (countsOK_congr h1 (emit_roads _ _))
  · apply countsOK_congr _ (updateTrafficLights_roads _)
    exact countsOK_congr h1 (emit_roads _ _)

theorem countsOK_disconnectCamera {s : TrafficSystem} (h : CountsOK s) (i : Int) :
    CountsOK (disconnectCamera s i) := by
  dsimp only [disconnectCamera]
  split_ifs
  · exact h
  · apply countsOK_congr _ (emit_roads _ _)
    apply countsOK_congr _ (emit_roads _ _)
    exact countsOK_setRoad h i _ ⟨le_refl _, rfl⟩

theorem countsOK_connectCamera {s : TrafficSystem} (h : CountsOK s) (i : Int) (src : String)
    (opened : Bool) : CountsOK (connectCamera s i src opened).2 := by
  dsimp only [connectCamera]
  have hd := countsOK_disconnectCamera h i
  split_ifs
  · exact h
  · apply countsOK_congr _ (emit_roads _ _)
    apply countsOK_congr _ (emit_roads _ _)
    exact countsOK_setRoad hd i _ (hd i)
  · exact countsOK_congr hd (emit_roads _ _)

theorem countsOK_onMainTimerTimeout {s : TrafficSystem} (h : CountsOK s) (f : Option Frame) :
    CountsOK (onMainTimerTimeout s f) := by
  dsimp only [onMainTimerTimeout]
  split_ifs
  · exact h
  · cases f with
    | none => exact h
    | some frame =>
      apply countsOK_congr _ (emit_roads _ _)
      exact countsOK_setRoad (countsOK_congr h rfl) _ _ (h _)
  · exact h

theorem countsOK_initializeArduino {s : TrafficSystem} (h : CountsOK s) (p : String)
    (ports : List String) (openOk : Bool) : CountsOK (initializeArduino s p ports openOk).2 := by
  dsimp only [initializeArduino]
  split_ifs <;> exact h

theorem countsOK_step {s : TrafficSystem} (h : CountsOK s) (a : Action) (ha : a.enabled s) :
    CountsOK (step s a) := by
  cases a with
  | startSystem =>
    dsimp only [step, startSystem]
    split_ifs
    · exact h
    · exact countsOK_congr h (by simp)
    · exact countsOK_congr h (by simp)
  | stopSystem =>
    dsimp only [step, stopSystem]
    split_ifs
    · exact h
    · exact countsOK_congr h (by simp)
    · exact countsOK_congr h (by simp)
  | lightTimerTimeout => exact countsOK_onLightTimerTimeout h
  | mainTimerTimeout f => exact countsOK_onMainTimerTimeout h f
  | sensorTimerTimeout =>
    dsimp only [step, onSensorTimerTimeout]
    split_ifs
    · exact countsOK_congr h (by simp)
    · exact h
  | processingFinished i n ids => exact countsOK_handleProcessingFinished h i n ids ha
  | connectCamera i src o => exact countsOK_connectCamera h i src o
  | disconnectCamera i => exact countsOK_disconnectCamera h i
  | initializeArduino p ps o => exact countsOK_initializeArduino h p ps o
  | setArduinoSimulationMode b ps o =>
    dsimp only [step, setArduinoSimulationMode]
    split_ifs
    · exact h
    · exact h
    · exact countsOK_initializeArduino h _ ps o
    · exact h
  | arduinoError e =>
    dsimp only [step, onArduinoError]
    split_ifs <;> exact h
  | setLightTiming d n => exact h
  | setYellowLightDuration n => exact h
  | setEnergySavingEnabled b => exact h
  | setViolationDetectionEnabled b => exact h
  | setRoadROI i r =>
    dsimp only [step, setRoadROI]
    split_ifs
    · exact countsOK_setRoad h i _ (h i)
    · exact h
  | setYoloThresholds => exact h
  | arduinoDataReceived d ok => exact countsOK_congr h (onArduinoDataReceived_roads s d ok)
  | singleShotTimeout shot ok => exact countsOK_congr h (onSingleShot_roads s shot ok)

theorem countsOK_initializeSystem (ports : List String) (openOk : Bool) :
    CountsOK (initializeSystem ports openOk) := by
  apply countsOK_initializeArduino
  intro i
  exact ⟨le_refl _, rfl⟩

theorem reachable_countsOK {s : TrafficSystem} (h : Reachable s) : CountsOK s := by
  induction h with
  | init ports openOk => exact countsOK_initializeSystem ports openOk
  | step a _ ha ih => exact countsOK_step ih a ha

/-! ## Running a list of actions -/

theorem reachable_run {s : TrafficSystem} (h : Reachable s) :
    ∀ (as : List Action), runEnabled s as = true → Reachable (run s as) := by
  intro as
  induction as generalizing s with
  | nil => intro _; exact h
  | cons a rest ih =>
    intro he
    simp only [runEnabled, Bool.and_eq_true, decide_eq_true_eq] at he
    exact ih (Reachable.step a h he.1) he.2

theorem reachable_s0 : Reachable s0 := Reachable.init [] false

/-! ## handleProcessingFinished and the roads -/

theorem reportViolations_road (i : Int) (ids : List Int) (j : Int) :
    ∀ s : TrafficSystem,
      ((reportViolations s i ids).roads j).vehicleCount = (s.roads j).vehicleCount
      ∧ ((reportViolations s i ids).roads j).density = (s.roads j).density
      ∧ ((reportViolations s i ids).roads j).cameraConnected = (s.roads j).cameraConnected := by
  induction ids with
  | nil => intro s; exact ⟨rfl, rfl, rfl⟩
  | cons id rest ih =>
    intro s
    simp only [reportViolations]
    split_ifs
    · exact ih s
    · obtain ⟨h1, h2, h3⟩ := ih (setRoad (emit s (Event.violationDetected i
          ("Vehicle ID " ++ toString id ++ " ran red light") (s.roads i).currentFrame)) i
        { s.roads i with violatedIDs := (s.roads i).violatedIDs ++ [id] })
      refine ⟨h1.trans ?_, h2.trans ?_, h3.trans ?_⟩ <;>
      · by_cases hj : j = i
        · subst hj
          simp [setRoad]
        · simp [setRoad, Function.update_noteq hj]

theorem updateCount_road (s : TrafficSystem) (i n : Int) (j : Int) :
    ((updateCount s i n).roads j).vehicleCount = (if j = i then n else (s.roads j).vehicleCount)
    ∧ ((updateCount s i n).roads j).density
        = (if j = i ∧ (s.roads i).vehicleCount ≠ n then newDensity n else (s.roads j).density)
    ∧ ((updateCount s i n).roads j).cameraConnected = (s.roads j).cameraConnected := by
  dsimp only [updateCount]
  by_cases hj : j = i
  · subst hj
    by_cases h1 : (s.roads j).vehicleCount ≠ n
    · rw [if_pos h1]
      by_cases h2 : (s.roads j).density ≠ newDensity n
      · simp [emit, setRoad, h1, h2]
      · simp only [ne_eq, not_not] at h2
        simp [emit, setRoad, h1, h2]
    · rw [if_neg h1]
      simp only [ne_eq, not_not] at h1
      simp [h1]
  · by_cases h1 : (s.roads i).vehicleCount ≠ n
    · rw [if_pos h1]
      by_cases h2 : (s.roads i).density ≠ newDensity n
      · simp [emit, setRoad, h2, hj, Function.update_noteq hj]
      · simp only [ne_eq, not_not] at h2
        simp [emit, setRoad, h2, hj, Function.update_noteq hj]
    · rw [if_neg h1]
      simp [hj]

theorem handleProcessingFinished_eq (s : TrafficSystem) (i n : Int) (ids : List Int)
    (h0 : 0 ≤ i) (h4 : i < 4) :
    handleProcessingFinished s i n ids = updateTrafficLights (afterCounts s i n ids) := by
  dsimp only [handleProcessingFinished, afterCounts]
  rw [if_neg (by omega)]
  simp only [emit_violationDetectionEnabled, updateCount_violationDetectionEnabled]

theorem afterCounts_road (s : TrafficSystem) (i n : Int) (ids : List Int) (j : Int) :
    ((afterCounts s i n ids).roads j).vehicleCount
        = (if j = i then n else (s.roads j).vehicleCount)
    ∧ ((afterCounts s i n ids).roads j).density
        = (if j = i ∧ (s.roads i).vehicleCount ≠ n then newDensity n else (s.roads j).density)
    ∧ ((afterCounts s i n ids).roads j).cameraConnected = (s.roads j).cameraConnected := by
  obtain ⟨a1, b1, c1⟩ := updateCount_road { s with m_workerBusy := false } i n j
  unfold afterCounts
  by_cases hv : s.violationDetectionEnabled = true
  · obtain ⟨a, b, c⟩ := reportViolations_road i ids j
      (emit (updateCount { s with m_workerBusy := false } i n) (Event.frameUpdated i))
    rw [if_pos hv]
    exact ⟨a.trans a1, b.trans b1, c.trans c1⟩
  · rw [if_neg hv]
    exact ⟨a1, b1, c1⟩

/-- What a processing result for an approach in `0..3` does to counts, densities and
connection flags. -/
theorem handleProcessingFinished_road (s : TrafficSystem) (i n : Int) (ids : List Int)
    (h0 : 0 ≤ i) (h4 : i < 4) (j : Int) :
    ((handleProcessingFinished s i n ids).roads j).vehicleCount
        = (if j = i then n else (s.roads j).vehicleCount)
    ∧ ((handleProcessingFinished s i n ids).roads j).density
        = (if j = i ∧ (s.roads i).vehicleCount ≠ n then newDensity n else (s.roads j).density)
    ∧ ((handleProcessingFinished s i n ids).roads j).cameraConnected
        = (s.roads j).cameraConnected := by
  rw [handleProcessingFinished_eq s i n ids h0 h4, updateTrafficLights_roads]
  exact afterCounts_road s i n ids j

/-! ## C1: the density bucket of a changed count -/

/-- C1: when a processing result for approach `roadIndex` (in `0..3`) carries a count `n`
that differs from the stored one, the density that `handleProcessingFinished` stores for
that approach is OFF for `n < 3`, LOW for `3 ≤ n ≤ 4`, MEDIUM for `5 ≤ n ≤ 6`, HIGH for
`7 ≤ n ≤ 9` and VERY_HIGH for `n ≥ 10`. -/
theorem C1_changed_count_density (s : TrafficSystem) (roadIndex n : Int) (ids : List Int)
    (h0 : 0 ≤ roadIndex) (h4 : roadIndex < 4) (hch : (s.roads roadIndex).vehicleCount ≠ n) :
    (n < 3 → ((handleProcessingFinished s roadIndex n ids).roads roadIndex).density
        = TrafficDensity.OFF)
    ∧ (3 ≤ n → n ≤ 4 → ((handleProcessingFinished s roadIndex n ids).roads roadIndex).density
        = TrafficDensity.LOW)
    ∧ (5 ≤ n → n ≤ 6 → ((handleProcessingFinished s roadIndex n ids).roads roadIndex).density
        = TrafficDensity.MEDIUM)
    ∧ (7 ≤ n → n ≤ 9 → ((handleProcessingFinished s roadIndex n ids).roads roadIndex).density
        = TrafficDensity.HIGH)
    ∧ (10 ≤ n → ((handleProcessingFinished s roadIndex n ids).roads roadIndex).density
        = TrafficDensity.VERY_HIGH) := by
  have hd := (handleProcessingFinished_road s roadIndex n ids h0 h4 roadIndex).2.1
  rw [if_pos ⟨rfl, hch⟩] at hd
  rw [hd]
  unfold newDensity
  refine ⟨fun h => ?_, fun h h' => ?_, fun h h' => ?_, fun h h' => ?_, fun h => ?_⟩
  · rw [if_pos h]
  · rw [if_neg (by omega), if_pos h']
  · rw [if_neg (by omega), if_neg (by omega), if_pos h']
  · rw [if_neg (by omega), if_neg (by omega), if_neg (by omega), if_pos h']
  · rw [if_neg (by omega), if_neg (by omega), if_neg (by omega), if_neg (by omega)]

/-- C1 at the boundary counts the specification lists: 2, 3, 4, 5, 6, 7, 9 and 10 reported
for approach 0 of the freshly initialised controller, whose stored count is 0. -/
theorem C1_changed_count_density_witness :
    ((handleProcessingFinished s0 0 2 []).roads 0).density = TrafficDensity.OFF
    ∧ ((handleProcessingFinished s0 0 3 []).roads 0).density = TrafficDensity.LOW
    ∧ ((handleProcessingFinished s0 0 4 []).roads 0).density = TrafficDensity.LOW
    ∧ ((handleProcessingFinished s0 0 5 []).roads 0).density = TrafficDensity.MEDIUM
    ∧ ((handleProcessingFinished s0 0 6 []).roads 0).density = TrafficDensity.MEDIUM
    ∧ ((handleProcessingFinished s0 0 7 []).roads 0).density = TrafficDensity.HIGH
    ∧ ((handleProcessingFinished s0 0 9 []).roads 0).density = TrafficDensity.HIGH
    ∧ ((handleProcessingFinished s0 0 10 []).roads 0).density = TrafficDensity.VERY_HIGH :=
  ⟨(C1_changed_count_density s0 0 2 [] (by decide) (by decide) (by decide)).1 (by decide),
   (C1_changed_count_density s0 0 3 [] (by decide) (by decide) (by decide)).2.1
     (by decide) (by decide),
   (C1_changed_count_density s0 0 4 [] (by decide) (by decide) (by decide)).2.1
     (by decide) (by decide),
   (C1_changed_count_density s0 0 5 [] (by decide) (by decide) (by decide)).2.2.1
     (by decide) (by decide),
   (C1_changed_count_density s0 0 6 [] (by decide) (by decide) (by decide)).2.2.1
     (by decide) (by decide),
   (C1_changed_count_density s0 0 7 [] (by decide) (by decide) (by decide)).2.2.2.1
     (by decide) (by decide),
   (C1_changed_count_density s0 0 9 [] (by decide) (by decide) (by decide)).2.2.2.1
     (by decide) (by decide),
   (C1_changed_count_density s0 0 10 [] (by decide) (by decide) (by decide)).2.2.2.2
     (by decide)⟩

/-! ## C2: counts are not negative, density is the bucket of the count -/

/-- C2: in every reachable state every approach `i` (each of 0, 1, 2, 3) has a
non-negative `vehicleCount`, and its stored density is the bucket of that count: OFF
below 3, LOW from 3 to 4, MEDIUM from 5 to 6, HIGH from 7 to 9, VERY_HIGH from 10 on. -/
theorem C2_count_density_invariant {s : TrafficSystem} (h : Reachable s) (i : Int) :
    0 ≤ (s.roads i).vehicleCount
    ∧ ((s.roads i).vehicleCount < 3 → (s.roads i).density = TrafficDensity.OFF)
    ∧ (3 ≤ (s.roads i).vehicleCount → (s.roads i).vehicleCount < 5 →
        (s.roads i).density = TrafficDensity.LOW)
    ∧ (5 ≤ (s.roads i).vehicleCount → (s.roads i).vehicleCount < 7 →
        (s.roads i).density = TrafficDensity.MEDIUM)
    ∧ (7 ≤ (s.roads i).vehicleCount → (s.roads i).vehicleCount < 10 →
        (s.roads i).density = TrafficDensity.HIGH)
    ∧ (10 ≤ (s.roads i).vehicleCount → (s.roads i).density = TrafficDensity.VERY_HIGH) := by
  obtain ⟨hc, hd⟩ := reachable_countsOK h i
  refine ⟨hc, ?_⟩
  rw [hd]
  unfold newDensity
  refine ⟨fun h => ?_, fun h h' => ?_, fun h h' => ?_, fun h h' => ?_, fun h => ?_⟩
  · rw [if_pos h]
  · rw [if_neg (by omega), if_pos (by omega)]
  · rw [if_neg (by omega), if_neg (by omega), if_pos (by omega)]
  · rw [if_neg (by omega), if_neg (by omega), if_neg (by omega), if_pos (by omega)]
  · rw [if_neg (by omega), if_neg (by omega), if_neg (by omega), if_neg (by omega)]

theorem reachable_demoCount8 : Reachable demoCount8 :=
  reachable_run reachable_s0 _ (by decide!)

/-- C2 on the state in which approach 0 has just reported 8 vehicles: the count is 8 and
the density HIGH. -/
theorem C2_count_density_invariant_witness :
    Reachable demoCount8 ∧ (demoCount8.roads 0).vehicleCount = 8
    ∧ (demoCount8.roads 0).density = TrafficDensity.HIGH :=
  ⟨reachable_demoCount8, by decide!,
    (C2_count_density_invariant reachable_demoCount8 0).2.2.2.2.1
      (by decide!) (by decide!)⟩

/-! ## C3: at most one approach is GREEN -/

/-- C3: take any reachable state and any light array `L` that is either its current one
or one the controller wrote earlier (`lightHistory` holds the array after every single
`setTrafficLight` write, so the arrays between the calls of one operation are among
them).  If approach `i` is GREEN in `L`, every other approach `j` is RED or OFF in `L`,
and in particular is not GREEN. -/
theorem C3_mutual_exclusion {s : TrafficSystem} (h : Reachable s) (L : Int → TrafficLight)
    (hL : L = s.currentLights ∨ L ∈ s.lightHistory) (i j : Int)
    (hi : 0 ≤ i ∧ i < 4) (hj : 0 ≤ j ∧ j < 4) (hij : i ≠ j)
    (hg : L i = TrafficLight.GREEN) :
    (L j = TrafficLight.RED ∨ L j = TrafficLight.OFF) ∧ L j ≠ TrafficLight.GREEN := by
  have hinv := reachable_inv h
  have hx : Excl L := by
    rcases hL with e | e
    · rw [e]; exact inv_excl hinv
    · exact hinv.hist L e
  have := hx i j hi.1 hi.2 hj.1 hj.2 hij hg
  refine ⟨this, ?_⟩
  rcases this with e | e <;> rw [e] <;> decide

theorem reachable_demoStarted : Reachable demoStarted :=
  reachable_run reachable_s0 _ (by decide!)

/-- C3 on the state right after the first start: approach 0 is GREEN and approach 1 is
RED; the four arrays written on the way are in the history. -/
theorem C3_mutual_exclusion_witness :
    Reachable demoStarted ∧ demoStarted.currentLights 0 = TrafficLight.GREEN
    ∧ demoStarted.lightHistory.length = 4
    ∧ ((demoStarted.currentLights 1 = TrafficLight.RED
        ∨ demoStarted.currentLights 1 = TrafficLight.OFF)
      ∧ demoStarted.currentLights 1 ≠ TrafficLight.GREEN) :=
  ⟨reachable_demoStarted, by decide!, by decide!,
    C3_mutual_exclusion reachable_demoStarted demoStarted.currentLights (Or.inl rfl) 0 1
      (by decide) (by decide) (by decide) (by decide!)⟩

/-! ## C4: start -/

/-- C4, counterexample: the stopped state `demoStoppedAsleep` is reachable and still has
`energySavingMode` set (stopping does not clear it); `startSystem` then sets
`current_index = 0` but `processTrafficCycle` returns at its guard, so approach 0 stays
OFF and the decrementer is not started. -/
theorem C4_start_counterexample :
    Reachable demoStoppedAsleep ∧ demoStoppedAsleep.systemRunning = false
    ∧ demoStoppedAsleep.energySavingMode = true
    ∧ (startSystem demoStoppedAsleep).systemRunning = true
    ∧ (startSystem demoStoppedAsleep).currentLights 0 = TrafficLight.OFF
    ∧ (startSystem demoStoppedAsleep).currentLights 0 ≠ TrafficLight.GREEN
    ∧ (startSystem demoStoppedAsleep).lightTimer.active = false :=
  ⟨reachable_run reachable_s0 _ (by decide!), by decide!, by decide!, by decide!, by decide!,
    by decide!, by decide!⟩

theorem startSystem_stopped (s : TrafficSystem) (hstop : s.systemRunning = false) :
    startSystem s =
      emit (processTrafficCycle { s with
          systemRunning := true
          currentRoadIndex := 0
          yellowLightActive := false
          lightTimeRemaining := 0
          mainTimer := s.mainTimer.start 50
          sensorTimer :=
            if s.arduinoData.connected = true then s.sensorTimer.start 250
            else s.sensorTimer })
        (Event.logMessage "Traffic system started." "INFO") := by
  dsimp only [startSystem]
  rw [if_neg (by simp [hstop])]
  by_cases hc : s.arduinoData.connected = true
  · rw [if_pos hc, if_pos hc]
  · rw [if_neg hc, if_neg hc]

/-- C4, amended: for every reachable state in which the system is stopped and
energy-saving mode is not active, `startSystem` yields a running state with
`current_index = 0`, approach 0 GREEN, approaches 1, 2 and 3 RED, seconds-remaining equal
to `duration[density of approach 0]`, and the decrementer active with a 1000 ms
interval. -/
theorem C4_start_amended {s : TrafficSystem} (h : Reachable s)
    (hstop : s.systemRunning = false) (hmode : s.energySavingMode = false) :
    (startSystem s).systemRunning = true
    ∧ (startSystem s).currentRoadIndex = 0
    ∧ (startSystem s).currentLights 0 = TrafficLight.GREEN
    ∧ (startSystem s).currentLights 1 = TrafficLight.RED
    ∧ (startSystem s).currentLights 2 = TrafficLight.RED
    ∧ (startSystem s).currentLights 3 = TrafficLight.RED
    ∧ (startSystem s).lightTimeRemaining = s.lightDurations (s.roads 0).density.toInt
    ∧ (startSystem s).lightTimer = ⟨true, 1000⟩ := by
  have ht : s.lightTimer.active = false := (reachable_inv h).timer (Or.inl hstop)
  have key := @processTrafficCycle_run { s with
      systemRunning := true
      currentRoadIndex := 0
      yellowLightActive := false
      lightTimeRemaining := 0
      mainTimer := s.mainTimer.start 50
      sensorTimer :=
        if s.arduinoData.connected = true then s.sensorTimer.start 250
        else s.sensorTimer } rfl hmode rfl ht
  rw [startSystem_stopped s hstop, key]
  simp only [emit_systemRunning, emit_currentRoadIndex, emit_currentLights,
    emit_lightTimeRemaining, emit_lightTimer, cycleLights_currentLights,
    cycleLights_systemRunning, cycleLights_currentRoadIndex, getRedLightDuration,
    cycleLights_lightDurations]
  norm_num

/-- C4 amended, on the controller right after start-up: approach 0 becomes GREEN for the
5 seconds of the OFF bucket. -/
theorem C4_start_amended_witness :
    Reachable s0 ∧ s0.systemRunning = false ∧ s0.energySavingMode = false
    ∧ (startSystem s0).currentLights 0 = TrafficLight.GREEN
    ∧ (startSystem s0).lightTimeRemaining = 5 :=
  ⟨reachable_s0, by decide, by decide,
    (C4_start_amended reachable_s0 (by decide) (by decide)).2.2.1,
    (C4_start_amended reachable_s0 (by decide) (by decide)).2.2.2.2.2.2.1.trans (by decide)⟩

/-! ## C5: the green countdown -/

theorem ticks_succ (n : Nat) (s : TrafficSystem) :
    ticks (n + 1) s = onLightTimerTimeout (ticks n s) := by
  unfold ticks
  exact Function.iterate_succ_apply' onLightTimerTimeout n s

theorem ticks_counting (s : TrafficSystem) (hr : s.systemRunning = true)
    (hm : s.energySavingMode = false) :
    ∀ k : Nat, (k : Int) < s.lightTimeRemaining →
      ticks k s = { s with lightTimeRemaining := s.lightTimeRemaining - k } := by
  intro k
  induction k with
  | zero =>
    intro _
    simp [ticks]
  | succ k ih =>
    intro hk
    have hk' : (k : Int) < s.lightTimeRemaining := by push_cast at hk; omega
    rw [ticks_succ, ih hk']
    have key := @onLightTimerTimeout_count
      { s with lightTimeRemaining := s.lightTimeRemaining - k } hr hm
      (by show 1 < s.lightTimeRemaining - k; push_cast at hk; omega)
    rw [key]
    show ({ s with lightTimeRemaining := s.lightTimeRemaining - k - 1 } : TrafficSystem)
      = { s with lightTimeRemaining := s.lightTimeRemaining - ((k + 1 : Nat) : Int) }
    congr 1
    push_cast
    ring

/-- The tick on which the green countdown reaches 0. -/
theorem onLightTimerTimeout_green_expiry (s : TrafficSystem) (hr : s.systemRunning = true)
    (hm : s.energySavingMode = false) (hy : s.yellowLightActive = false)
    (hd : s.lightTimeRemaining ≤ 1) :
    onLightTimerTimeout s =
      { setTrafficLight { s with
            lightTimeRemaining :=
              if s.lightTimeRemaining > 0 then s.lightTimeRemaining - 1
              else s.lightTimeRemaining
            lightTimer := s.lightTimer.stop }
          s.currentRoadIndex TrafficLight.YELLOW with
        yellowLightActive := true
        lightTimeRemaining := s.yellowLightFixedDuration
        lightTimer := ⟨true, 1000⟩ } := by
  rw [onLightTimerTimeout_expire hr hm hd]
  exact @switchToNextRoad_green { s with
    lightTimeRemaining :=
      if s.lightTimeRemaining > 0 then s.lightTimeRemaining - 1 else s.lightTimeRemaining
    lightTimer := s.lightTimer.stop } hm hy

/-- C5: let approach `c` have just become GREEN in the normal cycle (running, not energy
saving, not in the yellow sub-phase, decrementer active) with `d ≥ 1` seconds remaining.
After each of the first `d - 1` ticks of the decrementer `c` is still GREEN, with
`d - k` seconds remaining after the `k`-th, and the decrementer still active; on the
`d`-th tick `c` becomes YELLOW, seconds-remaining is the yellow duration, the yellow flag
is set and the decrementer is running at 1000 ms. -/
theorem C5_green_countdown (s : TrafficSystem) (c : Int) (d : Nat)
    (hr : s.systemRunning = true) (hm : s.energySavingMode = false)
    (hy : s.yellowLightActive = false) (ht : s.lightTimer.active = true)
    (hc : s.currentRoadIndex = c) (h0 : 0 ≤ c) (h4 : c < 4)
    (hg : s.currentLights c = TrafficLight.GREEN)
    (hd : s.lightTimeRemaining = (d : Int)) (h1 : 1 ≤ d) :
    (∀ k : Nat, k < d →
      (ticks k s).currentLights c = TrafficLight.GREEN
      ∧ (ticks k s).lightTimeRemaining = (d : Int) - k
      ∧ (ticks k s).lightTimer.active = true)
    ∧ (ticks d s).currentLights c = TrafficLight.YELLOW
    ∧ (ticks d s).lightTimeRemaining = s.yellowLightFixedDuration
    ∧ (ticks d s).yellowLightActive = true
    ∧ (ticks d s).currentRoadIndex = c
    ∧ (ticks d s).lightTimer = ⟨true, 1000⟩ := by
  have hcount := ticks_counting s hr hm
  constructor
  · intro k hk
    rw [hcount k (by rw [hd]; exact_mod_cast hk)]
    exact ⟨hg, by rw [← hd], ht⟩
  · obtain ⟨e, rfl⟩ : ∃ e, d = e + 1 := ⟨d - 1, by omega⟩
    rw [ticks_succ, hcount e (by rw [hd]; push_cast; omega)]
    have key := onLightTimerTimeout_green_expiry
      { s with lightTimeRemaining := s.lightTimeRemaining - e } hr hm hy
      (by show s.lightTimeRemaining - e ≤ 1; rw [hd]; push_cast; omega)
    rw [key]
    refine ⟨?_, rfl, rfl, ?_, rfl⟩
    · show (setTrafficLight _ _ _).currentLights c = TrafficLight.YELLOW
      rw [setTrafficLight_currentLights]
      show (if 0 ≤ s.currentRoadIndex ∧ s.currentRoadIndex < 4 then
        Function.update s.currentLights s.currentRoadIndex TrafficLight.YELLOW
        else s.currentLights) c = TrafficLight.YELLOW
      rw [hc, if_pos ⟨h0, h4⟩, Function.update_same]
    · show (setTrafficLight _ _ _).currentRoadIndex = c
      rw [setTrafficLight_currentRoadIndex]
      exact hc

/-- C5 on the scenario of the specification: with the default durations and approach 0
at density HIGH, approach 0 is still GREEN after 17 ticks (18 seconds), turns YELLOW on the
18th tick for 3 seconds, stays YELLOW through the 19th and 20th tick, and on the 21st tick
approach 0 turns RED while approach 1 (density OFF) turns GREEN with 5 seconds
remaining. -/
theorem C5_green_countdown_witness :
    demoHighGreen.currentRoadIndex = 0
    ∧ demoHighGreen.currentLights 0 = TrafficLight.GREEN
    ∧ (demoHighGreen.roads 0).density = TrafficDensity.HIGH
    ∧ demoHighGreen.lightTimeRemaining = 18
    ∧ (ticks 1 demoHighGreen).currentLights 0 = TrafficLight.GREEN
    ∧ (ticks 17 demoHighGreen).currentLights 0 = TrafficLight.GREEN
    ∧ (ticks 17 demoHighGreen).lightTimeRemaining = 18 - 17
    ∧ (ticks 18 demoHighGreen).currentLights 0 = TrafficLight.YELLOW
    ∧ (ticks 18 demoHighGreen).lightTimeRemaining = 3
    ∧ (ticks 19 demoHighGreen).currentLights 0 = TrafficLight.YELLOW
    ∧ (ticks 20 demoHighGreen).currentLights 0 = TrafficLight.YELLOW
    ∧ (ticks 21 demoHighGreen).currentLights 0 = TrafficLight.RED
    ∧ (ticks 21 demoHighGreen).currentLights 1 = TrafficLight.GREEN
    ∧ ((ticks 21 demoHighGreen).roads 1).density = TrafficDensity.OFF
    ∧ (ticks 21 demoHighGreen).lightTimeRemaining = 5 :=
  have h := C5_green_countdown demoHighGreen 0 18 (by decide!) (by decide!) (by decide!)
    (by decide!) (by decide!) (by decide) (by decide) (by decide!) (by decide!) (by decide)
  ⟨by decide!, by decide!, by decide!, by decide!, (h.1 1 (by decide)).1,
    (h.1 17 (by decide)).1, (h.1 17 (by decide)).2.1, h.2.1,
    h.2.2.1.trans (by decide!), by decide!, by decide!, by decide!, by decide!, by decide!,
    by decide!⟩

/-! ## C6: the end of the yellow sub-phase -/

/-- The tick on which the yellow countdown reaches 0. -/
theorem onLightTimerTimeout_yellow_expiry (s : TrafficSystem) (hr : s.systemRunning = true)
    (hm : s.energySavingMode = false) (hy : s.yellowLightActive = true)
    (hd : s.lightTimeRemaining ≤ 1) :
    onLightTimerTimeout s =
      { cycleLights (afterYellow (atExpiry s)) with
        lightTimeRemaining :=
          getRedLightDuration (cycleLights (afterYellow (atExpiry s)))
            ((afterYellow (atExpiry s)).roads
              (afterYellow (atExpiry s)).currentRoadIndex).density
        lightTimer := ⟨true, 1000⟩ } := by
  rw [onLightTimerTimeout_expire hr hm hd]
  have e1 := @switchToNextRoad_yellow (atExpiry s) hm hy
  have e2 := @processTrafficCycle_run (afterYellow (atExpiry s))
    (by simp [afterYellow, atExpiry, hr]) (by simp [afterYellow, atExpiry, hm])
    (by simp [afterYellow, atExpiry]) (by simp [afterYellow, atExpiry, QTimer.stop])
  exact e1.trans e2

theorem afterYellow_currentRoadIndex (s : TrafficSystem) :
    (afterYellow (atExpiry s)).currentRoadIndex = Int.tmod (s.currentRoadIndex + 1) 4 := rfl

theorem afterYellow_roads (s : TrafficSystem) :
    (afterYellow (atExpiry s)).roads =
      Function.update
        (Function.update s.roads s.currentRoadIndex
          { s.roads s.currentRoadIndex with violatedIDs := [] })
        (Int.tmod (s.currentRoadIndex + 1) 4)
        { (Function.update s.roads s.currentRoadIndex
              { s.roads s.currentRoadIndex with violatedIDs := [] })
            (Int.tmod (s.currentRoadIndex + 1) 4) with violatedIDs := [] } := by
  simp [afterYellow, atExpiry, setRoad]

/-- The tick that ends the yellow sub-phase turns the outgoing approach RED. -/
theorem yellow_expiry_red (s : TrafficSystem) (hr : s.systemRunning = true)
    (hm : s.energySavingMode = false) (hy : s.yellowLightActive = true)
    (h0 : 0 ≤ s.currentRoadIndex) (h4 : s.currentRoadIndex < 4)
    (hd : s.lightTimeRemaining ≤ 1) :
    (onLightTimerTimeout s).currentLights s.currentRoadIndex = TrafficLight.RED := by
  obtain ⟨_, _, tne, _⟩ := tmod_succ_range h0 h4
  rw [onLightTimerTimeout_yellow_expiry s hr hm hy hd]
  show (cycleLights (afterYellow (atExpiry s))).currentLights s.currentRoadIndex
    = TrafficLight.RED
  rw [cycleLights_currentLights, if_pos ⟨h0, h4⟩, afterYellow_currentRoadIndex,
    if_neg (fun e => tne e.symm)]

/-- C6: in a running, non-energy-saving state whose current approach `c` (in `0..3`) is in
its yellow sub-phase, the decrementer tick that brings the countdown to 0 (at most one
second was left) makes `c` RED with empty `violatedIDs`, advances `current_index` to
`(c + 1) mod 4`, empties the new approach's `violatedIDs`, makes the new approach GREEN
and every other approach RED, clears the yellow flag, sets seconds-remaining to
`duration[density of the new approach]` and leaves the decrementer running. -/
theorem C6_yellow_expiry (s : TrafficSystem) (c : Int)
    (hr : s.systemRunning = true) (hm : s.energySavingMode = false)
    (hy : s.yellowLightActive = true) (hc : s.currentRoadIndex = c)
    (h0 : 0 ≤ c) (h4 : c < 4) (hd : s.lightTimeRemaining ≤ 1) :
    (onLightTimerTimeout s).currentLights c = TrafficLight.RED
    ∧ ((onLightTimerTimeout s).roads c).violatedIDs = []
    ∧ (onLightTimerTimeout s).currentRoadIndex = (c + 1) % 4
    ∧ ((onLightTimerTimeout s).roads ((c + 1) % 4)).violatedIDs = []
    ∧ (onLightTimerTimeout s).currentLights ((c + 1) % 4) = TrafficLight.GREEN
    ∧ (∀ j : Int, 0 ≤ j → j < 4 → j ≠ (c + 1) % 4 →
        (onLightTimerTimeout s).currentLights j = TrafficLight.RED)
    ∧ (onLightTimerTimeout s).yellowLightActive = false
    ∧ (onLightTimerTimeout s).lightTimeRemaining
        = (onLightTimerTimeout s).lightDurations
            ((onLightTimerTimeout s).roads ((c + 1) % 4)).density.toInt
    ∧ (onLightTimerTimeout s).lightTimer = ⟨true, 1000⟩ := by
  obtain ⟨t0, t4, tne, te⟩ := tmod_succ_range h0 h4
  rw [onLightTimerTimeout_yellow_expiry s hr hm hy hd]
  have hidx : (afterYellow (atExpiry s)).currentRoadIndex = (c + 1) % 4 := by
    rw [afterYellow_currentRoadIndex, hc, te]
  have hlights : ∀ j : Int, 0 ≤ j → j < 4 →
      (cycleLights (afterYellow (atExpiry s))).currentLights j
        = if j = (c + 1) % 4 then TrafficLight.GREEN else TrafficLight.RED := by
    intro j j0 j4
    rw [cycleLights_currentLights, if_pos ⟨j0, j4⟩, hidx]
  have hroads : (cycleLights (afterYellow (atExpiry s))).roads
      = Function.update
        (Function.update s.roads c { s.roads c with violatedIDs := [] })
        ((c + 1) % 4)
        { (Function.update s.roads c { s.roads c with violatedIDs := [] }) ((c + 1) % 4) with
          violatedIDs := [] } := by
    rw [cycleLights_roads, afterYellow_roads, hc, te]
  have hne : c ≠ (c + 1) % 4 := by omega
  refine ⟨?_, ?_, ?_, ?_, ?_, ?_, ?_, ?_, rfl⟩
  · show (cycleLights (afterYellow (atExpiry s))).currentLights c = TrafficLight.RED
    rw [hlights c h0 h4, if_neg hne]
  · show ((cycleLights (afterYellow (atExpiry s))).roads c).violatedIDs = []
    rw [hroads, Function.update_noteq hne, Function.update_same]
  · show (cycleLights (afterYellow (atExpiry s))).currentRoadIndex = (c + 1) % 4
    rw [cycleLights_currentRoadIndex, hidx]
  · show ((cycleLights (afterYellow (atExpiry s))).roads ((c + 1) % 4)).violatedIDs = []
    rw [hroads, Function.update_same]
  · show (cycleLights (afterYellow (atExpiry s))).currentLights ((c + 1) % 4)
      = TrafficLight.GREEN
    rw [hlights _ (by omega) (by omega), if_pos rfl]
  · intro j j0 j4 hj
    show (cycleLights (afterYellow (atExpiry s))).currentLights j = TrafficLight.RED
    rw [hlights j j0 j4, if_neg hj]
  · show (cycleLights (afterYellow (atExpiry s))).yellowLightActive = false
    rw [cycleLights_yellowLightActive]
    simp [afterYellow, atExpiry]
  · show getRedLightDuration (cycleLights (afterYellow (atExpiry s)))
        ((afterYellow (atExpiry s)).roads (afterYellow (atExpiry s)).currentRoadIndex).density
      = (cycleLights (afterYellow (atExpiry s))).lightDurations
          ((cycleLights (afterYellow (atExpiry s))).roads ((c + 1) % 4)).density.toInt
    rw [cycleLights_roads, hidx]
    rfl

section

set_option maxRecDepth 100000

/-- C6 on `demoYellowLast` (approach 0 YELLOW, one second left): the next tick makes
approach 0 RED and approach 1 GREEN for the 5 seconds of its OFF bucket. -/
theorem C6_yellow_expiry_witness :
    demoYellowLast.currentLights 0 = TrafficLight.YELLOW
    ∧ demoYellowLast.lightTimeRemaining = 1
    ∧ (onLightTimerTimeout demoYellowLast).currentLights 0 = TrafficLight.RED
    ∧ (onLightTimerTimeout demoYellowLast).currentRoadIndex = 1
    ∧ (onLightTimerTimeout demoYellowLast).currentLights 1 = TrafficLight.GREEN
    ∧ (onLightTimerTimeout demoYellowLast).yellowLightActive = false
    ∧ (onLightTimerTimeout demoYellowLast).lightTimeRemaining = 5 :=
  have h := C6_yellow_expiry demoYellowLast 0 (by decide!) (by decide!) (by decide!)
    (by decide!) (by decide) (by decide) (by decide!)
  ⟨by decide!, by decide!, h.1, by decide!, by decide!, h.2.2.2.2.2.2.1, by decide!⟩

end

/-! ## updateTrafficLights, case by case -/

theorem updateTrafficLights_stopped {u : TrafficSystem} (hr : u.systemRunning = false) :
    updateTrafficLights u = u := by
  unfold updateTrafficLights
  rw [if_pos hr]

theorem updateTrafficLights_enter {u : TrafficSystem} (hr : u.systemRunning = true)
    (hm : u.energySavingMode = false) (he : u.energySavingEnabled = true)
    (ha : allRoadsEmpty u = true) :
    updateTrafficLights u =
      emit (setAllTrafficLights
          { u with energySavingMode := true, lightTimer := u.lightTimer.stop }
          TrafficLight.OFF)
        (Event.energySavingStatusChanged true) := by
  dsimp only [updateTrafficLights]
  rw [if_neg (by simp [hr]), processEnergySaving_enter hm he ha]
  rw [if_pos (by simp)]

theorem updateTrafficLights_asleep {u : TrafficSystem} (hr : u.systemRunning = true)
    (hm : u.energySavingMode = true) (he : u.energySavingEnabled = true)
    (ha : allRoadsEmpty u = true) : updateTrafficLights u = u := by
  dsimp only [updateTrafficLights]
  rw [if_neg (by simp [hr]), processEnergySaving_keep (Or.inr ⟨hm, he, ha⟩)]
  rw [if_pos hm]

theorem updateTrafficLights_awake {u : TrafficSystem} (hr : u.systemRunning = true)
    (hm : u.energySavingMode = false)
    (hc : u.energySavingEnabled = false ∨ allRoadsEmpty u = false) :
    updateTrafficLights u =
      if u.currentLights u.currentRoadIndex = TrafficLight.OFF
          ∧ (u.roads u.currentRoadIndex).vehicleCount > 0 then processTrafficCycle u
      else u := by
  dsimp only [updateTrafficLights]
  rw [if_neg (by simp [hr]), processEnergySaving_keep (Or.inl ⟨hm, hc⟩)]
  rw [if_neg (by simp [hm])]

theorem updateTrafficLights_exit {u : TrafficSystem} (hr : u.systemRunning = true)
    (hm : u.energySavingMode = true)
    (hc : u.energySavingEnabled = false ∨ allRoadsEmpty u = false) :
    updateTrafficLights u =
      if (processTrafficCycle (emit { u with energySavingMode := false }
              (Event.energySavingStatusChanged false))).currentLights u.currentRoadIndex
            = TrafficLight.OFF
          ∧ (u.roads u.currentRoadIndex).vehicleCount > 0 then
        processTrafficCycle (processTrafficCycle (emit { u with energySavingMode := false }
          (Event.energySavingStatusChanged false)))
      else
        processTrafficCycle (emit { u with energySavingMode := false }
          (Event.energySavingStatusChanged false)) := by
  dsimp only [updateTrafficLights]
  rw [if_neg (by simp [hr]), processEnergySaving_exit hm hc]
  rw [if_neg (by simp)]
  simp only [processTrafficCycle_currentRoadIndex, processTrafficCycle_roads,
    emit_currentRoadIndex, emit_roads]

/-- `processTrafficCycle` never takes a GREEN or a YELLOW light away. -/
theorem processTrafficCycle_keeps {u : TrafficSystem} (hinv : Inv u) (i : Int) :
    (u.currentLights i = TrafficLight.GREEN →
        (processTrafficCycle u).currentLights i = TrafficLight.GREEN)
    ∧ (u.currentLights i = TrafficLight.YELLOW →
        (processTrafficCycle u).currentLights i = TrafficLight.YELLOW) := by
  by_cases hg : u.systemRunning = false ∨ u.energySavingMode = true
      ∨ u.yellowLightActive = true ∨ u.lightTimer.active = true
  · rw [processTrafficCycle_blocked hg]
    exact ⟨id, id⟩
  · have hr : u.systemRunning = true := by
      cases hx : u.systemRunning <;> simp [hx] at hg ⊢
    have hm : u.energySavingMode = false := by
      cases hx : u.energySavingMode <;> simp [hx] at hg ⊢
    have hy : u.yellowLightActive = false := by
      cases hx : u.yellowLightActive <;> simp [hx] at hg ⊢
    have ht : u.lightTimer.active = false := by
      cases hx : u.lightTimer.active <;> simp [hx] at hg ⊢
    rw [processTrafficCycle_run hr hm hy ht]
    constructor
    · intro h
      have hi := (hinv.green i h).1
      show (cycleLights u).currentLights i = TrafficLight.GREEN
      rw [cycleLights_currentLights, hi, if_pos hinv.range, if_pos rfl]
    · intro h
      have := (hinv.yellow i h).2.1
      rw [hy] at this
      cases this

/-- Unless it enters energy-saving mode, `updateTrafficLights` never takes a GREEN or a
YELLOW light away. -/
theorem updateTrafficLights_keeps {u : TrafficSystem} (hinv : Inv u)
    (hentry : u.energySavingMode = true ∨ (updateTrafficLights u).energySavingMode = false)
    (i : Int) :
    (u.currentLights i = TrafficLight.GREEN →
        (updateTrafficLights u).currentLights i = TrafficLight.GREEN)
    ∧ (u.currentLights i = TrafficLight.YELLOW →
        (updateTrafficLights u).currentLights i = TrafficLight.YELLOW) := by
  by_cases hr : u.systemRunning = true
  swap
  · rw [updateTrafficLights_stopped (bool_false_of_not_true hr)]
    exact ⟨id, id⟩
  rcases processEnergySaving_cases u with ⟨hm, hc⟩ | ⟨hm, he, ha⟩ | ⟨hm, hc⟩ | ⟨hm, he, ha⟩
  · have dark := inv_dark hinv (Or.inr hm) i
    constructor <;> intro h <;> rcases dark with d | d <;> rw [d] at h <;> cases h
  · exfalso
    rw [updateTrafficLights_enter hr hm he ha] at hentry
    rcases hentry with h | h
    · rw [hm] at h; cases h
    · simp at h
  · rw [updateTrafficLights_awake hr hm hc]
    split_ifs
    · exact processTrafficCycle_keeps hinv i
    · exact ⟨id, id⟩
  · rw [updateTrafficLights_asleep hr hm he ha]
    exact ⟨id, id⟩

/-! ## C7: what a GREEN light turns into -/

/-- C7, counterexample: in the reachable state `demoStarted` approach 0 is GREEN and
`stopSystem` turns it OFF directly; in the reachable state `demoAwaitingResult` approach 0
is GREEN and a processing result with count 0 enters energy-saving mode, which turns it
OFF directly.  Neither change goes through YELLOW. -/
theorem C7_green_then_yellow_counterexample :
    (Reachable demoStarted ∧ demoStarted.currentLights 0 = TrafficLight.GREEN
      ∧ (step demoStarted Action.stopSystem).currentLights 0 = TrafficLight.OFF)
    ∧ (Reachable demoAwaitingResult
      ∧ demoAwaitingResult.currentLights 0 = TrafficLight.GREEN
      ∧ (step demoAwaitingResult (Action.processingFinished 0 0 [])).currentLights 0
          = TrafficLight.OFF
      ∧ (step demoAwaitingResult (Action.processingFinished 0 0 [])).energySavingMode
          = true) :=
  ⟨⟨reachable_run reachable_s0 _ (by decide!), by decide!, by decide!⟩,
    ⟨reachable_run reachable_s0 _ (by decide!), by decide!, by decide!, by decide!⟩⟩

theorem afterCounts_sameCore (s : TrafficSystem) (i n : Int) (ids : List Int) :
    SameCore (afterCounts s i n ids) s := by
  unfold afterCounts
  split_ifs <;> exact ⟨by simp, by simp, by simp, by simp, by simp, by simp, by simp⟩

/-- Shared part of C7: the two implications for one step whose light array, before and
after, is given. -/
theorem lights_kept_suffices {L M : Int → TrafficLight} {i : Int}
    (h : (L i = TrafficLight.GREEN → M i = TrafficLight.GREEN)
      ∧ (L i = TrafficLight.YELLOW → M i = TrafficLight.YELLOW)) :
    (L i = TrafficLight.GREEN → M i ≠ TrafficLight.GREEN → M i = TrafficLight.YELLOW)
    ∧ (L i = TrafficLight.YELLOW → M i ≠ TrafficLight.YELLOW → M i = TrafficLight.RED) :=
  ⟨fun hg hne => absurd (h.1 hg) hne, fun hy hne => absurd (h.2 hy) hne⟩

theorem lights_same_suffices {L M : Int → TrafficLight} (i : Int) (h : M = L) :
    (L i = TrafficLight.GREEN → M i ≠ TrafficLight.GREEN → M i = TrafficLight.YELLOW)
    ∧ (L i = TrafficLight.YELLOW → M i ≠ TrafficLight.YELLOW → M i = TrafficLight.RED) := by
  subst h
  exact ⟨fun hg hne => absurd hg hne, fun hy hne => absurd hy hne⟩

theorem tick_light_changes {s : TrafficSystem} (hinv : Inv s) (i : Int) :
    (s.currentLights i = TrafficLight.GREEN →
        (onLightTimerTimeout s).currentLights i ≠ TrafficLight.GREEN →
        (onLightTimerTimeout s).currentLights i = TrafficLight.YELLOW)
    ∧ (s.currentLights i = TrafficLight.YELLOW →
        (onLightTimerTimeout s).currentLights i ≠ TrafficLight.YELLOW →
        (onLightTimerTimeout s).currentLights i = TrafficLight.RED) := by
  constructor
  · intro hg hne
    obtain ⟨hi, hy, hr, hm⟩ := hinv.green i hg
    by_cases hd : 1 < s.lightTimeRemaining
    · rw [onLightTimerTimeout_count hr hm hd] at hne
      exact absurd hg hne
    · rw [onLightTimerTimeout_green_expiry s hr hm hy (by omega)]
      show (setTrafficLight _ _ _).currentLights i = TrafficLight.YELLOW
      rw [setTrafficLight_currentLights]
      show (if 0 ≤ s.currentRoadIndex ∧ s.currentRoadIndex < 4 then
        Function.update s.currentLights s.currentRoadIndex TrafficLight.YELLOW
        else s.currentLights) i = TrafficLight.YELLOW
      rw [if_pos hinv.range, hi, Function.update_same]
  · intro hyl hne
    obtain ⟨hi, hy, hr, hm⟩ := hinv.yellow i hyl
    by_cases hd : 1 < s.lightTimeRemaining
    · rw [onLightTimerTimeout_count hr hm hd] at hne
      exact absurd hyl hne
    · rw [hi]
      exact yellow_expiry_red s hr hm hy hinv.range.1 hinv.range.2 (by omega)

/-- C7, amended: take a reachable state, any step other than `stopSystem` that does not
enter energy-saving mode, and any approach `i`.  If the step changes `i`'s light away
from GREEN, the new light is YELLOW; and if the step changes `i`'s light away from
YELLOW, the new light is RED.  (So the change that follows GREEN to YELLOW, when made by
such a step, leads to RED.) -/
theorem C7_green_then_yellow_amended {s : TrafficSystem} (h : Reachable s) (a : Action)
    (hstop : a ≠ Action.stopSystem)
    (hentry : s.energySavingMode = true ∨ (step s a).energySavingMode = false) (i : Int) :
    (s.currentLights i = TrafficLight.GREEN →
        (step s a).currentLights i ≠ TrafficLight.GREEN →
        (step s a).currentLights i = TrafficLight.YELLOW)
    ∧ (s.currentLights i = TrafficLight.YELLOW →
        (step s a).currentLights i ≠ TrafficLight.YELLOW →
        (step s a).currentLights i = TrafficLight.RED) := by
  have hinv := reachable_inv h
  cases a with
  | startSystem =>
    constructor
    · intro hg
      have hr := (hinv.green i hg).2.2.1
      have : step s Action.startSystem = s := by
        show startSystem s = s
        unfold startSystem
        rw [if_pos hr]
      rw [this]
      exact fun hne => absurd hg hne
    · intro hy
      have hr := (hinv.yellow i hy).2.2.1
      have : step s Action.startSystem = s := by
        show startSystem s = s
        unfold startSystem
        rw [if_pos hr]
      rw [this]
      exact fun hne => absurd hy hne
  | stopSystem => exact absurd rfl hstop
  | lightTimerTimeout => exact tick_light_changes hinv i
  | mainTimerTimeout f => exact lights_same_suffices i (sameCore_onMainTimerTimeout s f).1
  | sensorTimerTimeout => exact lights_same_suffices i (sameCore_onSensorTimerTimeout s).1
  | processingFinished r n ids =>
    by_cases hr : r < 0 ∨ r ≥ 4
    · have : step s (Action.processingFinished r n ids) = { s with m_workerBusy := false } := by
        show handleProcessingFinished s r n ids = _
        dsimp only [handleProcessingFinished]
        rw [if_pos hr]
      rw [this]
      exact lights_same_suffices i rfl
    · have e : step s (Action.processingFinished r n ids)
          = updateTrafficLights (afterCounts s r n ids) :=
        handleProcessingFinished_eq s r n ids (by omega) (by omega)
      have hc := afterCounts_sameCore s r n ids
      rw [e] at hentry ⊢
      rw [← hc.1]
      apply lights_kept_suffices
      apply updateTrafficLights_keeps (inv_sameCore hinv hc)
      rw [hc.2.2.2.2.1]
      exact hentry
  | connectCamera r src o => exact lights_same_suffices i (sameCore_connectCamera s r src o).1
  | disconnectCamera r => exact lights_same_suffices i (sameCore_disconnectCamera s r).1
  | initializeArduino p ps o =>
    exact lights_same_suffices i (sameCore_initializeArduino s p ps o).1
  | setArduinoSimulationMode b ps o =>
    exact lights_same_suffices i (sameCore_setArduinoSimulationMode s b ps o).1
  | arduinoError e => exact lights_same_suffices i (sameCore_onArduinoError s e).1
  | setLightTiming d n => exact lights_same_suffices i rfl
  | setYellowLightDuration n => exact lights_same_suffices i rfl
  | setEnergySavingEnabled b => exact lights_same_suffices i rfl
  | setViolationDetectionEnabled b => exact lights_same_suffices i rfl
  | setRoadROI r roi => exact lights_same_suffices i (sameCore_setRoadROI s r roi).1
  | setYoloThresholds => exact lights_same_suffices i rfl
  | arduinoDataReceived d ok =>
    exact lights_same_suffices i (sameCore_onArduinoDataReceived s d ok).1
  | singleShotTimeout shot ok =>
    exact lights_same_suffices i (sameCore_onSingleShot s shot ok).1

/-- C7 amended, on `demoHighGreen` after 17 ticks (approach 0 GREEN, one second left):
the next tick changes approach 0 from GREEN to YELLOW. -/
theorem C7_green_then_yellow_amended_witness :
    Reachable (ticks 17 demoHighGreen)
    ∧ (ticks 17 demoHighGreen).currentLights 0 = TrafficLight.GREEN
    ∧ (step (ticks 17 demoHighGreen) Action.lightTimerTimeout).currentLights 0
        ≠ TrafficLight.GREEN
    ∧ (step (ticks 17 demoHighGreen) Action.lightTimerTimeout).currentLights 0
        = TrafficLight.YELLOW :=
  have hreach : Reachable (ticks 17 demoHighGreen) :=
    reachable_run reachable_s0
      (([Action.connectCamera 0 "0" true, Action.startSystem] ++ dispatch0
          ++ [Action.processingFinished 0 8 []])
        ++ [Action.stopSystem, Action.startSystem]
        ++ List.replicate 17 Action.lightTimerTimeout) (by decide!)
  ⟨hreach, by decide!, by decide!,
    (C7_green_then_yellow_amended hreach Action.lightTimerTimeout (fun e => Action.noConfusion e)
      (Or.inr (by decide!)) 0).1 (by decide!) (by decide!)⟩

/-! ## C8: entering energy-saving mode -/

theorem quietExt_refl (s : TrafficSystem) : QuietExt s s :=
  ⟨[], by simp, by simp⟩

theorem quietExt_of_events_eq {s t : TrafficSystem} (h : t.events = s.events) : QuietExt s t :=
  ⟨[], by simp [h], by simp⟩

theorem quietExt_trans {a b c : TrafficSystem} (h1 : QuietExt a b) (h2 : QuietExt b c) :
    QuietExt a c := by
  obtain ⟨l1, e1, q1⟩ := h1
  obtain ⟨l2, e2, q2⟩ := h2
  refine ⟨l1 ++ l2, by rw [e2, e1, List.append_assoc], fun b hb => ?_⟩
  rcases List.mem_append.mp hb with h | h
  · exact q1 b h
  · exact q2 b h

theorem quietExt_emit (s : TrafficSystem) (e : Event)
    (he : ∀ b, e ≠ Event.energySavingStatusChanged b) : QuietExt s (emit s e) :=
  ⟨[e], rfl, fun b hb => he b (List.mem_singleton.mp hb).symm⟩

theorem quietExt_setTrafficLight (s : TrafficSystem) (i : Int) (l : TrafficLight) :
    QuietExt s (setTrafficLight s i l) := by
  unfold setTrafficLight
  split_ifs
  · exact quietExt_refl s
  · refine ⟨[Event.trafficLightChanged i l], ?_, fun b hb => ?_⟩
    · simp [emit]
    · simp at hb

theorem quietExt_setAllTrafficLights (s : TrafficSystem) (l : TrafficLight) :
    QuietExt s (setAllTrafficLights s l) := by
  simp only [setAllTrafficLights, List.foldl_cons, List.foldl_nil]
  exact quietExt_trans (quietExt_trans (quietExt_trans (quietExt_setTrafficLight _ _ _)
    (quietExt_setTrafficLight _ _ _)) (quietExt_setTrafficLight _ _ _))
    (quietExt_setTrafficLight _ _ _)

theorem quietExt_updateCount (s : TrafficSystem) (i n : Int) :
    QuietExt s (updateCount s i n) := by
  dsimp only [updateCount]
  split_ifs
  · exact quietExt_trans (quietExt_trans
      (quietExt_emit (setRoad s i _) _ (fun b e => Event.noConfusion e))
      (quietExt_of_events_eq rfl)) (quietExt_emit _ _ (fun b e => Event.noConfusion e))
  · exact quietExt_emit (setRoad s i _) _ (fun b e => Event.noConfusion e)
  · exact quietExt_refl s

theorem quietExt_reportViolations (i : Int) (ids : List Int) :
    ∀ s : TrafficSystem, QuietExt s (reportViolations s i ids) := by
  induction ids with
  | nil => intro s; exact quietExt_refl s
  | cons id rest ih =>
    intro s
    simp only [reportViolations]
    split_ifs
    · exact ih s
    · exact quietExt_trans
        (quietExt_trans (quietExt_emit s _ (fun b e => Event.noConfusion e))
          (quietExt_of_events_eq rfl)) (ih _)

theorem quietExt_afterCounts (s : TrafficSystem) (i n : Int) (ids : List Int) :
    QuietExt s (afterCounts s i n ids) := by
  have h1 : QuietExt s (emit (updateCount { s with m_workerBusy := false } i n)
      (Event.frameUpdated i)) :=
    quietExt_trans (quietExt_trans (quietExt_of_events_eq rfl)
      (quietExt_updateCount { s with m_workerBusy := false } i n))
      (quietExt_emit _ _ (fun b e => Event.noConfusion e))
  unfold afterCounts
  split_ifs
  · exact quietExt_trans h1 (quietExt_reportViolations i ids _)
  · exact h1

theorem allRoadsEmpty_iff (u : TrafficSystem)
    (hc : ∀ j : Int, 0 ≤ j → j < 4 → 0 ≤ (u.roads j).vehicleCount) :
    allRoadsEmpty u = true ↔
      ∀ j : Int, 0 ≤ j → j < 4 → (u.roads j).cameraConnected = true →
        (u.roads j).vehicleCount = 0 := by
  have h0 := hc 0 (by norm_num) (by norm_num)
  have h1 := hc 1 (by norm_num) (by norm_num)
  have h2 := hc 2 (by norm_num) (by norm_num)
  have h3 := hc 3 (by norm_num) (by norm_num)
  simp only [allRoadsEmpty, List.all_cons, List.all_nil, Bool.and_true, Bool.and_eq_true,
    Bool.not_eq_true', Bool.and_eq_false_iff, decide_eq_false_iff_not, not_lt]
  constructor
  · rintro ⟨a0, a1, a2, a3⟩ j j0 j4 hcon
    have hj : j = 0 ∨ j = 1 ∨ j = 2 ∨ j = 3 := by omega
    rcases hj with rfl | rfl | rfl | rfl
    · rcases a0 with a | a
      · rw [a] at hcon; cases hcon
      · omega
    · rcases a1 with a | a
      · rw [a] at hcon; cases hcon
      · omega
    · rcases a2 with a | a
      · rw [a] at hcon; cases hcon
      · omega
    · rcases a3 with a | a
      · rw [a] at hcon; cases hcon
      · omega
  · intro h
    have key : ∀ j : Int, 0 ≤ j → j < 4 →
        (u.roads j).cameraConnected = false ∨ (u.roads j).vehicleCount ≤ 0 := by
      intro j j0 j4
      cases hcon : (u.roads j).cameraConnected
      · left; rfl
      · right; rw [h j j0 j4 hcon]
    exact ⟨key 0 (by norm_num) (by norm_num), key 1 (by norm_num) (by norm_num),
      key 2 (by norm_num) (by norm_num), key 3 (by norm_num) (by norm_num)⟩

@[simp]
theorem afterCounts_energySavingEnabled (s : TrafficSystem) (i n : Int) (ids : List Int) :
    (afterCounts s i n ids).energySavingEnabled = s.energySavingEnabled := by
  unfold afterCounts
  split_ifs <;> simp

@[simp]
theorem afterCounts_systemRunning (s : TrafficSystem) (i n : Int) (ids : List Int) :
    (afterCounts s i n ids).systemRunning = s.systemRunning :=
  (afterCounts_sameCore s i n ids).2.2.2.1

@[simp]
theorem afterCounts_energySavingMode (s : TrafficSystem) (i n : Int) (ids : List Int) :
    (afterCounts s i n ids).energySavingMode = s.energySavingMode :=
  (afterCounts_sameCore s i n ids).2.2.2.2.1

/-- The mode after `updateTrafficLights` in a running state, and what an entry does. -/
theorem updateTrafficLights_mode (u : TrafficSystem) (hr : u.systemRunning = true) :
    ((updateTrafficLights u).energySavingMode = true ↔
        u.energySavingEnabled = true ∧ allRoadsEmpty u = true)
    ∧ (u.energySavingMode = false → (updateTrafficLights u).energySavingMode = true →
        (∀ j : Int, 0 ≤ j → j < 4 → (updateTrafficLights u).currentLights j = TrafficLight.OFF)
        ∧ (updateTrafficLights u).lightTimer.active = false
        ∧ ∃ l : List Event, (updateTrafficLights u).events
            = u.events ++ l ++ [Event.energySavingStatusChanged true]
          ∧ ∀ b, Event.energySavingStatusChanged b ∉ l) := by
  rcases processEnergySaving_cases u with ⟨hm, hc⟩ | ⟨hm, he, ha⟩ | ⟨hm, hc⟩ | ⟨hm, he, ha⟩
  · have hoff : (updateTrafficLights u).energySavingMode = false := by
      rw [updateTrafficLights_exit hr hm hc]
      split_ifs <;> simp
    rw [hoff]
    constructor
    · constructor
      · intro h; cases h
      · rintro ⟨he, ha⟩
        rcases hc with h | h
        · rw [he] at h; cases h
        · rw [ha] at h; cases h
    · intro h; rw [hm] at h; cases h
  · rw [updateTrafficLights_enter hr hm he ha]
    refine ⟨⟨fun _ => ⟨he, ha⟩, fun _ => by simp⟩, fun _ _ => ⟨?_, ?_, ?_⟩⟩
    · intro j j0 j4
      rw [emit_currentLights, setAllTrafficLights_currentLights, if_pos ⟨j0, j4⟩]
    · simp [QTimer.stop]
    · obtain ⟨l, el, ql⟩ := quietExt_setAllTrafficLights
        { u with energySavingMode := true, lightTimer := u.lightTimer.stop } TrafficLight.OFF
      exact ⟨l, by simp only [emit, el], ql⟩
  · have hoff : (updateTrafficLights u).energySavingMode = false := by
      rw [updateTrafficLights_awake hr hm hc]
      split_ifs <;> simp [hm]
    rw [hoff]
    constructor
    · constructor
      · intro h; cases h
      · rintro ⟨he, ha⟩
        rcases hc with h | h
        · rw [he] at h; cases h
        · rw [ha] at h; cases h
    · intro _ h; cases h
  · rw [updateTrafficLights_asleep hr hm he ha]
    refine ⟨⟨fun _ => ⟨he, ha⟩, fun _ => hm⟩, fun h => ?_⟩
    rw [hm] at h; cases h

/-- C8: in a running state whose counts are not negative, after a processing result for
an approach in `0..3` with a non-negative count has been handled, energy-saving mode is
active exactly if `energySavingEnabled` is true and every approach with a connected
camera has `vehicleCount = 0`; and if the result entered the mode (off before, on after)
then all four lights are OFF, the phase decrementer is halted and
`energySavingStatusChanged(true)` occurs exactly once among the events emitted while
handling the result. -/
theorem C8_energy_saving_entry (s : TrafficSystem) (i n : Int) (ids : List Int)
    (hr : s.systemRunning = true) (h0 : 0 ≤ i) (h4 : i < 4) (hn : 0 ≤ n)
    (hc : ∀ j : Int, 0 ≤ j → j < 4 → 0 ≤ (s.roads j).vehicleCount) :
    ((handleProcessingFinished s i n ids).energySavingMode = true ↔
      (handleProcessingFinished s i n ids).energySavingEnabled = true
      ∧ ∀ j : Int, 0 ≤ j → j < 4 →
          ((handleProcessingFinished s i n ids).roads j).cameraConnected = true →
          ((handleProcessingFinished s i n ids).roads j).vehicleCount = 0)
    ∧ (s.energySavingMode = false →
        (handleProcessingFinished s i n ids).energySavingMode = true →
        (∀ j : Int, 0 ≤ j → j < 4 →
          (handleProcessingFinished s i n ids).currentLights j = TrafficLight.OFF)
        ∧ (handleProcessingFinished s i n ids).lightTimer.active = false
        ∧ (emitted s (handleProcessingFinished s i n ids)).count
            (Event.energySavingStatusChanged true) = 1) := by
  have hu : (afterCounts s i n ids).systemRunning = true := by simp [hr]
  have hcu : ∀ j : Int, 0 ≤ j → j < 4 → 0 ≤ ((afterCounts s i n ids).roads j).vehicleCount := by
    intro j j0 j4
    rw [(afterCounts_road s i n ids j).1]
    split_ifs
    · exact hn
    · exact hc j j0 j4
  obtain ⟨hiff, hent⟩ := updateTrafficLights_mode (afterCounts s i n ids) hu
  rw [handleProcessingFinished_eq s i n ids h0 h4]
  constructor
  · rw [hiff, updateTrafficLights_energySavingEnabled, updateTrafficLights_roads,
      allRoadsEmpty_iff _ hcu]
  · intro hm ht
    obtain ⟨a, b, l, el, ql⟩ := hent (by simp [hm]) ht
    refine ⟨a, b, ?_⟩
    obtain ⟨l0, el0, ql0⟩ := quietExt_afterCounts s i n ids
    have : emitted s (updateTrafficLights (afterCounts s i n ids))
        = l0 ++ l ++ [Event.energySavingStatusChanged true] := by
      simp [emitted, el, el0]
    rw [this, List.count_append, List.count_append, List.count_eq_zero_of_not_mem (ql0 true),
      List.count_eq_zero_of_not_mem (ql true)]
    simp

theorem reachable_demoAwaitingResult : Reachable demoAwaitingResult :=
  reachable_run reachable_s0 _ (by decide!)

/-- C8 on `demoAwaitingResult` (running, approach 0 connected and GREEN, all counts 0,
energy saving enabled and not active): the result with count 0 for approach 0 enters the
mode, turns all four lights OFF, halts the decrementer and emits
`energySavingStatusChanged(true)` once. -/
theorem C8_energy_saving_entry_witness :
    demoAwaitingResult.systemRunning = true
    ∧ demoAwaitingResult.energySavingMode = false
    ∧ demoAwaitingResult.currentLights 0 = TrafficLight.GREEN
    ∧ (handleProcessingFinished demoAwaitingResult 0 0 []).energySavingMode = true
    ∧ (handleProcessingFinished demoAwaitingResult 0 0 []).currentLights 0 = TrafficLight.OFF
    ∧ (handleProcessingFinished demoAwaitingResult 0 0 []).currentLights 1 = TrafficLight.OFF
    ∧ (handleProcessingFinished demoAwaitingResult 0 0 []).currentLights 2 = TrafficLight.OFF
    ∧ (handleProcessingFinished demoAwaitingResult 0 0 []).currentLights 3 = TrafficLight.OFF
    ∧ (handleProcessingFinished demoAwaitingResult 0 0 []).lightTimer.active = false
    ∧ (emitted demoAwaitingResult (handleProcessingFinished demoAwaitingResult 0 0 [])).count
        (Event.energySavingStatusChanged true) = 1 :=
  have h := C8_energy_saving_entry demoAwaitingResult 0 0 [] (by decide!) (by decide)
    (by decide) (by decide) (fun j _ _ => (reachable_countsOK reachable_demoAwaitingResult j).1)
  ⟨by decide!, by decide!, by decide!, by decide!,
    (h.2 (by decide!) (by decide!)).1 0 (by decide) (by decide),
    (h.2 (by decide!) (by decide!)).1 1 (by decide) (by decide),
    (h.2 (by decide!) (by decide!)).1 2 (by decide) (by decide),
    (h.2 (by decide!) (by decide!)).1 3 (by decide) (by decide),
    (h.2 (by decide!) (by decide!)).2.1, (h.2 (by decide!) (by decide!)).2.2⟩

/-! ## C9: leaving energy-saving mode -/

theorem reachable_demoYellow0 : Reachable demoYellow0 :=
  reachable_run reachable_s0 _ (by decide!)

theorem reachable_demoAsleepInYellow : Reachable demoAsleepInYellow :=
  reachable_run reachable_demoYellow0 _ (by decide!)

/-- C9, the code at the failing input.  `demoAsleepInYellow` is reachable: approach 0
(connected, one vehicle) ran its green phase down and was in its yellow sub-phase when a
result with count 0 entered energy-saving mode; the yellow flag is still set.  The next
result, count 1 for approach 0, makes the entry condition false: the mode is left and
`energySavingStatusChanged(false)` is emitted, but `processTrafficCycle` returns at its
`yellowLightActive` guard both times it is called, so approach 0 stays OFF with all other
lights, and the decrementer stays halted.  A further result (count 3) changes nothing. -/
theorem C9_resume_fails_after_yellow_entry :
    Reachable demoAsleepInYellow
    ∧ demoAsleepInYellow.systemRunning = true
    ∧ demoAsleepInYellow.energySavingMode = true
    ∧ demoAsleepInYellow.yellowLightActive = true
    ∧ demoAsleepInYellow.currentRoadIndex = 0
    ∧ (handleProcessingFinished demoAsleepInYellow 0 1 []).energySavingMode = false
    ∧ Event.energySavingStatusChanged false ∈
        emitted demoAsleepInYellow (handleProcessingFinished demoAsleepInYellow 0 1 [])
    ∧ (handleProcessingFinished demoAsleepInYellow 0 1 []).currentRoadIndex = 0
    ∧ ((handleProcessingFinished demoAsleepInYellow 0 1 []).roads 0).vehicleCount = 1
    ∧ (handleProcessingFinished demoAsleepInYellow 0 1 []).currentLights 0 = TrafficLight.OFF
    ∧ (handleProcessingFinished demoAsleepInYellow 0 1 []).currentLights 1 = TrafficLight.OFF
    ∧ (handleProcessingFinished demoAsleepInYellow 0 1 []).currentLights 2 = TrafficLight.OFF
    ∧ (handleProcessingFinished demoAsleepInYellow 0 1 []).currentLights 3 = TrafficLight.OFF
    ∧ (handleProcessingFinished demoAsleepInYellow 0 1 []).lightTimer.active = false
    ∧ (run (handleProcessingFinished demoAsleepInYellow 0 1 [])
        (dispatch0 ++ [Action.processingFinished 0 3 []])).currentLights 0 = TrafficLight.OFF
    ∧ (run (handleProcessingFinished demoAsleepInYellow 0 1 [])
        (dispatch0 ++ [Action.processingFinished 0 3 []])).lightTimer.active = false :=
  ⟨reachable_demoAsleepInYellow,
    by decide!, by decide!, by decide!, by decide!, by decide!, by decide!, by decide!,
    by decide!, by decide!, by decide!, by decide!, by decide!, by decide!, by decide!,
    by decide!⟩

/-! ## Re-entering the cycle from a dark current approach -/

theorem reachable_demoAsleepTwoCameras : Reachable demoAsleepTwoCameras :=
  reachable_run reachable_s0 _ (by decide!)

/-- `processTrafficCycle` past its guard: the current approach GREEN, the decrementer
running. -/
theorem processTrafficCycle_green {u : TrafficSystem} (hr : u.systemRunning = true)
    (hm : u.energySavingMode = false) (hy : u.yellowLightActive = false)
    (ht : u.lightTimer.active = false)
    (hc : 0 ≤ u.currentRoadIndex ∧ u.currentRoadIndex < 4) :
    (processTrafficCycle u).currentLights u.currentRoadIndex = TrafficLight.GREEN
    ∧ (processTrafficCycle u).lightTimer = ⟨true, 1000⟩ := by
  rw [processTrafficCycle_run hr hm hy ht]
  refine ⟨?_, rfl⟩
  show (cycleLights u).currentLights u.currentRoadIndex = TrafficLight.GREEN
  rw [cycleLights_currentLights, if_pos hc, if_pos rfl]

theorem reachable_demoAsleepInGreen : Reachable demoAsleepInGreen :=
  reachable_run reachable_demoAwaitingResult _ (by decide!)


/-! ## A running, awake controller outside the yellow sub-phase shows GREEN

This is why the re-entry branch of `updateTrafficLights` (lines 192-194) is only ever taken
in a reachable state with the yellow flag still set: a reachable running state that is not
in energy-saving mode and whose current approach is OFF has `yellowLightActive = true`. -/

theorem awakeGreen_sameCore {s t : TrafficSystem} (h : AwakeGreen s) (c : SameCore t s) :
    AwakeGreen t := by
  intro hr hm hy
  rw [c.1, c.2.1]
  exact h (by rw [← c.2.2.2.1]; exact hr) (by rw [← c.2.2.2.2.1]; exact hm)
    (by rw [← c.2.2.1]; exact hy)

theorem awakeGreen_processTrafficCycle (u : TrafficSystem)
    (hc : 0 ≤ u.currentRoadIndex ∧ u.currentRoadIndex < 4)
    (h : u.lightTimer.active = true → AwakeGreen u) : AwakeGreen (processTrafficCycle u) := by
  intro hr hm hy
  rw [processTrafficCycle_systemRunning] at hr
  rw [processTrafficCycle_energySavingMode] at hm
  rw [processTrafficCycle_yellowLightActive] at hy
  rw [processTrafficCycle_currentRoadIndex]
  by_cases ht : u.lightTimer.active = true
  · rw [processTrafficCycle_blocked (Or.inr (Or.inr (Or.inr ht)))]
    exact h ht hr hm hy
  · exact (processTrafficCycle_green hr hm hy (bool_false_of_not_true ht) hc).1

theorem awakeGreen_onLightTimerTimeout {s : TrafficSystem} (hinv : Inv s) (h : AwakeGreen s) :
    AwakeGreen (onLightTimerTimeout s) := by
  by_cases h1 : s.systemRunning = false ∨ s.energySavingMode = true
  · rw [onLightTimerTimeout_idle h1]
    intro hr hm _
    rcases h1 with e | e
    · rw [show s.systemRunning = true from hr] at e; cases e
    · rw [show s.energySavingMode = false from hm] at e; cases e
  · have hr : s.systemRunning = true := by
      cases hx : s.systemRunning <;> simp [hx] at h1 ⊢
    have hm : s.energySavingMode = false := by
      cases hx : s.energySavingMode <;> simp [hx] at h1 ⊢
    by_cases hd : 1 < s.lightTimeRemaining
    · rw [onLightTimerTimeout_count hr hm hd]
      exact h
    · by_cases hy : s.yellowLightActive = true
      · rw [onLightTimerTimeout_yellow_expiry s hr hm hy (by omega)]
        intro _ _ _
        obtain ⟨t0, t4, _, _⟩ := tmod_succ_range hinv.range.1 hinv.range.2
        show (cycleLights (afterYellow (atExpiry s))).currentLights
          (cycleLights (afterYellow (atExpiry s))).currentRoadIndex = TrafficLight.GREEN
        rw [cycleLights_currentLights, cycleLights_currentRoadIndex,
          afterYellow_currentRoadIndex, if_pos ⟨t0, t4⟩, if_pos rfl]
      · rw [onLightTimerTimeout_green_expiry s hr hm (bool_false_of_not_true hy) (by omega)]
        intro _ _ hcon
        cases hcon

theorem awakeGreen_updateTrafficLights {u : TrafficSystem} (hinv : Inv u) (h : AwakeGreen u) :
    AwakeGreen (updateTrafficLights u) := by
  by_cases hr : u.systemRunning = true
  swap
  · rw [updateTrafficLights_stopped (bool_false_of_not_true hr)]
    exact h
  rcases processEnergySaving_cases u with ⟨hm, hc⟩ | ⟨hm, he, ha⟩ | ⟨hm, hc⟩ | ⟨hm, he, ha⟩
  · have ht : u.lightTimer.active = false := hinv.timer (Or.inr hm)
    have h1 : AwakeGreen (processTrafficCycle (emit { u with energySavingMode := false }
        (Event.energySavingStatusChanged false))) := by
      refine awakeGreen_processTrafficCycle _ ?_ ?_
      · exact hinv.range
      intro hcon
      have hcon : u.lightTimer.active = true := hcon
      rw [ht] at hcon
      cases hcon
    rw [updateTrafficLights_exit hr hm hc]
    split_ifs
    · refine awakeGreen_processTrafficCycle _ ?_ ?_
      · rw [processTrafficCycle_currentRoadIndex]; exact hinv.range
      · exact fun _ => h1
    · exact h1
  · rw [updateTrafficLights_enter hr hm he ha]
    intro _ hcon _
    simp at hcon
  · rw [updateTrafficLights_awake hr hm hc]
    split_ifs
    · exact awakeGreen_processTrafficCycle u hinv.range (fun _ => h)
    · exact h
  · rw [updateTrafficLights_asleep hr hm he ha]
    exact h

theorem awakeGreen_step {s : TrafficSystem} (hinv : Inv s) (h : AwakeGreen s) (a : Action) :
    AwakeGreen (step s a) := by
  cases a with
  | startSystem =>
    by_cases hr : s.systemRunning = true
    · have : step s Action.startSystem = s := by
        show startSystem s = s
        unfold startSystem
        rw [if_pos hr]
      rw [this]; exact h
    · have hr := bool_false_of_not_true hr
      have ht : s.lightTimer.active = false := hinv.timer (Or.inl hr)
      show AwakeGreen (startSystem s)
      rw [startSystem_stopped s hr]
      refine awakeGreen_sameCore ?_ (sameCore_emit _ _)
      refine awakeGreen_processTrafficCycle _ ?_ ?_
      · exact ⟨le_refl _, by norm_num⟩
      intro hcon
      have hcon : s.lightTimer.active = true := hcon
      rw [ht] at hcon
      cases hcon
  | stopSystem =>
    by_cases hr : s.systemRunning = false
    · have : step s Action.stopSystem = s := by
        show stopSystem s = s
        unfold stopSystem
        rw [if_pos hr]
      rw [this]; exact h
    · intro hcon
      have : (step s Action.stopSystem).systemRunning = false := by
        show (stopSystem s).systemRunning = false
        dsimp only [stopSystem]
        rw [if_neg hr]
        simp
      rw [this] at hcon
      cases hcon
  | lightTimerTimeout => exact awakeGreen_onLightTimerTimeout hinv h
  | mainTimerTimeout f => exact awakeGreen_sameCore h (sameCore_onMainTimerTimeout s f)
  | sensorTimerTimeout => exact awakeGreen_sameCore h (sameCore_onSensorTimerTimeout s)
  | processingFinished r n ids =>
    by_cases hr : r < 0 ∨ r ≥ 4
    · have : step s (Action.processingFinished r n ids) = { s with m_workerBusy := false } := by
        show handleProcessingFinished s r n ids = _
        dsimp only [handleProcessingFinished]
        rw [if_pos hr]
      rw [this]
      exact h
    · have e : step s (Action.processingFinished r n ids)
          = updateTrafficLights (afterCounts s r n ids) :=
        handleProcessingFinished_eq s r n ids (by omega) (by omega)
      rw [e]
      have hc := afterCounts_sameCore s r n ids
      exact awakeGreen_updateTrafficLights (inv_sameCore hinv hc) (awakeGreen_sameCore h hc)
  | connectCamera r src o => exact awakeGreen_sameCore h (sameCore_connectCamera s r src o)
  | disconnectCamera r => exact awakeGreen_sameCore h (sameCore_disconnectCamera s r)
  | initializeArduino p ps o =>
    exact awakeGreen_sameCore h (sameCore_initializeArduino s p ps o)
  | setArduinoSimulationMode b ps o =>
    exact awakeGreen_sameCore h (sameCore_setArduinoSimulationMode s b ps o)
  | arduinoError e => exact awakeGreen_sameCore h (sameCore_onArduinoError s e)
  | setLightTiming d n => exact h
  | setYellowLightDuration n => exact h
  | setEnergySavingEnabled b => exact h
  | setViolationDetectionEnabled b => exact h
  | setRoadROI r roi => exact awakeGreen_sameCore h (sameCore_setRoadROI s r roi)
  | setYoloThresholds => exact h
  | arduinoDataReceived d ok =>
    exact awakeGreen_sameCore h (sameCore_onArduinoDataReceived s d ok)
  | singleShotTimeout shot ok => exact awakeGreen_sameCore h (sameCore_onSingleShot s shot ok)

/-- In every reachable state that is running, not in energy-saving mode and not in the
yellow sub-phase, the current approach is GREEN. -/
theorem reachable_awakeGreen {s : TrafficSystem} (h : Reachable s) : AwakeGreen s := by
  induction h with
  | init ports openOk =>
    intro hr
    have : (initializeSystem ports openOk).systemRunning = false :=
      (sameCore_trans (sameCore_initializeArduino _ _ _ _)
        (⟨rfl, rfl, rfl, rfl, rfl, rfl, rfl⟩ :
          SameCore ((emit (emit TrafficSystem.constructed
            (Event.logMessage "Initializing Traffic System..." "INFO"))
            (Event.logMessage "Processing worker thread started." "INFO")))
            TrafficSystem.constructed)).2.2.2.1
    rw [this] at hr
    cases hr
  | step a hs _ ih => exact awakeGreen_step (reachable_inv hs) ih a

/-! ## C10: a result that leaves energy-saving mode -/

/-- From a reachable running state with the yellow flag clear whose current approach is
dark, handling a result that leaves the state out of energy-saving mode re-enters the
cycle: the current approach is GREEN and the decrementer runs.  Such a state is in
energy-saving mode (`reachable_awakeGreen`), and leaving the mode calls
`processTrafficCycle`, which the yellow flag does not block here. -/
theorem reentry_of_yellow_clear {s : TrafficSystem} (hs : Reachable s)
    (hr : s.systemRunning = true) (hy : s.yellowLightActive = false)
    (hoff : s.currentLights s.currentRoadIndex = TrafficLight.OFF)
    (i n : Int) (ids : List Int)
    (hmode : (handleProcessingFinished s i n ids).energySavingMode = false) :
    (handleProcessingFinished s i n ids).currentRoadIndex = s.currentRoadIndex
    ∧ (handleProcessingFinished s i n ids).currentLights s.currentRoadIndex
        = TrafficLight.GREEN
    ∧ (handleProcessingFinished s i n ids).lightTimer = ⟨true, 1000⟩ := by
  have hasleep : s.energySavingMode = true := by
    cases hm : s.energySavingMode with
    | true => rfl
    | false =>
      have hg := reachable_awakeGreen hs hr hm hy
      rw [hoff] at hg
      cases hg
  have ht : s.lightTimer.active = false := (reachable_inv hs).timer (Or.inr hasleep)
  have hc := (reachable_inv hs).range
  by_cases hrange : 0 ≤ i ∧ i < 4
  · obtain ⟨cl, ci, cy, cr, cm, ct, _⟩ := afterCounts_sameCore s i n ids
    rw [handleProcessingFinished_eq s i n ids hrange.1 hrange.2] at hmode ⊢
    have hru : (afterCounts s i n ids).systemRunning = true := by rw [cr]; exact hr
    have hyu : (afterCounts s i n ids).yellowLightActive = false := by rw [cy]; exact hy
    have htu : (afterCounts s i n ids).lightTimer.active = false := by rw [ct]; exact ht
    have hmu : (afterCounts s i n ids).energySavingMode = true := by rw [cm]; exact hasleep
    have hcu : 0 ≤ (afterCounts s i n ids).currentRoadIndex
        ∧ (afterCounts s i n ids).currentRoadIndex < 4 := by rw [ci]; exact hc
    rw [← ci]
    rcases processEnergySaving_cases (afterCounts s i n ids) with
      ⟨hm, hx⟩ | ⟨hm, he, ha⟩ | ⟨hm, hx⟩ | ⟨hm, he, ha⟩
    · have hg := @processTrafficCycle_green
        (emit { afterCounts s i n ids with energySavingMode := false }
          (Event.energySavingStatusChanged false)) hru rfl hyu htu hcu
      rw [updateTrafficLights_exit hru hm hx]
      rw [if_neg]
      · exact ⟨by rw [processTrafficCycle_currentRoadIndex]; rfl, hg⟩
      · intro hcon
        have := hg.1
        rw [show (emit { afterCounts s i n ids with energySavingMode := false }
          (Event.energySavingStatusChanged false)).currentRoadIndex
            = (afterCounts s i n ids).currentRoadIndex from rfl] at this
        rw [this] at hcon
        exact absurd hcon.1 (by decide)
    · rw [hm] at hmu
      cases hmu
    · rw [hm] at hmu
      cases hmu
    · rw [updateTrafficLights_asleep hru hm he ha, hm] at hmode
      cases hmode
  · have : handleProcessingFinished s i n ids = { s with m_workerBusy := false } := by
      simp only [handleProcessingFinished]
      rw [if_pos (by omega)]
    rw [this] at hmode
    have hmode2 : s.energySavingMode = false := hmode
    rw [hasleep] at hmode2
    cases hmode2

/-- C10, the code at the failing input.  `demoAsleepTwoCameras` is reachable: approach 0
was in its yellow sub-phase when the last count went to 0 and energy-saving mode was
entered, so the state is running with `current_index = 0`, all lights OFF and the yellow
flag still set.  The result "2 vehicles on approach 1" leaves the mode, yet the current
approach stays OFF and the decrementer halted: `processTrafficCycle` returns at its
`yellowLightActive` guard.  The state is now out of energy-saving mode with a dark
current approach; a further result, "1 vehicle on approach 0", passes the test of line
192 (light OFF, count of the current approach positive) and calls `processTrafficCycle`
again, which returns at the same guard.  From `demoAsleepInGreen`, where the mode was
entered during the green sub-phase, the same result turns approach 0 GREEN, and so does
every result that leaves the mode in any reachable running state with a dark current
approach and the yellow flag clear. -/
theorem C10_reentry_blocked_after_yellow_entry :
    (Reachable demoAsleepTwoCameras
      ∧ demoAsleepTwoCameras.systemRunning = true
      ∧ demoAsleepTwoCameras.energySavingMode = true
      ∧ demoAsleepTwoCameras.yellowLightActive = true
      ∧ demoAsleepTwoCameras.currentRoadIndex = 0
      ∧ demoAsleepTwoCameras.currentLights 0 = TrafficLight.OFF
      ∧ (handleProcessingFinished demoAsleepTwoCameras 1 2 []).energySavingMode = false
      ∧ ((handleProcessingFinished demoAsleepTwoCameras 1 2 []).roads 1).vehicleCount = 2
      ∧ (handleProcessingFinished demoAsleepTwoCameras 1 2 []).currentRoadIndex = 0
      ∧ (handleProcessingFinished demoAsleepTwoCameras 1 2 []).currentLights 0
          = TrafficLight.OFF
      ∧ (handleProcessingFinished demoAsleepTwoCameras 1 2 []).lightTimer.active = false)
    ∧ ((run (handleProcessingFinished demoAsleepTwoCameras 1 2 []) dispatch0).energySavingMode
          = false
      ∧ (run (handleProcessingFinished demoAsleepTwoCameras 1 2 []) dispatch0).currentLights 0
          = TrafficLight.OFF
      ∧ (run (handleProcessingFinished demoAsleepTwoCameras 1 2 [])
          (dispatch0 ++ [Action.processingFinished 0 1 []])).energySavingMode = false
      ∧ ((run (handleProcessingFinished demoAsleepTwoCameras 1 2 [])
          (dispatch0 ++ [Action.processingFinished 0 1 []])).roads 0).vehicleCount = 1
      ∧ (run (handleProcessingFinished demoAsleepTwoCameras 1 2 [])
          (dispatch0 ++ [Action.processingFinished 0 1 []])).currentRoadIndex = 0
      ∧ (run (handleProcessingFinished demoAsleepTwoCameras 1 2 [])
          (dispatch0 ++ [Action.processingFinished 0 1 []])).currentLights 0
          = TrafficLight.OFF
      ∧ (run (handleProcessingFinished demoAsleepTwoCameras 1 2 [])
          (dispatch0 ++ [Action.processingFinished 0 1 []])).lightTimer.active = false)
    ∧ (Reachable demoAsleepInGreen
      ∧ demoAsleepInGreen.systemRunning = true
      ∧ demoAsleepInGreen.yellowLightActive = false
      ∧ demoAsleepInGreen.currentRoadIndex = 0
      ∧ demoAsleepInGreen.currentLights 0 = TrafficLight.OFF
      ∧ (handleProcessingFinished demoAsleepInGreen 0 1 []).energySavingMode = false
      ∧ (handleProcessingFinished demoAsleepInGreen 0 1 []).currentLights 0
          = TrafficLight.GREEN
      ∧ (handleProcessingFinished demoAsleepInGreen 0 1 []).lightTimer = ⟨true, 1000⟩)
    ∧ (∀ s : TrafficSystem, Reachable s → s.systemRunning = true →
        s.yellowLightActive = false →
        s.currentLights s.currentRoadIndex = TrafficLight.OFF →
        ∀ (i n : Int) (ids : List Int),
          (handleProcessingFinished s i n ids).energySavingMode = false →
          (handleProcessingFinished s i n ids).currentRoadIndex = s.currentRoadIndex
          ∧ (handleProcessingFinished s i n ids).currentLights s.currentRoadIndex
              = TrafficLight.GREEN
          ∧ (handleProcessingFinished s i n ids).lightTimer = ⟨true, 1000⟩) :=
  ⟨⟨reachable_demoAsleepTwoCameras, by decide!, by decide!, by decide!, by decide!,
      by decide!, by decide!, by decide!, by decide!, by decide!, by decide!⟩,
    ⟨by decide!, by decide!, by decide!, by decide!, by decide!, by decide!, by decide!⟩,
    ⟨reachable_demoAsleepInGreen, by decide!, by decide!, by decide!, by decide!,
      by decide!, by decide!, by decide!⟩,
    fun _ hs hr hy hoff i n ids hmode => reentry_of_yellow_clear hs hr hy hoff i n ids hmode⟩

/-! ## The ghost history follows the lights

Every write of `setTrafficLight` appends the array it produces, and nothing else writes
`currentLights`: in every reachable state the last entry of the history is the current
array. -/

theorem histCurrent_congr {s t : TrafficSystem} (h : HistCurrent s)
    (hl : t.currentLights = s.currentLights) (hh : t.lightHistory = s.lightHistory) :
    HistCurrent t := by
  unfold HistCurrent
  rw [hl, hh]
  exact h

theorem histCurrent_sameCore {s t : TrafficSystem} (h : HistCurrent s) (c : SameCore t s) :
    HistCurrent t :=
  histCurrent_congr h c.1 c.2.2.2.2.2.2

theorem histCurrent_setTrafficLight {s : TrafficSystem} (h : HistCurrent s) (i : Int)
    (l : TrafficLight) : HistCurrent (setTrafficLight s i l) := by
  unfold setTrafficLight
  split_ifs
  · exact h
  · left
    simp [emit, sendArduinoCommand]
    split_ifs <;> simp

theorem histCurrent_setAllTrafficLights {s : TrafficSystem} (h : HistCurrent s)
    (l : TrafficLight) : HistCurrent (setAllTrafficLights s l) := by
  simp only [setAllTrafficLights, List.foldl_cons, List.foldl_nil]
  exact histCurrent_setTrafficLight (histCurrent_setTrafficLight
    (histCurrent_setTrafficLight (histCurrent_setTrafficLight h _ _) _ _) _ _) _ _

theorem histCurrent_cycleLights {s : TrafficSystem} (h : HistCurrent s) :
    HistCurrent (cycleLights s) := by
  simp only [cycleLights, List.foldl_cons, List.foldl_nil]
  exact histCurrent_setTrafficLight (histCurrent_setTrafficLight
    (histCurrent_setTrafficLight (histCurrent_setTrafficLight h _ _) _ _) _ _) _ _

theorem histCurrent_processTrafficCycle {s : TrafficSystem} (h : HistCurrent s) :
    HistCurrent (processTrafficCycle s) := by
  dsimp only [processTrafficCycle]
  split_ifs
  · exact h
  · exact histCurrent_congr (histCurrent_cycleLights h) rfl rfl

theorem histCurrent_switchToNextRoad {s : TrafficSystem} (h : HistCurrent s) :
    HistCurrent (switchToNextRoad s) := by
  dsimp only [switchToNextRoad]
  split_ifs
  · exact h
  · exact histCurrent_congr (histCurrent_setTrafficLight h _ _) rfl rfl
  · apply histCurrent_processTrafficCycle
    have h0 : HistCurrent { s with yellowLightActive := false } := h
    exact histCurrent_congr (histCurrent_setTrafficLight h0 s.currentRoadIndex
      TrafficLight.RED) rfl rfl

theorem histCurrent_onLightTimerTimeout {s : TrafficSystem} (h : HistCurrent s) :
    HistCurrent (onLightTimerTimeout s) := by
  by_cases h1 : s.systemRunning = false ∨ s.energySavingMode = true
  · rw [onLightTimerTimeout_idle h1]
    exact h
  · have hr : s.systemRunning = true := by
      cases hx : s.systemRunning <;> simp [hx] at h1 ⊢
    have hm : s.energySavingMode = false := by
      cases hx : s.energySavingMode <;> simp [hx] at h1 ⊢
    by_cases hd : 1 < s.lightTimeRemaining
    · rw [onLightTimerTimeout_count hr hm hd]
      exact h
    · rw [onLightTimerTimeout_expire hr hm (by omega)]
      apply histCurrent_switchToNextRoad
      exact h

theorem histCurrent_updateTrafficLights {s : TrafficSystem} (h : HistCurrent s) :
    HistCurrent (updateTrafficLights s) := by
  have hexit : HistCurrent (processTrafficCycle (emit { s with energySavingMode := false }
      (Event.energySavingStatusChanged false))) := by
    apply histCurrent_processTrafficCycle
    exact h
  by_cases hr : s.systemRunning = true
  swap
  · rw [updateTrafficLights_stopped (bool_false_of_not_true hr)]
    exact h
  rcases processEnergySaving_cases s with ⟨hm, hc⟩ | ⟨hm, he, ha⟩ | ⟨hm, hc⟩ | ⟨hm, he, ha⟩
  · rw [updateTrafficLights_exit hr hm hc]
    split_ifs
    · exact histCurrent_processTrafficCycle hexit
    · exact hexit
  · rw [updateTrafficLights_enter hr hm he ha]
    have h0 : HistCurrent { s with energySavingMode := true, lightTimer := s.lightTimer.stop } :=
      h
    exact histCurrent_congr (histCurrent_setAllTrafficLights h0 TrafficLight.OFF)
      (emit_currentLights _ _) (emit_lightHistory _ _)
  · rw [updateTrafficLights_awake hr hm hc]
    split_ifs
    · exact histCurrent_processTrafficCycle h
    · exact h
  · rw [updateTrafficLights_asleep hr hm he ha]
    exact h

theorem histCurrent_step {s : TrafficSystem} (h : HistCurrent s) (a : Action) :
    HistCurrent (step s a) := by
  cases a with
  | startSystem =>
    by_cases hr : s.systemRunning = true
    · have : step s Action.startSystem = s := by
        show startSystem s = s
        unfold startSystem
        rw [if_pos hr]
      rw [this]; exact h
    · show HistCurrent (startSystem s)
      rw [startSystem_stopped s (bool_false_of_not_true hr)]
      refine histCurrent_sameCore ?_ (sameCore_emit _ _)
      apply histCurrent_processTrafficCycle
      exact h
  | stopSystem =>
    show HistCurrent (stopSystem s)
    dsimp only [stopSystem]
    have h0 : HistCurrent { s with
        systemRunning := false
        mainTimer := s.mainTimer.stop
        lightTimer := s.lightTimer.stop
        sensorTimer := s.sensorTimer.stop } := h
    split_ifs
    · exact h
    · exact histCurrent_congr (histCurrent_setAllTrafficLights h0 _)
        (emit_currentLights _ _) (emit_lightHistory _ _)
    · exact histCurrent_congr (histCurrent_setAllTrafficLights h0 _)
        (emit_currentLights _ _) (emit_lightHistory _ _)
  | lightTimerTimeout => exact histCurrent_onLightTimerTimeout h
  | mainTimerTimeout f => exact histCurrent_sameCore h (sameCore_onMainTimerTimeout s f)
  | sensorTimerTimeout => exact histCurrent_sameCore h (sameCore_onSensorTimerTimeout s)
  | processingFinished r n ids =>
    by_cases hr : r < 0 ∨ r ≥ 4
    · have : step s (Action.processingFinished r n ids) = { s with m_workerBusy := false } := by
        show handleProcessingFinished s r n ids = _
        dsimp only [handleProcessingFinished]
        rw [if_pos hr]
      rw [this]
      exact h
    · have e : step s (Action.processingFinished r n ids)
          = updateTrafficLights (afterCounts s r n ids) :=
        handleProcessingFinished_eq s r n ids (by omega) (by omega)
      rw [e]
      exact histCurrent_updateTrafficLights
        (histCurrent_sameCore h (afterCounts_sameCore s r n ids))
  | connectCamera r src o => exact histCurrent_sameCore h (sameCore_connectCamera s r src o)
  | disconnectCamera r => exact histCurrent_sameCore h (sameCore_disconnectCamera s r)
  | initializeArduino p ps o =>
    exact histCurrent_sameCore h (sameCore_initializeArduino s p ps o)
  | setArduinoSimulationMode b ps o =>
    exact histCurrent_sameCore h (sameCore_setArduinoSimulationMode s b ps o)
  | arduinoError e => exact histCurrent_sameCore h (sameCore_onArduinoError s e)
  | setLightTiming d n => exact h
  | setYellowLightDuration n => exact h
  | setEnergySavingEnabled b => exact h
  | setViolationDetectionEnabled b => exact h
  | setRoadROI r roi => exact histCurrent_sameCore h (sameCore_setRoadROI s r roi)
  | setYoloThresholds => exact h
  | arduinoDataReceived d ok =>
    exact histCurrent_sameCore h (sameCore_onArduinoDataReceived s d ok)
  | singleShotTimeout shot ok => exact histCurrent_sameCore h (sameCore_onSingleShot s shot ok)

/-- In every reachable state the last array of the history is the current light array
(or nothing was ever written). -/
theorem reachable_histCurrent {s : TrafficSystem} (h : Reachable s) : HistCurrent s := by
  induction h with
  | init ports openOk =>
    refine histCurrent_sameCore (Or.inr ⟨rfl, rfl⟩)
      (sameCore_trans (sameCore_initializeArduino _ _ _ _) ⟨rfl, rfl, rfl, rfl, rfl, rfl, rfl⟩)
  | step a _ _ ih => exact histCurrent_step ih a

/-- The current approach index of a reachable state is one of 0, 1, 2, 3: the arrays are
only ever indexed inside their bounds. -/
theorem reachable_currentRoadIndex_range {s : TrafficSystem} (h : Reachable s) :
    0 ≤ s.currentRoadIndex ∧ s.currentRoadIndex < 4 :=
  (reachable_inv h).range

/-! ## C11: stopping -/

/-- C11: `stopSystem` on a running controller leaves it not running, with the scheduler,
the phase decrementer and the sensor poll stopped and the four lights OFF if energy
saving is enabled, RED otherwise; `currentRoadIndex` and the record of every approach
(so its count, its density and its `violatedIDs`) are unchanged. -/
theorem C11_stop_system (s : TrafficSystem) (h : s.systemRunning = true) :
    (stopSystem s).systemRunning = false
    ∧ (stopSystem s).mainTimer.active = false
    ∧ (stopSystem s).lightTimer.active = false
    ∧ (stopSystem s).sensorTimer.active = false
    ∧ (∀ i : Int, 0 ≤ i → i < 4 →
        (stopSystem s).currentLights i
          = if s.energySavingEnabled = true then TrafficLight.OFF else TrafficLight.RED)
    ∧ (stopSystem s).currentRoadIndex = s.currentRoadIndex
    ∧ (∀ i : Int, ((stopSystem s).roads i).vehicleCount = (s.roads i).vehicleCount
        ∧ ((stopSystem s).roads i).density = (s.roads i).density
        ∧ ((stopSystem s).roads i).violatedIDs = (s.roads i).violatedIDs) := by
  have hne : ¬ s.systemRunning = false := by simp [h]
  have hstop : stopSystem s
      = emit (setAllTrafficLights
          { s with
            systemRunning := false
            mainTimer := s.mainTimer.stop
            lightTimer := s.lightTimer.stop
            sensorTimer := s.sensorTimer.stop }
          (if s.energySavingEnabled = true then TrafficLight.OFF else TrafficLight.RED))
        (Event.logMessage "Traffic system stopped." "INFO") := by
    simp only [stopSystem]
    rw [if_neg hne]
  rw [hstop]
  refine ⟨by simp, by simp [QTimer.stop], by simp [QTimer.stop], by simp [QTimer.stop],
    ?_, by simp, ?_⟩
  · intro i h0 h4
    rw [emit_currentLights, setAllTrafficLights_currentLights, if_pos ⟨h0, h4⟩]
  · intro i
    simp

/-- C11 on `demoStarted` (running, energy saving enabled, approach 0 GREEN): after
`stopSystem` the controller is not running, the timers are stopped, approach 0 is OFF
and its record is the one before. -/
theorem C11_stop_system_witness :
    demoStarted.systemRunning = true
    ∧ (stopSystem demoStarted).systemRunning = false
    ∧ (stopSystem demoStarted).mainTimer.active = false
    ∧ (stopSystem demoStarted).lightTimer.active = false
    ∧ (stopSystem demoStarted).sensorTimer.active = false
    ∧ (stopSystem demoStarted).currentLights 0 = TrafficLight.OFF
    ∧ (stopSystem demoStarted).currentRoadIndex = demoStarted.currentRoadIndex
    ∧ ((stopSystem demoStarted).roads 0).violatedIDs = (demoStarted.roads 0).violatedIDs :=
  have h := C11_stop_system demoStarted (by decide!)
  ⟨by decide!, h.1, h.2.1, h.2.2.1, h.2.2.2.1,
    (h.2.2.2.2.1 0 (by decide) (by decide)).trans (by decide!),
    h.2.2.2.2.2.1, (h.2.2.2.2.2.2 0).2.2⟩

/-! ## C20: one command per light change -/

theorem lightChar_letter (l : TrafficLight) : String.singleton (lightChar l) = lightLetter l := by
  cases l <;> rfl

theorem linkUp_setTrafficLight {s : TrafficSystem} (h : linkUp s) (i : Int) (l : TrafficLight) :
    linkUp (setTrafficLight s i l) := by
  unfold linkUp at h ⊢
  simpa using h

/-- What `setTrafficLight` does when the light changes. -/
theorem setTrafficLight_changed (s : TrafficSystem) (i : Int) (l : TrafficLight)
    (h0 : 0 ≤ i) (h4 : i < 4) (hl : s.currentLights i ≠ l) :
    (setTrafficLight s i l).currentLights = Function.update s.currentLights i l
    ∧ (setTrafficLight s i l).events = s.events ++ [Event.trafficLightChanged i l]
    ∧ (linkUp s → (setTrafficLight s i l).serialOut = s.serialOut ++ [lightCommand (i, l)])
    ∧ (¬ linkUp s → (setTrafficLight s i l).serialOut = s.serialOut) := by
  have hc : ¬ (i < 0 ∨ i ≥ 4 ∨ s.currentLights i = l) := by
    rintro (h | h | h)
    · omega
    · omega
    · exact hl h
  simp only [setTrafficLight]
  rw [if_neg hc]
  simp only [sendArduinoCommand, emit]
  by_cases hu : linkUp s
  · have hn : ¬ (s.arduinoData.connected = false ∨ s.arduinoExists = false
        ∨ s.arduinoOpen = false) := by
      obtain ⟨h1, h2, h3⟩ := hu
      simp [h1, h2, h3]
    rw [if_neg hn]
    refine ⟨rfl, rfl, fun _ => ?_, fun h => absurd hu h⟩
    simp only [lightCommand, lightChar_letter]
  · have hp : s.arduinoData.connected = false ∨ s.arduinoExists = false
        ∨ s.arduinoOpen = false := by
      unfold linkUp at hu
      by_contra hcon
      simp only [not_or, Bool.not_eq_false] at hcon
      exact hu hcon
    rw [if_pos hp]
    exact ⟨rfl, rfl, fun h => absurd h hu, fun _ => rfl⟩

/-- What `setTrafficLight` does when there is nothing to change. -/
theorem setTrafficLight_unchanged (s : TrafficSystem) (i : Int) (l : TrafficLight)
    (h : i < 0 ∨ 4 ≤ i ∨ s.currentLights i = l) : setTrafficLight s i l = s := by
  have hc : i < 0 ∨ i ≥ 4 ∨ s.currentLights i = l := h
  simp only [setTrafficLight]
  rw [if_pos hc]

/-- On a link that is up, a series of `setTrafficLight` calls writes one command for
every `trafficLightChanged` it emits, in the same order. -/
theorem setTrafficLight_series (calls : List (Int × TrafficLight)) :
    ∀ s : TrafficSystem, linkUp s →
      ∃ changes : List (Int × TrafficLight),
        (calls.foldl (fun st c => setTrafficLight st c.1 c.2) s).events
            = s.events ++ changes.map (fun c => Event.trafficLightChanged c.1 c.2)
        ∧ (calls.foldl (fun st c => setTrafficLight st c.1 c.2) s).serialOut
            = s.serialOut ++ changes.map lightCommand := by
  induction calls with
  | nil => intro s _; exact ⟨[], by simp, by simp⟩
  | cons c rest ih =>
    intro s hu
    obtain ⟨changes, he, hs⟩ := ih (setTrafficLight s c.1 c.2) (linkUp_setTrafficLight hu _ _)
    by_cases hc : c.1 < 0 ∨ 4 ≤ c.1 ∨ s.currentLights c.1 = c.2
    · refine ⟨changes, ?_, ?_⟩
      · rw [List.foldl_cons, he, setTrafficLight_unchanged s c.1 c.2 hc]
      · rw [List.foldl_cons, hs, setTrafficLight_unchanged s c.1 c.2 hc]
    · simp only [not_or, not_lt, not_le] at hc
      obtain ⟨h1, h2, h3, _⟩ := setTrafficLight_changed s c.1 c.2 hc.1 hc.2.1 hc.2.2
      refine ⟨c :: changes, ?_, ?_⟩
      · rw [List.foldl_cons, he, h2]
        simp
      · rw [List.foldl_cons, hs, h3 hu]
        simp

/-! ## The rendering of an integer determines it -/

theorem digitsValue_append (l : List Char) (c : Char) :
    digitsValue (l ++ [c]) = digitsValue l * 10 + (c.toNat - 48) := by
  simp [digitsValue, List.foldl_append]

theorem digitChar_value (k : Nat) (h : k < 10) : (Nat.digitChar k).toNat - 48 = k := by
  interval_cases k <;> rfl

theorem digitChar_ne_minus (k : Nat) (h : k < 10) : Nat.digitChar k ≠ '-' := by
  interval_cases k <;> decide

theorem toDigitsCore_value (fuel : Nat) :
    ∀ (n : Nat) (ds : List Char), n < fuel →
      ∃ pre : List Char, Nat.toDigitsCore 10 fuel n ds = pre ++ ds
        ∧ digitsValue pre = n ∧ pre ≠ [] ∧ ∀ c ∈ pre, c ≠ '-' := by
  induction fuel with
  | zero => intro n ds h; omega
  | succ fuel ih =>
    intro n ds h
    simp only [Nat.toDigitsCore]
    by_cases h0 : n / 10 = 0
    · rw [if_pos h0]
      have hn : n < 10 := by omega
      refine ⟨[Nat.digitChar (n % 10)], rfl, ?_, by simp, ?_⟩
      · have := digitChar_value (n % 10) (Nat.mod_lt _ (by decide))
        simp only [digitsValue, List.foldl_cons, List.foldl_nil]
        omega
      · intro c hc
        rw [List.mem_singleton.mp hc]
        exact digitChar_ne_minus _ (Nat.mod_lt _ (by decide))
    · rw [if_neg h0]
      obtain ⟨pre, he, hv, _, hm⟩ := ih (n / 10) (Nat.digitChar (n % 10) :: ds) (by omega)
      refine ⟨pre ++ [Nat.digitChar (n % 10)], by rw [he]; simp, ?_, by simp, ?_⟩
      · rw [digitsValue_append, hv, digitChar_value (n % 10) (Nat.mod_lt _ (by decide))]
        omega
      · intro c hc
        rcases List.mem_append.mp hc with h1 | h1
        · exact hm c h1
        · rw [List.mem_singleton.mp h1]
          exact digitChar_ne_minus _ (Nat.mod_lt _ (by decide))

theorem toDigits_value (n : Nat) :
    digitsValue (Nat.toDigits 10 n) = n ∧ Nat.toDigits 10 n ≠ []
      ∧ ∀ c ∈ Nat.toDigits 10 n, c ≠ '-' := by
  obtain ⟨pre, he, hv, hne, hm⟩ := toDigitsCore_value (n + 1) n [] (by omega)
  have : Nat.toDigits 10 n = pre := by
    simp only [Nat.toDigits]
    rw [he, List.append_nil]
  rw [this]
  exact ⟨hv, hne, hm⟩

theorem nat_repr_data (n : Nat) : (toString n).data = Nat.toDigits 10 n := rfl

theorem int_toString_data (a : Int) :
    (toString a).data
      = match a with
        | Int.ofNat m => Nat.toDigits 10 m
        | Int.negSucc m => '-' :: Nat.toDigits 10 (m + 1) := by
  cases a with
  | ofNat m => rfl
  | negSucc m => rfl

theorem int_toString_injective {a b : Int} (h : toString a = toString b) : a = b := by
  have hd : (toString a).data = (toString b).data := by rw [h]
  rw [int_toString_data, int_toString_data] at hd
  cases a with
  | ofNat m =>
    cases b with
    | ofNat k =>
      simp only at hd
      have h1 := (toDigits_value m).1
      rw [hd, (toDigits_value k).1] at h1
      rw [h1]
    | negSucc k =>
      simp only at hd
      obtain ⟨_, hne, hm⟩ := toDigits_value m
      exfalso
      exact hm '-' (by rw [hd]; simp) rfl
  | negSucc m =>
    cases b with
    | ofNat k =>
      simp only at hd
      obtain ⟨_, hne, hm⟩ := toDigits_value k
      exfalso
      exact hm '-' (by rw [← hd]; simp) rfl
    | negSucc k =>
      simp only [List.cons.injEq, true_and] at hd
      have h1 := (toDigits_value (m + 1)).1
      rw [hd, (toDigits_value (k + 1)).1] at h1
      have : m = k := by omega
      rw [this]

theorem vehicleReason_injective {a b : Int} (h : vehicleReason a = vehicleReason b) : a = b := by
  have hd : (vehicleReason a).data = (vehicleReason b).data := by rw [h]
  simp only [vehicleReason, String.data_append] at hd
  have h1 := List.append_cancel_right hd
  have h2 := List.append_cancel_left h1
  exact int_toString_injective (String.ext h2)

theorem irReason_ne_vehicleReason (i v : Int) : irReason i ≠ vehicleReason v := by
  intro h
  have hd : (irReason i).data = (vehicleReason v).data := by rw [h]
  simp only [irReason, vehicleReason, String.data_append] at hd
  have : ("IR sensor triggered on red light for Road ".data ++ (toString (i + 1)).data).head?
      = (("Vehicle ID ".data ++ (toString v).data) ++ " ran red light".data).head? := by
    rw [hd]
  simp at this

/-! ## Operations that emit no violation -/

theorem silent_refl (P : Event → Bool) (s : TrafficSystem) : Silent P s s :=
  ⟨[], by simp, by simp⟩

theorem silent_of_events_eq {P : Event → Bool} {s t : TrafficSystem}
    (h : t.events = s.events) : Silent P s t :=
  ⟨[], by simp [h], by simp⟩

theorem silent_trans {P : Event → Bool} {a b c : TrafficSystem} (h1 : Silent P a b)
    (h2 : Silent P b c) : Silent P a c := by
  obtain ⟨l1, e1, q1⟩ := h1
  obtain ⟨l2, e2, q2⟩ := h2
  refine ⟨l1 ++ l2, by rw [e2, e1, List.append_assoc], fun e he => ?_⟩
  rcases List.mem_append.mp he with h | h
  · exact q1 e h
  · exact q2 e h

theorem silent_emit {P : Event → Bool} (s : TrafficSystem) (e : Event) (he : P e = false) :
    Silent P s (emit s e) :=
  ⟨[e], rfl, fun x hx => by rw [List.mem_singleton.mp hx]; exact he⟩

theorem silent_emit_to {P : Event → Bool} {s t : TrafficSystem} (h : Silent P s t)
    (e : Event) (he : P e = false) : Silent P s (emit t e) :=
  silent_trans h (silent_emit t e he)

theorem silent_eq_to {P : Event → Bool} {s t u : TrafficSystem} (h : Silent P s t)
    (hu : u.events = t.events) : Silent P s u :=
  silent_trans h (silent_of_events_eq hu)

section

variable {P : Event → Bool} (hP : ∀ e : Event, e.isViolation = false → P e = false)
include hP

theorem silent_setTrafficLight (s : TrafficSystem) (i : Int) (l : TrafficLight) :
    Silent P s (setTrafficLight s i l) := by
  unfold setTrafficLight
  split_ifs
  · exact silent_refl P s
  · exact silent_eq_to (silent_emit_to (silent_of_events_eq rfl) _ (hP _ (by rfl)))
      (sendArduinoCommand_events _ _)

theorem silent_setAllTrafficLights (s : TrafficSystem) (l : TrafficLight) :
    Silent P s (setAllTrafficLights s l) := by
  simp only [setAllTrafficLights, List.foldl_cons, List.foldl_nil]
  exact silent_trans (silent_trans (silent_trans (silent_setTrafficLight hP _ _ _)
    (silent_setTrafficLight hP _ _ _)) (silent_setTrafficLight hP _ _ _))
    (silent_setTrafficLight hP _ _ _)

theorem silent_cycleLights (s : TrafficSystem) : Silent P s (cycleLights s) := by
  simp only [cycleLights, List.foldl_cons, List.foldl_nil]
  exact silent_trans (silent_trans (silent_trans (silent_setTrafficLight hP _ _ _)
    (silent_setTrafficLight hP _ _ _)) (silent_setTrafficLight hP _ _ _))
    (silent_setTrafficLight hP _ _ _)

theorem silent_processTrafficCycle (s : TrafficSystem) :
    Silent P s (processTrafficCycle s) := by
  simp only [processTrafficCycle]
  split_ifs
  · exact silent_refl P s
  · exact silent_eq_to (silent_cycleLights hP s) rfl

theorem silent_switchToNextRoad (s : TrafficSystem) : Silent P s (switchToNextRoad s) := by
  simp only [switchToNextRoad]
  split_ifs
  · exact silent_refl P s
  · exact silent_eq_to (silent_setTrafficLight hP s _ _) rfl
  · refine silent_trans ?_ (silent_processTrafficCycle hP _)
    exact silent_eq_to
      (silent_trans (silent_of_events_eq rfl)
        (silent_setTrafficLight hP { s with yellowLightActive := false } _ _)) rfl

theorem silent_onLightTimerTimeout (s : TrafficSystem) :
    Silent P s (onLightTimerTimeout s) := by
  simp only [onLightTimerTimeout]
  split_ifs
  · exact silent_of_events_eq rfl
  · exact silent_trans (silent_of_events_eq rfl) (silent_switchToNextRoad hP _)
  · exact silent_of_events_eq rfl
  · exact silent_trans (silent_of_events_eq rfl) (silent_switchToNextRoad hP _)
  · exact silent_refl P s

theorem silent_processEnergySaving (s : TrafficSystem) :
    Silent P s (processEnergySaving s) := by
  simp only [processEnergySaving]
  split_ifs
  · exact silent_trans (silent_emit_to (silent_of_events_eq rfl) _ (hP _ (by rfl)))
      (silent_processTrafficCycle hP _)
  · exact silent_refl P s
  · exact silent_emit_to (silent_trans (silent_of_events_eq rfl)
      (silent_setAllTrafficLights hP _ _)) _ (hP _ (by rfl))
  · exact silent_trans (silent_emit_to (silent_of_events_eq rfl) _ (hP _ (by rfl)))
      (silent_processTrafficCycle hP _)
  · exact silent_refl P s

theorem silent_updateTrafficLights (s : TrafficSystem) :
    Silent P s (updateTrafficLights s) := by
  simp only [updateTrafficLights]
  split_ifs
  · exact silent_refl P s
  · exact silent_processEnergySaving hP s
  · exact silent_trans (silent_processEnergySaving hP s) (silent_processTrafficCycle hP _)
  · exact silent_processEnergySaving hP s

theorem silent_updateCount (s : TrafficSystem) (i n : Int) :
    Silent P s (updateCount s i n) := by
  dsimp only [updateCount]
  split_ifs
  · exact silent_emit_to (silent_eq_to (silent_emit_to (silent_of_events_eq rfl) _ (hP _ (by rfl)))
      rfl) _ (hP _ (by rfl))
  · exact silent_emit_to (silent_of_events_eq rfl) _ (hP _ (by rfl))
  · exact silent_refl P s

theorem silent_startSystem (s : TrafficSystem) : Silent P s (startSystem s) := by
  simp only [startSystem]
  split_ifs
  · exact silent_refl P s
  · exact silent_emit_to (silent_trans (silent_of_events_eq rfl)
      (silent_processTrafficCycle hP _)) _ (hP _ (by rfl))
  · exact silent_emit_to (silent_trans (silent_of_events_eq rfl)
      (silent_processTrafficCycle hP _)) _ (hP _ (by rfl))

theorem silent_stopSystem (s : TrafficSystem) : Silent P s (stopSystem s) := by
  simp only [stopSystem]
  split_ifs
  · exact silent_refl P s
  · exact silent_emit_to (silent_trans (silent_of_events_eq rfl)
      (silent_setAllTrafficLights hP _ _)) _ (hP _ (by rfl))
  · exact silent_emit_to (silent_trans (silent_of_events_eq rfl)
      (silent_setAllTrafficLights hP _ _)) _ (hP _ (by rfl))

omit hP in
theorem silent_onSensorTimerTimeout (s : TrafficSystem) :
    Silent P s (onSensorTimerTimeout s) := by
  simp only [onSensorTimerTimeout]
  split_ifs
  · exact silent_of_events_eq (sendArduinoCommand_events _ _)
  · exact silent_refl P s

theorem silent_onMainTimerTimeout (s : TrafficSystem) (f : Option Frame) :
    Silent P s (onMainTimerTimeout s f) := by
  simp only [onMainTimerTimeout]
  split_ifs
  · exact silent_refl P s
  · cases f with
    | none => exact silent_of_events_eq rfl
    | some frame => exact silent_emit_to (silent_of_events_eq rfl) _ (hP _ (by rfl))
  · exact silent_of_events_eq rfl

theorem silent_disconnectCamera (s : TrafficSystem) (i : Int) :
    Silent P s (disconnectCamera s i) := by
  simp only [disconnectCamera]
  split_ifs
  · exact silent_refl P s
  · exact silent_emit_to (silent_emit_to (silent_of_events_eq rfl) _ (hP _ (by rfl))) _ (hP _ (by rfl))

theorem silent_connectCamera (s : TrafficSystem) (i : Int) (src : String) (o : Bool) :
    Silent P s (connectCamera s i src o).2 := by
  simp only [connectCamera]
  split_ifs
  · exact silent_refl P s
  · exact silent_emit_to (silent_emit_to (silent_eq_to (silent_disconnectCamera hP s i) rfl)
      _ (hP _ (by rfl))) _ (hP _ (by rfl))
  · exact silent_emit_to (silent_disconnectCamera hP s i) _ (hP _ (by rfl))

theorem silent_initializeArduino (s : TrafficSystem) (p : String) (ports : List String)
    (o : Bool) : Silent P s (initializeArduino s p ports o).2 := by
  unfold Silent
  simp only [initializeArduino]
  split_ifs <;> simp [emit, hP, Event.isViolation]

theorem silent_onArduinoError (s : TrafficSystem) (e : String) :
    Silent P s (onArduinoError s e) := by
  simp only [onArduinoError]
  split_ifs
  · exact silent_emit_to (silent_eq_to (silent_emit s _ (hP _ (by rfl))) rfl) _ (hP _ (by rfl))
  · exact silent_refl P s

theorem silent_setArduinoSimulationMode (s : TrafficSystem) (b : Bool) (ports : List String)
    (o : Bool) : Silent P s (setArduinoSimulationMode s b ports o) := by
  simp only [setArduinoSimulationMode]
  split_ifs
  · exact silent_emit_to (silent_of_events_eq rfl) _ (hP _ (by rfl))
  · exact silent_emit_to (silent_of_events_eq rfl) _ (hP _ (by rfl))
  · exact silent_initializeArduino hP s _ ports o
  · exact silent_refl P s

omit hP in
theorem silent_setRoadROI (s : TrafficSystem) (i : Int) (r : Rect) :
    Silent P s (setRoadROI s i r) := by
  simp only [setRoadROI]
  split_ifs
  · exact silent_of_events_eq rfl
  · exact silent_refl P s

theorem silent_saveViolationScreenshot (s : TrafficSystem) (i n : Int) (ok : Bool) :
    Silent P s (saveViolationScreenshot s i n ok) := by
  unfold saveViolationScreenshot
  split
  · exact silent_refl P s
  · split_ifs
    · exact silent_emit s _ (hP _ (by rfl))
    · exact silent_emit s _ (hP _ (by rfl))

theorem silent_onSingleShot (s : TrafficSystem) (shot : SingleShot) (ok : Bool) :
    Silent P s (onSingleShot s shot ok) := by
  cases shot with
  | screenshot i n => exact silent_saveViolationScreenshot hP s i n ok
  | cooldownOff i => exact silent_of_events_eq rfl

end

/-! ## C15: a vehicle is reported once per red phase -/

section

variable {P : Event → Bool} (hP : ∀ e : Event, e.isViolation = false → P e = false)
  (hIR : ∀ (j : Int) (f : Option Frame), P (Event.violationDetected j (irReason j) f) = false)
include hP hIR

theorem silent_checkSensor (s : TrafficSystem) (ns : Int → Bool) (ok : Int → Bool) (i : Int) :
    Silent P s (checkSensor s ns ok i) := by
  simp only [checkSensor]
  split_ifs
  · exact silent_eq_to (silent_emit_to (silent_emit_to
      (silent_saveViolationScreenshot hP s i 1 (ok i)) _ (hIR _ _)) _ (hP _ (by rfl))) rfl
  · exact silent_refl P s
  · exact silent_refl P s

theorem silent_parseArduinoData (s : TrafficSystem) (d : List Char) (ok : Int → Bool) :
    Silent P s (parseArduinoData s d ok) := by
  simp only [parseArduinoData, List.foldl_cons, List.foldl_nil]
  split_ifs
  · exact silent_eq_to (silent_trans (silent_trans (silent_trans
      (silent_checkSensor hP hIR _ _ _ _) (silent_checkSensor hP hIR _ _ _ _))
      (silent_checkSensor hP hIR _ _ _ _)) (silent_checkSensor hP hIR _ _ _ _)) rfl
  · exact silent_refl P s
  · exact silent_refl P s

theorem silent_drainBuffer (ok : Int → Bool) (n : Nat) :
    ∀ s : TrafficSystem, Silent P s (drainBuffer ok n s) := by
  induction n with
  | zero => intro s; exact silent_refl P s
  | succ n ih =>
    intro s
    simp only [drainBuffer]
    split_ifs
    · refine silent_trans ?_ (ih _)
      exact silent_trans (silent_of_events_eq rfl) (silent_parseArduinoData hP hIR _ _ ok)
    · exact silent_refl P s

theorem silent_onArduinoDataReceived (s : TrafficSystem) (d : List Char) (ok : Int → Bool) :
    Silent P s (onArduinoDataReceived s d ok) := by
  simp only [onArduinoDataReceived]
  split_ifs
  · exact silent_refl P s
  · exact silent_trans (silent_of_events_eq rfl) (silent_drainBuffer hP hIR ok _ _)

end

theorem isVehicleViolation_quiet (i v : Int) :
    ∀ e : Event, e.isViolation = false → isVehicleViolation i v e = false := by
  intro e he
  cases e <;> first | rfl | simp [Event.isViolation] at he

theorem isVehicleViolation_ir (i v : Int) (j : Int) (f : Option Frame) :
    isVehicleViolation i v (Event.violationDetected j (irReason j) f) = false := by
  simp [isVehicleViolation, irReason_ne_vehicleReason]

theorem isVehicleViolation_report (i v j id : Int) (f : Option Frame) :
    isVehicleViolation i v
        (Event.violationDetected j ("Vehicle ID " ++ toString id ++ " ran red light") f) = true
      ↔ j = i ∧ id = v := by
  have hr : ("Vehicle ID " ++ toString id ++ " ran red light") = vehicleReason id := rfl
  rw [hr]
  simp only [isVehicleViolation, decide_eq_true_eq]
  constructor
  · rintro ⟨h1, h2⟩
    exact ⟨h1, vehicleReason_injective h2⟩
  · rintro ⟨h1, h2⟩
    exact ⟨h1, by rw [h2]⟩

theorem once_of_silent {i v : Int} {s t : TrafficSystem}
    (h : Silent (isVehicleViolation i v) s t) : Once i v s t := by
  obtain ⟨l, he, hl⟩ := h
  have hf : l.filter (isVehicleViolation i v) = [] := by
    rw [List.filter_eq_nil_iff]
    intro e hm
    rw [hl e hm]
    simp
  exact ⟨l, he, by rw [hf]; simp, fun _ => hf, fun hne => absurd hf hne, fun _ => hf⟩

theorem once_silent_left {i v : Int} {s a t : TrafficSystem}
    (h1 : Silent (isVehicleViolation i v) s a)
    (hr : (a.roads i).violatedIDs = (s.roads i).violatedIDs)
    (hd : a.violationDetectionEnabled = s.violationDetectionEnabled)
    (h2 : Once i v a t) : Once i v s t := by
  obtain ⟨l1, e1, q1⟩ := h1
  obtain ⟨l2, e2, c1, c2, c3, c4⟩ := h2
  have hf : l1.filter (isVehicleViolation i v) = [] := by
    rw [List.filter_eq_nil_iff]
    intro e hm
    rw [q1 e hm]
    simp
  have hfl : (l1 ++ l2).filter (isVehicleViolation i v) = l2.filter (isVehicleViolation i v) := by
    rw [List.filter_append, hf, List.nil_append]
  refine ⟨l1 ++ l2, by rw [e2, e1, List.append_assoc], ?_, ?_, ?_, ?_⟩
  · rw [hfl]; exact c1
  · intro hv; rw [hfl]; exact c2 (by rw [hr]; exact hv)
  · intro hne; rw [hfl] at hne; exact c3 hne
  · intro hoff; rw [hfl]; exact c4 (by rw [hd]; exact hoff)

theorem once_silent_right {i v : Int} {s a t : TrafficSystem}
    (h1 : Once i v s a) (h2 : Silent (isVehicleViolation i v) a t)
    (hr : (t.roads i).violatedIDs = (a.roads i).violatedIDs) : Once i v s t := by
  obtain ⟨l1, e1, c1, c2, c3, c4⟩ := h1
  obtain ⟨l2, e2, q2⟩ := h2
  have hf : l2.filter (isVehicleViolation i v) = [] := by
    rw [List.filter_eq_nil_iff]
    intro e hm
    rw [q2 e hm]
    simp
  have hfl : (l1 ++ l2).filter (isVehicleViolation i v) = l1.filter (isVehicleViolation i v) := by
    rw [List.filter_append, hf, List.append_nil]
  refine ⟨l1 ++ l2, by rw [e2, e1, List.append_assoc], ?_, ?_, ?_, ?_⟩
  · rw [hfl]; exact c1
  · intro hv; rw [hfl]; exact c2 hv
  · intro hne; rw [hfl] at hne; rw [hr]; exact c3 hne
  · intro hoff; rw [hfl]; exact c4 hoff

theorem reportViolations_once (i v j : Int) (ids : List Int) :
    ∀ s : TrafficSystem,
      ∃ l : List Event, (reportViolations s j ids).events = s.events ++ l
        ∧ (l.filter (isVehicleViolation i v)).length ≤ 1
        ∧ (v ∈ (s.roads i).violatedIDs → l.filter (isVehicleViolation i v) = [])
        ∧ (l.filter (isVehicleViolation i v) ≠ [] →
            v ∈ ((reportViolations s j ids).roads i).violatedIDs)
        ∧ (∀ x ∈ (s.roads i).violatedIDs,
            x ∈ ((reportViolations s j ids).roads i).violatedIDs) := by
  induction ids with
  | nil =>
    intro s
    exact ⟨[], by simp [reportViolations], by simp, by simp, by simp, fun x hx => hx⟩
  | cons id rest ih =>
    intro s
    simp only [reportViolations]
    by_cases hmem : id ∈ (s.roads j).violatedIDs
    · rw [if_pos hmem]
      exact ih s
    · rw [if_neg hmem]
      obtain ⟨l, he, c1, c2, c3, c4⟩ := ih
        (setRoad (emit s (Event.violationDetected j
          ("Vehicle ID " ++ toString id ++ " ran red light") (s.roads j).currentFrame)) j
          { (emit s (Event.violationDetected j
              ("Vehicle ID " ++ toString id ++ " ran red light")
              (s.roads j).currentFrame)).roads j with
            violatedIDs := ((emit s (Event.violationDetected j
              ("Vehicle ID " ++ toString id ++ " ran red light")
              (s.roads j).currentFrame)).roads j).violatedIDs ++ [id] })
      have hkeep : ∀ x ∈ (s.roads i).violatedIDs,
          x ∈ (((setRoad (emit s (Event.violationDetected j
          ("Vehicle ID " ++ toString id ++ " ran red light") (s.roads j).currentFrame)) j
          { (emit s (Event.violationDetected j
              ("Vehicle ID " ++ toString id ++ " ran red light")
              (s.roads j).currentFrame)).roads j with
            violatedIDs := ((emit s (Event.violationDetected j
              ("Vehicle ID " ++ toString id ++ " ran red light")
              (s.roads j).currentFrame)).roads j).violatedIDs ++ [id] }).roads i).violatedIDs) := by
        intro x hx
        by_cases hij : i = j
        · subst hij
          simp [setRoad, emit, hx]
        · simp [setRoad, emit, Function.update_noteq hij, hx]
      refine ⟨Event.violationDetected j ("Vehicle ID " ++ toString id ++ " ran red light")
        (s.roads j).currentFrame :: l, by rw [he]; simp [setRoad, emit], ?_, ?_, ?_, ?_⟩
      all_goals
        by_cases hp : isVehicleViolation i v (Event.violationDetected j
          ("Vehicle ID " ++ toString id ++ " ran red light") (s.roads j).currentFrame) = true
      · obtain ⟨hj, hid⟩ := (isVehicleViolation_report i v j id _).mp hp
        subst hj hid
        have : l.filter (isVehicleViolation j id) = [] := c2 (by simp [setRoad, emit])
        rw [List.filter_cons_of_pos hp, this]
        simp
      · rw [List.filter_cons_of_neg hp]
        exact c1
      · obtain ⟨hj, hid⟩ := (isVehicleViolation_report i v j id _).mp hp
        subst hj hid
        intro hv
        exact absurd hv hmem
      · rw [List.filter_cons_of_neg hp]
        intro hv
        exact c2 (hkeep v hv)
      · obtain ⟨hj, hid⟩ := (isVehicleViolation_report i v j id _).mp hp
        subst hj hid
        intro _
        exact c4 id (by simp [setRoad, emit])
      · rw [List.filter_cons_of_neg hp]
        exact c3
      · intro x hx
        exact c4 x (hkeep x hx)
      · intro x hx
        exact c4 x (hkeep x hx)

theorem updateCount_violatedIDs (s : TrafficSystem) (j n i : Int) :
    ((updateCount s j n).roads i).violatedIDs = (s.roads i).violatedIDs := by
  dsimp only [updateCount]
  by_cases hij : i = j
  · subst hij
    split_ifs <;> simp [emit, setRoad]
  · split_ifs <;> simp [emit, setRoad, Function.update_noteq hij]

theorem handleProcessingFinished_once (i v : Int) (s : TrafficSystem) (j n : Int)
    (ids : List Int) : Once i v s (handleProcessingFinished s j n ids) := by
  have hq := isVehicleViolation_quiet i v
  by_cases hr : 0 ≤ j ∧ j < 4
  · rw [handleProcessingFinished_eq s j n ids hr.1 hr.2]
    have hA : Silent (isVehicleViolation i v) s
        (emit (updateCount { s with m_workerBusy := false } j n) (Event.frameUpdated j)) :=
      silent_emit_to (silent_trans (silent_of_events_eq rfl) (silent_updateCount hq _ j n)) _
        (hq _ (by rfl))
    have hrA : ((emit (updateCount { s with m_workerBusy := false } j n)
        (Event.frameUpdated j)).roads i).violatedIDs = (s.roads i).violatedIDs := by
      rw [emit_roads, updateCount_violatedIDs]
    have hdA : (emit (updateCount { s with m_workerBusy := false } j n)
        (Event.frameUpdated j)).violationDetectionEnabled = s.violationDetectionEnabled := by
      simp
    unfold afterCounts
    by_cases hen : s.violationDetectionEnabled = true
    · rw [if_pos hen]
      refine once_silent_right ?_ (silent_updateTrafficLights hq _)
        (by rw [updateTrafficLights_roads])
      refine once_silent_left hA hrA hdA ?_
      obtain ⟨l, he, c1, c2, c3, _⟩ := reportViolations_once i v j ids
        (emit (updateCount { s with m_workerBusy := false } j n) (Event.frameUpdated j))
      refine ⟨l, he, c1, c2, c3, fun hoff => ?_⟩
      rw [hdA, hen] at hoff
      exact absurd hoff (by decide)
    · rw [if_neg hen]
      exact once_of_silent (silent_trans hA (silent_updateTrafficLights hq _))
  · have : handleProcessingFinished s j n ids = { s with m_workerBusy := false } := by
      simp only [handleProcessingFinished]
      rw [if_pos (by omega)]
    rw [this]
    exact once_of_silent (silent_of_events_eq rfl)

theorem step_once (i v : Int) (s : TrafficSystem) (a : Action) : Once i v s (step s a) := by
  have hq := isVehicleViolation_quiet i v
  cases a with
  | startSystem => exact once_of_silent (silent_startSystem hq s)
  | stopSystem => exact once_of_silent (silent_stopSystem hq s)
  | lightTimerTimeout => exact once_of_silent (silent_onLightTimerTimeout hq s)
  | mainTimerTimeout f => exact once_of_silent (silent_onMainTimerTimeout hq s f)
  | sensorTimerTimeout => exact once_of_silent (silent_onSensorTimerTimeout s)
  | processingFinished j n ids => exact handleProcessingFinished_once i v s j n ids
  | connectCamera j src o => exact once_of_silent (silent_connectCamera hq s j src o)
  | disconnectCamera j => exact once_of_silent (silent_disconnectCamera hq s j)
  | initializeArduino p ps o => exact once_of_silent (silent_initializeArduino hq s p ps o)
  | setArduinoSimulationMode b ps o =>
    exact once_of_silent (silent_setArduinoSimulationMode hq s b ps o)
  | arduinoError e => exact once_of_silent (silent_onArduinoError hq s e)
  | setLightTiming d n => exact once_of_silent (silent_of_events_eq rfl)
  | setYellowLightDuration n => exact once_of_silent (silent_of_events_eq rfl)
  | setEnergySavingEnabled b => exact once_of_silent (silent_of_events_eq rfl)
  | setViolationDetectionEnabled b => exact once_of_silent (silent_of_events_eq rfl)
  | setRoadROI j r => exact once_of_silent (silent_setRoadROI s j r)
  | setYoloThresholds => exact once_of_silent (silent_emit s _ (hq _ (by rfl)))
  | arduinoDataReceived d ok =>
    exact once_of_silent
      (silent_onArduinoDataReceived hq (isVehicleViolation_ir i v) s d ok)
  | singleShotTimeout shot ok => exact once_of_silent (silent_onSingleShot hq s shot ok)

theorem emitted_of_append {s t : TrafficSystem} {l : List Event}
    (h : t.events = s.events ++ l) : emitted s t = l := by
  simp [emitted, h]

theorem run_once (i v : Int) (as : List Action) :
    ∀ s : TrafficSystem, keepsIDs i s as = true →
      ∃ l : List Event, (run s as).events = s.events ++ l
        ∧ (l.filter (isVehicleViolation i v)).length ≤ 1
        ∧ (v ∈ (s.roads i).violatedIDs → l.filter (isVehicleViolation i v) = []) := by
  induction as with
  | nil => intro s _; exact ⟨[], by simp [run], by simp, by simp⟩
  | cons a rest ih =>
    intro s hk
    simp only [keepsIDs, Bool.and_eq_true, List.all_eq_true, decide_eq_true_eq] at hk
    obtain ⟨l1, e1, c1, c2, c3, _⟩ := step_once i v s a
    obtain ⟨l2, e2, d1, d2⟩ := ih (step s a) hk.2
    have he : (run s (a :: rest)).events = s.events ++ (l1 ++ l2) := by
      show (run (step s a) rest).events = _
      rw [e2, e1, List.append_assoc]
    refine ⟨l1 ++ l2, he, ?_, ?_⟩
    · rw [List.filter_append, List.length_append]
      by_cases hne : l1.filter (isVehicleViolation i v) = []
      · rw [hne]
        simpa using d1
      · rw [d2 (c3 hne)]
        simpa using c1
    · intro hv
      rw [List.filter_append, c2 hv, d2 (hk.1 v hv)]
      rfl

theorem run_detectionOff (i v : Int) (as : List Action) :
    ∀ s : TrafficSystem, detectionOff s as = true →
      ∃ l : List Event, (run s as).events = s.events ++ l
        ∧ l.filter (isVehicleViolation i v) = [] := by
  induction as with
  | nil => intro s _; exact ⟨[], by simp [run], by simp⟩
  | cons a rest ih =>
    intro s hk
    simp only [detectionOff, Bool.and_eq_true, Bool.not_eq_true'] at hk
    obtain ⟨l1, e1, _, _, _, c4⟩ := step_once i v s a
    obtain ⟨l2, e2, d1⟩ := ih (step s a) hk.2
    refine ⟨l1 ++ l2, ?_, ?_⟩
    · show (run (step s a) rest).events = _
      rw [e2, e1, List.append_assoc]
    · rw [List.filter_append, c4 hk.1, d1]
      rfl


/-! ## What clears `violatedIDs` -/

theorem startSystem_roads (s : TrafficSystem) : (startSystem s).roads = s.roads := by
  simp only [startSystem]
  split_ifs <;> simp

theorem stopSystem_roads (s : TrafficSystem) : (stopSystem s).roads = s.roads := by
  simp only [stopSystem]
  split_ifs <;> simp

theorem initializeArduino_roads (s : TrafficSystem) (p : String) (ps : List String)
    (o : Bool) : (initializeArduino s p ps o).2.roads = s.roads := by
  simp only [initializeArduino]
  split_ifs <;> simp [emit]

theorem setArduinoSimulationMode_roads (s : TrafficSystem) (b : Bool) (ps : List String)
    (o : Bool) : (setArduinoSimulationMode s b ps o).roads = s.roads := by
  simp only [setArduinoSimulationMode]
  split_ifs <;> simp [emit, initializeArduino_roads]

theorem onArduinoError_roads (s : TrafficSystem) (e : String) :
    (onArduinoError s e).roads = s.roads := by
  simp only [onArduinoError]
  split_ifs <;> simp

theorem onSensorTimerTimeout_roads (s : TrafficSystem) :
    (onSensorTimerTimeout s).roads = s.roads := by
  simp only [onSensorTimerTimeout]
  split_ifs <;> simp

theorem onMainTimerTimeout_violatedIDs (s : TrafficSystem) (f : Option Frame) (i : Int) :
    ((onMainTimerTimeout s f).roads i).violatedIDs = (s.roads i).violatedIDs := by
  simp only [onMainTimerTimeout]
  split_ifs
  · rfl
  · cases f with
    | none => rfl
    | some frame =>
      simp only [emit_roads, setRoad]
      by_cases h : i = Int.tmod (s.roadToProcess + 1) 4
      · subst h
        simp
      · simp [Function.update_noteq h]
  · rfl

theorem setRoadROI_violatedIDs (s : TrafficSystem) (j : Int) (r : Rect) (i : Int) :
    ((setRoadROI s j r).roads i).violatedIDs = (s.roads i).violatedIDs := by
  simp only [setRoadROI]
  split_ifs
  · simp only [setRoad]
    by_cases h : i = j
    · subst h
      simp
    · simp [Function.update_noteq h]
  · rfl

theorem disconnectCamera_other (s : TrafficSystem) (j i : Int) (h : j ≠ i) :
    (disconnectCamera s j).roads i = s.roads i := by
  simp only [disconnectCamera]
  split_ifs
  · rfl
  · simp [emit, setRoad, Function.update_noteq (Ne.symm h)]

theorem connectCamera_other (s : TrafficSystem) (j : Int) (src : String) (o : Bool) (i : Int)
    (h : j ≠ i) : (connectCamera s j src o).2.roads i = s.roads i := by
  simp only [connectCamera]
  split_ifs
  · rfl
  · simp [emit, setRoad, Function.update_noteq (Ne.symm h), disconnectCamera_other s j i h]
  · simp [emit, disconnectCamera_other s j i h]

theorem afterYellow_other (s : TrafficSystem) (i : Int) (h1 : s.currentRoadIndex ≠ i)
    (h2 : Int.tmod (s.currentRoadIndex + 1) 4 ≠ i) :
    (afterYellow s).roads i = s.roads i := by
  simp [afterYellow, setRoad, Function.update_noteq (Ne.symm h1),
    Function.update_noteq (Ne.symm h2)]

theorem switchToNextRoad_violatedIDs (s : TrafficSystem) (i : Int)
    (h : s.yellowLightActive = true → s.energySavingMode = false →
      s.currentRoadIndex ≠ i ∧ Int.tmod (s.currentRoadIndex + 1) 4 ≠ i) :
    ((switchToNextRoad s).roads i).violatedIDs = (s.roads i).violatedIDs := by
  by_cases hm : s.energySavingMode = true
  · simp only [switchToNextRoad]
    rw [if_pos hm]
  · have hm2 : s.energySavingMode = false := by simpa using hm
    by_cases hy : s.yellowLightActive = true
    · rw [switchToNextRoad_yellow hm2 hy, processTrafficCycle_roads]
      have := afterYellow_other s i (h hy hm2).1 (h hy hm2).2
      unfold afterYellow at this
      rw [this]
    · have hy2 : s.yellowLightActive = false := by simpa using hy
      rw [switchToNextRoad_green hm2 hy2]
      simp

theorem onLightTimerTimeout_violatedIDs (s : TrafficSystem) (i : Int)
    (h : Action.clearsIDs i s Action.lightTimerTimeout = false) :
    ((onLightTimerTimeout s).roads i).violatedIDs = (s.roads i).violatedIDs := by
  by_cases hi : s.systemRunning = false ∨ s.energySavingMode = true
  · rw [onLightTimerTimeout_idle hi]
  · have hr : s.systemRunning = true := by
      cases hs : s.systemRunning with
      | true => rfl
      | false => exact absurd (Or.inl hs) hi
    have hm : s.energySavingMode = false := by
      cases hs : s.energySavingMode with
      | false => rfl
      | true => exact absurd (Or.inr hs) hi
    by_cases hd : 1 < s.lightTimeRemaining
    · rw [onLightTimerTimeout_count hr hm hd]
    · rw [onLightTimerTimeout_expire hr hm (by omega)]
      rw [switchToNextRoad_violatedIDs]
      intro hy _
      have hy2 : s.yellowLightActive = true := hy
      simp only [Action.clearsIDs, yellowExpires, hr, hm, hy2, Bool.not_false, Bool.and_self,
        Bool.true_and, Bool.and_eq_false_iff, decide_eq_false_iff_not] at h
      have hle : s.lightTimeRemaining ≤ 1 := by omega
      rcases h with h | h
      · exact absurd hle h
      · exact ⟨fun e => h (Or.inl e), fun e => h (Or.inr e)⟩

theorem handleProcessingFinished_keeps (s : TrafficSystem) (j n : Int) (ids : List Int)
    (i : Int) : ∀ x ∈ (s.roads i).violatedIDs,
      x ∈ ((handleProcessingFinished s j n ids).roads i).violatedIDs := by
  intro x hx
  by_cases hr : 0 ≤ j ∧ j < 4
  · rw [handleProcessingFinished_eq s j n ids hr.1 hr.2, updateTrafficLights_roads]
    unfold afterCounts
    have hA : ((emit (updateCount { s with m_workerBusy := false } j n)
        (Event.frameUpdated j)).roads i).violatedIDs = (s.roads i).violatedIDs := by
      rw [emit_roads, updateCount_violatedIDs]
    split_ifs
    · obtain ⟨_, _, _, _, _, c⟩ := reportViolations_once i x j ids
        (emit (updateCount { s with m_workerBusy := false } j n) (Event.frameUpdated j))
      exact c x (by rw [hA]; exact hx)
    · rw [hA]
      exact hx
  · have : handleProcessingFinished s j n ids = { s with m_workerBusy := false } := by
      simp only [handleProcessingFinished]
      rw [if_pos (by omega)]
    rw [this]
    exact hx

/-- Every step other than a yellow expiry that touches approach `i` and a disconnect of
`i` leaves each ID in the `violatedIDs` of `i`. -/
theorem step_keeps (i : Int) (s : TrafficSystem) (a : Action)
    (h : a.clearsIDs i s = false) :
    ∀ x ∈ (s.roads i).violatedIDs, x ∈ ((step s a).roads i).violatedIDs := by
  intro x hx
  cases a with
  | startSystem => simp only [step, startSystem_roads]; exact hx
  | stopSystem => simp only [step, stopSystem_roads]; exact hx
  | lightTimerTimeout =>
    simp only [step]
    rw [onLightTimerTimeout_violatedIDs s i h]
    exact hx
  | mainTimerTimeout f =>
    simp only [step]
    rw [onMainTimerTimeout_violatedIDs]
    exact hx
  | sensorTimerTimeout => simp only [step, onSensorTimerTimeout_roads]; exact hx
  | processingFinished j n ids => exact handleProcessingFinished_keeps s j n ids i x hx
  | connectCamera j src o =>
    have hj : j ≠ i := by simpa [Action.clearsIDs] using h
    simp only [step]
    rw [connectCamera_other s j src o i hj]
    exact hx
  | disconnectCamera j =>
    have hj : j ≠ i := by simpa [Action.clearsIDs] using h
    simp only [step]
    rw [disconnectCamera_other s j i hj]
    exact hx
  | initializeArduino p ps o => simp only [step, initializeArduino_roads]; exact hx
  | setArduinoSimulationMode b ps o =>
    simp only [step, setArduinoSimulationMode_roads]; exact hx
  | arduinoError e => simp only [step, onArduinoError_roads]; exact hx
  | setLightTiming d n => exact hx
  | setYellowLightDuration n => exact hx
  | setEnergySavingEnabled b => exact hx
  | setViolationDetectionEnabled b => exact hx
  | setRoadROI j r =>
    simp only [step]
    rw [setRoadROI_violatedIDs]
    exact hx
  | setYoloThresholds => exact hx
  | arduinoDataReceived d ok => simp only [step, onArduinoDataReceived_roads]; exact hx
  | singleShotTimeout shot ok => simp only [step, onSingleShot_roads]; exact hx

theorem keepsIDs_of_noClearing (i : Int) (as : List Action) :
    ∀ s : TrafficSystem, noClearing i s as = true → keepsIDs i s as = true := by
  induction as with
  | nil => intro s _; rfl
  | cons a rest ih =>
    intro s h
    simp only [noClearing, Bool.and_eq_true, Bool.not_eq_true'] at h
    simp only [keepsIDs, Bool.and_eq_true, List.all_eq_true, decide_eq_true_eq]
    exact ⟨step_keeps i s a h.1, ih (step s a) h.2⟩

theorem initializeArduino_violationDetectionEnabled (s : TrafficSystem) (p : String)
    (ps : List String) (o : Bool) :
    (initializeArduino s p ps o).2.violationDetectionEnabled = s.violationDetectionEnabled := by
  simp only [initializeArduino]
  split_ifs <;> simp [emit]

theorem step_detectionOff (s : TrafficSystem) (a : Action) (h : a.enablesDetection = false)
    (hs : s.violationDetectionEnabled = false) :
    (step s a).violationDetectionEnabled = false := by
  cases a with
  | startSystem => simp only [step, startSystem]; split_ifs <;> simp [hs]
  | stopSystem => simp only [step, stopSystem]; split_ifs <;> simp [hs]
  | lightTimerTimeout => simp [step, hs]
  | mainTimerTimeout f =>
    simp only [step, onMainTimerTimeout]
    split_ifs
    · exact hs
    · cases f with
      | none => exact hs
      | some frame => simp [hs]
    · exact hs
  | sensorTimerTimeout => simp only [step, onSensorTimerTimeout]; split_ifs <;> simp [hs]
  | processingFinished j n ids => simp [step, hs]
  | connectCamera j src o => simp only [step, connectCamera]; split_ifs <;> simp [hs]
  | disconnectCamera j => simp [step, hs]
  | initializeArduino p ps o =>
    simp only [step]
    rw [initializeArduino_violationDetectionEnabled, hs]
  | setArduinoSimulationMode b ps o =>
    simp only [step, setArduinoSimulationMode]
    split_ifs <;> simp [emit, initializeArduino_violationDetectionEnabled, hs]
  | arduinoError e => simp only [step, onArduinoError]; split_ifs <;> simp [hs]
  | setLightTiming d n => exact hs
  | setYellowLightDuration n => exact hs
  | setEnergySavingEnabled b => exact hs
  | setViolationDetectionEnabled b => exact h
  | setRoadROI j r => simp only [step, setRoadROI]; split_ifs <;> simp [hs]
  | setYoloThresholds => exact hs
  | arduinoDataReceived d ok => simp [step, hs]
  | singleShotTimeout shot ok => simp [step, hs]

theorem detectionOff_of_off (bs : List Action) :
    ∀ s : TrafficSystem, s.violationDetectionEnabled = false →
      (∀ a ∈ bs, a.enablesDetection = false) → detectionOff s bs = true := by
  induction bs with
  | nil => intro s _ _; rfl
  | cons a rest ih =>
    intro s hs h
    simp only [detectionOff, Bool.and_eq_true, Bool.not_eq_true']
    exact ⟨hs, ih (step s a) (step_detectionOff s a (h a (List.mem_cons_self a rest)) hs)
      (fun b hb => h b (List.mem_cons_of_mem a hb))⟩


/-! ## A red phase is not cut by a yellow expiry -/

theorem yellowLit_sameCore {s t : TrafficSystem} (h : YellowLit s) (c : SameCore t s) :
    YellowLit t := by
  intro hy ht
  rw [c.1, c.2.1]
  exact h (by rw [← c.2.2.1]; exact hy) (by rw [← c.2.2.2.2.2.1]; exact ht)

theorem yellowLit_processTrafficCycle {u : TrafficSystem} (h : YellowLit u) :
    YellowLit (processTrafficCycle u) := by
  by_cases hy : u.yellowLightActive = true
  · rw [processTrafficCycle_blocked (Or.inr (Or.inr (Or.inl hy)))]
    exact h
  · intro hcon
    rw [processTrafficCycle_yellowLightActive] at hcon
    exact absurd hcon hy

theorem yellowLit_of_clear {u : TrafficSystem} (h : u.yellowLightActive = false) :
    YellowLit u := by
  intro hcon
  rw [h] at hcon
  cases hcon

theorem yellowLit_of_idle {u : TrafficSystem} (h : u.lightTimer.active = false) :
    YellowLit u := by
  intro _ hcon
  rw [h] at hcon
  cases hcon

theorem yellowLit_onLightTimerTimeout {s : TrafficSystem} (hinv : Inv s) (h : YellowLit s) :
    YellowLit (onLightTimerTimeout s) := by
  by_cases h1 : s.systemRunning = false ∨ s.energySavingMode = true
  · rw [onLightTimerTimeout_idle h1]
    exact yellowLit_of_idle rfl
  · have hr : s.systemRunning = true := by
      cases hx : s.systemRunning <;> simp [hx] at h1 ⊢
    have hm : s.energySavingMode = false := by
      cases hx : s.energySavingMode <;> simp [hx] at h1 ⊢
    by_cases hd : 1 < s.lightTimeRemaining
    · rw [onLightTimerTimeout_count hr hm hd]
      exact h
    · by_cases hy : s.yellowLightActive = true
      · rw [onLightTimerTimeout_yellow_expiry s hr hm hy (by omega)]
        apply yellowLit_of_clear
        show (cycleLights (afterYellow (atExpiry s))).yellowLightActive = false
        rw [cycleLights_yellowLightActive]
        simp [afterYellow, atExpiry]
      · rw [onLightTimerTimeout_green_expiry s hr hm (bool_false_of_not_true hy) (by omega)]
        intro _ _
        show (setTrafficLight _ s.currentRoadIndex TrafficLight.YELLOW).currentLights
          (setTrafficLight _ s.currentRoadIndex TrafficLight.YELLOW).currentRoadIndex
            = TrafficLight.YELLOW
        rw [setTrafficLight_currentLights, setTrafficLight_currentRoadIndex,
          if_pos hinv.range]
        exact Function.update_same _ _ _

theorem yellowLit_updateTrafficLights {u : TrafficSystem} (h : YellowLit u) :
    YellowLit (updateTrafficLights u) := by
  by_cases hr : u.systemRunning = true
  swap
  · rw [updateTrafficLights_stopped (bool_false_of_not_true hr)]
    exact h
  rcases processEnergySaving_cases u with ⟨hm, hc⟩ | ⟨hm, he, ha⟩ | ⟨hm, hc⟩ | ⟨hm, he, ha⟩
  · have h1 : YellowLit (processTrafficCycle (emit { u with energySavingMode := false }
        (Event.energySavingStatusChanged false))) :=
      yellowLit_processTrafficCycle (fun hy ht => h hy ht)
    rw [updateTrafficLights_exit hr hm hc]
    split_ifs
    · exact yellowLit_processTrafficCycle h1
    · exact h1
  · rw [updateTrafficLights_enter hr hm he ha]
    apply yellowLit_of_idle
    simp [QTimer.stop]
  · rw [updateTrafficLights_awake hr hm hc]
    split_ifs
    · exact yellowLit_processTrafficCycle h
    · exact h
  · rw [updateTrafficLights_asleep hr hm he ha]
    exact h

theorem yellowLit_step {s : TrafficSystem} (hinv : Inv s) (h : YellowLit s) (a : Action) :
    YellowLit (step s a) := by
  cases a with
  | startSystem =>
    by_cases hr : s.systemRunning = true
    · have : step s Action.startSystem = s := by
        show startSystem s = s
        unfold startSystem
        rw [if_pos hr]
      rw [this]; exact h
    · have hr := bool_false_of_not_true hr
      show YellowLit (startSystem s)
      rw [startSystem_stopped s hr]
      refine yellowLit_sameCore ?_ (sameCore_emit _ _)
      exact yellowLit_processTrafficCycle (yellowLit_of_clear rfl)
  | stopSystem =>
    by_cases hr : s.systemRunning = false
    · have : step s Action.stopSystem = s := by
        show stopSystem s = s
        unfold stopSystem
        rw [if_pos hr]
      rw [this]; exact h
    · apply yellowLit_of_idle
      show (stopSystem s).lightTimer.active = false
      dsimp only [stopSystem]
      rw [if_neg hr]
      simp [QTimer.stop]
  | lightTimerTimeout => exact yellowLit_onLightTimerTimeout hinv h
  | mainTimerTimeout f => exact yellowLit_sameCore h (sameCore_onMainTimerTimeout s f)
  | sensorTimerTimeout => exact yellowLit_sameCore h (sameCore_onSensorTimerTimeout s)
  | processingFinished r n ids =>
    by_cases hr : r < 0 ∨ r ≥ 4
    · have : step s (Action.processingFinished r n ids) = { s with m_workerBusy := false } := by
        show handleProcessingFinished s r n ids = _
        dsimp only [handleProcessingFinished]
        rw [if_pos hr]
      rw [this]
      exact h
    · have e : step s (Action.processingFinished r n ids)
          = updateTrafficLights (afterCounts s r n ids) :=
        handleProcessingFinished_eq s r n ids (by omega) (by omega)
      rw [e]
      exact yellowLit_updateTrafficLights
        (yellowLit_sameCore h (afterCounts_sameCore s r n ids))
  | connectCamera r src o => exact yellowLit_sameCore h (sameCore_connectCamera s r src o)
  | disconnectCamera r => exact yellowLit_sameCore h (sameCore_disconnectCamera s r)
  | initializeArduino p ps o =>
    exact yellowLit_sameCore h (sameCore_initializeArduino s p ps o)
  | setArduinoSimulationMode b ps o =>
    exact yellowLit_sameCore h (sameCore_setArduinoSimulationMode s b ps o)
  | arduinoError e => exact yellowLit_sameCore h (sameCore_onArduinoError s e)
  | setLightTiming d n => exact h
  | setYellowLightDuration n => exact h
  | setEnergySavingEnabled b => exact h
  | setViolationDetectionEnabled b => exact h
  | setRoadROI r roi => exact yellowLit_sameCore h (sameCore_setRoadROI s r roi)
  | setYoloThresholds => exact h
  | arduinoDataReceived d ok =>
    exact yellowLit_sameCore h (sameCore_onArduinoDataReceived s d ok)
  | singleShotTimeout shot ok => exact yellowLit_sameCore h (sameCore_onSingleShot s shot ok)

/-- In every reachable state in which the yellow flag is set and the decrementer runs,
the current approach shows YELLOW. -/
theorem reachable_yellowLit {s : TrafficSystem} (h : Reachable s) : YellowLit s := by
  induction h with
  | init ports openOk =>
    apply yellowLit_of_clear
    have : (initializeSystem ports openOk).yellowLightActive = false :=
      (sameCore_trans (sameCore_initializeArduino _ _ _ _)
        (⟨rfl, rfl, rfl, rfl, rfl, rfl, rfl⟩ :
          SameCore ((emit (emit TrafficSystem.constructed
            (Event.logMessage "Initializing Traffic System..." "INFO"))
            (Event.logMessage "Processing worker thread started." "INFO")))
            TrafficSystem.constructed)).2.2.1
    exact this
  | step a hs _ ih => exact yellowLit_step (reachable_inv hs) ih a

/-- In a reachable state, a step that can occur, is no disconnect of approach `i` and
has the light of `i` RED before and after is not one of the events that clear the
`violatedIDs` of `i`: a yellow expiry turns the current approach from YELLOW to RED and
the next one GREEN. -/
theorem red_not_cleared {s : TrafficSystem} (hs : Reachable s) (i : Int) (a : Action)
    (he : a.enabled s) (hd : a.disconnects i = false)
    (h1 : s.currentLights i = TrafficLight.RED)
    (h2 : (step s a).currentLights i = TrafficLight.RED) : a.clearsIDs i s = false := by
  cases a with
  | lightTimerTimeout =>
    cases hc : Action.clearsIDs i s Action.lightTimerTimeout with
    | false => rfl
    | true =>
      exfalso
      simp only [Action.clearsIDs, yellowExpires, Bool.and_eq_true, Bool.not_eq_true',
        decide_eq_true_eq] at hc
      obtain ⟨⟨⟨⟨hr, hm⟩, hy⟩, hrem⟩, hidx⟩ := hc
      have ht : s.lightTimer.active = true := he
      have hinv := reachable_inv hs
      by_cases hcur : s.currentRoadIndex = i
      · have hyl := reachable_yellowLit hs hy ht
        rw [hcur, h1] at hyl
        cases hyl
      · have hnext : Int.tmod (s.currentRoadIndex + 1) 4 = i := by
          rcases hidx with e | e
          · exact absurd e hcur
          · exact e
        obtain ⟨t0, t4, _, _⟩ := tmod_succ_range hinv.range.1 hinv.range.2
        have h3 : (onLightTimerTimeout s).currentLights i = TrafficLight.RED := h2
        rw [onLightTimerTimeout_yellow_expiry s hr hm hy hrem] at h3
        have h4 : (cycleLights (afterYellow (atExpiry s))).currentLights i
            = TrafficLight.RED := h3
        rw [cycleLights_currentLights, afterYellow_currentRoadIndex, ← hnext,
          if_pos ⟨t0, t4⟩, if_pos rfl] at h4
        cases h4
  | connectCamera j src o => exact hd
  | disconnectCamera j => exact hd
  | startSystem => rfl
  | stopSystem => rfl
  | mainTimerTimeout f => rfl
  | sensorTimerTimeout => rfl
  | processingFinished r n ids => rfl
  | initializeArduino p ps o => rfl
  | setArduinoSimulationMode b ps o => rfl
  | arduinoError e => rfl
  | setLightTiming d n => rfl
  | setYellowLightDuration n => rfl
  | setEnergySavingEnabled b => rfl
  | setViolationDetectionEnabled b => rfl
  | setRoadROI r roi => rfl
  | setYoloThresholds => rfl
  | arduinoDataReceived d ok => rfl
  | singleShotTimeout shot ok => rfl

theorem staysRed_head (i : Int) (s : TrafficSystem) (as : List Action)
    (h : staysRed i s as = true) : s.currentLights i = TrafficLight.RED := by
  cases as with
  | nil => simpa [staysRed] using h
  | cons a rest =>
    simp only [staysRed, Bool.and_eq_true, decide_eq_true_eq] at h
    exact h.1

theorem noClearing_of_red (i : Int) (as : List Action) :
    ∀ s : TrafficSystem, Reachable s → runEnabled s as = true → staysRed i s as = true →
      (∀ a ∈ as, a.disconnects i = false) → noClearing i s as = true := by
  induction as with
  | nil => intro s _ _ _ _; rfl
  | cons a rest ih =>
    intro s hs he hred hd
    simp only [runEnabled, Bool.and_eq_true, decide_eq_true_eq] at he
    simp only [staysRed, Bool.and_eq_true, decide_eq_true_eq] at hred
    simp only [noClearing, Bool.and_eq_true, Bool.not_eq_true']
    exact ⟨red_not_cleared hs i a he.1 (hd a (List.mem_cons_self a rest)) hred.1
        (staysRed_head i _ rest hred.2),
      ih (step s a) (Reachable.step a hs he.1) he.2 hred.2
        (fun b hb => hd b (List.mem_cons_of_mem a hb))⟩

/-- C15: take any run of actions (results for any approach, timer ticks, configuration
calls, serial input) none of which is a yellow expiry that clears the `violatedIDs` of
approach `i` or a disconnect of `i`.  No step of the run removes an ID from the
`violatedIDs` of `i`, and the event `violationDetected` for `i` with reason
"Vehicle ID v ran red light" is emitted at most once, whatever the results list, and
not at all if `v` was reported before.  Over any run that starts with violation
detection off and does not switch it on, it is not emitted at all.  A run of actions
that can occur, from a reachable state, during which the light of `i` stays RED and `i`
is not disconnected is such a run: a yellow expiry that clears the `violatedIDs` of `i`
turns the light of `i` from YELLOW to RED or from RED to GREEN. -/
theorem C15_violation_once (s : TrafficSystem) (i v : Int) (as : List Action)
    (hq : noClearing i s as = true) :
    keepsIDs i s as = true
    ∧ ((emitted s (run s as)).filter (isVehicleViolation i v)).length ≤ 1
    ∧ (v ∈ (s.roads i).violatedIDs →
        (emitted s (run s as)).filter (isVehicleViolation i v) = [])
    ∧ (∀ bs : List Action, s.violationDetectionEnabled = false →
        (∀ a ∈ bs, a.enablesDetection = false) →
        (emitted s (run s bs)).filter (isVehicleViolation i v) = [])
    ∧ (∀ bs : List Action, detectionOff s bs = true →
        (emitted s (run s bs)).filter (isVehicleViolation i v) = [])
    ∧ (∀ (t : TrafficSystem) (bs : List Action), Reachable t → runEnabled t bs = true →
        staysRed i t bs = true → (∀ a ∈ bs, a.disconnects i = false) →
        noClearing i t bs = true
        ∧ ((emitted t (run t bs)).filter (isVehicleViolation i v)).length ≤ 1) := by
  have hk := keepsIDs_of_noClearing i as s hq
  obtain ⟨l, he, c1, c2⟩ := run_once i v as s hk
  rw [emitted_of_append he]
  have hoff : ∀ bs : List Action, detectionOff s bs = true →
      (emitted s (run s bs)).filter (isVehicleViolation i v) = [] := by
    intro bs hb
    obtain ⟨l2, he2, d⟩ := run_detectionOff i v bs s hb
    rw [emitted_of_append he2]
    exact d
  refine ⟨hk, c1, c2, fun bs hs hb => hoff bs (detectionOff_of_off bs s hs hb), hoff,
    fun t bs ht he hred hd => ?_⟩
  have hn := noClearing_of_red i bs t ht he hred hd
  obtain ⟨l3, he3, d1, _⟩ := run_once i v bs t (keepsIDs_of_noClearing i bs t hn)
  rw [emitted_of_append he3]
  exact ⟨hn, d1⟩

theorem reachable_demoRed1 : Reachable demoRed1 :=
  reachable_run reachable_s0 _ (by decide!)

/-- C15 on `demoRed1` (approach 1 RED, detection on): three results for approach 1 that
list vehicle 7, one of them twice, with a scheduler tick, a tick of the decrementer, a
result for approach 2 and a reconnect of approach 3 in between, all while approach 1
stays RED, emit its violation once; with detection switched off first they emit none. -/
theorem C15_violation_once_witness :
    noClearing 1 demoRed1 resultsFor7Mixed = true
    ∧ runEnabled demoRed1 resultsFor7Mixed = true
    ∧ staysRed 1 demoRed1 resultsFor7Mixed = true
    ∧ ((emitted demoRed1 (run demoRed1 resultsFor7Mixed)).filter
        (isVehicleViolation 1 7)).length ≤ 1
    ∧ (emitted demoRed1 (run demoRed1 resultsFor7Mixed)).filter
        (isVehicleViolation 1 7)
        = [Event.violationDetected 1 "Vehicle ID 7 ran red light" none]
    ∧ (emitted (setViolationDetectionEnabled demoRed1 false)
        (run (setViolationDetectionEnabled demoRed1 false) resultsFor7Mixed)).filter
        (isVehicleViolation 1 7) = [] :=
  ⟨((C15_violation_once demoRed1 1 7 resultsFor7Mixed (by decide!)).2.2.2.2.2 demoRed1
      resultsFor7Mixed reachable_demoRed1 (by decide!) (by decide!) (by decide)).1,
    by decide!, by decide!,
    (C15_violation_once demoRed1 1 7 resultsFor7Mixed (by decide!)).2.1,
    by decide!,
    (C15_violation_once (setViolationDetectionEnabled demoRed1 false) 1 7
      resultsFor7Mixed (by decide!)).2.2.2.1 resultsFor7Mixed rfl (by decide)⟩

/-! ## C19: how the bytes are cut into deliveries does not matter -/

theorem setBuffer_self (s : TrafficSystem) : setBuffer s s.arduinoData.buffer = s := rfl

theorem setBuffer_setBuffer (s : TrafficSystem) (a b : List Char) :
    setBuffer (setBuffer s a) b = setBuffer s b := rfl

theorem saveViolationScreenshot_setBuffer (s : TrafficSystem) (b : List Char) (i n : Int)
    (ok : Bool) :
    saveViolationScreenshot (setBuffer s b) i n ok
      = setBuffer (saveViolationScreenshot s i n ok) b := by
  unfold saveViolationScreenshot
  have : ((setBuffer s b).roads i).currentFrame = (s.roads i).currentFrame := rfl
  rw [this]
  cases (s.roads i).currentFrame with
  | none => rfl
  | some f =>
    simp only
    split_ifs <;> rfl

theorem checkSensor_setBuffer (s : TrafficSystem) (b : List Char) (ns : Int → Bool)
    (ok : Int → Bool) (i : Int) :
    checkSensor (setBuffer s b) ns ok i = setBuffer (checkSensor s ns ok i) b := by
  simp only [checkSensor]
  have h1 : (setBuffer s b).arduinoData.irSensorPreviousStates
      = s.arduinoData.irSensorPreviousStates := rfl
  have h2 : (setBuffer s b).irViolationCooldownActive = s.irViolationCooldownActive := rfl
  have h3 : (setBuffer s b).currentLights = s.currentLights := rfl
  have h4 : (setBuffer s b).violationDetectionEnabled = s.violationDetectionEnabled := rfl
  rw [h1, h2, h3, h4, saveViolationScreenshot_setBuffer]
  split_ifs <;> rfl

theorem parseArduinoData_setBuffer (s : TrafficSystem) (b : List Char) (d : List Char)
    (ok : Int → Bool) :
    parseArduinoData (setBuffer s b) d ok = setBuffer (parseArduinoData s d ok) b := by
  simp only [parseArduinoData, List.foldl_cons, List.foldl_nil, checkSensor_setBuffer]
  split_ifs <;> rfl

theorem parseLines_setBuffer (lines : List (List Char)) (ok : Int → Bool) :
    ∀ (s : TrafficSystem) (b : List Char),
      parseLines (setBuffer s b) lines ok = setBuffer (parseLines s lines ok) b := by
  induction lines with
  | nil => intro s b; rfl
  | cons l rest ih =>
    intro s b
    simp only [parseLines, List.foldl_cons] at ih ⊢
    rw [parseArduinoData_setBuffer, ih]

theorem parseArduinoData_buffer (s : TrafficSystem) (d : List Char) (ok : Int → Bool) :
    (parseArduinoData s d ok).arduinoData.buffer = s.arduinoData.buffer := by
  have h := parseArduinoData_setBuffer s s.arduinoData.buffer d ok
  rw [setBuffer_self] at h
  rw [h]
  rfl

theorem parseLines_append (s : TrafficSystem) (l1 l2 : List (List Char)) (ok : Int → Bool) :
    parseLines s (l1 ++ l2) ok = parseLines (parseLines s l1 ok) l2 ok := by
  simp [parseLines, List.foldl_append]

theorem splitLines_no_lf (buf : List Char) (h : '\n' ∉ buf) : splitLines buf = ([], buf) := by
  induction buf with
  | nil => rfl
  | cons c cs ih =>
    have hc : c ≠ '\n' := fun e => h (by simp [e])
    have hcs : '\n' ∉ cs := fun e => h (by simp [e])
    simp only [splitLines]
    rw [if_neg hc, ih hcs]

theorem splitLines_lf (buf : List Char) (h : '\n' ∈ buf) :
    splitLines buf
      = (buf.takeWhile (fun c => decide (c ≠ '\n'))
          :: (splitLines (buf.drop ((buf.takeWhile (fun c => decide (c ≠ '\n'))).length + 1))).1,
        (splitLines (buf.drop ((buf.takeWhile (fun c => decide (c ≠ '\n'))).length + 1))).2) := by
  induction buf with
  | nil => simp at h
  | cons c cs ih =>
    by_cases hc : c = '\n'
    · subst hc
      simp [splitLines]
    · have hcs : '\n' ∈ cs := by
        rcases List.mem_cons.mp h with e | e
        · exact absurd e.symm hc
        · exact e
      have ih2 := ih hcs
      simp only [splitLines]
      rw [if_neg hc, ih2]
      simp [List.takeWhile_cons, hc]

theorem splitLines_rest_no_lf (buf : List Char) : '\n' ∉ (splitLines buf).2 := by
  induction buf with
  | nil => simp [splitLines]
  | cons c cs ih =>
    simp only [splitLines]
    by_cases hc : c = '\n'
    · rw [if_pos hc]
      exact ih
    · rw [if_neg hc]
      cases h : (splitLines cs).1 with
      | nil =>
        simp only
        intro hm
        rcases List.mem_cons.mp hm with e | e
        · exact hc e.symm
        · exact ih e
      | cons l ls => exact ih

theorem splitLines_cons_lf (cs : List Char) :
    splitLines ('\n' :: cs) = ([] :: (splitLines cs).1, (splitLines cs).2) := by
  simp [splitLines]

theorem splitLines_cons_other (c : Char) (cs : List Char) (hc : c ≠ '\n') :
    splitLines (c :: cs)
      = match (splitLines cs).1 with
        | [] => ([], c :: (splitLines cs).2)
        | l :: ls => ((c :: l) :: ls, (splitLines cs).2) := by
  simp only [splitLines]
  rw [if_neg hc]

theorem splitLines_append (x y : List Char) :
    splitLines (x ++ y)
      = ((splitLines x).1 ++ (splitLines ((splitLines x).2 ++ y)).1,
          (splitLines ((splitLines x).2 ++ y)).2) := by
  induction x with
  | nil => simp [splitLines]
  | cons c cs ih =>
    by_cases hc : c = '\n'
    · subst hc
      rw [List.cons_append, splitLines_cons_lf, splitLines_cons_lf, ih]
      simp
    · rw [List.cons_append, splitLines_cons_other _ _ hc, splitLines_cons_other _ _ hc, ih]
      cases h : (splitLines cs).1 with
      | nil =>
        simp only [List.nil_append, List.cons_append]
        rw [splitLines_cons_other _ _ hc]
      | cons l ls => simp

theorem drainBuffer_eq (ok : Int → Bool) (fuel : Nat) :
    ∀ s : TrafficSystem, s.arduinoData.buffer.length ≤ fuel →
      drainBuffer ok fuel s
        = setBuffer (parseLines s (splitLines s.arduinoData.buffer).1 ok)
            (splitLines s.arduinoData.buffer).2 := by
  induction fuel with
  | zero =>
    intro s h
    have hb : s.arduinoData.buffer = [] := List.length_eq_zero.mp (Nat.le_zero.mp h)
    simp only [drainBuffer]
    rw [hb]
    simp only [splitLines, parseLines, List.foldl_nil]
    rw [← hb, setBuffer_self]
  | succ fuel ih =>
    intro s h
    simp only [drainBuffer]
    by_cases hlf : '\n' ∈ s.arduinoData.buffer
    · rw [if_pos hlf]
      have hlen : (s.arduinoData.buffer.drop
          ((s.arduinoData.buffer.takeWhile (fun c => decide (c ≠ '\n'))).length + 1)).length
            ≤ fuel := by
        rw [List.length_drop]
        omega
      have hp := parseArduinoData_setBuffer s (s.arduinoData.buffer.drop
          ((s.arduinoData.buffer.takeWhile (fun c => decide (c ≠ '\n'))).length + 1))
          (s.arduinoData.buffer.takeWhile (fun c => decide (c ≠ '\n'))) ok
      unfold setBuffer at hp
      rw [hp]
      rw [ih _ (by simpa using hlen)]
      rw [splitLines_lf _ hlf]
      simp only [parseLines, List.foldl_cons]
      have := parseLines_setBuffer
      simp only [parseLines] at this
      erw [this]
      rfl
    · rw [if_neg hlf, splitLines_no_lf _ hlf]
      simp only [parseLines, List.foldl_nil]
      exact (setBuffer_self s).symm

theorem onArduinoDataReceived_closed (s : TrafficSystem) (a : List Char) (ok : Int → Bool)
    (h : s.arduinoExists = false ∨ s.arduinoOpen = false) :
    onArduinoDataReceived s a ok = s := by
  simp only [onArduinoDataReceived]
  rw [if_pos h]

theorem onArduinoDataReceived_open (s : TrafficSystem) (a : List Char) (ok : Int → Bool)
    (h1 : s.arduinoExists = true) (h2 : s.arduinoOpen = true) :
    onArduinoDataReceived s a ok
      = setBuffer (parseLines s (splitLines (s.arduinoData.buffer ++ a)).1 ok)
          (splitLines (s.arduinoData.buffer ++ a)).2 := by
  simp only [onArduinoDataReceived]
  rw [if_neg (by simp [h1, h2])]
  have h := drainBuffer_eq ok (s.arduinoData.buffer ++ a).length
    (setBuffer s (s.arduinoData.buffer ++ a)) (le_refl _)
  have hb : (setBuffer s (s.arduinoData.buffer ++ a)).arduinoData.buffer
      = s.arduinoData.buffer ++ a := rfl
  rw [hb, parseLines_setBuffer, setBuffer_setBuffer] at h
  exact h

/-- C19: delivering `a` and then `b` to `onArduinoDataReceived` gives the state that
delivering `a ++ b` at once gives; the complete lines of the buffer followed by `a ++ b`
are those of the buffer followed by `a`, then those of what that delivery leaves
followed by `b`; and on an open port a delivery hands exactly the complete lines of the
buffer followed by the delivery to `parseArduinoData`, in order, and leaves in the
buffer what follows the last LF, which holds no LF. -/
theorem C19_delivery_split (s : TrafficSystem) (a b : List Char) (ok : Int → Bool) :
    onArduinoDataReceived (onArduinoDataReceived s a ok) b ok
        = onArduinoDataReceived s (a ++ b) ok
    ∧ splitLines (s.arduinoData.buffer ++ (a ++ b))
        = ((splitLines (s.arduinoData.buffer ++ a)).1
            ++ (splitLines ((splitLines (s.arduinoData.buffer ++ a)).2 ++ b)).1,
          (splitLines ((splitLines (s.arduinoData.buffer ++ a)).2 ++ b)).2)
    ∧ (s.arduinoExists = true → s.arduinoOpen = true →
        onArduinoDataReceived s a ok
            = setBuffer (parseLines s (splitLines (s.arduinoData.buffer ++ a)).1 ok)
                (splitLines (s.arduinoData.buffer ++ a)).2
        ∧ '\n' ∉ (onArduinoDataReceived s a ok).arduinoData.buffer) := by
  have hsplit : splitLines (s.arduinoData.buffer ++ (a ++ b))
      = ((splitLines (s.arduinoData.buffer ++ a)).1
          ++ (splitLines ((splitLines (s.arduinoData.buffer ++ a)).2 ++ b)).1,
        (splitLines ((splitLines (s.arduinoData.buffer ++ a)).2 ++ b)).2) := by
    rw [← List.append_assoc, splitLines_append]
  refine ⟨?_, hsplit, fun h1 h2 => ⟨onArduinoDataReceived_open s a ok h1 h2, ?_⟩⟩
  · by_cases hc : s.arduinoExists = false ∨ s.arduinoOpen = false
    · rw [onArduinoDataReceived_closed s a ok hc, onArduinoDataReceived_closed s b ok hc,
        onArduinoDataReceived_closed s (a ++ b) ok hc]
    · simp only [not_or, Bool.not_eq_false] at hc
      have e1 : (onArduinoDataReceived s a ok).arduinoExists = true := by
        rw [onArduinoDataReceived_arduinoExists]; exact hc.1
      have e2 : (onArduinoDataReceived s a ok).arduinoOpen = true := by
        rw [onArduinoDataReceived_arduinoOpen]; exact hc.2
      rw [onArduinoDataReceived_open _ b ok e1 e2,
        onArduinoDataReceived_open s (a ++ b) ok hc.1 hc.2, hsplit,
        onArduinoDataReceived_open s a ok hc.1 hc.2]
      have hb : (setBuffer (parseLines s (splitLines (s.arduinoData.buffer ++ a)).1 ok)
          (splitLines (s.arduinoData.buffer ++ a)).2).arduinoData.buffer
            = (splitLines (s.arduinoData.buffer ++ a)).2 := rfl
      rw [hb, parseLines_setBuffer, setBuffer_setBuffer, parseLines_append]
  · rw [onArduinoDataReceived_open s a ok h1 h2]
    exact splitLines_rest_no_lf _

/-- C19 on `demoLinkedStarted` (port open, buffer empty): the three deliveries `SENS`,
`ORS:0,` and `1,0,0`, LF, `SENSORS:0,0,0,0`, LF give the state of the one delivery of
all the bytes, which hands the two lines `SENSORS:0,1,0,0` and `SENSORS:0,0,0,0` to
`parseArduinoData` and leaves the buffer empty; the stored sensor states are
(0,1,0,0) after the first line and (0,0,0,0) after the second. -/
theorem C19_delivery_split_witness :
    demoLinkedStarted.arduinoExists = true ∧ demoLinkedStarted.arduinoOpen = true
    ∧ onArduinoDataReceived
        (onArduinoDataReceived
          (onArduinoDataReceived demoLinkedStarted "SENS".data (fun _ => true))
          "ORS:0,".data (fun _ => true))
        "1,0,0\nSENSORS:0,0,0,0\n".data (fun _ => true)
      = onArduinoDataReceived demoLinkedStarted
          ("SENS".data ++ ("ORS:0,".data ++ "1,0,0\nSENSORS:0,0,0,0\n".data)) (fun _ => true)
    ∧ onArduinoDataReceived demoLinkedStarted
          ("SENS".data ++ ("ORS:0,".data ++ "1,0,0\nSENSORS:0,0,0,0\n".data)) (fun _ => true)
      = setBuffer
          (parseLines demoLinkedStarted
            (splitLines (demoLinkedStarted.arduinoData.buffer
              ++ ("SENS".data ++ ("ORS:0,".data ++ "1,0,0\nSENSORS:0,0,0,0\n".data)))).1
            (fun _ => true))
          (splitLines (demoLinkedStarted.arduinoData.buffer
            ++ ("SENS".data ++ ("ORS:0,".data ++ "1,0,0\nSENSORS:0,0,0,0\n".data)))).2
    ∧ splitLines (demoLinkedStarted.arduinoData.buffer
          ++ ("SENS".data ++ ("ORS:0,".data ++ "1,0,0\nSENSORS:0,0,0,0\n".data)))
        = (["SENSORS:0,1,0,0".data, "SENSORS:0,0,0,0".data], [])
    ∧ [0, 1, 2, 3].map (parseLines demoLinkedStarted ["SENSORS:0,1,0,0".data]
          (fun _ => true)).arduinoData.irSensorPreviousStates = [false, true, false, false]
    ∧ [0, 1, 2, 3].map (parseLines demoLinkedStarted
          ["SENSORS:0,1,0,0".data, "SENSORS:0,0,0,0".data]
          (fun _ => true)).arduinoData.irSensorPreviousStates
        = [false, false, false, false] :=
  have hE : demoLinkedStarted.arduinoExists = true := by decide!
  have hO : demoLinkedStarted.arduinoOpen = true := by decide!
  ⟨hE, hO,
    ((C19_delivery_split (onArduinoDataReceived demoLinkedStarted "SENS".data (fun _ => true))
        "ORS:0,".data "1,0,0\nSENSORS:0,0,0,0\n".data (fun _ => true)).1).trans
      (C19_delivery_split demoLinkedStarted "SENS".data
        ("ORS:0,".data ++ "1,0,0\nSENSORS:0,0,0,0\n".data) (fun _ => true)).1,
    ((C19_delivery_split demoLinkedStarted
        ("SENS".data ++ ("ORS:0,".data ++ "1,0,0\nSENSORS:0,0,0,0\n".data)) []
        (fun _ => true)).2.2 hE hO).1,
    by decide!, by decide!, by decide!⟩

/-! ## C17: when a sensor message is an IR violation -/

theorem emits_of_silent {P : Event → Bool} {s t : TrafficSystem} (h : Silent P s t) :
    Emits P 0 s t := by
  obtain ⟨l, he, hl⟩ := h
  refine ⟨l, he, ?_⟩
  rw [List.length_eq_zero, List.filter_eq_nil_iff]
  intro e hm
  rw [hl e hm]
  simp

theorem emits_trans {P : Event → Bool} {n m : Nat} {a b c : TrafficSystem}
    (h1 : Emits P n a b) (h2 : Emits P m b c) : Emits P (n + m) a c := by
  obtain ⟨l1, e1, c1⟩ := h1
  obtain ⟨l2, e2, c2⟩ := h2
  exact ⟨l1 ++ l2, by rw [e2, e1, List.append_assoc],
    by rw [List.filter_append, List.length_append, c1, c2]⟩

theorem emits_emit {P : Event → Bool} (s : TrafficSystem) (e : Event) (he : P e = true) :
    Emits P 1 s (emit s e) :=
  ⟨[e], rfl, by simp [he]⟩

theorem emits_emitted {P : Event → Bool} {n : Nat} {s t : TrafficSystem}
    (h : Emits P n s t) : ((emitted s t).filter P).length = n := by
  obtain ⟨l, he, hc⟩ := h
  rw [emitted_of_append he]
  exact hc

theorem isIRViolation_quiet (i : Int) :
    ∀ e : Event, e.isViolation = false → isIRViolation i e = false := by
  intro e he
  cases e <;> first | rfl | simp [Event.isViolation] at he

theorem checkSensor_skip (s : TrafficSystem) (ns : Int → Bool) (ok : Int → Bool) (j : Int)
    (h : ¬ irFires s ns j) : checkSensor s ns ok j = s := by
  simp only [checkSensor]
  unfold irFires at h
  split_ifs with h1 h2
  · exact absurd ⟨h1.1, h1.2.1, h2.1, h2.2, h1.2.2⟩ h
  · rfl
  · rfl

theorem checkSensor_fire (s : TrafficSystem) (ns : Int → Bool) (ok : Int → Bool) (j : Int)
    (h : irFires s ns j) :
    checkSensor s ns ok j
      = { emit (emit (saveViolationScreenshot s j 1 (ok j))
            (Event.violationDetected j (irReason j)
              ((saveViolationScreenshot s j 1 (ok j)).roads j).currentFrame))
            (Event.logMessage (irReason j) "VIOLATION") with
          singleShots := s.singleShots ++
            [(500, SingleShot.screenshot j 2), (1000, SingleShot.screenshot j 3),
             (5000, SingleShot.cooldownOff j)]
          irViolationCooldownActive := Function.update s.irViolationCooldownActive j true } := by
  simp only [checkSensor]
  obtain ⟨h1, h2, h3, h4, h5⟩ := h
  rw [if_pos ⟨h1, h2, h5⟩, if_pos ⟨h3, h4⟩]
  have e1 : (saveViolationScreenshot s j 1 (ok j)).singleShots = s.singleShots := by
    unfold saveViolationScreenshot
    split <;> (try split_ifs) <;> rfl
  have e2 : (saveViolationScreenshot s j 1 (ok j)).irViolationCooldownActive
      = s.irViolationCooldownActive := by
    unfold saveViolationScreenshot
    split <;> (try split_ifs) <;> rfl
  simp only [emit, e1, e2]

theorem saveViolationScreenshot_arduinoData (s : TrafficSystem) (i n : Int) (ok : Bool) :
    (saveViolationScreenshot s i n ok).arduinoData = s.arduinoData := by
  unfold saveViolationScreenshot
  split <;> (try split_ifs) <;> rfl

/-- What `checkSensor` for `j` leaves alone. -/
theorem checkSensor_frame (s : TrafficSystem) (ns : Int → Bool) (ok : Int → Bool) (j : Int) :
    (checkSensor s ns ok j).arduinoData = s.arduinoData
    ∧ (∀ k : Int, k ≠ j →
        (checkSensor s ns ok j).irViolationCooldownActive k = s.irViolationCooldownActive k)
    ∧ (∀ x ∈ s.singleShots, x ∈ (checkSensor s ns ok j).singleShots) := by
  by_cases h : irFires s ns j
  · rw [checkSensor_fire s ns ok j h]
    refine ⟨?_, fun k hk => ?_, fun x hx => ?_⟩
    · simp only [emit]
      exact saveViolationScreenshot_arduinoData s j 1 (ok j)
    · simp [Function.update_noteq hk]
    · simp [hx]
  · rw [checkSensor_skip s ns ok j h]
    exact ⟨rfl, fun _ _ => rfl, fun _ hx => hx⟩

theorem irFires_checkSensor (s : TrafficSystem) (ns : Int → Bool) (ok : Int → Bool)
    (bits : Int → Bool) (i j : Int) (hij : i ≠ j) :
    irFires (checkSensor s ns ok j) bits i ↔ irFires s bits i := by
  obtain ⟨h1, h2, _⟩ := checkSensor_frame s ns ok j
  unfold irFires
  rw [h1, h2 i hij, checkSensor_currentLights, checkSensor_violationDetectionEnabled]

theorem silent_checkSensor_other (s : TrafficSystem) (ns : Int → Bool) (ok : Int → Bool)
    (i j : Int) (hij : i ≠ j) : Silent (isIRViolation i) s (checkSensor s ns ok j) := by
  have hq := isIRViolation_quiet i
  by_cases h : irFires s ns j
  · rw [checkSensor_fire s ns ok j h]
    refine silent_eq_to (silent_emit_to (silent_emit_to
      (silent_saveViolationScreenshot hq s j 1 (ok j)) _ ?_) _ (hq _ (by rfl))) rfl
    simp only [isIRViolation, decide_eq_false_iff_not, not_and]
    intro hji
    exact absurd hji.symm hij
  · rw [checkSensor_skip s ns ok j h]
    exact silent_refl _ s

/-- A run of `checkSensor` over approaches other than `i`. -/
theorem checkSensor_others (i : Int) (ns : Int → Bool) (ok : Int → Bool) (js : List Int) :
    ∀ s : TrafficSystem, i ∉ js →
      Silent (isIRViolation i) s (js.foldl (fun st j => checkSensor st ns ok j) s)
      ∧ (irFires (js.foldl (fun st j => checkSensor st ns ok j) s) ns i ↔ irFires s ns i)
      ∧ (js.foldl (fun st j => checkSensor st ns ok j) s).irViolationCooldownActive i
          = s.irViolationCooldownActive i
      ∧ (∀ x ∈ s.singleShots,
          x ∈ (js.foldl (fun st j => checkSensor st ns ok j) s).singleShots) := by
  induction js with
  | nil => intro s _; exact ⟨silent_refl _ s, Iff.rfl, rfl, fun _ hx => hx⟩
  | cons j rest ih =>
    intro s hi
    have hij : i ≠ j := fun e => hi (by simp [e])
    have hir : i ∉ rest := fun e => hi (by simp [e])
    obtain ⟨a1, a2, a3, a4⟩ := ih (checkSensor s ns ok j) hir
    obtain ⟨_, f2, f3⟩ := checkSensor_frame s ns ok j
    simp only [List.foldl_cons]
    exact ⟨silent_trans (silent_checkSensor_other s ns ok i j hij) a1,
      a2.trans (irFires_checkSensor s ns ok ns i j hij), a3.trans (f2 i hij),
      fun x hx => a4 x (f3 x hx)⟩

/-- A run of `checkSensor` over approaches among which `i` occurs once. -/
theorem checkSensor_run (i : Int) (ns : Int → Bool) (ok : Int → Bool) (pre post : List Int)
    (hpre : i ∉ pre) (hpost : i ∉ post) (s : TrafficSystem) :
    Emits (isIRViolation i) (if irFires s ns i then 1 else 0) s
        ((pre ++ i :: post).foldl (fun st j => checkSensor st ns ok j) s)
    ∧ (irFires s ns i →
        ((pre ++ i :: post).foldl (fun st j => checkSensor st ns ok j)
            s).irViolationCooldownActive i = true
        ∧ (5000, SingleShot.cooldownOff i)
            ∈ ((pre ++ i :: post).foldl (fun st j => checkSensor st ns ok j) s).singleShots)
    ∧ (¬ irFires s ns i →
        ((pre ++ i :: post).foldl (fun st j => checkSensor st ns ok j)
            s).irViolationCooldownActive i = s.irViolationCooldownActive i) := by
  have hq := isIRViolation_quiet i
  obtain ⟨a1, a2, a3, a4⟩ := checkSensor_others i ns ok pre s hpre
  obtain ⟨b1, b2, b3, b4⟩ := checkSensor_others i ns ok post
    (checkSensor (pre.foldl (fun st j => checkSensor st ns ok j) s) ns ok i) hpost
  rw [List.foldl_append, List.foldl_cons]
  by_cases h : irFires s ns i
  · have h' := a2.mpr h
    rw [if_pos h]
    refine ⟨?_, fun _ => ⟨?_, ?_⟩, fun hn => absurd h hn⟩
    · have hmid : Emits (isIRViolation i) 1 (pre.foldl (fun st j => checkSensor st ns ok j) s)
          (checkSensor (pre.foldl (fun st j => checkSensor st ns ok j) s) ns ok i) := by
        rw [checkSensor_fire _ ns ok i h']
        have e0 := emits_of_silent (silent_saveViolationScreenshot hq
          (pre.foldl (fun st j => checkSensor st ns ok j) s) i 1 (ok i))
        have e1 := emits_trans e0 (emits_emit _ (Event.violationDetected i (irReason i)
          ((saveViolationScreenshot (pre.foldl (fun st j => checkSensor st ns ok j) s) i 1
            (ok i)).roads i).currentFrame) (by simp [isIRViolation]))
        have e2 := emits_trans e1 (emits_of_silent (silent_emit _
          (Event.logMessage (irReason i) "VIOLATION") (hq _ (by rfl))))
        obtain ⟨l, he, hc⟩ := e2
        exact ⟨l, he, hc⟩
      have := emits_trans (emits_trans (emits_of_silent a1) hmid) (emits_of_silent b1)
      simpa using this
    · rw [b3, checkSensor_fire _ ns ok i h']
      simp
    · apply b4
      rw [checkSensor_fire _ ns ok i h']
      simp
  · have h' : ¬ irFires (pre.foldl (fun st j => checkSensor st ns ok j) s) ns i :=
      fun e => h (a2.mp e)
    rw [if_neg h]
    refine ⟨?_, fun hp => absurd hp h, fun _ => ?_⟩
    · rw [checkSensor_skip _ ns ok i h'] at b1 ⊢
      have := emits_trans (emits_of_silent a1) (emits_of_silent b1)
      simpa using this
    · rw [b3, checkSensor_skip _ ns ok i h', a3]

theorem sensorStates_bits (bits : Int → Bool) (j : Int) (h0 : 0 ≤ j) (h4 : j < 4) :
    sensorStates [[bitChar (bits 0)], [bitChar (bits 1)], [bitChar (bits 2)],
      [bitChar (bits 3)]] j = bits j := by
  interval_cases j
  · cases h : bits 0 <;> simp [sensorStates, bitChar]
  · cases h : bits 1 <;> simp [sensorStates, bitChar]
  · cases h : bits 2 <;> simp [sensorStates, bitChar]
  · cases h : bits 3 <;> simp [sensorStates, bitChar]

theorem parseArduinoData_sensorMessage (s : TrafficSystem) (bits : Int → Bool)
    (ok : Int → Bool) :
    parseArduinoData s (sensorMessage bits) ok
      = { [0, 1, 2, 3].foldl (fun st i => checkSensor st
            (sensorStates [[bitChar (bits 0)], [bitChar (bits 1)], [bitChar (bits 2)],
              [bitChar (bits 3)]]) ok i) s with
          arduinoData :=
            { ([0, 1, 2, 3].foldl (fun st i => checkSensor st
                (sensorStates [[bitChar (bits 0)], [bitChar (bits 1)], [bitChar (bits 2)],
                  [bitChar (bits 3)]]) ok i) s).arduinoData with
              irSensorPreviousStates :=
                sensorStates [[bitChar (bits 0)], [bitChar (bits 1)], [bitChar (bits 2)],
                  [bitChar (bits 3)]] } } := by
  unfold sensorMessage
  cases bits 0 <;> cases bits 1 <;> cases bits 2 <;> cases bits 3 <;> rfl

theorem irFires_congr (s : TrafficSystem) (ns bits : Int → Bool) (i : Int)
    (h : ns i = bits i) : irFires s ns i ↔ irFires s bits i := by
  unfold irFires
  rw [h]

/-- C17: for a well-formed message `SENSORS:b0,b1,b2,b3` and an approach `i` in `0..3`,
`parseArduinoData` emits the IR violation of approach `i` (the event `violationDetected`
for `i` with reason "IR sensor triggered on red light for Road i+1") once if `b_i` is
1, the stored state of sensor `i` is 0, the light of `i` is RED, violation detection is
on and the cooldown of `i` is not active, and not at all otherwise; when it emits, the
cooldown of `i` is active afterwards and the single shot that ends it is asked for
after 5000 ms, when it does not, the cooldown of `i` is as before; and in every case
the stored sensor states are `b0, b1, b2, b3` afterwards. -/
theorem C17_ir_violation (s : TrafficSystem) (bits : Int → Bool) (ok : Int → Bool) (i : Int)
    (h0 : 0 ≤ i) (h4 : i < 4) :
    ((emitted s (parseArduinoData s (sensorMessage bits) ok)).filter
        (isIRViolation i)).length = (if irFires s bits i then 1 else 0)
    ∧ (irFires s bits i →
        (parseArduinoData s (sensorMessage bits) ok).irViolationCooldownActive i = true
        ∧ (5000, SingleShot.cooldownOff i)
            ∈ (parseArduinoData s (sensorMessage bits) ok).singleShots)
    ∧ (¬ irFires s bits i →
        (parseArduinoData s (sensorMessage bits) ok).irViolationCooldownActive i
          = s.irViolationCooldownActive i)
    ∧ (∀ j : Int, 0 ≤ j → j < 4 →
        (parseArduinoData s (sensorMessage bits) ok).arduinoData.irSensorPreviousStates j
          = bits j) := by
  rw [parseArduinoData_sensorMessage]
  have hns := sensorStates_bits bits i h0 h4
  have hf := irFires_congr s _ bits i hns
  have hrun : Emits (isIRViolation i) (if irFires s bits i then 1 else 0) s
        ([0, 1, 2, 3].foldl (fun st j => checkSensor st
          (sensorStates [[bitChar (bits 0)], [bitChar (bits 1)], [bitChar (bits 2)],
            [bitChar (bits 3)]]) ok j) s)
      ∧ (irFires s bits i →
          ([0, 1, 2, 3].foldl (fun st j => checkSensor st
            (sensorStates [[bitChar (bits 0)], [bitChar (bits 1)], [bitChar (bits 2)],
              [bitChar (bits 3)]]) ok j) s).irViolationCooldownActive i = true
          ∧ (5000, SingleShot.cooldownOff i)
              ∈ ([0, 1, 2, 3].foldl (fun st j => checkSensor st
                (sensorStates [[bitChar (bits 0)], [bitChar (bits 1)], [bitChar (bits 2)],
                  [bitChar (bits 3)]]) ok j) s).singleShots)
      ∧ (¬ irFires s bits i →
          ([0, 1, 2, 3].foldl (fun st j => checkSensor st
            (sensorStates [[bitChar (bits 0)], [bitChar (bits 1)], [bitChar (bits 2)],
              [bitChar (bits 3)]]) ok j) s).irViolationCooldownActive i
            = s.irViolationCooldownActive i) := by
    have hif : (if irFires s (sensorStates [[bitChar (bits 0)], [bitChar (bits 1)],
        [bitChar (bits 2)], [bitChar (bits 3)]]) i then 1 else 0)
          = (if irFires s bits i then 1 else 0) := by
      by_cases hb : irFires s bits i
      · rw [if_pos hb, if_pos (hf.mpr hb)]
      · rw [if_neg hb, if_neg (fun e => hb (hf.mp e))]
    rw [← hif]
    have hcases : i = 0 ∨ i = 1 ∨ i = 2 ∨ i = 3 := by omega
    rcases hcases with e | e | e | e
    · subst e
      obtain ⟨r1, r2, r3⟩ := checkSensor_run 0 (sensorStates [[bitChar (bits 0)],
        [bitChar (bits 1)], [bitChar (bits 2)], [bitChar (bits 3)]]) ok [] [1, 2, 3]
        (by simp) (by simp) s
      exact ⟨r1, fun h => r2 (hf.mpr h), fun h => r3 (fun e => h (hf.mp e))⟩
    · subst e
      obtain ⟨r1, r2, r3⟩ := checkSensor_run 1 (sensorStates [[bitChar (bits 0)],
        [bitChar (bits 1)], [bitChar (bits 2)], [bitChar (bits 3)]]) ok [0] [2, 3]
        (by simp) (by simp) s
      exact ⟨r1, fun h => r2 (hf.mpr h), fun h => r3 (fun e => h (hf.mp e))⟩
    · subst e
      obtain ⟨r1, r2, r3⟩ := checkSensor_run 2 (sensorStates [[bitChar (bits 0)],
        [bitChar (bits 1)], [bitChar (bits 2)], [bitChar (bits 3)]]) ok [0, 1] [3]
        (by simp) (by simp) s
      exact ⟨r1, fun h => r2 (hf.mpr h), fun h => r3 (fun e => h (hf.mp e))⟩
    · subst e
      obtain ⟨r1, r2, r3⟩ := checkSensor_run 3 (sensorStates [[bitChar (bits 0)],
        [bitChar (bits 1)], [bitChar (bits 2)], [bitChar (bits 3)]]) ok [0, 1, 2] []
        (by simp) (by simp) s
      exact ⟨r1, fun h => r2 (hf.mpr h), fun h => r3 (fun e => h (hf.mp e))⟩
  obtain ⟨r1, r2, r3⟩ := hrun
  refine ⟨?_, r2, r3, fun j hj0 hj4 => sensorStates_bits bits j hj0 hj4⟩
  obtain ⟨l, he, hc⟩ := r1
  have he2 : ({ [0, 1, 2, 3].foldl (fun st i => checkSensor st
            (sensorStates [[bitChar (bits 0)], [bitChar (bits 1)], [bitChar (bits 2)],
              [bitChar (bits 3)]]) ok i) s with
          arduinoData :=
            { ([0, 1, 2, 3].foldl (fun st i => checkSensor st
                (sensorStates [[bitChar (bits 0)], [bitChar (bits 1)], [bitChar (bits 2)],
                  [bitChar (bits 3)]]) ok i) s).arduinoData with
              irSensorPreviousStates :=
                sensorStates [[bitChar (bits 0)], [bitChar (bits 1)], [bitChar (bits 2)],
                  [bitChar (bits 3)]] } } : TrafficSystem).events = s.events ++ l := he
  rw [emitted_of_append he2]
  exact hc

/-- C17 on `demoLinkedStarted` (approach 1 RED, detection on, stored sensor states 0, no
cooldown) with the message `SENSORS:0,1,0,0`: the IR violation of approach 1 is emitted
once, its cooldown is active afterwards, and the stored state of sensor 1 is 1. -/
theorem C17_ir_violation_witness :
    irFires demoLinkedStarted bits0100 1
    ∧ ((emitted demoLinkedStarted
          (parseArduinoData demoLinkedStarted (sensorMessage bits0100) (fun _ => true))).filter
        (isIRViolation 1)).length = 1
    ∧ (parseArduinoData demoLinkedStarted (sensorMessage bits0100)
        (fun _ => true)).irViolationCooldownActive 1 = true
    ∧ (parseArduinoData demoLinkedStarted (sensorMessage bits0100)
        (fun _ => true)).arduinoData.irSensorPreviousStates 1 = bits0100 1 :=
  have hf : irFires demoLinkedStarted bits0100 1 := by decide!
  have h := C17_ir_violation demoLinkedStarted bits0100 (fun _ => true) 1 (by decide)
    (by decide)
  ⟨hf, h.1.trans (if_pos hf), (h.2.1 hf).1, h.2.2.2 1 (by decide) (by decide)⟩

/-! ## Frame lemmas for the IR cooldown and the single shots -/

section

set_option linter.unnecessarySeqFocus false
set_option linter.unusedTactic false
set_option linter.unreachableTactic false
set_option linter.unusedVariables false

@[simp]
theorem emit_irViolationCooldownActive (s : TrafficSystem) (e : Event) :
    (emit s e).irViolationCooldownActive = s.irViolationCooldownActive := by
  rfl

@[simp]
theorem setRoad_irViolationCooldownActive (s : TrafficSystem) (i : Int) (r : RoadData) :
    (setRoad s i r).irViolationCooldownActive = s.irViolationCooldownActive := by
  rfl

@[simp]
theorem sendArduinoCommand_irViolationCooldownActive (s : TrafficSystem) (c : String) :
    (sendArduinoCommand s c).irViolationCooldownActive = s.irViolationCooldownActive := by
  unfold sendArduinoCommand; split_ifs <;> rfl

@[simp]
theorem setTrafficLight_irViolationCooldownActive (s : TrafficSystem) (i : Int) (l : TrafficLight) :
    (setTrafficLight s i l).irViolationCooldownActive = s.irViolationCooldownActive := by
  unfold setTrafficLight; split_ifs <;> simp

@[simp]
theorem setAllTrafficLights_irViolationCooldownActive (s : TrafficSystem) (l : TrafficLight) :
    (setAllTrafficLights s l).irViolationCooldownActive = s.irViolationCooldownActive := by
  simp [setAllTrafficLights]

@[simp]
theorem cycleLights_irViolationCooldownActive (s : TrafficSystem) :
    (cycleLights s).irViolationCooldownActive = s.irViolationCooldownActive := by
  simp [cycleLights]

@[simp]
theorem processTrafficCycle_irViolationCooldownActive (s : TrafficSystem) :
    (processTrafficCycle s).irViolationCooldownActive = s.irViolationCooldownActive := by
  unfold processTrafficCycle; split_ifs <;> (try simp) <;> (try split_ifs) <;> (try simp)

@[simp]
theorem switchToNextRoad_irViolationCooldownActive (s : TrafficSystem) :
    (switchToNextRoad s).irViolationCooldownActive = s.irViolationCooldownActive := by
  unfold switchToNextRoad; split_ifs <;> (try simp) <;> (try split_ifs) <;> (try simp)

@[simp]
theorem onLightTimerTimeout_irViolationCooldownActive (s : TrafficSystem) :
    (onLightTimerTimeout s).irViolationCooldownActive = s.irViolationCooldownActive := by
  unfold onLightTimerTimeout; split_ifs <;> simp <;> split_ifs <;> simp

@[simp]
theorem processEnergySaving_irViolationCooldownActive (s : TrafficSystem) :
    (processEnergySaving s).irViolationCooldownActive = s.irViolationCooldownActive := by
  unfold processEnergySaving; split_ifs <;> (try simp) <;> (try split_ifs) <;> (try simp)

@[simp]
theorem updateTrafficLights_irViolationCooldownActive (s : TrafficSystem) :
    (updateTrafficLights s).irViolationCooldownActive = s.irViolationCooldownActive := by
  unfold updateTrafficLights; split_ifs <;> (try simp) <;> (try split_ifs) <;> (try simp)

@[simp]
theorem updateCount_irViolationCooldownActive (s : TrafficSystem) (i : Int) (n : Int) :
    (updateCount s i n).irViolationCooldownActive = s.irViolationCooldownActive := by
  unfold updateCount; split_ifs <;> (try simp) <;> (try split_ifs) <;> (try simp)

@[simp]
theorem reportViolations_irViolationCooldownActive (s : TrafficSystem) (i : Int) (ids : List Int) :
    (reportViolations s i ids).irViolationCooldownActive = s.irViolationCooldownActive := by
  induction ids generalizing s with
  | nil => rfl
  | cons id rest ih => simp only [reportViolations]; split_ifs <;> simp [ih]

@[simp]
theorem handleProcessingFinished_irViolationCooldownActive (s : TrafficSystem) (i : Int) (n : Int) (ids : List Int) :
    (handleProcessingFinished s i n ids).irViolationCooldownActive = s.irViolationCooldownActive := by
  unfold handleProcessingFinished; split_ifs <;> (try simp) <;> (try split_ifs) <;> (try simp)

@[simp]
theorem disconnectCamera_irViolationCooldownActive (s : TrafficSystem) (i : Int) :
    (disconnectCamera s i).irViolationCooldownActive = s.irViolationCooldownActive := by
  unfold disconnectCamera; split_ifs <;> (try simp) <;> (try split_ifs) <;> (try simp)

@[simp]
theorem startSystem_irViolationCooldownActive (s : TrafficSystem) :
    (startSystem s).irViolationCooldownActive = s.irViolationCooldownActive := by
  unfold startSystem; split_ifs <;> (try simp) <;> (try split_ifs) <;> (try simp)

@[simp]
theorem stopSystem_irViolationCooldownActive (s : TrafficSystem) :
    (stopSystem s).irViolationCooldownActive = s.irViolationCooldownActive := by
  unfold stopSystem; split_ifs <;> (try simp) <;> (try split_ifs) <;> (try simp)

@[simp]
theorem onSensorTimerTimeout_irViolationCooldownActive (s : TrafficSystem) :
    (onSensorTimerTimeout s).irViolationCooldownActive = s.irViolationCooldownActive := by
  unfold onSensorTimerTimeout; split_ifs <;> (try simp) <;> (try split_ifs) <;> (try simp)

@[simp]
theorem onMainTimerTimeout_irViolationCooldownActive (s : TrafficSystem) (f : Option Frame) :
    (onMainTimerTimeout s f).irViolationCooldownActive = s.irViolationCooldownActive := by
  cases f <;> simp only [onMainTimerTimeout] <;> split_ifs <;> (try simp) <;> (try rfl)

@[simp]
theorem connectCamera_irViolationCooldownActive (s : TrafficSystem) (i : Int) (src : String) (o : Bool) :
    (connectCamera s i src o).2.irViolationCooldownActive = s.irViolationCooldownActive := by
  simp only [connectCamera]; split_ifs <;> (try simp) <;> (try rfl)

@[simp]
theorem initializeArduino_irViolationCooldownActive (s : TrafficSystem) (p : String) (ports : List String) (o : Bool) :
    (initializeArduino s p ports o).2.irViolationCooldownActive = s.irViolationCooldownActive := by
  simp only [initializeArduino]; split_ifs <;> (try simp) <;> (try rfl)

@[simp]
theorem setArduinoSimulationMode_irViolationCooldownActive (s : TrafficSystem) (b : Bool) (ports : List String) (o : Bool) :
    (setArduinoSimulationMode s b ports o).irViolationCooldownActive = s.irViolationCooldownActive := by
  simp only [setArduinoSimulationMode]; split_ifs <;> (try simp) <;> (try rfl)

@[simp]
theorem onArduinoError_irViolationCooldownActive (s : TrafficSystem) (e : String) :
    (onArduinoError s e).irViolationCooldownActive = s.irViolationCooldownActive := by
  simp only [onArduinoError]; split_ifs <;> (try simp) <;> (try rfl)

@[simp]
theorem setRoadROI_irViolationCooldownActive (s : TrafficSystem) (i : Int) (r : Rect) :
    (setRoadROI s i r).irViolationCooldownActive = s.irViolationCooldownActive := by
  simp only [setRoadROI]; split_ifs <;> (try simp) <;> (try rfl)

@[simp]
theorem emit_singleShots (s : TrafficSystem) (e : Event) :
    (emit s e).singleShots = s.singleShots := by
  rfl

@[simp]
theorem setRoad_singleShots (s : TrafficSystem) (i : Int) (r : RoadData) :
    (setRoad s i r).singleShots = s.singleShots := by
  rfl

@[simp]
theorem sendArduinoCommand_singleShots (s : TrafficSystem) (c : String) :
    (sendArduinoCommand s c).singleShots = s.singleShots := by
  unfold sendArduinoCommand; split_ifs <;> rfl

@[simp]
theorem setTrafficLight_singleShots (s : TrafficSystem) (i : Int) (l : TrafficLight) :
    (setTrafficLight s i l).singleShots = s.singleShots := by
  unfold setTrafficLight; split_ifs <;> simp

@[simp]
theorem setAllTrafficLights_singleShots (s : TrafficSystem) (l : TrafficLight) :
    (setAllTrafficLights s l).singleShots = s.singleShots := by
  simp [setAllTrafficLights]

@[simp]
theorem cycleLights_singleShots (s : TrafficSystem) :
    (cycleLights s).singleShots = s.singleShots := by
  simp [cycleLights]

@[simp]
theorem processTrafficCycle_singleShots (s : TrafficSystem) :
    (processTrafficCycle s).singleShots = s.singleShots := by
  unfold processTrafficCycle; split_ifs <;> (try simp) <;> (try split_ifs) <;> (try simp)

@[simp]
theorem switchToNextRoad_singleShots (s : TrafficSystem) :
    (switchToNextRoad s).singleShots = s.singleShots := by
  unfold switchToNextRoad; split_ifs <;> (try simp) <;> (try split_ifs) <;> (try simp)

@[simp]
theorem onLightTimerTimeout_singleShots (s : TrafficSystem) :
    (onLightTimerTimeout s).singleShots = s.singleShots := by
  unfold onLightTimerTimeout; split_ifs <;> simp <;> split_ifs <;> simp

@[simp]
theorem processEnergySaving_singleShots (s : TrafficSystem) :
    (processEnergySaving s).singleShots = s.singleShots := by
  unfold processEnergySaving; split_ifs <;> (try simp) <;> (try split_ifs) <;> (try simp)

@[simp]
theorem updateTrafficLights_singleShots (s : TrafficSystem) :
    (updateTrafficLights s).singleShots = s.singleShots := by
  unfold updateTrafficLights; split_ifs <;> (try simp) <;> (try split_ifs) <;> (try simp)

@[simp]
theorem updateCount_singleShots (s : TrafficSystem) (i : Int) (n : Int) :
    (updateCount s i n).singleShots = s.singleShots := by
  unfold updateCount; split_ifs <;> (try simp) <;> (try split_ifs) <;> (try simp)

@[simp]
theorem reportViolations_singleShots (s : TrafficSystem) (i : Int) (ids : List Int) :
    (reportViolations s i ids).singleShots = s.singleShots := by
  induction ids generalizing s with
  | nil => rfl
  | cons id rest ih => simp only [reportViolations]; split_ifs <;> simp [ih]

@[simp]
theorem handleProcessingFinished_singleShots (s : TrafficSystem) (i : Int) (n : Int) (ids : List Int) :
    (handleProcessingFinished s i n ids).singleShots = s.singleShots := by
  unfold handleProcessingFinished; split_ifs <;> (try simp) <;> (try split_ifs) <;> (try simp)

@[simp]
theorem disconnectCamera_singleShots (s : TrafficSystem) (i : Int) :
    (disconnectCamera s i).singleShots = s.singleShots := by
  unfold disconnectCamera; split_ifs <;> (try simp) <;> (try split_ifs) <;> (try simp)

@[simp]
theorem startSystem_singleShots (s : TrafficSystem) :
    (startSystem s).singleShots = s.singleShots := by
  unfold startSystem; split_ifs <;> (try simp) <;> (try split_ifs) <;> (try simp)

@[simp]
theorem stopSystem_singleShots (s : TrafficSystem) :
    (stopSystem s).singleShots = s.singleShots := by
  unfold stopSystem; split_ifs <;> (try simp) <;> (try split_ifs) <;> (try simp)

@[simp]
theorem onSensorTimerTimeout_singleShots (s : TrafficSystem) :
    (onSensorTimerTimeout s).singleShots = s.singleShots := by
  unfold onSensorTimerTimeout; split_ifs <;> (try simp) <;> (try split_ifs) <;> (try simp)

@[simp]
theorem onMainTimerTimeout_singleShots (s : TrafficSystem) (f : Option Frame) :
    (onMainTimerTimeout s f).singleShots = s.singleShots := by
  cases f <;> simp only [onMainTimerTimeout] <;> split_ifs <;> (try simp) <;> (try rfl)

@[simp]
theorem connectCamera_singleShots (s : TrafficSystem) (i : Int) (src : String) (o : Bool) :
    (connectCamera s i src o).2.singleShots = s.singleShots := by
  simp only [connectCamera]; split_ifs <;> (try simp) <;> (try rfl)

@[simp]
theorem initializeArduino_singleShots (s : TrafficSystem) (p : String) (ports : List String) (o : Bool) :
    (initializeArduino s p ports o).2.singleShots = s.singleShots := by
  simp only [initializeArduino]; split_ifs <;> (try simp) <;> (try rfl)

@[simp]
theorem setArduinoSimulationMode_singleShots (s : TrafficSystem) (b : Bool) (ports : List String) (o : Bool) :
    (setArduinoSimulationMode s b ports o).singleShots = s.singleShots := by
  simp only [setArduinoSimulationMode]; split_ifs <;> (try simp) <;> (try rfl)

@[simp]
theorem onArduinoError_singleShots (s : TrafficSystem) (e : String) :
    (onArduinoError s e).singleShots = s.singleShots := by
  simp only [onArduinoError]; split_ifs <;> (try simp) <;> (try rfl)

@[simp]
theorem setRoadROI_singleShots (s : TrafficSystem) (i : Int) (r : Rect) :
    (setRoadROI s i r).singleShots = s.singleShots := by
  simp only [setRoadROI]; split_ifs <;> (try simp) <;> (try rfl)

end


/-- Only the inbound serial path and the single shots touch the IR cooldown flags and
ask for single shots. -/
theorem step_ir_frame (s : TrafficSystem) (a : Action)
    (h1 : ∀ d ok, a ≠ Action.arduinoDataReceived d ok)
    (h2 : ∀ shot ok, a ≠ Action.singleShotTimeout shot ok) :
    (step s a).irViolationCooldownActive = s.irViolationCooldownActive
    ∧ (step s a).singleShots = s.singleShots := by
  cases a with
  | arduinoDataReceived d ok => exact absurd rfl (h1 d ok)
  | singleShotTimeout shot ok => exact absurd rfl (h2 shot ok)
  | startSystem => exact ⟨startSystem_irViolationCooldownActive s, startSystem_singleShots s⟩
  | stopSystem => exact ⟨stopSystem_irViolationCooldownActive s, stopSystem_singleShots s⟩
  | lightTimerTimeout =>
    exact ⟨onLightTimerTimeout_irViolationCooldownActive s, onLightTimerTimeout_singleShots s⟩
  | mainTimerTimeout f =>
    exact ⟨onMainTimerTimeout_irViolationCooldownActive s f, onMainTimerTimeout_singleShots s f⟩
  | sensorTimerTimeout =>
    exact ⟨onSensorTimerTimeout_irViolationCooldownActive s, onSensorTimerTimeout_singleShots s⟩
  | processingFinished j n ids =>
    exact ⟨handleProcessingFinished_irViolationCooldownActive s j n ids,
      handleProcessingFinished_singleShots s j n ids⟩
  | connectCamera j src o =>
    exact ⟨connectCamera_irViolationCooldownActive s j src o, connectCamera_singleShots s j src o⟩
  | disconnectCamera j =>
    exact ⟨disconnectCamera_irViolationCooldownActive s j, disconnectCamera_singleShots s j⟩
  | initializeArduino p ps o =>
    exact ⟨initializeArduino_irViolationCooldownActive s p ps o,
      initializeArduino_singleShots s p ps o⟩
  | setArduinoSimulationMode b ps o =>
    exact ⟨setArduinoSimulationMode_irViolationCooldownActive s b ps o,
      setArduinoSimulationMode_singleShots s b ps o⟩
  | arduinoError e =>
    exact ⟨onArduinoError_irViolationCooldownActive s e, onArduinoError_singleShots s e⟩
  | setLightTiming d n => exact ⟨rfl, rfl⟩
  | setYellowLightDuration n => exact ⟨rfl, rfl⟩
  | setEnergySavingEnabled b => exact ⟨rfl, rfl⟩
  | setViolationDetectionEnabled b => exact ⟨rfl, rfl⟩
  | setRoadROI j r => exact ⟨setRoadROI_irViolationCooldownActive s j r, setRoadROI_singleShots s j r⟩
  | setYoloThresholds => exact ⟨rfl, rfl⟩

/-! ## C18: the IR cooldown -/

theorem isIRViolation_vehicle (i j id : Int) (f : Option Frame) :
    isIRViolation i
      (Event.violationDetected j ("Vehicle ID " ++ toString id ++ " ran red light") f)
        = false := by
  have hr : ("Vehicle ID " ++ toString id ++ " ran red light") = vehicleReason id := rfl
  rw [hr]
  simp only [isIRViolation, decide_eq_false_iff_not, not_and]
  intro _ h
  exact irReason_ne_vehicleReason i id h.symm

theorem silent_reportViolations_ir (i j : Int) (ids : List Int) :
    ∀ s : TrafficSystem, Silent (isIRViolation i) s (reportViolations s j ids) := by
  induction ids with
  | nil => intro s; exact silent_refl _ s
  | cons id rest ih =>
    intro s
    simp only [reportViolations]
    split_ifs
    · exact ih s
    · exact silent_trans (silent_eq_to (silent_emit s _ (isIRViolation_vehicle i j id _)) rfl)
        (ih _)

theorem silent_handleProcessingFinished_ir (i : Int) (s : TrafficSystem) (j n : Int)
    (ids : List Int) : Silent (isIRViolation i) s (handleProcessingFinished s j n ids) := by
  have hq := isIRViolation_quiet i
  by_cases hr : 0 ≤ j ∧ j < 4
  · rw [handleProcessingFinished_eq s j n ids hr.1 hr.2]
    have hA : Silent (isIRViolation i) s
        (emit (updateCount { s with m_workerBusy := false } j n) (Event.frameUpdated j)) :=
      silent_emit_to (silent_trans (silent_of_events_eq rfl) (silent_updateCount hq _ j n)) _
        (hq _ (by rfl))
    refine silent_trans ?_ (silent_updateTrafficLights hq _)
    unfold afterCounts
    split_ifs
    · exact silent_trans hA (silent_reportViolations_ir i j ids _)
    · exact hA
  · have : handleProcessingFinished s j n ids = { s with m_workerBusy := false } := by
      simp only [handleProcessingFinished]
      rw [if_pos (by omega)]
    rw [this]
    exact silent_of_events_eq rfl

theorem step_silent_ir (i : Int) (s : TrafficSystem) (a : Action)
    (h1 : ∀ d ok, a ≠ Action.arduinoDataReceived d ok) :
    Silent (isIRViolation i) s (step s a) := by
  have hq := isIRViolation_quiet i
  cases a with
  | startSystem => exact silent_startSystem hq s
  | stopSystem => exact silent_stopSystem hq s
  | lightTimerTimeout => exact silent_onLightTimerTimeout hq s
  | mainTimerTimeout f => exact silent_onMainTimerTimeout hq s f
  | sensorTimerTimeout => exact silent_onSensorTimerTimeout s
  | processingFinished j n ids => exact silent_handleProcessingFinished_ir i s j n ids
  | connectCamera j src o => exact silent_connectCamera hq s j src o
  | disconnectCamera j => exact silent_disconnectCamera hq s j
  | initializeArduino p ps o => exact silent_initializeArduino hq s p ps o
  | setArduinoSimulationMode b ps o => exact silent_setArduinoSimulationMode hq s b ps o
  | arduinoError e => exact silent_onArduinoError hq s e
  | setLightTiming d n => exact silent_of_events_eq rfl
  | setYellowLightDuration n => exact silent_of_events_eq rfl
  | setEnergySavingEnabled b => exact silent_of_events_eq rfl
  | setViolationDetectionEnabled b => exact silent_of_events_eq rfl
  | setRoadROI j r => exact silent_setRoadROI s j r
  | setYoloThresholds => exact silent_emit s _ (hq _ (by rfl))
  | arduinoDataReceived d ok => exact absurd rfl (h1 d ok)
  | singleShotTimeout shot ok => exact silent_onSingleShot hq s shot ok

theorem filter_nil_of_silent {P : Event → Bool} {l : List Event}
    (h : ∀ e ∈ l, P e = false) : l.filter P = [] := by
  rw [List.filter_eq_nil_iff]
  intro e hm
  rw [h e hm]
  simp

theorem irStep_refl (i : Int) (s : TrafficSystem) : IRStep i s s :=
  ⟨[], [], by simp, by simp, Or.inl ⟨rfl, rfl, rfl⟩⟩

theorem irStep_of_silent {i : Int} {s t : TrafficSystem}
    (h : Silent (isIRViolation i) s t) (hs : t.singleShots = s.singleShots)
    (hc : t.irViolationCooldownActive = s.irViolationCooldownActive) : IRStep i s t := by
  obtain ⟨l, he, hl⟩ := h
  exact ⟨l, [], he, by simp [hs], Or.inl ⟨filter_nil_of_silent hl, by rw [hc], rfl⟩⟩

theorem irStep_congr {i : Int} {s t u : TrafficSystem} (h : IRStep i s t)
    (he : u.events = t.events) (hs : u.singleShots = t.singleShots)
    (hc : u.irViolationCooldownActive = t.irViolationCooldownActive) : IRStep i s u := by
  obtain ⟨l, sh, e1, e2, hd⟩ := h
  refine ⟨l, sh, by rw [he, e1], by rw [hs, e2], ?_⟩
  rw [hc]
  exact hd

theorem cooldownShots_append (i : Int) (a b : List (Int × SingleShot)) :
    cooldownShots i (a ++ b) = cooldownShots i a ++ cooldownShots i b := by
  simp [cooldownShots, List.filter_append]

theorem irStep_trans {i : Int} {a b c : TrafficSystem} (h1 : IRStep i a b)
    (h2 : IRStep i b c) : IRStep i a c := by
  obtain ⟨l1, sh1, e1, s1, d1⟩ := h1
  obtain ⟨l2, sh2, e2, s2, d2⟩ := h2
  refine ⟨l1 ++ l2, sh1 ++ sh2, by rw [e2, e1, List.append_assoc],
    by rw [s2, s1, List.append_assoc], ?_⟩
  rw [List.filter_append, cooldownShots_append]
  rcases d1 with ⟨f1, c1, p1⟩ | ⟨f1, c1, c1', p1⟩
  · rcases d2 with ⟨f2, c2, p2⟩ | ⟨f2, c2, c2', p2⟩
    · exact Or.inl ⟨by rw [f1, f2]; rfl, by rw [c2, c1], by rw [p1, p2]; rfl⟩
    · refine Or.inr ⟨by rw [f1]; simpa using f2, by rw [← c1]; exact c2, c2', ?_⟩
      rw [p1, p2]
      rfl
  · rcases d2 with ⟨f2, c2, p2⟩ | ⟨f2, c2, c2', p2⟩
    · refine Or.inr ⟨by rw [f2]; simpa using f1, c1, by rw [c2]; exact c1', ?_⟩
      rw [p1, p2]
      rfl
    · rw [c1'] at c2
      exact absurd c2 (by decide)

theorem checkSensor_fire_emits (s : TrafficSystem) (ns : Int → Bool) (ok : Int → Bool)
    (i : Int) (h : irFires s ns i) :
    Emits (isIRViolation i) 1 s (checkSensor s ns ok i) := by
  have hq := isIRViolation_quiet i
  rw [checkSensor_fire _ ns ok i h]
  have e0 := emits_of_silent (silent_saveViolationScreenshot hq s i 1 (ok i))
  have e1 := emits_trans e0 (emits_emit _ (Event.violationDetected i (irReason i)
    ((saveViolationScreenshot s i 1 (ok i)).roads i).currentFrame) (by simp [isIRViolation]))
  have e2 := emits_trans e1 (emits_of_silent (silent_emit _
    (Event.logMessage (irReason i) "VIOLATION") (hq _ (by rfl))))
  obtain ⟨l, he, hc⟩ := e2
  exact ⟨l, he, hc⟩

theorem irStep_checkSensor (i : Int) (s : TrafficSystem) (ns : Int → Bool) (ok : Int → Bool)
    (j : Int) : IRStep i s (checkSensor s ns ok j) := by
  by_cases h : irFires s ns j
  · have hsh : (checkSensor s ns ok j).singleShots = s.singleShots ++
        [(500, SingleShot.screenshot j 2), (1000, SingleShot.screenshot j 3),
          (5000, SingleShot.cooldownOff j)] := by
      rw [checkSensor_fire s ns ok j h]
    have hcd : (checkSensor s ns ok j).irViolationCooldownActive
        = Function.update s.irViolationCooldownActive j true := by
      rw [checkSensor_fire s ns ok j h]
    by_cases hij : i = j
    · subst hij
      obtain ⟨l, he, hc⟩ := checkSensor_fire_emits s ns ok i h
      refine ⟨l, _, he, hsh, Or.inr ⟨hc, h.2.2.2.2, by rw [hcd]; simp, ?_⟩⟩
      simp [cooldownShots]
    · obtain ⟨l, he, hl⟩ := silent_checkSensor_other s ns ok i j hij
      refine ⟨l, _, he, hsh, Or.inl ⟨filter_nil_of_silent hl,
        by rw [hcd, Function.update_noteq hij], ?_⟩⟩
      have : ¬ j = i := fun e => hij e.symm
      simp [cooldownShots, this]
  · rw [checkSensor_skip s ns ok j h]
    exact irStep_refl i s

theorem irStep_parseArduinoData (i : Int) (s : TrafficSystem) (d : List Char)
    (ok : Int → Bool) : IRStep i s (parseArduinoData s d ok) := by
  simp only [parseArduinoData, List.foldl_cons, List.foldl_nil]
  split_ifs
  · exact irStep_congr (irStep_trans (irStep_trans (irStep_trans
      (irStep_checkSensor i _ _ ok 0) (irStep_checkSensor i _ _ ok 1))
      (irStep_checkSensor i _ _ ok 2)) (irStep_checkSensor i _ _ ok 3)) rfl rfl rfl
  · exact irStep_refl i s
  · exact irStep_refl i s

theorem irStep_drainBuffer (i : Int) (ok : Int → Bool) (n : Nat) :
    ∀ s : TrafficSystem, IRStep i s (drainBuffer ok n s) := by
  induction n with
  | zero => intro s; exact irStep_refl i s
  | succ n ih =>
    intro s
    simp only [drainBuffer]
    split_ifs
    · refine irStep_trans ?_ (ih _)
      exact irStep_trans (irStep_congr (irStep_refl i s) rfl rfl rfl)
        (irStep_parseArduinoData i _ _ ok)
    · exact irStep_refl i s

theorem irStep_onArduinoDataReceived (i : Int) (s : TrafficSystem) (d : List Char)
    (ok : Int → Bool) : IRStep i s (onArduinoDataReceived s d ok) := by
  simp only [onArduinoDataReceived]
  split_ifs
  · exact irStep_refl i s
  · exact irStep_trans (irStep_congr (irStep_refl i s) rfl rfl rfl)
      (irStep_drainBuffer i ok _ _)

theorem irStep_step (i : Int) (s : TrafficSystem) (a : Action)
    (h2 : ∀ shot ok, a ≠ Action.singleShotTimeout shot ok) : IRStep i s (step s a) := by
  by_cases h1 : ∀ d ok, a ≠ Action.arduinoDataReceived d ok
  · obtain ⟨hc, hs⟩ := step_ir_frame s a h1 h2
    exact irStep_of_silent (step_silent_ir i s a h1) hs hc
  · simp only [not_forall, not_not] at h1
    obtain ⟨d, ok, e⟩ := h1
    subst e
    exact irStep_onArduinoDataReceived i s d ok

/-! ### The timed controller -/

theorem irTimes_map (i : Int) (t : Int) (l : List Event) :
    ((l.map (fun e => (t, e))).filter (fun p => isIRViolation i p.2)).map Prod.fst
      = (l.filter (isIRViolation i)).map (fun _ => t) := by
  induction l with
  | nil => rfl
  | cons e rest ih =>
    by_cases he : isIRViolation i e = true
    · simp only [List.map_cons, List.filter_cons_of_pos he]
      rw [List.filter_cons_of_pos (by simpa using he)]
      simp only [List.map_cons]
      rw [ih]
    · simp only [List.map_cons, List.filter_cons_of_neg he]
      rw [List.filter_cons_of_neg (by simpa using he)]
      exact ih

theorem irTimes_log (i : Int) (T U : TimedSystem) (l : List Event) (t : Int)
    (h : U.log = T.log ++ l.map (fun e => (t, e))) :
    irTimes i U = irTimes i T ++ (l.filter (isIRViolation i)).map (fun _ => t) := by
  unfold irTimes
  rw [h, List.filter_append, List.map_append, irTimes_map]

theorem cooldownShots_map (i : Int) (t : Int) (sh : List (Int × SingleShot)) :
    cooldownShots i (sh.map (fun p => (t + p.1, p.2)))
      = (cooldownShots i sh).map (fun p => (t + p.1, p.2)) := by
  unfold cooldownShots
  induction sh with
  | nil => rfl
  | cons p rest ih =>
    by_cases hp : p.2 = SingleShot.cooldownOff i
    · simp [List.filter_cons, hp, ih]
    · simp [List.filter_cons, hp, ih]

theorem cooldownShots_filter (i : Int) (q : Int × SingleShot → Bool)
    (l : List (Int × SingleShot)) :
    cooldownShots i (l.filter q) = (cooldownShots i l).filter q := by
  unfold cooldownShots
  rw [List.filter_filter, List.filter_filter]
  congr 1
  funext p
  exact Bool.and_comm _ _

theorem mem_cooldownShots {i : Int} {l : List (Int × SingleShot)} {p : Int × SingleShot} :
    p ∈ cooldownShots i l ↔ p ∈ l ∧ p.2 = SingleShot.cooldownOff i := by
  simp [cooldownShots]

theorem onSingleShot_cooldown (s : TrafficSystem) (shot : SingleShot) (ok : Bool) (i : Int) :
    (onSingleShot s shot ok).irViolationCooldownActive i
      = if shot = SingleShot.cooldownOff i then false else s.irViolationCooldownActive i := by
  cases shot with
  | screenshot j n =>
    have e2 : (saveViolationScreenshot s j n ok).irViolationCooldownActive
        = s.irViolationCooldownActive := by
      unfold saveViolationScreenshot
      split <;> (try split_ifs) <;> rfl
    simp [onSingleShot, e2]
  | cooldownOff j =>
    by_cases hj : j = i
    · subst hj
      simp [onSingleShot]
    · have : ¬ i = j := fun e => hj e.symm
      simp [onSingleShot, hj, Function.update_noteq this]

theorem fire_irTimes (i : Int) (ok : Bool) (T : TimedSystem) (p : Int × SingleShot) :
    irTimes i (TimedSystem.fire ok T p) = irTimes i T := by
  obtain ⟨l, he, hl⟩ := silent_onSingleShot (isIRViolation_quiet i) T.sys p.2 ok
  have hlog : (TimedSystem.fire ok T p).log = T.log ++ l.map (fun e => (p.1, e)) := by
    simp only [TimedSystem.fire]
    rw [emitted_of_append he]
  rw [irTimes_log i T _ l p.1 hlog, filter_nil_of_silent hl]
  simp

theorem fireAll (i : Int) (ok : Bool) (D : List (Int × SingleShot)) :
    ∀ U : TimedSystem,
      (D.foldl (TimedSystem.fire ok) U).pending = U.pending
      ∧ (D.foldl (TimedSystem.fire ok) U).now = U.now
      ∧ irTimes i (D.foldl (TimedSystem.fire ok) U) = irTimes i U
      ∧ (D.foldl (TimedSystem.fire ok) U).sys.irViolationCooldownActive i
          = if (∃ p ∈ D, p.2 = SingleShot.cooldownOff i) then false
            else U.sys.irViolationCooldownActive i := by
  induction D with
  | nil => intro U; simp
  | cons p rest ih =>
    intro U
    obtain ⟨h1, h2, h3, h4⟩ := ih (TimedSystem.fire ok U p)
    simp only [List.foldl_cons]
    refine ⟨h1, h2, h3.trans (fire_irTimes i ok U p), ?_⟩
    rw [h4]
    have hf : (TimedSystem.fire ok U p).sys.irViolationCooldownActive i
        = if p.2 = SingleShot.cooldownOff i then false
          else U.sys.irViolationCooldownActive i := onSingleShot_cooldown U.sys p.2 ok i
    rw [hf]
    by_cases hp : p.2 = SingleShot.cooldownOff i
    · have : ∃ q ∈ p :: rest, q.2 = SingleShot.cooldownOff i := ⟨p, by simp, hp⟩
      rw [if_pos this, if_pos hp]
      simp
    · rw [if_neg hp]
      by_cases hr : ∃ q ∈ rest, q.2 = SingleShot.cooldownOff i
      · have : ∃ q ∈ p :: rest, q.2 = SingleShot.cooldownOff i := by
          obtain ⟨q, hq, hq2⟩ := hr
          exact ⟨q, by simp [hq], hq2⟩
        rw [if_pos hr, if_pos this]
      · have : ¬ ∃ q ∈ p :: rest, q.2 = SingleShot.cooldownOff i := by
          rintro ⟨q, hq, hq2⟩
          rcases List.mem_cons.mp hq with e | e
          · exact hp (e ▸ hq2)
          · exact hr ⟨q, e, hq2⟩
        rw [if_neg hr, if_neg this]

/-- What moving the clock to `t` does. -/
theorem advance_spec (i : Int) (T : TimedSystem) (t : Int) (ok : Bool) :
    (T.advance t ok).now = t
    ∧ (T.advance t ok).pending = T.pending.filter (fun p => decide (¬ p.1 ≤ t))
    ∧ irTimes i (T.advance t ok) = irTimes i T
    ∧ (T.advance t ok).sys.irViolationCooldownActive i
        = if (∃ p ∈ T.pending, p.1 ≤ t ∧ p.2 = SingleShot.cooldownOff i) then false
          else T.sys.irViolationCooldownActive i := by
  obtain ⟨h1, _, h3, h4⟩ := fireAll i ok
    ((T.pending.filter (fun p => decide (p.1 ≤ t))).insertionSort (fun a b => a.1 ≤ b.1))
    { T with pending := T.pending.filter (fun p => decide (¬ p.1 ≤ t)) }
  refine ⟨rfl, h1, h3, ?_⟩
  have hiff : (∃ p ∈ (T.pending.filter (fun p => decide (p.1 ≤ t))).insertionSort
      (fun a b => a.1 ≤ b.1), p.2 = SingleShot.cooldownOff i)
        ↔ (∃ p ∈ T.pending, p.1 ≤ t ∧ p.2 = SingleShot.cooldownOff i) := by
    constructor
    · rintro ⟨p, hp, hp2⟩
      have := (List.perm_insertionSort (fun a b : Int × SingleShot => a.1 ≤ b.1)
        (T.pending.filter (fun p => decide (p.1 ≤ t)))).mem_iff.mp hp
      simp only [List.mem_filter, decide_eq_true_eq] at this
      exact ⟨p, this.1, this.2, hp2⟩
    · rintro ⟨p, hp, hp1, hp2⟩
      refine ⟨p, ?_, hp2⟩
      apply (List.perm_insertionSort (fun a b : Int × SingleShot => a.1 ≤ b.1)
        (T.pending.filter (fun p => decide (p.1 ≤ t)))).mem_iff.mpr
      simp only [List.mem_filter, decide_eq_true_eq]
      exact ⟨hp, hp1⟩
  show (List.foldl (TimedSystem.fire ok)
      { T with pending := T.pending.filter (fun p => decide (¬ p.1 ≤ t)) }
      ((T.pending.filter (fun p => decide (p.1 ≤ t))).insertionSort
        (fun a b => a.1 ≤ b.1))).sys.irViolationCooldownActive i = _
  rw [h4]
  by_cases hd : ∃ p ∈ T.pending, p.1 ≤ t ∧ p.2 = SingleShot.cooldownOff i
  · rw [if_pos hd, if_pos (hiff.mpr hd)]
  · rw [if_neg hd, if_neg (fun e => hd (hiff.mp e))]

theorem eq_of_length_le_one {α : Type} {l : List α} (h : l.length ≤ 1) {a b : α}
    (ha : a ∈ l) (hb : b ∈ l) : a = b := by
  cases l with
  | nil => simp at ha
  | cons x xs =>
    cases xs with
    | nil =>
      rw [List.mem_singleton.mp ha, List.mem_singleton.mp hb]
    | cons y ys => simp at h

theorem timedInv_advance {i : Int} {T : TimedSystem} (h : TimedInv i T) (t : Int)
    (ht : T.now ≤ t) (ok : Bool) : TimedInv i (T.advance t ok) := by
  obtain ⟨a1, a2, a3, a4⟩ := advance_spec i T t ok
  have hsub : ∀ p, p ∈ cooldownShots i (T.advance t ok).pending →
      p ∈ cooldownShots i T.pending ∧ ¬ p.1 ≤ t := by
    intro p hp
    rw [a2, cooldownShots_filter] at hp
    simp only [List.mem_filter, decide_eq_true_eq] at hp
    exact hp
  have hdue : (∃ p ∈ T.pending, p.1 ≤ t ∧ p.2 = SingleShot.cooldownOff i) →
      cooldownShots i (T.advance t ok).pending = [] := by
    rintro ⟨p, hp, hp1, hp2⟩
    rw [List.eq_nil_iff_forall_not_mem]
    intro q hq
    obtain ⟨hq1, hq2⟩ := hsub q hq
    have : q = p := eq_of_length_le_one h.single hq1 (mem_cooldownShots.mpr ⟨hp, hp2⟩)
    rw [this] at hq2
    exact hq2 hp1
  constructor
  · intro τ hτ
    rw [a3] at hτ
    rw [a1]
    exact le_trans (h.past τ hτ) ht
  · intro hc
    by_cases hd : ∃ p ∈ T.pending, p.1 ≤ t ∧ p.2 = SingleShot.cooldownOff i
    · exact hdue hd
    · rw [a4, if_neg hd] at hc
      rw [List.eq_nil_iff_forall_not_mem]
      intro q hq
      have := (hsub q hq).1
      rw [h.idle hc] at this
      simp at this
  · rw [a2, cooldownShots_filter]
    exact le_trans (List.length_filter_le _ _) h.single
  · intro p hp τ hτ
    rw [a3] at hτ
    exact h.ahead p (hsub p hp).1 τ hτ
  · intro τ hτ
    rw [a3] at hτ
    rw [a1, a4]
    rcases h.cooled τ hτ with hl | hr
    · exact Or.inl (le_trans hl ht)
    · by_cases hd : ∃ p ∈ T.pending, p.1 ≤ t ∧ p.2 = SingleShot.cooldownOff i
      · obtain ⟨p, hp, hp1, hp2⟩ := hd
        exact Or.inl (le_trans (h.ahead p (mem_cooldownShots.mpr ⟨hp, hp2⟩) τ hτ) hp1)
      · rw [if_neg hd]
        exact Or.inr hr
  · rw [a3]
    exact h.spaced

theorem timedInv_absorb {i : Int} {T : TimedSystem} (h : TimedInv i T) {s1 : TrafficSystem}
    (hs : IRStep i T.sys s1) : TimedInv i (T.absorb s1) := by
  obtain ⟨l, sh, he, hsh, hd⟩ := hs
  have hlog : (T.absorb s1).log = T.log ++ l.map (fun e => (T.now, e)) := by
    simp only [TimedSystem.absorb]
    rw [emitted_of_append he]
  have hpend : (T.absorb s1).pending = T.pending ++ sh.map (fun p => (T.now + p.1, p.2)) := by
    simp only [TimedSystem.absorb]
    rw [hsh, List.drop_left]
  have htimes := irTimes_log i T (T.absorb s1) l T.now hlog
  have hshots : cooldownShots i (T.absorb s1).pending
      = cooldownShots i T.pending ++ (cooldownShots i sh).map (fun p => (T.now + p.1, p.2)) := by
    rw [hpend, cooldownShots_append, cooldownShots_map]
  have hnow : (T.absorb s1).now = T.now := rfl
  have hsys : (T.absorb s1).sys = s1 := rfl
  rcases hd with ⟨f, c, p⟩ | ⟨f, c, c1, p⟩
  · rw [f] at htimes
    rw [p] at hshots
    simp only [List.map_nil, List.append_nil] at htimes hshots
    constructor
    · rw [htimes, hnow]; exact h.past
    · rw [hsys, c, hshots]; exact h.idle
    · rw [hshots]; exact h.single
    · rw [hshots, htimes]; exact h.ahead
    · rw [htimes, hnow, hsys, c]; exact h.cooled
    · rw [htimes]; exact h.spaced
  · have hone : (l.filter (isIRViolation i)).map (fun _ => T.now) = [T.now] := by
      cases hf : l.filter (isIRViolation i) with
      | nil => rw [hf] at f; simp at f
      | cons x xs =>
        cases xs with
        | nil => rfl
        | cons y ys => rw [hf] at f; simp at f
    rw [hone] at htimes
    rw [p, h.idle c] at hshots
    simp only [List.map_cons, List.map_nil, List.nil_append] at hshots
    have hpast : ∀ τ ∈ irTimes i (T.absorb s1), τ ≤ T.now := by
      intro τ hτ
      rw [htimes] at hτ
      rcases List.mem_append.mp hτ with e | e
      · exact h.past τ e
      · rw [List.mem_singleton.mp e]
    constructor
    · rw [hnow]; exact hpast
    · intro hc
      rw [hsys, c1] at hc
      exact absurd hc (by decide)
    · rw [hshots]; simp
    · intro q hq τ hτ
      rw [hshots] at hq
      rw [List.mem_singleton.mp hq]
      have := hpast τ hτ
      show τ + 5000 ≤ T.now + 5000
      omega
    · intro τ _
      rw [hsys]
      exact Or.inr c1
    · rw [htimes, List.pairwise_append]
      refine ⟨h.spaced, by simp, ?_⟩
      intro a ha b hb
      rw [List.mem_singleton.mp hb]
      rcases h.cooled a ha with e | e
      · exact e
      · rw [c] at e
        exact absurd e (by decide)

theorem timedInv_start (i : Int) (s : TrafficSystem) : TimedInv i (TimedSystem.start s) := by
  constructor <;> simp [TimedSystem.start, irTimes, cooldownShots]

theorem timedInv_step {i : Int} {T : TimedSystem} (h : TimedInv i T) (ok : Bool)
    (e : Nat × Action) : TimedInv i (timedStep ok T e) := by
  have hadv := timedInv_advance h (T.now + e.1) (by omega) ok
  obtain ⟨n, a⟩ := e
  cases a with
  | singleShotTimeout shot o => exact hadv
  | arduinoDataReceived d o =>
    exact timedInv_absorb hadv (irStep_onArduinoDataReceived i _ d o)
  | startSystem => exact timedInv_absorb hadv (irStep_step i _ _ (fun _ _ e => Action.noConfusion e))
  | stopSystem => exact timedInv_absorb hadv (irStep_step i _ _ (fun _ _ e => Action.noConfusion e))
  | lightTimerTimeout =>
    exact timedInv_absorb hadv (irStep_step i _ _ (fun _ _ e => Action.noConfusion e))
  | mainTimerTimeout f =>
    exact timedInv_absorb hadv (irStep_step i _ _ (fun _ _ e => Action.noConfusion e))
  | sensorTimerTimeout =>
    exact timedInv_absorb hadv (irStep_step i _ _ (fun _ _ e => Action.noConfusion e))
  | processingFinished j k ids =>
    exact timedInv_absorb hadv (irStep_step i _ _ (fun _ _ e => Action.noConfusion e))
  | connectCamera j src o =>
    exact timedInv_absorb hadv (irStep_step i _ _ (fun _ _ e => Action.noConfusion e))
  | disconnectCamera j =>
    exact timedInv_absorb hadv (irStep_step i _ _ (fun _ _ e => Action.noConfusion e))
  | initializeArduino p ps o =>
    exact timedInv_absorb hadv (irStep_step i _ _ (fun _ _ e => Action.noConfusion e))
  | setArduinoSimulationMode b ps o =>
    exact timedInv_absorb hadv (irStep_step i _ _ (fun _ _ e => Action.noConfusion e))
  | arduinoError er =>
    exact timedInv_absorb hadv (irStep_step i _ _ (fun _ _ e => Action.noConfusion e))
  | setLightTiming d k =>
    exact timedInv_absorb hadv (irStep_step i _ _ (fun _ _ e => Action.noConfusion e))
  | setYellowLightDuration k =>
    exact timedInv_absorb hadv (irStep_step i _ _ (fun _ _ e => Action.noConfusion e))
  | setEnergySavingEnabled b =>
    exact timedInv_absorb hadv (irStep_step i _ _ (fun _ _ e => Action.noConfusion e))
  | setViolationDetectionEnabled b =>
    exact timedInv_absorb hadv (irStep_step i _ _ (fun _ _ e => Action.noConfusion e))
  | setRoadROI j r =>
    exact timedInv_absorb hadv (irStep_step i _ _ (fun _ _ e => Action.noConfusion e))
  | setYoloThresholds =>
    exact timedInv_absorb hadv (irStep_step i _ _ (fun _ _ e => Action.noConfusion e))

theorem timedInv_run {i : Int} (ok : Bool) (es : List (Nat × Action)) :
    ∀ T : TimedSystem, TimedInv i T → TimedInv i (timedRun ok T es) := by
  induction es with
  | nil => intro T h; exact h
  | cons e rest ih =>
    intro T h
    exact ih _ (timedInv_step h ok e)

/-- C18: with the clock (a cooldown flag set when the IR violation is emitted and
cleared by the single shot that fires 5000 ms later), in every run of actions with
delays between them, sensor messages among them, any two IR violations of approach `i`
are at least 5000 ms apart.  A delivery that finds the cooldown of `i` active emits no
IR violation of `i`; and a delivery that emits no IR violation of `i`, whatever it emits
for other approaches, leaves the cooldown flag of `i` and the pending single shots that
end the cooldown of `i`, with their times, as they are. -/
theorem C18_ir_cooldown (s : TrafficSystem) (es : List (Nat × Action)) (ok : Bool) (i : Int) :
    (irTimes i (timedRun ok (TimedSystem.start s) es)).Pairwise (fun a b => a + 5000 ≤ b)
    ∧ (∀ (T : TimedSystem) (dt : Nat) (d : List Char) (okf : Int → Bool),
        ((T.advance (T.now + dt) ok).sys.irViolationCooldownActive i = true →
          (emitted (T.advance (T.now + dt) ok).sys
            (timedStep ok T (dt, Action.arduinoDataReceived d okf)).sys).filter
              (isIRViolation i) = [])
        ∧ ((emitted (T.advance (T.now + dt) ok).sys
            (timedStep ok T (dt, Action.arduinoDataReceived d okf)).sys).filter
              (isIRViolation i) = [] →
          (timedStep ok T (dt, Action.arduinoDataReceived d okf)).sys.irViolationCooldownActive i
              = (T.advance (T.now + dt) ok).sys.irViolationCooldownActive i
          ∧ cooldownShots i (timedStep ok T (dt, Action.arduinoDataReceived d okf)).pending
              = cooldownShots i (T.advance (T.now + dt) ok).pending)) := by
  refine ⟨(timedInv_run ok es _ (timedInv_start i s)).spaced, fun T dt d okf => ?_⟩
  obtain ⟨l, sh, he, hsh, hd⟩ :=
    irStep_onArduinoDataReceived i (T.advance (T.now + dt) ok).sys d okf
  have hstep : timedStep ok T (dt, Action.arduinoDataReceived d okf)
      = (T.advance (T.now + dt) ok).absorb
          (onArduinoDataReceived (T.advance (T.now + dt) ok).sys d okf) := rfl
  have hsys : (timedStep ok T (dt, Action.arduinoDataReceived d okf)).sys
      = onArduinoDataReceived (T.advance (T.now + dt) ok).sys d okf := rfl
  have hpend : (timedStep ok T (dt, Action.arduinoDataReceived d okf)).pending
      = (T.advance (T.now + dt) ok).pending
        ++ sh.map (fun p => ((T.advance (T.now + dt) ok).now + p.1, p.2)) := by
    rw [hstep]
    simp only [TimedSystem.absorb]
    rw [hsh, List.drop_left]
  rw [hsys, emitted_of_append he, hpend, cooldownShots_append, cooldownShots_map]
  rcases hd with ⟨f, c, p⟩ | ⟨f, c, c1, p⟩
  · refine ⟨fun _ => f, fun _ => ⟨c, ?_⟩⟩
    rw [p]
    simp
  · refine ⟨fun hc => ?_, fun hf => ?_⟩
    · rw [c] at hc
      exact absurd hc (by decide)
    · rw [hf] at f
      simp at f

/-- C18 on `demoLinkedStarted` (approach 1 RED, detection on): sensor 1 rises at 0 s,
2 s and 6 s; the IR violations of approach 1 are emitted at 0 ms and 6000 ms only.  The
delivery at 2 s finds the cooldown of approach 1 active and emits no IR violation. -/
theorem C18_ir_cooldown_witness :
    irTimes 1 (timedRun true (TimedSystem.start demoLinkedStarted) risingAt026) = [0, 6000]
    ∧ (irTimes 1 (timedRun true (TimedSystem.start demoLinkedStarted) risingAt026)).Pairwise
        (fun a b => a + 5000 ≤ b)
    ∧ ((timedRun true (TimedSystem.start demoLinkedStarted) (risingAt026.take 2)).advance
        ((timedRun true (TimedSystem.start demoLinkedStarted) (risingAt026.take 2)).now
          + (1000 : Nat)) true).sys.irViolationCooldownActive 1 = true
    ∧ (emitted
        ((timedRun true (TimedSystem.start demoLinkedStarted) (risingAt026.take 2)).advance
          ((timedRun true (TimedSystem.start demoLinkedStarted) (risingAt026.take 2)).now
            + (1000 : Nat)) true).sys
        (timedStep true (timedRun true (TimedSystem.start demoLinkedStarted)
            (risingAt026.take 2))
          (1000, Action.arduinoDataReceived (sensorLine bits0100) (fun _ => true))).sys).filter
        (isIRViolation 1) = [] :=
  have hc : ((timedRun true (TimedSystem.start demoLinkedStarted)
      (risingAt026.take 2)).advance
        ((timedRun true (TimedSystem.start demoLinkedStarted) (risingAt026.take 2)).now
          + (1000 : Nat)) true).sys.irViolationCooldownActive 1 = true := by decide!
  ⟨by decide!, (C18_ir_cooldown demoLinkedStarted risingAt026 true 1).1, hc,
    ((C18_ir_cooldown demoLinkedStarted [] true 1).2
      (timedRun true (TimedSystem.start demoLinkedStarted) (risingAt026.take 2)) 1000
      (sensorLine bits0100) (fun _ => true)).1 hc⟩

/-! ## The score of boxes in the window -/

theorem wrap32_eq (n : Int) (h1 : -2147483648 ≤ n) (h2 : n < 2147483648) : wrap32 n = n := by
  unfold wrap32
  omega

theorem wrap32_range (n : Int) : -2147483648 ≤ wrap32 n ∧ wrap32 n < 2147483648 := by
  unfold wrap32
  omega

/-- The inner loop over the first `k` detections. -/
theorem bestDetection_prefix (box : Rect) (dets : List Rect) (used : List Bool) (k : Nat) :
    0 ≤ ((List.range k).foldl
        (fun (acc : Int × ℚ) (i : Nat) =>
          if used.getD i false = false then
            if iou box (dets.getD i ⟨0, 0, 0, 0⟩) > acc.2 then
              ((i : Int), iou box (dets.getD i ⟨0, 0, 0, 0⟩))
            else acc
          else acc) (-1, 0)).2
    ∧ (0 < ((List.range k).foldl
        (fun (acc : Int × ℚ) (i : Nat) =>
          if used.getD i false = false then
            if iou box (dets.getD i ⟨0, 0, 0, 0⟩) > acc.2 then
              ((i : Int), iou box (dets.getD i ⟨0, 0, 0, 0⟩))
            else acc
          else acc) (-1, 0)).2 →
        ∃ j : Nat, j < k
          ∧ ((List.range k).foldl
            (fun (acc : Int × ℚ) (i : Nat) =>
              if used.getD i false = false then
                if iou box (dets.getD i ⟨0, 0, 0, 0⟩) > acc.2 then
                  ((i : Int), iou box (dets.getD i ⟨0, 0, 0, 0⟩))
                else acc
              else acc) (-1, 0)) = ((j : Int), iou box (dets.getD j ⟨0, 0, 0, 0⟩))
          ∧ used.getD j false = false)
    ∧ (∀ j : Nat, j < k → used.getD j false = false →
        iou box (dets.getD j ⟨0, 0, 0, 0⟩) ≤ ((List.range k).foldl
          (fun (acc : Int × ℚ) (i : Nat) =>
            if used.getD i false = false then
              if iou box (dets.getD i ⟨0, 0, 0, 0⟩) > acc.2 then
                ((i : Int), iou box (dets.getD i ⟨0, 0, 0, 0⟩))
              else acc
            else acc) (-1, 0)).2) := by
  induction k with
  | zero => simp
  | succ k ih =>
    rw [List.range_succ, List.foldl_append]
    simp only [List.foldl_cons, List.foldl_nil]
    generalize (List.range k).foldl
        (fun (acc : Int × ℚ) (i : Nat) =>
          if used.getD i false = false then
            if iou box (dets.getD i ⟨0, 0, 0, 0⟩) > acc.2 then
              ((i : Int), iou box (dets.getD i ⟨0, 0, 0, 0⟩))
            else acc
          else acc) (-1, 0) = acc at ih ⊢
    obtain ⟨h1, h2, h3⟩ := ih
    by_cases hu : used.getD k false = false
    · rw [if_pos hu]
      by_cases hg : iou box (dets.getD k ⟨0, 0, 0, 0⟩) > acc.2
      · rw [if_pos hg]
        refine ⟨le_of_lt (lt_of_le_of_lt h1 hg), fun _ => ⟨k, Nat.lt_succ_self k, rfl, hu⟩, ?_⟩
        intro j hj hju
        rcases Nat.lt_succ_iff_lt_or_eq.mp hj with hlt | heq
        · exact le_trans (h3 j hlt hju) (le_of_lt hg)
        · rw [heq]
      · rw [if_neg hg]
        refine ⟨h1, fun hp => ?_, ?_⟩
        · obtain ⟨j, hj, he, hju⟩ := h2 hp
          exact ⟨j, Nat.lt_succ_of_lt hj, he, hju⟩
        · intro j hj hju
          rcases Nat.lt_succ_iff_lt_or_eq.mp hj with hlt | heq
          · exact h3 j hlt hju
          · rw [heq]
            exact not_lt.mp hg
    · rw [if_neg hu]
      refine ⟨h1, fun hp => ?_, ?_⟩
      · obtain ⟨j, hj, he, hju⟩ := h2 hp
        exact ⟨j, Nat.lt_succ_of_lt hj, he, hju⟩
      · intro j hj hju
        rcases Nat.lt_succ_iff_lt_or_eq.mp hj with hlt | heq
        · exact h3 j hlt hju
        · rw [heq] at hju
          exact absurd hju hu

/-- What the detection a track is bound to is: a detection not yet used whose score is
above 3/10 and is the greatest among the detections not yet used. -/
theorem boundDetection_some {box : Rect} {dets : List Rect} {used : List Bool} {j : Nat}
    (h : boundDetection box dets used = some j) :
    j < dets.length ∧ used.getD j false = false
    ∧ iou box (dets.getD j ⟨0, 0, 0, 0⟩) > 3 / 10
    ∧ (bestDetection box dets used) = ((j : Int), iou box (dets.getD j ⟨0, 0, 0, 0⟩))
    ∧ ∀ j2 : Nat, j2 < dets.length → used.getD j2 false = false →
        iou box (dets.getD j2 ⟨0, 0, 0, 0⟩) ≤ iou box (dets.getD j ⟨0, 0, 0, 0⟩) := by
  obtain ⟨h1, h2, h3⟩ := bestDetection_prefix box dets used dets.length
  unfold boundDetection at h
  unfold bestDetection at h
  split_ifs at h with hg
  have hpos : 0 < ((List.range dets.length).foldl
        (fun (acc : Int × ℚ) (i : Nat) =>
          if used.getD i false = false then
            if iou box (dets.getD i ⟨0, 0, 0, 0⟩) > acc.2 then
              ((i : Int), iou box (dets.getD i ⟨0, 0, 0, 0⟩))
            else acc
          else acc) (-1, 0)).2 := lt_trans (by norm_num) hg
  obtain ⟨j0, hj0, he, hju⟩ := h2 hpos
  rw [he] at h hg h3
  simp only [Int.toNat_ofNat, Option.some.injEq] at h
  subst h
  exact ⟨hj0, hju, hg, he, h3⟩

/-- When a track is not bound: every detection not yet used scores at most 3/10. -/
theorem boundDetection_none {box : Rect} {dets : List Rect} {used : List Bool}
    (h : boundDetection box dets used = none) :
    ∀ j : Nat, j < dets.length → used.getD j false = false →
      iou box (dets.getD j ⟨0, 0, 0, 0⟩) ≤ 3 / 10 := by
  obtain ⟨_, _, h3⟩ := bestDetection_prefix box dets used dets.length
  unfold boundDetection at h
  unfold bestDetection at h
  split_ifs at h with hg
  intro j hj hju
  exact le_trans (h3 j hj hju) (not_lt.mp hg)

theorem matchTracker_bound {dets : List Rect} {light : TrafficLight} {t : TrackedVehicle}
    {used : List Bool} {j : Nat} (h : boundDetection t.boundingBox dets used = some j) :
    matchTracker dets light t used
      = (boundTrack light t (dets.getD j ⟨0, 0, 0, 0⟩), used.set j true) := by
  have hb := (boundDetection_some h).2.2.2.1
  have hg := (boundDetection_some h).2.2.1
  simp only [matchTracker]
  rw [hb]
  simp only [Int.toNat_ofNat]
  rw [if_pos hg]
  by_cases hl : light = TrafficLight.RED
  · rw [if_pos hl]
    simp [boundTrack, hl]
  · rw [if_neg hl]
    simp [boundTrack, hl]

theorem matchTracker_missed {dets : List Rect} {light : TrafficLight} {t : TrackedVehicle}
    {used : List Bool} (h : boundDetection t.boundingBox dets used = none) :
    matchTracker dets light t used = (missedTrack t, used) := by
  unfold boundDetection at h
  split_ifs at h with hg
  simp only [matchTracker]
  rw [if_neg hg]
  rfl

/-! ## The loop over the tracks -/

theorem matchTracker_used_length (dets : List Rect) (light : TrafficLight) (t : TrackedVehicle)
    (used : List Bool) : (matchTracker dets light t used).2.length = used.length := by
  cases h : boundDetection t.boundingBox dets used with
  | none => rw [matchTracker_missed h]
  | some j => rw [matchTracker_bound h]; simp

/-- A detection is used after a track has been examined if it was used before or the
track was bound to it. -/
theorem matchTracker_used (dets : List Rect) (light : TrafficLight) (t : TrackedVehicle)
    (used : List Bool) (hlen : used.length = dets.length) (j : Nat) :
    (matchTracker dets light t used).2.getD j false = true
      ↔ used.getD j false = true ∨ boundDetection t.boundingBox dets used = some j := by
  cases h : boundDetection t.boundingBox dets used with
  | none => rw [matchTracker_missed h]; simp
  | some j0 =>
    rw [matchTracker_bound h]
    have hj0 : j0 < used.length := by rw [hlen]; exact (boundDetection_some h).1
    by_cases hj : j0 = j
    · subst hj
      simp [List.getD_eq_getElem?_getD, List.getElem?_set, hj0]
    · simp [List.getD_eq_getElem?_getD, List.getElem?_set, hj]

theorem matchTrackers_keys (dets : List Rect) (light : TrafficLight)
    (ts : List (Int × TrackedVehicle)) :
    ∀ used : List Bool,
      (matchTrackers dets light ts used).1.map Prod.fst = ts.map Prod.fst := by
  induction ts with
  | nil => intro used; rfl
  | cons p rest ih =>
    intro used
    obtain ⟨k, t⟩ := p
    simp only [matchTrackers, List.map_cons]
    rw [ih]

theorem usedWhen_length (dets : List Rect) (light : TrafficLight)
    (ts : List (Int × TrackedVehicle)) (key : Int) :
    ∀ used : List Bool, (usedWhen dets light ts used key).length = used.length := by
  induction ts with
  | nil => intro used; rfl
  | cons p rest ih =>
    intro used
    obtain ⟨k, t⟩ := p
    simp only [usedWhen]
    split_ifs
    · rfl
    · rw [ih, matchTracker_used_length]

/-- The binding of a track of the map is what the inner loop finds for its box with
the detections used when it is examined. -/
theorem bindingOf_mem (dets : List Rect) (light : TrafficLight)
    (ts : List (Int × TrackedVehicle)) :
    ∀ (used : List Bool) (k : Int) (t : TrackedVehicle),
      (ts.map Prod.fst).Nodup → (k, t) ∈ ts →
      bindingOf dets light ts used k
        = boundDetection t.boundingBox dets (usedWhen dets light ts used k) := by
  induction ts with
  | nil => intro used k t _ h; simp at h
  | cons p rest ih =>
    intro used k t hnd hm
    obtain ⟨k0, t0⟩ := p
    simp only [List.map_cons, List.nodup_cons] at hnd
    rcases List.mem_cons.mp hm with e | e
    · simp only [Prod.mk.injEq] at e
      obtain ⟨e1, e2⟩ := e
      subst e1 e2
      simp [bindingOf, usedWhen]
    · have hne : k0 ≠ k := by
        intro e0
        subst e0
        exact hnd.1 (List.mem_map.mpr ⟨(k0, t), e, rfl⟩)
      simp only [bindingOf, usedWhen]
      rw [if_neg hne, if_neg hne]
      exact ih _ k t hnd.2 e

theorem bindingOf_not_mem (dets : List Rect) (light : TrafficLight)
    (ts : List (Int × TrackedVehicle)) :
    ∀ (used : List Bool) (k : Int), k ∉ ts.map Prod.fst →
      bindingOf dets light ts used k = none := by
  induction ts with
  | nil => intro used k _; rfl
  | cons p rest ih =>
    intro used k hk
    obtain ⟨k0, t0⟩ := p
    simp only [List.map_cons, List.mem_cons, not_or] at hk
    simp only [bindingOf]
    rw [if_neg (fun e => hk.1 e.symm)]
    exact ih _ k hk.2

/-- What the loop makes of a track of the map. -/
theorem matchTrackers_mem (dets : List Rect) (light : TrafficLight)
    (ts : List (Int × TrackedVehicle)) :
    ∀ (used : List Bool) (k : Int) (t : TrackedVehicle),
      (ts.map Prod.fst).Nodup → (k, t) ∈ ts →
      (k, (matchTracker dets light t (usedWhen dets light ts used k)).1)
        ∈ (matchTrackers dets light ts used).1 := by
  induction ts with
  | nil => intro used k t _ h; simp at h
  | cons p rest ih =>
    intro used k t hnd hm
    obtain ⟨k0, t0⟩ := p
    simp only [List.map_cons, List.nodup_cons] at hnd
    rcases List.mem_cons.mp hm with e | e
    · simp only [Prod.mk.injEq] at e
      obtain ⟨e1, e2⟩ := e
      subst e1 e2
      simp [matchTrackers, usedWhen]
    · have hne : k0 ≠ k := by
        intro e0
        subst e0
        exact hnd.1 (List.mem_map.mpr ⟨(k0, t), e, rfl⟩)
      simp only [matchTrackers, usedWhen]
      rw [if_neg hne]
      exact List.mem_cons_of_mem _ (ih _ k t hnd.2 e)

/-- Every track the loop leaves comes from a track of the map. -/
theorem matchTrackers_mem_inv (dets : List Rect) (light : TrafficLight)
    (ts : List (Int × TrackedVehicle)) :
    ∀ (used : List Bool) (k : Int) (t1 : TrackedVehicle),
      (ts.map Prod.fst).Nodup → (k, t1) ∈ (matchTrackers dets light ts used).1 →
      ∃ t : TrackedVehicle, (k, t) ∈ ts
        ∧ t1 = (matchTracker dets light t (usedWhen dets light ts used k)).1 := by
  induction ts with
  | nil => intro used k t1 _ h; simp [matchTrackers] at h
  | cons p rest ih =>
    intro used k t1 hnd hm
    obtain ⟨k0, t0⟩ := p
    simp only [List.map_cons, List.nodup_cons] at hnd
    simp only [matchTrackers] at hm
    rcases List.mem_cons.mp hm with e | e
    · simp only [Prod.mk.injEq] at e
      obtain ⟨e1, e2⟩ := e
      subst e1
      exact ⟨t0, by simp, by simp [usedWhen, e2]⟩
    · have hk : k ∈ rest.map Prod.fst := by
        rw [← matchTrackers_keys dets light rest (matchTracker dets light t0 used).2]
        exact List.mem_map.mpr ⟨(k, t1), e, rfl⟩
      have hne : k0 ≠ k := by
        intro e0
        subst e0
        exact hnd.1 hk
      obtain ⟨t, ht, he⟩ := ih _ k t1 hnd.2 e
      refine ⟨t, List.mem_cons_of_mem _ ht, ?_⟩
      simp only [usedWhen]
      rw [if_neg hne]
      exact he

/-- A detection is used when a track is examined if it was used from the start or a
track examined before was bound to it. -/
theorem usedWhen_iff (dets : List Rect) (light : TrafficLight)
    (ts : List (Int × TrackedVehicle)) (key : Int) (j : Nat) :
    ∀ used : List Bool, used.length = dets.length → (ts.map Prod.fst).Nodup →
      ((usedWhen dets light ts used key).getD j false = true
        ↔ used.getD j false = true
          ∨ ∃ k ∈ examinedBefore ts key, bindingOf dets light ts used k = some j) := by
  induction ts with
  | nil => intro used _ _; simp [usedWhen, examinedBefore]
  | cons p rest ih =>
    intro used hlen hnd
    obtain ⟨k0, t0⟩ := p
    simp only [List.map_cons, List.nodup_cons] at hnd
    by_cases hk : k0 = key
    · subst hk
      simp [usedWhen, examinedBefore]
    · simp only [usedWhen]
      rw [if_neg hk, ih _ (by rw [matchTracker_used_length]; exact hlen) hnd.2,
        matchTracker_used dets light t0 used hlen j]
      have hb : examinedBefore ((k0, t0) :: rest) key = k0 :: examinedBefore rest key := by
        simp [examinedBefore, List.takeWhile_cons, hk]
      rw [hb]
      have hsub : ∀ k ∈ examinedBefore rest key, k ∈ rest.map Prod.fst := by
        intro k hk2
        unfold examinedBefore at hk2
        obtain ⟨q, hq, hq2⟩ := List.mem_map.mp hk2
        exact List.mem_map.mpr ⟨q, (List.takeWhile_sublist _).subset hq, hq2⟩
      constructor
      · rintro ((h | h) | ⟨k, hk2, hb2⟩)
        · exact Or.inl h
        · exact Or.inr ⟨k0, by simp, by simp [bindingOf, h]⟩
        · refine Or.inr ⟨k, by simp [hk2], ?_⟩
          have hne : k0 ≠ k := fun e => hnd.1 (e ▸ hsub k hk2)
          simp only [bindingOf]
          rw [if_neg hne]
          exact hb2
      · rintro (h | ⟨k, hk2, hb2⟩)
        · exact Or.inl (Or.inl h)
        · rcases List.mem_cons.mp hk2 with e | e
          · subst e
            simp only [bindingOf, if_true] at hb2
            exact Or.inl (Or.inr hb2)
          · have hne : k0 ≠ k := fun e0 => hnd.1 (e0 ▸ hsub k e)
            simp only [bindingOf] at hb2
            rw [if_neg hne] at hb2
            exact Or.inr ⟨k, e, hb2⟩

theorem mapSet_last (m : List (Int × TrackedVehicle)) (k : Int) (v : TrackedVehicle)
    (h : ∀ a ∈ m.map Prod.fst, a < k) : mapSet m k v = m ++ [(k, v)] := by
  induction m with
  | nil => rfl
  | cons p rest ih =>
    obtain ⟨k1, v1⟩ := p
    have h1 : k1 < k := h k1 (by simp)
    simp only [mapSet]
    rw [if_neg (by omega), if_neg (by omega), ih (fun a ha => h a (by simp [ha]))]
    rfl

theorem eq_of_nodup_keys {m : List (Int × TrackedVehicle)} (h : (m.map Prod.fst).Nodup)
    {k : Int} {t1 t2 : TrackedVehicle} (h1 : (k, t1) ∈ m) (h2 : (k, t2) ∈ m) : t1 = t2 := by
  induction m with
  | nil => simp at h1
  | cons p rest ih =>
    simp only [List.map_cons, List.nodup_cons] at h
    rcases List.mem_cons.mp h1 with e1 | e1
    · rcases List.mem_cons.mp h2 with e2 | e2
      · rw [← e1] at e2
        exact (Prod.mk.inj e2).2.symm
      · exfalso
        rw [← e1] at h
        exact h.1 (List.mem_map.mpr ⟨(k, t2), e2, rfl⟩)
    · rcases List.mem_cons.mp h2 with e2 | e2
      · exfalso
        rw [← e2] at h
        exact h.1 (List.mem_map.mpr ⟨(k, t1), e1, rfl⟩)
      · exact ih h.2 e1 e2

theorem nodup_of_sorted {l : List Int} (h : l.Pairwise (fun a b => a < b)) : l.Nodup :=
  h.imp (fun hab => ne_of_lt hab)

/-- The last loop of an update over the first `k` detections: the new tracks go to the
end of the map, under the IDs from the next free one on. -/
theorem registerNew_prefix (dets : List Rect) (used : List Bool)
    (m : List (Int × TrackedVehicle)) (n0 : Int) (hm : ∀ a ∈ m.map Prod.fst, a < n0)
    (k : Nat) :
    ∃ news : List (Int × TrackedVehicle),
      (List.range k).foldl
        (fun (acc : List (Int × TrackedVehicle) × Int) (i : Nat) =>
          if used.getD i false = false then
            (mapSet acc.1 acc.2
              { id := acc.2, boundingBox := dets.getD i ⟨0, 0, 0, 0⟩ }, acc.2 + 1)
          else acc) (m, n0) = (m ++ news, n0 + news.length)
      ∧ (news.map Prod.fst).Pairwise (fun a b => a < b)
      ∧ (∀ a ∈ news.map Prod.fst, n0 ≤ a ∧ a < n0 + news.length)
      ∧ (∀ p ∈ news, ∃ i : Nat, i < k ∧ used.getD i false = false
          ∧ p.2 = { id := p.1, boundingBox := dets.getD i ⟨0, 0, 0, 0⟩ }) := by
  induction k with
  | zero => exact ⟨[], by simp, by simp, by simp, by simp⟩
  | succ k ih =>
    obtain ⟨news, he, hs, hr, hp⟩ := ih
    rw [List.range_succ, List.foldl_append, he]
    simp only [List.foldl_cons, List.foldl_nil]
    by_cases hu : used.getD k false = false
    · rw [if_pos hu]
      have hall : ∀ a ∈ (m ++ news).map Prod.fst, a < n0 + news.length := by
        intro a ha
        rw [List.map_append, List.mem_append] at ha
        rcases ha with h1 | h1
        · have := hm a h1
          omega
        · exact (hr a h1).2
      rw [mapSet_last _ _ _ hall]
      refine ⟨news ++ [(n0 + news.length,
        { id := n0 + news.length, boundingBox := dets.getD k ⟨0, 0, 0, 0⟩ })], ?_, ?_, ?_, ?_⟩
      · simp only [List.append_assoc, List.length_append, List.length_singleton,
          Nat.cast_add, Nat.cast_one, Prod.mk.injEq, true_and]
        omega
      · rw [List.map_append, List.pairwise_append]
        refine ⟨hs, by simp, ?_⟩
        intro a ha b hb
        simp only [List.map_cons, List.map_nil, List.mem_singleton] at hb
        rw [hb]
        exact (hr a ha).2
      · intro a ha
        rw [List.map_append, List.mem_append] at ha
        simp only [List.length_append, List.length_singleton, Nat.cast_add, Nat.cast_one]
        rcases ha with h1 | h1
        · have := hr a h1
          omega
        · simp only [List.map_cons, List.map_nil, List.mem_singleton] at h1
          omega
      · intro p hpm
        rcases List.mem_append.mp hpm with h1 | h1
        · obtain ⟨i, hi, hiu, hip⟩ := hp p h1
          exact ⟨i, Nat.lt_succ_of_lt hi, hiu, hip⟩
        · rw [List.mem_singleton.mp h1]
          exact ⟨k, Nat.lt_succ_self k, hu, rfl⟩
    · rw [if_neg hu]
      refine ⟨news, rfl, hs, hr, ?_⟩
      intro p hpm
      obtain ⟨i, hi, hiu, hip⟩ := hp p hpm
      exact ⟨i, Nat.lt_succ_of_lt hi, hiu, hip⟩

theorem mem_eraseLost {m : List (Int × TrackedVehicle)} {p : Int × TrackedVehicle} :
    p ∈ eraseLost m ↔ p ∈ m ∧ p.2.framesWithoutDetection ≤ 15 := by
  simp [eraseLost]

theorem eraseLost_keys_sublist (m : List (Int × TrackedVehicle)) :
    ((eraseLost m).map Prod.fst).Sublist (m.map Prod.fst) :=
  (List.filter_sublist m).map Prod.fst

/-- The shape of the tracker map of the approach after an update: the tracks the loop
over the tracks leaves, those lost for more than 15 frames erased, and the new tracks
after them. -/
theorem updateTrackers_shape (w : ProcessingWorker) (road : Int) (dets : List Rect)
    (light : TrafficLight) (hw : TrackerOK w road) :
    ∃ news : List (Int × TrackedVehicle),
      (updateTrackers w road dets light).roadTrackers road
        = eraseLost (matchTrackers dets light (w.roadTrackers road)
            (List.replicate dets.length false)).1 ++ news
      ∧ (updateTrackers w road dets light).nextVehicleID road
        = w.nextVehicleID road + news.length
      ∧ (news.map Prod.fst).Pairwise (fun a b => a < b)
      ∧ (∀ a ∈ news.map Prod.fst,
          w.nextVehicleID road ≤ a ∧ a < w.nextVehicleID road + news.length)
      ∧ (∀ p ∈ news, ∃ i : Nat, i < dets.length
          ∧ p.2 = { id := p.1, boundingBox := dets.getD i ⟨0, 0, 0, 0⟩ }) := by
  have hkeys : ∀ a ∈ (eraseLost (matchTrackers dets light (w.roadTrackers road)
      (List.replicate dets.length false)).1).map Prod.fst, a < w.nextVehicleID road := by
    intro a ha
    have h1 := (eraseLost_keys_sublist _).subset ha
    rw [matchTrackers_keys] at h1
    exact hw.fresh a h1
  obtain ⟨news, he, hs, hr, hp⟩ := registerNew_prefix dets
    (matchTrackers dets light (w.roadTrackers road) (List.replicate dets.length false)).2
    _ (w.nextVehicleID road) hkeys dets.length
  refine ⟨news, ?_, ?_, hs, hr, ?_⟩
  · simp only [updateTrackers, registerNew, Function.update_same]
    rw [he]
  · simp only [updateTrackers, registerNew, Function.update_same]
    rw [he]
  · intro p hpm
    obtain ⟨i, hi, _, hip⟩ := hp p hpm
    exact ⟨i, hi, hip⟩

theorem updateTrackers_other (w : ProcessingWorker) (road : Int) (dets : List Rect)
    (light : TrafficLight) (r : Int) (h : r ≠ road) :
    (updateTrackers w road dets light).roadTrackers r = w.roadTrackers r
    ∧ (updateTrackers w road dets light).nextVehicleID r = w.nextVehicleID r := by
  simp [updateTrackers, Function.update_noteq h]

/-- What the loop over the tracks makes of a track of the map, by its binding. -/
theorem matched_track (w : ProcessingWorker) (road : Int) (dets : List Rect)
    (light : TrafficLight) (hw : TrackerOK w road) {k : Int} {t : TrackedVehicle}
    (hm : (k, t) ∈ w.roadTrackers road) :
    (k, match boundIn w road dets light k with
        | some j => boundTrack light t (dets.getD j ⟨0, 0, 0, 0⟩)
        | none => missedTrack t)
      ∈ (matchTrackers dets light (w.roadTrackers road)
          (List.replicate dets.length false)).1 := by
  have hnd := nodup_of_sorted hw.sorted
  have h1 := matchTrackers_mem dets light (w.roadTrackers road)
    (List.replicate dets.length false) k t hnd hm
  have h2 := bindingOf_mem dets light (w.roadTrackers road)
    (List.replicate dets.length false) k t hnd hm
  unfold boundIn
  rw [h2]
  cases hb : boundDetection t.boundingBox dets
      (usedWhen dets light (w.roadTrackers road) (List.replicate dets.length false) k) with
  | none =>
    rw [matchTracker_missed hb] at h1
    exact h1
  | some j =>
    rw [matchTracker_bound hb] at h1
    exact h1

/-- The invariant of a tracker map survives an update. -/
theorem trackerOK_updateTrackers (w : ProcessingWorker) (road : Int) (dets : List Rect)
    (light : TrafficLight) (r : Int) (hw : TrackerOK w r) :
    TrackerOK (updateTrackers w road dets light) r := by
  by_cases hr : r = road
  · subst hr
    obtain ⟨news, he, hn, hs, hrange, hp⟩ := updateTrackers_shape w r dets light hw
    have hnd := nodup_of_sorted hw.sorted
    have hkept : ∀ a ∈ (eraseLost (matchTrackers dets light (w.roadTrackers r)
        (List.replicate dets.length false)).1).map Prod.fst, a < w.nextVehicleID r := by
      intro a ha
      have h1 := (eraseLost_keys_sublist _).subset ha
      rw [matchTrackers_keys] at h1
      exact hw.fresh a h1
    constructor
    · rw [he, List.map_append, List.pairwise_append]
      refine ⟨?_, hs, ?_⟩
      · have := hw.sorted
        rw [← matchTrackers_keys dets light (w.roadTrackers r)
          (List.replicate dets.length false)] at this
        exact this.sublist (eraseLost_keys_sublist _)
      · intro a ha b hb
        exact lt_of_lt_of_le (hkept a ha) (hrange b hb).1
    · intro a ha
      rw [he, List.map_append, List.mem_append] at ha
      rw [hn]
      rcases ha with h1 | h1
      · have := hkept a h1
        omega
      · exact (hrange a h1).2
    · intro p hpm
      rw [he, List.mem_append] at hpm
      rcases hpm with h1 | h1
      · obtain ⟨h2, h3⟩ := mem_eraseLost.mp h1
        refine ⟨?_, h3⟩
        obtain ⟨k, t1⟩ := p
        obtain ⟨t, ht, hte⟩ := matchTrackers_mem_inv dets light (w.roadTrackers r)
          (List.replicate dets.length false) k t1 hnd h2
        have h0 : 0 ≤ t.framesWithoutDetection := (hw.lost (k, t) ht).1
        cases hb : boundDetection t.boundingBox dets
            (usedWhen dets light (w.roadTrackers r) (List.replicate dets.length false) k) with
        | none =>
          rw [matchTracker_missed hb] at hte
          rw [hte]
          simp only [missedTrack]
          omega
        | some j =>
          rw [matchTracker_bound hb] at hte
          rw [hte]
          simp [boundTrack]
      · obtain ⟨i, _, hip⟩ := hp p h1
        rw [hip]
        simp
  · obtain ⟨h1, h2⟩ := updateTrackers_other w road dets light r hr
    constructor
    · rw [h1]; exact hw.sorted
    · rw [h1, h2]; exact hw.fresh
    · rw [h1]; exact hw.lost

/-! ## What an update does to a track -/

theorem updateTrackers_bound (w : ProcessingWorker) (road : Int) (dets : List Rect)
    (light : TrafficLight) (hw : TrackerOK w road) {k : Int} {t : TrackedVehicle}
    (hm : (k, t) ∈ w.roadTrackers road) {j : Nat} (hb : boundIn w road dets light k = some j) :
    (k, boundTrack light t (dets.getD j ⟨0, 0, 0, 0⟩))
      ∈ (updateTrackers w road dets light).roadTrackers road := by
  obtain ⟨news, he, _⟩ := updateTrackers_shape w road dets light hw
  have h := matched_track w road dets light hw hm
  rw [hb] at h
  rw [he]
  exact List.mem_append_left _ (mem_eraseLost.mpr ⟨h, by simp [boundTrack]⟩)

theorem updateTrackers_missed (w : ProcessingWorker) (road : Int) (dets : List Rect)
    (light : TrafficLight) (hw : TrackerOK w road) {k : Int} {t : TrackedVehicle}
    (hm : (k, t) ∈ w.roadTrackers road) (hb : boundIn w road dets light k = none)
    (hf : t.framesWithoutDetection + 1 ≤ 15) :
    (k, missedTrack t) ∈ (updateTrackers w road dets light).roadTrackers road := by
  obtain ⟨news, he, _⟩ := updateTrackers_shape w road dets light hw
  have h := matched_track w road dets light hw hm
  rw [hb] at h
  rw [he]
  exact List.mem_append_left _ (mem_eraseLost.mpr ⟨h, hf⟩)

/-- Where a track of the map after an update comes from: from a track of the map
before, bound or missed, or from a detection, with its counters at 0. -/
theorem updateTrackers_inv (w : ProcessingWorker) (road : Int) (dets : List Rect)
    (light : TrafficLight) (hw : TrackerOK w road) {k : Int} {t1 : TrackedVehicle}
    (hm : (k, t1) ∈ (updateTrackers w road dets light).roadTrackers road) :
    (∃ t : TrackedVehicle, (k, t) ∈ w.roadTrackers road
      ∧ ((∃ j : Nat, boundIn w road dets light k = some j
            ∧ t1 = boundTrack light t (dets.getD j ⟨0, 0, 0, 0⟩))
          ∨ (boundIn w road dets light k = none ∧ t1 = missedTrack t
              ∧ t.framesWithoutDetection + 1 ≤ 15)))
    ∨ (w.nextVehicleID road ≤ k ∧ t1.violationFrameCount = 0
        ∧ t1.isViolationCandidate = false ∧ t1.framesWithoutDetection = 0) := by
  obtain ⟨news, he, _, _, hrange, hp⟩ := updateTrackers_shape w road dets light hw
  have hnd := nodup_of_sorted hw.sorted
  rw [he, List.mem_append] at hm
  rcases hm with h1 | h1
  · left
    obtain ⟨h2, h3⟩ := mem_eraseLost.mp h1
    obtain ⟨t, ht, hte⟩ := matchTrackers_mem_inv dets light (w.roadTrackers road)
      (List.replicate dets.length false) k t1 hnd h2
    refine ⟨t, ht, ?_⟩
    have hbe := bindingOf_mem dets light (w.roadTrackers road)
      (List.replicate dets.length false) k t hnd ht
    unfold boundIn
    rw [hbe]
    cases hb : boundDetection t.boundingBox dets
        (usedWhen dets light (w.roadTrackers road) (List.replicate dets.length false) k) with
    | none =>
      rw [matchTracker_missed hb] at hte
      refine Or.inr ⟨rfl, hte, ?_⟩
      rw [hte] at h3
      exact h3
    | some j =>
      rw [matchTracker_bound hb] at hte
      exact Or.inl ⟨j, rfl, hte⟩
  · right
    obtain ⟨i, _, hip⟩ := hp (k, t1) h1
    have hk := (hrange k (List.mem_map.mpr ⟨(k, t1), h1, rfl⟩)).1
    simp only at hip
    rw [hip]
    exact ⟨hk, rfl, rfl, rfl⟩

theorem updateTrackers_lost (w : ProcessingWorker) (road : Int) (dets : List Rect)
    (light : TrafficLight) (hw : TrackerOK w road) {k : Int} {t : TrackedVehicle}
    (hm : (k, t) ∈ w.roadTrackers road) (hb : boundIn w road dets light k = none)
    (hf : 15 < t.framesWithoutDetection + 1) :
    k ∉ ((updateTrackers w road dets light).roadTrackers road).map Prod.fst := by
  intro hk
  obtain ⟨p, hp, hpk⟩ := List.mem_map.mp hk
  obtain ⟨k1, t1⟩ := p
  simp only at hpk
  subst hpk
  have hnd := nodup_of_sorted hw.sorted
  rcases updateTrackers_inv w road dets light hw hp with ⟨t2, ht2, hc⟩ | ⟨hge, _⟩
  · have : t2 = t := eq_of_nodup_keys hnd ht2 hm
    subst this
    rcases hc with ⟨j, hj, _⟩ | ⟨_, _, hle⟩
    · rw [hb] at hj
      exact absurd hj (by simp)
    · omega
  · have := hw.fresh k1 (List.mem_map.mpr ⟨(k1, t), hm, rfl⟩)
    omega

theorem updateTrackers_absent (w : ProcessingWorker) (road : Int) (dets : List Rect)
    (light : TrafficLight) (hw : TrackerOK w road) {k : Int}
    (hk : k ∉ (w.roadTrackers road).map Prod.fst) (hlt : k < w.nextVehicleID road) :
    k ∉ ((updateTrackers w road dets light).roadTrackers road).map Prod.fst
    ∧ k < (updateTrackers w road dets light).nextVehicleID road := by
  obtain ⟨news, he, hn, _, hrange, _⟩ := updateTrackers_shape w road dets light hw
  constructor
  · intro hk2
    obtain ⟨p, hp, hpk⟩ := List.mem_map.mp hk2
    obtain ⟨k1, t1⟩ := p
    simp only at hpk
    subst hpk
    rcases updateTrackers_inv w road dets light hw hp with ⟨t2, ht2, _⟩ | ⟨hge, _⟩
    · exact hk (List.mem_map.mpr ⟨(k1, t2), ht2, rfl⟩)
    · omega
  · rw [hn]
    omega

theorem trackerOK_constructed (r : Int) : TrackerOK ProcessingWorker.constructed r := by
  constructor <;> simp [ProcessingWorker.constructed]

theorem trackerOK_processFrame (w : ProcessingWorker) (road : Int) (frame : Option Frame)
    (roi : Rect) (light : TrafficLight) (detect : Rect → List Rect) (r : Int)
    (hw : TrackerOK w r) : TrackerOK (processFrame w road frame roi light detect).1 r := by
  cases frame with
  | none => exact hw
  | some f =>
    simp only [processFrame]
    split_ifs
    · exact hw
    · exact trackerOK_updateTrackers w road _ light r hw

theorem reachable_trackerOK {w : ProcessingWorker} (h : WorkerReachable w) (r : Int) :
    TrackerOK w r := by
  induction h with
  | constructed => exact trackerOK_constructed r
  | initializeModels loaded _ ih =>
    simp only [initializeModels]
    split_ifs
    · exact ⟨ih.sorted, ih.fresh, ih.lost⟩
    · exact ih
  | processFrame road frame roi light detect _ ih =>
    exact trackerOK_processFrame _ road frame roi light detect r ih

/-! ## C12: which detection a track is bound to -/

theorem trackerOK_updateAll (road : Int) (us : List (List Rect × TrafficLight)) :
    ∀ w : ProcessingWorker, TrackerOK w road → TrackerOK (updateAll w road us) road := by
  induction us with
  | nil => intro w h; exact h
  | cons u rest ih =>
    intro w h
    exact ih _ (trackerOK_updateTrackers w road u.1 u.2 road h)

theorem absent_updateAll (road : Int) (key : Int) (us : List (List Rect × TrafficLight)) :
    ∀ w : ProcessingWorker, TrackerOK w road → key ∉ (w.roadTrackers road).map Prod.fst →
      key < w.nextVehicleID road →
      key ∉ ((updateAll w road us).roadTrackers road).map Prod.fst := by
  induction us with
  | nil => intro w _ h _; exact h
  | cons u rest ih =>
    intro w hw h hlt
    obtain ⟨h1, h2⟩ := updateTrackers_absent w road u.1 u.2 hw h hlt
    exact ih _ (trackerOK_updateTrackers w road u.1 u.2 road hw) h1 h2

/-- A track missed in every update of a series: its `framesWithoutDetection` grows by
one per update, and it is erased by the update that takes it above 15. -/
theorem missedRun_spec (road : Int) (key : Int) (us : List (List Rect × TrafficLight)) :
    ∀ (w : ProcessingWorker) (t : TrackedVehicle), TrackerOK w road →
      (key, t) ∈ w.roadTrackers road → missedRun w road key us = true →
      (t.framesWithoutDetection + us.length ≤ 15 →
        (key, { t with framesWithoutDetection := t.framesWithoutDetection + us.length })
          ∈ (updateAll w road us).roadTrackers road)
      ∧ (15 < t.framesWithoutDetection + us.length →
        key ∉ ((updateAll w road us).roadTrackers road).map Prod.fst) := by
  induction us with
  | nil =>
    intro w t hw hm _
    refine ⟨fun _ => ?_, fun h => ?_⟩
    · simpa [updateAll] using hm
    · have hle : t.framesWithoutDetection ≤ 15 := (hw.lost (key, t) hm).2
      simp only [List.length_nil, Nat.cast_zero, add_zero] at h
      omega
  | cons u rest ih =>
    intro w t hw hm hr
    simp only [missedRun, Bool.and_eq_true, decide_eq_true_eq] at hr
    have hw1 := trackerOK_updateTrackers w road u.1 u.2 road hw
    by_cases hf : t.framesWithoutDetection + 1 ≤ 15
    · have hm1 := updateTrackers_missed w road u.1 u.2 hw hm hr.1 hf
      obtain ⟨a1, a2⟩ := ih _ (missedTrack t) hw1 hm1 hr.2
      simp only [missedTrack] at a1 a2
      refine ⟨fun h => ?_, fun h => ?_⟩
      · have h2 : t.framesWithoutDetection + 1 + (rest.length : Int) ≤ 15 := by
          simp only [List.length_cons, Nat.cast_add, Nat.cast_one] at h
          omega
        have := a1 h2
        simp only [List.length_cons, Nat.cast_add, Nat.cast_one]
        have he : t.framesWithoutDetection + ((rest.length : Int) + 1)
            = t.framesWithoutDetection + 1 + (rest.length : Int) := by omega
        rw [he]
        exact this
      · apply a2
        simp only [List.length_cons, Nat.cast_add, Nat.cast_one] at h
        omega
    · have hl := updateTrackers_lost w road u.1 u.2 hw hm hr.1 (by omega)
      have hlt : key < (updateTrackers w road u.1 u.2).nextVehicleID road := by
        obtain ⟨news, _, hn, _⟩ := updateTrackers_shape w road u.1 u.2 hw
        have := hw.fresh key (List.mem_map.mpr ⟨(key, t), hm, rfl⟩)
        rw [hn]
        omega
      refine ⟨fun h => ?_, fun _ => absent_updateAll road key rest _ hw1 hl hlt⟩
      simp only [List.length_cons, Nat.cast_add, Nat.cast_one] at h
      omega

/-- C13: a track with `framesWithoutDetection = 0` (as after the update that created or
last bound it) that is bound in none of the next `us.length` updates of its tracker map
is still in the map after them, with `framesWithoutDetection = us.length` and its box, if
there are at most 15 of them, and is not in the map if there are 16 or more.  And in
every worker state that occurs every live track has
`0 ≤ framesWithoutDetection ≤ 15`. -/
theorem C13_track_expiry (w : ProcessingWorker) (road : Int) (key : Int) (t : TrackedVehicle)
    (us : List (List Rect × TrafficLight)) (hw : TrackerOK w road)
    (hm : (key, t) ∈ w.roadTrackers road) (h0 : t.framesWithoutDetection = 0)
    (hr : missedRun w road key us = true) :
    (us.length ≤ 15 →
      (key, { t with framesWithoutDetection := (us.length : Int) })
        ∈ (updateAll w road us).roadTrackers road)
    ∧ (16 ≤ us.length → key ∉ ((updateAll w road us).roadTrackers road).map Prod.fst)
    ∧ (∀ w1 : ProcessingWorker, WorkerReachable w1 → ∀ (r : Int),
        ∀ p ∈ w1.roadTrackers r,
          0 ≤ p.2.framesWithoutDetection ∧ p.2.framesWithoutDetection ≤ 15) := by
  obtain ⟨a1, a2⟩ := missedRun_spec road key us w t hw hm hr
  rw [h0] at a1 a2
  refine ⟨fun h => ?_, fun h => ?_, fun w1 h1 r => (reachable_trackerOK h1 r).lost⟩
  · have := a1 (by omega)
    simpa using this
  · exact a2 (by omega)

theorem reachable_workerSeeded : WorkerReachable workerSeeded :=
  WorkerReachable.processFrame 0 (some jobOneVehicle.frame) jobOneVehicle.roi
    TrafficLight.RED jobOneVehicle.detectVehiclesYOLO
    (WorkerReachable.initializeModels true WorkerReachable.constructed)

/-- C13 on `workerSeeded` (track 0 of approach 0, just created): after 15 updates
without detections track 0 is still there, with `framesWithoutDetection = 15`; after 16
it is gone. -/
theorem C13_track_expiry_witness :
    TrackerOK workerSeeded 0
    ∧ (0, seedTrack) ∈ workerSeeded.roadTrackers 0
    ∧ seedTrack.framesWithoutDetection = 0
    ∧ missedRun workerSeeded 0 0 (List.replicate 15 ([], TrafficLight.RED)) = true
    ∧ missedRun workerSeeded 0 0 (List.replicate 16 ([], TrafficLight.RED)) = true
    ∧ (0, { seedTrack with
          framesWithoutDetection :=
            ((List.replicate 15 (([] : List Rect), TrafficLight.RED)).length : Int) })
        ∈ (updateAll workerSeeded 0
            (List.replicate 15 ([], TrafficLight.RED))).roadTrackers 0
    ∧ 0 ∉ ((updateAll workerSeeded 0
        (List.replicate 16 ([], TrafficLight.RED))).roadTrackers 0).map Prod.fst :=
  have hw : TrackerOK workerSeeded 0 := reachable_trackerOK reachable_workerSeeded 0
  have hm : (0, seedTrack) ∈ workerSeeded.roadTrackers 0 := by decide!
  have h15 : missedRun workerSeeded 0 0 (List.replicate 15 ([], TrafficLight.RED)) = true := by
    decide!
  have h16 : missedRun workerSeeded 0 0 (List.replicate 16 ([], TrafficLight.RED)) = true := by
    decide!
  ⟨hw, hm, rfl, h15, h16,
    (C13_track_expiry workerSeeded 0 0 seedTrack
      (List.replicate 15 ([], TrafficLight.RED)) hw hm rfl h15).1 (by decide),
    (C13_track_expiry workerSeeded 0 0 seedTrack
      (List.replicate 16 ([], TrafficLight.RED)) hw hm rfl h16).2.1 (by decide)⟩

/-! ## C14: a violation after 16 bound RED frames -/

theorem processFrame_some (w : ProcessingWorker) (road : Int) (f : Frame) (roi : Rect)
    (light : TrafficLight) (detect : Rect → List Rect) (hy : w.yoloInitialized = true) :
    processFrame w road (some f) roi light detect
      = (updateTrackers w road (detect (processingRegion f roi)) light,
          some
            { roadIndex := road
              vehicleCount :=
                (((updateTrackers w road (detect (processingRegion f roi)) light).roadTrackers
                  road).length : Int)
              violatingVehicleIDs :=
                violatingIDs ((updateTrackers w road (detect (processingRegion f roi))
                  light).roadTrackers road) }) := by
  simp only [processFrame]
  rw [if_neg (by simp [hy])]

theorem updateTrackers_yolo (w : ProcessingWorker) (road : Int) (dets : List Rect)
    (light : TrafficLight) :
    (updateTrackers w road dets light).yoloInitialized = w.yoloInitialized := rfl

/-- A key is reported if its track has the candidate flag and a counter above 15. -/
theorem mem_violatingIDs {m : List (Int × TrackedVehicle)} {k : Int} :
    k ∈ violatingIDs m
      ↔ ∃ t : TrackedVehicle, (k, t) ∈ m ∧ t.isViolationCandidate = true
          ∧ 15 < t.violationFrameCount := by
  simp only [violatingIDs, List.mem_map, List.mem_filter, Bool.and_eq_true,
    decide_eq_true_eq, gt_iff_lt]
  constructor
  · rintro ⟨p, ⟨hp, hc, hv⟩, hk⟩
    obtain ⟨k1, t1⟩ := p
    simp only at hk
    subst hk
    exact ⟨t1, hp, hc, hv⟩
  · rintro ⟨t, hp, hc, hv⟩
    exact ⟨(k, t), ⟨hp, hc, hv⟩, rfl⟩

theorem mem_violatingIDs_of {m : List (Int × TrackedVehicle)}
    (hnd : (m.map Prod.fst).Nodup) {k : Int} {t : TrackedVehicle} (hm : (k, t) ∈ m) :
    k ∈ violatingIDs m ↔ t.isViolationCandidate = true ∧ 15 < t.violationFrameCount := by
  rw [mem_violatingIDs]
  constructor
  · rintro ⟨t1, h1, hc, hv⟩
    have : t1 = t := eq_of_nodup_keys hnd h1 hm
    subst this
    exact ⟨hc, hv⟩
  · rintro ⟨hc, hv⟩
    exact ⟨t, hm, hc, hv⟩

/-- A track bound in every frame of a series of RED frames: after the series it is
reported if its counter, one higher per frame, is above 15. -/
theorem boundRun_spec (road : Int) (key : Int) (jobs : List Job) :
    ∀ (w : ProcessingWorker) (t : TrackedVehicle) (x : Option ProcessingFinished),
      w.yoloInitialized = true → TrackerOK w road → (key, t) ∈ w.roadTrackers road →
      jobs ≠ [] → boundRun w road TrafficLight.RED key jobs = true →
      (jobs.foldl
          (fun acc job => processFrame acc.1 road (some job.frame) job.roi TrafficLight.RED
            job.detectVehiclesYOLO) (w, x)).2 ≠ none
      ∧ (key ∈ reportedIDs (jobs.foldl
          (fun acc job => processFrame acc.1 road (some job.frame) job.roi TrafficLight.RED
            job.detectVehiclesYOLO) (w, x)).2
          ↔ 15 < t.violationFrameCount + jobs.length) := by
  induction jobs with
  | nil => intro w t x _ _ _ h; exact absurd rfl h
  | cons job rest ih =>
    intro w t x hy hw hm _ hr
    simp only [boundRun, Bool.and_eq_true, decide_eq_true_eq] at hr
    obtain ⟨hb, hrest⟩ := hr
    obtain ⟨j, hj⟩ := Option.ne_none_iff_exists'.mp hb
    have hpf := processFrame_some w road job.frame job.roi TrafficLight.RED
      job.detectVehiclesYOLO hy
    have hw1 := trackerOK_updateTrackers w road job.detections TrafficLight.RED road hw
    have hm1 := updateTrackers_bound w road job.detections TrafficLight.RED hw hm hj
    simp only [List.foldl_cons]
    rw [hpf] at hrest ⊢
    by_cases hne : rest = []
    · subst hne
      simp only [List.foldl_nil, reportedIDs, List.length_cons, List.length_nil]
      refine ⟨by simp, ?_⟩
      have := mem_violatingIDs_of (nodup_of_sorted hw1.sorted) hm1
      unfold Job.detections at this
      rw [this]
      simp [boundTrack]
    · obtain ⟨a1, a2⟩ := ih (updateTrackers w road (job.detectVehiclesYOLO
        (processingRegion job.frame job.roi)) TrafficLight.RED)
        (boundTrack TrafficLight.RED t (job.detections.getD j ⟨0, 0, 0, 0⟩)) _
        hy hw1 hm1 hne hrest
      refine ⟨a1, ?_⟩
      rw [a2]
      simp only [boundTrack, if_true, List.length_cons, Nat.cast_add, Nat.cast_one]
      constructor <;> intro h <;> omega

/-- C14: for a track with violation-frame counter 0 that is bound in every frame of a
series of `jobs.length ≥ 1` processed frames with the light stamp RED, `processFrame`
emits its signal for the last frame and reports the track's ID in it if and only if
`jobs.length ≥ 16`.  A frame with another light stamp in which the track is bound
leaves it with counter 0 and without the candidate flag. -/
theorem C14_violation_after_16 (w : ProcessingWorker) (road : Int) (key : Int)
    (t : TrackedVehicle) (jobs : List Job) (hy : w.yoloInitialized = true)
    (hw : TrackerOK w road) (hm : (key, t) ∈ w.roadTrackers road)
    (hv : t.violationFrameCount = 0) (hne : jobs ≠ [])
    (hb : boundRun w road TrafficLight.RED key jobs = true) :
    (processFrames w road TrafficLight.RED jobs).2 ≠ none
    ∧ (key ∈ reportedIDs (processFrames w road TrafficLight.RED jobs).2 ↔ 16 ≤ jobs.length)
    ∧ (∀ (light : TrafficLight) (job : Job) (j : Nat), light ≠ TrafficLight.RED →
        boundIn w road job.detections light key = some j →
        ∃ t1 : TrackedVehicle,
          (key, t1) ∈ (processFrame w road (some job.frame) job.roi light
            job.detectVehiclesYOLO).1.roadTrackers road
          ∧ t1.violationFrameCount = 0 ∧ t1.isViolationCandidate = false) := by
  obtain ⟨a1, a2⟩ := boundRun_spec road key jobs w t none hy hw hm hne hb
  refine ⟨a1, ?_, fun light job j hl hj => ?_⟩
  · unfold processFrames
    rw [a2, hv]
    constructor <;> intro h <;> omega
  · rw [processFrame_some w road job.frame job.roi light job.detectVehiclesYOLO hy]
    refine ⟨boundTrack light t (job.detections.getD j ⟨0, 0, 0, 0⟩),
      updateTrackers_bound w road job.detections light hw hm hj, ?_, ?_⟩
    · simp [boundTrack, hl]
    · simp [boundTrack, hl]

/-- C14 on `workerSeeded` (track 0 of approach 0, counter 0): the vehicle is found again
in 16 RED frames, and the 16th reports ID 0; after 15 such frames it is not reported. -/
theorem C14_violation_after_16_witness :
    workerSeeded.yoloInitialized = true
    ∧ TrackerOK workerSeeded 0
    ∧ (0, seedTrack) ∈ workerSeeded.roadTrackers 0
    ∧ seedTrack.violationFrameCount = 0
    ∧ boundRun workerSeeded 0 TrafficLight.RED 0 (List.replicate 16 jobOneVehicle) = true
    ∧ (0 ∈ reportedIDs
          (processFrames workerSeeded 0 TrafficLight.RED (List.replicate 16 jobOneVehicle)).2
        ↔ 16 ≤ (List.replicate 16 jobOneVehicle).length)
    ∧ reportedIDs
        (processFrames workerSeeded 0 TrafficLight.RED (List.replicate 16 jobOneVehicle)).2
        = [0]
    ∧ reportedIDs
        (processFrames workerSeeded 0 TrafficLight.RED (List.replicate 15 jobOneVehicle)).2
        = [] :=
  have hw : TrackerOK workerSeeded 0 := reachable_trackerOK reachable_workerSeeded 0
  have hm : (0, seedTrack) ∈ workerSeeded.roadTrackers 0 := by decide!
  have hb : boundRun workerSeeded 0 TrafficLight.RED 0 (List.replicate 16 jobOneVehicle)
      = true := by decide!
  ⟨rfl, hw, hm, rfl, hb,
    (C14_violation_after_16 workerSeeded 0 0 seedTrack (List.replicate 16 jobOneVehicle) rfl
      hw hm rfl (fun e => List.noConfusion e) hb).2.1,
    by decide!, by decide!⟩

/-! ## C16: which IDs a frame reports -/

theorem processingRegion_inside (f : Frame) (r : Rect) (hW : 0 < f.cols) (hH : 0 < f.rows) :
    0 ≤ (processingRegion f r).x ∧ 0 ≤ (processingRegion f r).y
    ∧ 0 ≤ (processingRegion f r).width ∧ 0 ≤ (processingRegion f r).height
    ∧ (processingRegion f r).x + (processingRegion f r).width ≤ f.cols
    ∧ (processingRegion f r).y + (processingRegion f r).height ≤ f.rows := by
  simp only [processingRegion, Rect.inter]
  split_ifs <;> simp only [] <;> omega

theorem inter_contains (a b : Rect) (px py : Int) :
    (a.inter b).contains px py = (a.contains px py && b.contains px py) := by
  simp only [Rect.inter, Rect.contains]
  split_ifs with h
  · simp only [Bool.decide_and, Bool.decide_eq_true]
    rw [Bool.eq_iff_iff]
    simp only [Bool.and_eq_true, decide_eq_true_eq]
    constructor
    · intro hh; omega
    · intro hh; omega
  · rw [Bool.eq_iff_iff]
    simp only [Bool.and_eq_true, decide_eq_true_eq]
    constructor
    · intro hh; omega
    · intro hh; omega

theorem inter_empty_iff (a b : Rect) :
    (a.inter b).empty = false
      ↔ max a.x b.x < min (a.x + a.width) (b.x + b.width)
        ∧ max a.y b.y < min (a.y + a.height) (b.y + b.height) := by
  simp only [Rect.inter, Rect.empty]
  split_ifs with h
  · simp only [decide_eq_false_iff_not]
    omega
  · simp only [decide_eq_false_iff_not]
    omega

theorem inter_empty_eq (a b : Rect) (h : (a.inter b).empty = true) :
    a.inter b = ⟨0, 0, 0, 0⟩ := by
  by_cases hc : min (a.x + a.width) (b.x + b.width) - max a.x b.x ≤ 0
      ∨ min (a.y + a.height) (b.y + b.height) - max a.y b.y ≤ 0
  · simp only [Rect.inter, if_pos hc]
  · exfalso
    simp only [Rect.inter, Rect.empty, if_neg hc, decide_eq_true_eq] at h
    exact hc h

theorem area_of_fits32 (r : Rect) (h : r.fits32) : r.area = r.width * r.height :=
  wrap32_eq _ h.2.2.2.2.2.2.1 h.2.2.2.2.2.2.2

/-- C25 as claimed fails on a frame of 640 by 480: the region of interest at (700, 0) of
10 by 10 is not `(0, 0, 0, 0)`, and the region handed to the detector is the empty
rectangle `(0, 0, 0, 0)`, not a non-empty one; for the region of interest at (5, 5)
of 0 by 10, not `(0, 0, 0, 0)` either, the region is the whole frame, not the
intersection, which is empty; and for the region of interest at (10, 10) of 65536 by
65536, whose area in `int` is 0, the region is the whole frame as well, not the
intersection (10, 10) of 630 by 470. -/
theorem C25_region_counterexample :
    ((⟨700, 0, 10, 10⟩ : Rect) ≠ ⟨0, 0, 0, 0⟩
      ∧ processingRegion ⟨640, 480⟩ ⟨700, 0, 10, 10⟩ = ⟨0, 0, 0, 0⟩
      ∧ (processingRegion ⟨640, 480⟩ ⟨700, 0, 10, 10⟩).empty = true)
    ∧ ((⟨5, 5, 0, 10⟩ : Rect) ≠ ⟨0, 0, 0, 0⟩
      ∧ processingRegion ⟨640, 480⟩ ⟨5, 5, 0, 10⟩ = ⟨0, 0, 640, 480⟩
      ∧ (⟨5, 5, 0, 10⟩ : Rect).inter ⟨0, 0, 640, 480⟩ = ⟨0, 0, 0, 0⟩)
    ∧ ((⟨10, 10, 65536, 65536⟩ : Rect).area = 0
      ∧ processingRegion ⟨640, 480⟩ ⟨10, 10, 65536, 65536⟩ = ⟨0, 0, 640, 480⟩
      ∧ (⟨10, 10, 65536, 65536⟩ : Rect).inter ⟨0, 0, 640, 480⟩ = ⟨10, 10, 630, 470⟩) := by
  decide

/-- C25 amended: take a frame of `W > 0` columns and `H > 0` rows and a region of
interest `r` whose members, far edges and product `width * height` are 32-bit values, so
that `r.area()` is that product.  The region `processFrame` hands to the detector is the
whole frame `(0, 0, W, H)` when the area of `r` is not positive (so for `(0, 0, 0, 0)`),
and the intersection `r & (0, 0, W, H)` otherwise, which holds exactly the points of `r`
inside the frame, and whose width and height are 32-bit values as the library computes
them.  The region lies inside the frame in both cases.  In the second case it is not
empty exactly if `r` has positive width and height and overlaps the frame, and is
`(0, 0, 0, 0)` if not. -/
theorem C25_region_amended (f : Frame) (r : Rect) (hW : 0 < f.cols) (hH : 0 < f.rows)
    (hr : r.fits32) :
    (∀ (w : ProcessingWorker) (road : Int) (light : TrafficLight) (detect : Rect → List Rect),
        w.yoloInitialized = true →
        (processFrame w road (some f) r light detect).1
          = updateTrackers w road (detect (processingRegion f r)) light)
    ∧ r.area = r.width * r.height
    ∧ (r.width * r.height ≤ 0 → processingRegion f r = ⟨0, 0, f.cols, f.rows⟩)
    ∧ (0 < r.width * r.height →
        processingRegion f r = r.inter ⟨0, 0, f.cols, f.rows⟩
        ∧ (∀ px py : Int, (processingRegion f r).contains px py
            = (r.contains px py && f.rect.contains px py))
        ∧ ((processingRegion f r).empty = false
            ↔ 0 < r.width ∧ 0 < r.height ∧ r.x < f.cols ∧ r.y < f.rows
              ∧ 0 < r.x + r.width ∧ 0 < r.y + r.height)
        ∧ ((processingRegion f r).empty = true → processingRegion f r = ⟨0, 0, 0, 0⟩)
        ∧ wrap32 (min (r.x + r.width) f.cols - max r.x 0)
            = min (r.x + r.width) f.cols - max r.x 0
        ∧ wrap32 (min (r.y + r.height) f.rows - max r.y 0)
            = min (r.y + r.height) f.rows - max r.y 0)
    ∧ (0 ≤ (processingRegion f r).x ∧ 0 ≤ (processingRegion f r).y
        ∧ 0 ≤ (processingRegion f r).width ∧ 0 ≤ (processingRegion f r).height
        ∧ (processingRegion f r).x + (processingRegion f r).width ≤ f.cols
        ∧ (processingRegion f r).y + (processingRegion f r).height ≤ f.rows) := by
  have harea := area_of_fits32 r hr
  obtain ⟨hx, hy, hw, hh, hxw, hyh, -⟩ := hr
  refine ⟨?_, harea, ?_, ?_, processingRegion_inside f r hW hH⟩
  · intro w road light detect hy
    simp [processFrame, hy]
  · intro ha
    simp only [processingRegion]
    rw [if_neg (by rw [harea]; omega)]
  · intro ha
    have hr : processingRegion f r = r.inter ⟨0, 0, f.cols, f.rows⟩ := by
      simp only [processingRegion]
      rw [if_pos (by rw [harea]; exact ha)]
    refine ⟨hr, ?_, ?_, ?_, ?_, ?_⟩
    · intro px py
      rw [hr, inter_contains]
      rfl
    · rw [hr, inter_empty_iff]
      simp only []
      constructor
      · intro h
        have h1 : 0 < r.width := by omega
        have h2 : 0 < r.height := by omega
        omega
      · intro h
        omega
    · intro he
      rw [hr] at he ⊢
      exact inter_empty_eq _ _ he
    · apply wrap32_eq <;> omega
    · apply wrap32_eq <;> omega

/-- C25 amended on a frame of 640 by 480 and the region of interest at (600, 400) of
100 by 100, which reaches past the frame: the region is (600, 400) of 40 by 80. -/
theorem C25_region_amended_witness :
    (⟨600, 400, 100, 100⟩ : Rect).fits32
    ∧ processingRegion ⟨640, 480⟩ ⟨600, 400, 100, 100⟩ = ⟨600, 400, 40, 80⟩
    ∧ (processingRegion ⟨640, 480⟩ ⟨600, 400, 100, 100⟩).empty = false
    ∧ (processingRegion ⟨640, 480⟩ ⟨600, 400, 100, 100⟩).x
        + (processingRegion ⟨640, 480⟩ ⟨600, 400, 100, 100⟩).width ≤ 640 :=
  have h := C25_region_amended ⟨640, 480⟩ ⟨600, 400, 100, 100⟩ (by decide) (by decide)
    (by decide)
  ⟨by decide, (h.2.2.2.1 (by decide)).1.trans (by decide),
    (h.2.2.2.1 (by decide)).2.2.1.mpr (by decide), h.2.2.2.2.2.2.2.2.1⟩

/-! ## C27: the score of a track and a detection -/

theorem reachable_workerBoxA : WorkerReachable workerBoxA :=
  WorkerReachable.processFrame 0 (some jobBoxA.frame) jobBoxA.roi
    TrafficLight.GREEN jobBoxA.detectVehiclesYOLO
    (WorkerReachable.initializeModels true WorkerReachable.constructed)

/-- C27 on the track box at (0, 0) of 10 by 10 and the detection at (3, 3) of 10 by 10:
the score `updateTrackers` computes divides the area 49 of the intersection by the area
169 of the smallest rectangle holding both boxes (OpenCV's `a | b`), which is 49/169 and
not above 3/10, while the intersection over union is 49/151, above 3/10.  So in the
reachable worker `workerBoxA`, whose track 0 has the first box, a frame with the one
detection in the second box does not bind track 0 and creates track 1: the frame counts
two vehicles. -/
theorem C27_score_not_intersection_over_union :
    iou ⟨0, 0, 10, 10⟩ ⟨3, 3, 10, 10⟩ = 49 / 169
    ∧ intersectionOverUnion ⟨0, 0, 10, 10⟩ ⟨3, 3, 10, 10⟩ = 49 / 151
    ∧ ¬ (iou ⟨0, 0, 10, 10⟩ ⟨3, 3, 10, 10⟩ > 3 / 10)
    ∧ intersectionOverUnion ⟨0, 0, 10, 10⟩ ⟨3, 3, 10, 10⟩ > 3 / 10
    ∧ WorkerReachable workerBoxA
    ∧ workerBoxA.roadTrackers 0 = [(0, { id := 0, boundingBox := ⟨0, 0, 10, 10⟩ })]
    ∧ jobBoxB.detections = [⟨3, 3, 10, 10⟩]
    ∧ boundIn workerBoxA 0 jobBoxB.detections TrafficLight.GREEN 0 = none
    ∧ ((processFrame workerBoxA 0 (some jobBoxB.frame) jobBoxB.roi TrafficLight.GREEN
          jobBoxB.detectVehiclesYOLO).1.roadTrackers 0).map Prod.fst = [0, 1]
    ∧ (processFrame workerBoxA 0 (some jobBoxB.frame) jobBoxB.roi TrafficLight.GREEN
          jobBoxB.detectVehiclesYOLO).2
        = some { roadIndex := 0, vehicleCount := 2, violatingVehicleIDs := [] } :=
  ⟨by decide!, by decide!, by decide!, by decide!, reachable_workerBoxA, by decide!,
    by decide!, by decide!, by decide!, by decide!⟩

/-! ## The tracker: which detections become new tracks -/

theorem newTracks_append (dets : List Rect) (a b : List Nat) :
    ∀ n0 : Int, newTracks dets n0 (a ++ b)
      = newTracks dets n0 a ++ newTracks dets (n0 + a.length) b := by
  induction a with
  | nil => intro n0; simp [newTracks]
  | cons i rest ih =>
    intro n0
    have e : n0 + 1 + (rest.length : Int) = n0 + ((rest.length : Int) + 1) := by omega
    show (n0, _) :: newTracks dets (n0 + 1) (rest ++ b) = _
    rw [ih (n0 + 1), e]
    simp only [newTracks, List.cons_append, List.length_cons, Nat.cast_add, Nat.cast_one]

theorem newTracks_length (dets : List Rect) (idxs : List Nat) :
    ∀ n0 : Int, (newTracks dets n0 idxs).length = idxs.length := by
  induction idxs with
  | nil => intro n0; rfl
  | cons i rest ih => intro n0; simp [newTracks, ih]

theorem newTracks_keys (dets : List Rect) (idxs : List Nat) :
    ∀ n0 : Int, (newTracks dets n0 idxs).map Prod.fst
      = (List.range idxs.length).map (fun n : Nat => n0 + (n : Int)) := by
  induction idxs with
  | nil => intro n0; rfl
  | cons i rest ih =>
    intro n0
    simp only [newTracks, List.map_cons, ih, List.length_cons, List.range_succ_eq_map,
      List.map_map, Nat.cast_zero, add_zero, List.cons.injEq, true_and]
    apply List.map_congr_left
    intro n _
    simp only [Function.comp_apply, Nat.cast_succ]
    omega

theorem mem_newTracks (dets : List Rect) (idxs : List Nat) :
    ∀ (n0 : Int) (n : Nat) (h : n < idxs.length),
      (n0 + (n : Int),
        (⟨n0 + (n : Int), dets.getD (idxs.get ⟨n, h⟩) ⟨0, 0, 0, 0⟩, 0, false, 0⟩ : TrackedVehicle))
        ∈ newTracks dets n0 idxs := by
  induction idxs with
  | nil => intro n0 n h; simp at h
  | cons i rest ih =>
    intro n0 n h
    cases n with
    | zero => simp [newTracks]
    | succ n =>
      simp only [newTracks, List.mem_cons]
      right
      have h2 : n < rest.length := by simpa using h
      have := ih (n0 + 1) n h2
      simp only [List.get_eq_getElem, List.getElem_cons_succ, Nat.cast_succ] at this ⊢
      have e : n0 + ((n : Int) + 1) = n0 + 1 + (n : Int) := by omega
      rw [e]
      exact this

theorem newTracks_ids (dets : List Rect) (idxs : List Nat) :
    ∀ (n0 : Int), ∀ p ∈ newTracks dets n0 idxs,
      p.2.id = p.1 ∧ p.2.framesWithoutDetection = 0 ∧ p.2.violationFrameCount = 0
        ∧ p.2.isViolationCandidate = false := by
  induction idxs with
  | nil => intro n0 p hp; simp [newTracks] at hp
  | cons i rest ih =>
    intro n0 p hp
    simp only [newTracks, List.mem_cons] at hp
    rcases hp with e | e
    · subst e
      exact ⟨rfl, rfl, rfl, rfl⟩
    · exact ih _ p e

/-- The last loop of an update over the first `k` detections, exactly: one new track for
every detection not used, in the order of the detections, under the next free IDs. -/
theorem registerNew_exact (dets : List Rect) (used : List Bool)
    (m : List (Int × TrackedVehicle)) (n0 : Int) (hm : ∀ a ∈ m.map Prod.fst, a < n0)
    (k : Nat) :
    (List.range k).foldl
        (fun (acc : List (Int × TrackedVehicle) × Int) (i : Nat) =>
          if used.getD i false = false then
            (mapSet acc.1 acc.2
              { id := acc.2, boundingBox := dets.getD i ⟨0, 0, 0, 0⟩ }, acc.2 + 1)
          else acc) (m, n0)
      = (m ++ newTracks dets n0 ((List.range k).filter (fun i => !(used.getD i false))),
          n0 + (((List.range k).filter (fun i => !(used.getD i false))).length : Nat)) := by
  induction k with
  | zero => simp [newTracks]
  | succ k ih =>
    rw [List.range_succ, List.foldl_append, ih, List.filter_append]
    simp only [List.foldl_cons, List.foldl_nil]
    by_cases hu : used.getD k false = false
    · rw [if_pos hu]
      have hf : List.filter (fun i => !(used.getD i false)) [k] = [k] := by
        rw [List.filter_cons, hu]
        rfl
      have hall : ∀ a ∈ (m ++ newTracks dets n0
          ((List.range k).filter (fun i => !(used.getD i false)))).map Prod.fst,
          a < n0 + (((List.range k).filter (fun i => !(used.getD i false))).length : Nat) := by
        intro a ha
        rw [List.map_append, List.mem_append] at ha
        rcases ha with h1 | h1
        · have := hm a h1
          omega
        · rw [newTracks_keys] at h1
          obtain ⟨n, hn, rfl⟩ := List.mem_map.mp h1
          have := List.mem_range.mp hn
          omega
      rw [mapSet_last _ _ _ hall, hf, newTracks_append]
      simp only [newTracks, List.append_assoc, List.length_append, List.length_singleton,
        Nat.cast_add, Nat.cast_one, Prod.mk.injEq, true_and]
      omega
    · rw [if_neg hu]
      have hf : List.filter (fun i => !(used.getD i false)) [k] = [] := by
        simp only [Bool.not_eq_false] at hu
        rw [List.filter_cons, hu]
        rfl
      rw [hf, List.append_nil]

/-- The tracker map and the ID counter of the approach after an update, exactly: the
tracks the loop over the tracks leaves, those lost for more than 15 frames erased, then
one new track for every detection no track was bound to. -/
theorem updateTrackers_exact (w : ProcessingWorker) (road : Int) (dets : List Rect)
    (light : TrafficLight) (hw : TrackerOK w road) :
    (updateTrackers w road dets light).roadTrackers road
        = eraseLost (matchTrackers dets light (w.roadTrackers road)
            (List.replicate dets.length false)).1
          ++ newTracks dets (w.nextVehicleID road) (unclaimed w road dets light)
    ∧ (updateTrackers w road dets light).nextVehicleID road
        = w.nextVehicleID road + ((unclaimed w road dets light).length : Nat) := by
  have hkeys : ∀ a ∈ (eraseLost (matchTrackers dets light (w.roadTrackers road)
      (List.replicate dets.length false)).1).map Prod.fst, a < w.nextVehicleID road := by
    intro a ha
    have h1 := (eraseLost_keys_sublist _).subset ha
    rw [matchTrackers_keys] at h1
    exact hw.fresh a h1
  have he := registerNew_exact dets
    (matchTrackers dets light (w.roadTrackers road) (List.replicate dets.length false)).2
    _ (w.nextVehicleID road) hkeys dets.length
  constructor
  · simp only [updateTrackers, registerNew, Function.update_same]
    rw [he]
    rfl
  · simp only [updateTrackers, registerNew, Function.update_same]
    rw [he]
    rfl

theorem usedWhen_absent (dets : List Rect) (light : TrafficLight)
    (ts : List (Int × TrackedVehicle)) (key : Int) (hk : key ∉ ts.map Prod.fst) :
    ∀ used : List Bool,
      usedWhen dets light ts used key = (matchTrackers dets light ts used).2 := by
  induction ts with
  | nil => intro used; rfl
  | cons p rest ih =>
    intro used
    obtain ⟨k0, t0⟩ := p
    simp only [List.map_cons, List.mem_cons, not_or] at hk
    simp only [usedWhen, matchTrackers]
    rw [if_neg (fun e => hk.1 e.symm)]
    exact ih hk.2 _

theorem examinedBefore_absent (ts : List (Int × TrackedVehicle)) (key : Int)
    (hk : key ∉ ts.map Prod.fst) : examinedBefore ts key = ts.map Prod.fst := by
  unfold examinedBefore
  congr 1
  rw [List.takeWhile_eq_self_iff]
  intro p hp
  simp only [decide_eq_true_eq]
  intro e
  exact hk (List.mem_map.mpr ⟨p, hp, e⟩)

/-- A detection is left for the last loop exactly if no track is bound to it. -/
theorem mem_unclaimed (w : ProcessingWorker) (road : Int) (dets : List Rect)
    (light : TrafficLight) (hw : TrackerOK w road) (j : Nat) :
    j ∈ unclaimed w road dets light
      ↔ j < dets.length ∧ ∀ k : Int, boundIn w road dets light k ≠ some j := by
  have hnd : ((w.roadTrackers road).map Prod.fst).Nodup := nodup_of_sorted hw.sorted
  have habs : w.nextVehicleID road ∉ (w.roadTrackers road).map Prod.fst :=
    fun h => lt_irrefl _ (hw.fresh _ h)
  have hu := usedWhen_iff dets light (w.roadTrackers road) (w.nextVehicleID road) j
    (List.replicate dets.length false) (by simp) hnd
  rw [usedWhen_absent _ _ _ _ habs, examinedBefore_absent _ _ habs] at hu
  simp only [unclaimed, List.mem_filter, List.mem_range, Bool.not_eq_true']
  constructor
  · rintro ⟨hj, hf⟩
    refine ⟨hj, fun k hb => ?_⟩
    have hk : k ∈ (w.roadTrackers road).map Prod.fst := by
      by_contra hn
      have := bindingOf_not_mem dets light (w.roadTrackers road)
        (List.replicate dets.length false) k hn
      unfold boundIn at hb
      rw [this] at hb
      exact Option.noConfusion hb
    have ht := hu.mpr (Or.inr ⟨k, hk, hb⟩)
    rw [hf] at ht
    exact Bool.noConfusion ht
  · rintro ⟨hj, hn⟩
    refine ⟨hj, ?_⟩
    by_contra hc
    simp only [Bool.not_eq_false] at hc
    rcases hu.mp hc with h | ⟨k, _, hb⟩
    · simp [List.getD_eq_getElem?_getD, hj] at h
    · exact hn k hb

/-! ## C26: track IDs -/

theorem matchTracker_id (dets : List Rect) (light : TrafficLight) (t : TrackedVehicle)
    (used : List Bool) : (matchTracker dets light t used).1.id = t.id := by
  simp only [matchTracker]
  split_ifs <;> rfl

theorem idsOK_updateTrackers (w : ProcessingWorker) (road : Int) (dets : List Rect)
    (light : TrafficLight) (r : Int) (hw : TrackerOK w road) (hi : IdsOK w r) :
    IdsOK (updateTrackers w road dets light) r := by
  by_cases hr : r = road
  · subst hr
    obtain ⟨hm, hn⟩ := updateTrackers_exact w r dets light hw
    have hold : ∀ p ∈ eraseLost (matchTrackers dets light (w.roadTrackers r)
        (List.replicate dets.length false)).1, p.2.id = p.1 ∧ 0 ≤ p.1 := by
      intro p hp
      have hp1 := (mem_eraseLost.mp hp).1
      obtain ⟨t, ht, he⟩ := matchTrackers_mem_inv dets light (w.roadTrackers r)
        (List.replicate dets.length false) p.1 p.2 (nodup_of_sorted hw.sorted) hp1
      refine ⟨?_, hi.nonneg (p.1, t) ht⟩
      rw [he, matchTracker_id]
      exact hi.own (p.1, t) ht
    have hnew : ∀ p ∈ newTracks dets (w.nextVehicleID r) (unclaimed w r dets light),
        p.2.id = p.1 ∧ 0 ≤ p.1 := by
      intro p hp
      refine ⟨(newTracks_ids dets _ _ p hp).1, ?_⟩
      have hk : p.1 ∈ (newTracks dets (w.nextVehicleID r) (unclaimed w r dets light)).map
          Prod.fst := List.mem_map.mpr ⟨p, hp, rfl⟩
      rw [newTracks_keys] at hk
      obtain ⟨n, _, e⟩ := List.mem_map.mp hk
      have := hi.counter
      omega
    refine ⟨?_, ?_, ?_⟩
    · intro p hp
      rw [hm] at hp
      rcases List.mem_append.mp hp with h | h
      · exact (hold p h).1
      · exact (hnew p h).1
    · intro p hp
      rw [hm] at hp
      rcases List.mem_append.mp hp with h | h
      · exact (hold p h).2
      · exact (hnew p h).2
    · rw [hn]
      have := hi.counter
      omega
  · obtain ⟨h1, h2⟩ := updateTrackers_other w road dets light r hr
    exact ⟨by rw [h1]; exact hi.own, by rw [h1]; exact hi.nonneg, by rw [h2]; exact hi.counter⟩

theorem idsOK_constructed (r : Int) : IdsOK ProcessingWorker.constructed r :=
  ⟨by simp [ProcessingWorker.constructed], by simp [ProcessingWorker.constructed],
    by simp [ProcessingWorker.constructed]⟩

theorem reachable_idsOK {w : ProcessingWorker} (h : WorkerReachable w) (r : Int) :
    IdsOK w r := by
  induction h with
  | constructed => exact idsOK_constructed r
  | initializeModels loaded _ ih =>
    simp only [initializeModels]
    split_ifs
    · exact ⟨ih.own, ih.nonneg, ih.counter⟩
    · exact ih
  | @processFrame w0 road frame roi light detect hw0 ih =>
    cases frame with
    | none => exact ih
    | some f =>
      simp only [processFrame]
      split_ifs
      · exact ih
      · exact idsOK_updateTrackers w0 road _ light r (reachable_trackerOK hw0 road) ih

theorem allocatedIn_eq (w : ProcessingWorker) (road : Int) (dets : List Rect)
    (light : TrafficLight) :
    allocatedIn w road dets light
      = (List.range (unclaimed w road dets light).length).map
          (fun n : Nat => w.nextVehicleID road + (n : Int)) := by
  unfold allocatedIn
  rw [newTracks_keys]

theorem range_map_append (a : Int) (m n : Nat) :
    (List.range m).map (fun i : Nat => a + (i : Int))
        ++ (List.range n).map (fun i : Nat => a + ((m : Nat) : Int) + (i : Int))
      = (List.range (m + n)).map (fun i : Nat => a + (i : Int)) := by
  rw [List.range_add, List.map_append, List.map_map]
  congr 1
  apply List.map_congr_left
  intro i _
  simp only [Function.comp_apply, Nat.cast_add]
  omega

/-- Over a series of updates the IDs allocated on an approach are the consecutive
integers from the ID counter on, and the counter ends after the last of them. -/
theorem allocatedOn_eq (road : Int) (us : List (Int × List Rect × TrafficLight)) :
    ∀ w : ProcessingWorker, (∀ r : Int, TrackerOK w r) →
      allocatedOn road w us
          = (List.range (allocatedOn road w us).length).map
              (fun n : Nat => w.nextVehicleID road + (n : Int))
        ∧ (updateRoads w us).nextVehicleID road
          = w.nextVehicleID road + ((allocatedOn road w us).length : Nat) := by
  induction us with
  | nil => intro w _; simp [allocatedOn, updateRoads]
  | cons u rest ih =>
    intro w hw
    obtain ⟨k, ds, l⟩ := u
    have hw1 : ∀ r : Int, TrackerOK (updateTrackers w k ds l) r :=
      fun r => trackerOK_updateTrackers w k ds l r (hw r)
    obtain ⟨h1, h2⟩ := ih (updateTrackers w k ds l) hw1
    have hrun : updateRoads w ((k, ds, l) :: rest)
        = updateRoads (updateTrackers w k ds l) rest := rfl
    by_cases hu : k = road
    · subst hu
      have hn := (updateTrackers_exact w k ds l (hw k)).2
      have ha : allocatedOn k w ((k, ds, l) :: rest)
          = allocatedIn w k ds l ++ allocatedOn k (updateTrackers w k ds l) rest := by
        simp [allocatedOn]
      have hlen : (allocatedIn w k ds l).length = (unclaimed w k ds l).length := by
        rw [allocatedIn_eq]
        simp
      constructor
      · rw [ha, List.length_append, hlen, ← range_map_append, ← allocatedIn_eq]
        congr 1
        rw [h1]
        simp only [List.length_map, List.length_range]
        rw [hn]
      · rw [hrun, h2, ha, List.length_append, hlen, hn]
        push_cast
        omega
    · have hn := (updateTrackers_other w k ds l road (fun e => hu e.symm)).2
      have ha : allocatedOn road w ((k, ds, l) :: rest)
          = allocatedOn road (updateTrackers w k ds l) rest := by
        simp [allocatedOn, hu]
      constructor
      · rw [ha]
        rw [hn] at h1
        exact h1
      · rw [hrun, h2, ha, hn]

/-- C26: in every worker state that occurs, every live track of every approach sits under
its own `id`, which is not negative and below the ID counter of the approach.  An update
of an approach leaves in its map tracks it had, followed by one new track for every
detection no track is bound to, in the order of the detections, under the IDs
`n, n + 1, ...` from the ID counter `n` on, and moves the counter past them; it leaves
the map and the counter of every other approach as they are.  Over any series of updates
the IDs allocated on an approach are, in order, the consecutive integers from the
counter on, whatever tracks are removed in between, and from the constructed worker they
are `0, 1, 2, ...`. -/
theorem C26_fresh_ids (w : ProcessingWorker) (road : Int) (dets : List Rect)
    (light : TrafficLight) (hw : WorkerReachable w) :
    (∀ r : Int, ∀ p ∈ w.roadTrackers r,
        p.2.id = p.1 ∧ 0 ≤ p.1 ∧ p.1 < w.nextVehicleID r)
    ∧ (updateTrackers w road dets light).roadTrackers road
        = eraseLost (matchTrackers dets light (w.roadTrackers road)
            (List.replicate dets.length false)).1
          ++ newTracks dets (w.nextVehicleID road) (unclaimed w road dets light)
    ∧ (∀ k ∈ (eraseLost (matchTrackers dets light (w.roadTrackers road)
            (List.replicate dets.length false)).1).map Prod.fst,
        k ∈ (w.roadTrackers road).map Prod.fst)
    ∧ allocatedIn w road dets light
        = (List.range (unclaimed w road dets light).length).map
            (fun n : Nat => w.nextVehicleID road + (n : Int))
    ∧ (∀ (n : Nat) (h : n < (unclaimed w road dets light).length),
        (w.nextVehicleID road + (n : Int),
          (⟨w.nextVehicleID road + (n : Int),
            dets.getD ((unclaimed w road dets light).get ⟨n, h⟩) ⟨0, 0, 0, 0⟩, 0, false, 0⟩ :
              TrackedVehicle))
          ∈ (updateTrackers w road dets light).roadTrackers road)
    ∧ (updateTrackers w road dets light).nextVehicleID road
        = w.nextVehicleID road + ((unclaimed w road dets light).length : Nat)
    ∧ (∀ j : Nat, j ∈ unclaimed w road dets light
        ↔ j < dets.length ∧ ∀ k : Int, boundIn w road dets light k ≠ some j)
    ∧ (unclaimed w road dets light).Nodup
    ∧ (∀ r : Int, r ≠ road →
        (updateTrackers w road dets light).roadTrackers r = w.roadTrackers r
        ∧ (updateTrackers w road dets light).nextVehicleID r = w.nextVehicleID r)
    ∧ (∀ (us : List (Int × List Rect × TrafficLight)) (r : Int),
        allocatedOn r w us
            = (List.range (allocatedOn r w us).length).map
                (fun n : Nat => w.nextVehicleID r + (n : Int))
          ∧ (updateRoads w us).nextVehicleID r
            = w.nextVehicleID r + ((allocatedOn r w us).length : Nat))
    ∧ (∀ (us : List (Int × List Rect × TrafficLight)) (r : Int),
        allocatedOn r ProcessingWorker.constructed us
            = (List.range (allocatedOn r ProcessingWorker.constructed us).length).map
                (fun n : Nat => (n : Int))
          ∧ (updateRoads ProcessingWorker.constructed us).nextVehicleID r
            = ((allocatedOn r ProcessingWorker.constructed us).length : Nat)) := by
  have hok : ∀ r : Int, TrackerOK w r := fun r => reachable_trackerOK hw r
  obtain ⟨hm, hn⟩ := updateTrackers_exact w road dets light (hok road)
  refine ⟨?_, hm, ?_, allocatedIn_eq w road dets light, ?_, hn,
    mem_unclaimed w road dets light (hok road), ?_,
    fun r hr => updateTrackers_other w road dets light r hr,
    fun us r => allocatedOn_eq r us w hok, ?_⟩
  · intro r p hp
    have hi := reachable_idsOK hw r
    exact ⟨hi.own p hp, hi.nonneg p hp, (hok r).fresh p.1 (List.mem_map.mpr ⟨p, hp, rfl⟩)⟩
  · intro k hk
    have h1 := (eraseLost_keys_sublist _).subset hk
    rw [matchTrackers_keys] at h1
    exact h1
  · intro n h
    rw [hm]
    exact List.mem_append.mpr (Or.inr (mem_newTracks dets _ _ n h))
  · exact List.Nodup.filter _ (List.nodup_range _)
  · intro us r
    have h := allocatedOn_eq r us ProcessingWorker.constructed
      (fun r => trackerOK_constructed r)
    have h0 : ProcessingWorker.constructed.nextVehicleID r = 0 := rfl
    rw [h0] at h
    simpa using h

/-- C26 on `workerSeeded` (track 0 of approach 0) and a frame with the vehicle of track 0
and a newcomer: the update allocates the one ID 1, and the map holds the tracks 0 and 1.
And over `lostAndBack`, from the constructed worker, approach 0 allocates 0 and then,
track 0 having been removed, 1 for the vehicle that comes back; approach 2 allocates its
own 0 and 1. -/
theorem C26_fresh_ids_witness :
    WorkerReachable workerSeeded
    ∧ allocatedIn workerSeeded 0 jobNewcomer.detections TrafficLight.RED = [1]
    ∧ ((updateTrackers workerSeeded 0 jobNewcomer.detections TrafficLight.RED).roadTrackers
        0).map Prod.fst = [0, 1]
    ∧ allocatedOn 0 ProcessingWorker.constructed lostAndBack = [0, 1]
    ∧ allocatedOn 2 ProcessingWorker.constructed lostAndBack = [0, 1]
    ∧ ((updateRoads ProcessingWorker.constructed lostAndBack).roadTrackers 0).map Prod.fst
        = [1] :=
  ⟨reachable_workerSeeded,
    (C26_fresh_ids workerSeeded 0 jobNewcomer.detections TrafficLight.RED
      reachable_workerSeeded).2.2.2.1.trans (by decide!),
    by decide!, by decide!, by decide!, by decide!⟩

/-! ## C28: every detection has a live track -/

/-- Where `trackOf` sends a detection: to the track bound to it, or, if there is none,
to the new track its place among the detections left over gives it. -/
theorem trackOf_spec (w : ProcessingWorker) (road : Int) (dets : List Rect)
    (light : TrafficLight) (hw : TrackerOK w road) (j : Nat) (hj : j < dets.length) :
    (trackOf w road dets light j ∈ (w.roadTrackers road).map Prod.fst
        ∧ boundIn w road dets light (trackOf w road dets light j) = some j)
    ∨ (j ∈ unclaimed w road dets light
        ∧ trackOf w road dets light j
          = w.nextVehicleID road + (((unclaimed w road dets light).indexOf j : Nat) : Int)) := by
  unfold trackOf
  cases hf : ((w.roadTrackers road).map Prod.fst).find?
      (fun k => decide (boundIn w road dets light k = some j)) with
  | some k =>
    left
    have h1 := List.find?_some hf
    simp only [decide_eq_true_eq] at h1
    exact ⟨List.mem_of_find?_eq_some hf, h1⟩
  | none =>
    right
    refine ⟨(mem_unclaimed w road dets light hw j).mpr ⟨hj, fun k hb => ?_⟩, rfl⟩
    have hk : k ∈ (w.roadTrackers road).map Prod.fst := by
      by_contra hn
      have := bindingOf_not_mem dets light (w.roadTrackers road)
        (List.replicate dets.length false) k hn
      unfold boundIn at hb
      rw [this] at hb
      exact Option.noConfusion hb
    have := List.find?_eq_none.mp hf k hk
    simp only [decide_eq_true_eq] at this
    exact this hb

theorem trackOf_live (w : ProcessingWorker) (road : Int) (dets : List Rect)
    (light : TrafficLight) (hw : TrackerOK w road) (j : Nat) (hj : j < dets.length) :
    ∃ t : TrackedVehicle,
      (trackOf w road dets light j, t) ∈ (updateTrackers w road dets light).roadTrackers road
      ∧ t.boundingBox = dets.getD j ⟨0, 0, 0, 0⟩ ∧ t.framesWithoutDetection = 0 := by
  rcases trackOf_spec w road dets light hw j hj with ⟨hk, hb⟩ | ⟨hu, he⟩
  · obtain ⟨p, hp, hpk⟩ := List.mem_map.mp hk
    have hp2 : (trackOf w road dets light j, p.2) ∈ w.roadTrackers road := by
      rw [← hpk]
      exact hp
    exact ⟨_, updateTrackers_bound w road dets light hw hp2 hb, rfl, rfl⟩
  · have hn : (unclaimed w road dets light).indexOf j < (unclaimed w road dets light).length :=
      List.indexOf_lt_length.mpr hu
    have hm := mem_newTracks dets (unclaimed w road dets light) (w.nextVehicleID road) _ hn
    rw [List.indexOf_get hn, ← he] at hm
    refine ⟨⟨trackOf w road dets light j, dets.getD j ⟨0, 0, 0, 0⟩, 0, false, 0⟩, ?_, rfl, rfl⟩
    rw [(updateTrackers_exact w road dets light hw).1]
    exact List.mem_append.mpr (Or.inr hm)

theorem trackOf_injective (w : ProcessingWorker) (road : Int) (dets : List Rect)
    (light : TrafficLight) (hw : TrackerOK w road) (j1 j2 : Nat) (h1 : j1 < dets.length)
    (h2 : j2 < dets.length)
    (he : trackOf w road dets light j1 = trackOf w road dets light j2) : j1 = j2 := by
  rcases trackOf_spec w road dets light hw j1 h1 with ⟨hk1, hb1⟩ | ⟨hu1, e1⟩
  · rcases trackOf_spec w road dets light hw j2 h2 with ⟨hk2, hb2⟩ | ⟨hu2, e2⟩
    · rw [he, hb2] at hb1
      exact (Option.some.inj hb1).symm
    · have := hw.fresh _ hk1
      rw [he, e2] at this
      omega
  · rcases trackOf_spec w road dets light hw j2 h2 with ⟨hk2, hb2⟩ | ⟨hu2, e2⟩
    · have := hw.fresh _ hk2
      rw [← he, e1] at this
      omega
    · rw [e1, e2] at he
      have hi : (unclaimed w road dets light).indexOf j1
          = (unclaimed w road dets light).indexOf j2 := by omega
      exact (List.indexOf_inj hu1 hu2).mp hi

/-- C28: after an update of a tracker map (keys ascending and below the ID counter, as in
every worker state that occurs) with `m` detections, the map holds at least `m` tracks,
and that number is the count `processFrame` reports.  The detection `j` has the live
track `trackOf j`, whose box is the detection and whose `framesWithoutDetection` is 0, and
different detections have different tracks. -/
theorem C28_live_count (w : ProcessingWorker) (road : Int) (dets : List Rect)
    (light : TrafficLight) (hw : TrackerOK w road) :
    dets.length ≤ ((updateTrackers w road dets light).roadTrackers road).length
    ∧ (∀ (f : Frame) (roi : Rect) (detect : Rect → List Rect),
        w.yoloInitialized = true → detect (processingRegion f roi) = dets →
        ∃ ids : List Int,
          (processFrame w road (some f) roi light detect).2
            = some ⟨road, (((updateTrackers w road dets light).roadTrackers road).length : Nat),
                ids⟩)
    ∧ (∀ j : Nat, j < dets.length →
        ∃ t : TrackedVehicle,
          (trackOf w road dets light j, t)
            ∈ (updateTrackers w road dets light).roadTrackers road
          ∧ t.boundingBox = dets.getD j ⟨0, 0, 0, 0⟩ ∧ t.framesWithoutDetection = 0)
    ∧ (∀ j1 j2 : Nat, j1 < dets.length → j2 < dets.length →
        trackOf w road dets light j1 = trackOf w road dets light j2 → j1 = j2) := by
  refine ⟨?_, ?_, trackOf_live w road dets light hw, trackOf_injective w road dets light hw⟩
  · have hnd : ((List.range dets.length).map (trackOf w road dets light)).Nodup := by
      apply List.Nodup.map_on _ (List.nodup_range _)
      intro x hx y hy hxy
      exact trackOf_injective w road dets light hw x y (List.mem_range.mp hx)
        (List.mem_range.mp hy) hxy
    have hsub : (List.range dets.length).map (trackOf w road dets light)
        ⊆ ((updateTrackers w road dets light).roadTrackers road).map Prod.fst := by
      intro k hk
      obtain ⟨j, hj, rfl⟩ := List.mem_map.mp hk
      obtain ⟨t, ht, _⟩ := trackOf_live w road dets light hw j (List.mem_range.mp hj)
      exact List.mem_map.mpr ⟨_, ht, rfl⟩
    have := (List.subperm_of_subset hnd hsub).length_le
    simpa using this
  · intro f roi detect hy hd
    refine ⟨violatingIDs ((updateTrackers w road dets light).roadTrackers road), ?_⟩
    simp [processFrame, hy, hd]

/-- C28 on `workerSeeded` (track 0 of approach 0) and the frame `jobNewcomer` with two
detections: the first goes to track 0, the second to the new track 1, and the frame
counts two vehicles. -/
theorem C28_live_count_witness :
    TrackerOK workerSeeded 0
    ∧ jobNewcomer.detections.length = 2
    ∧ 2 ≤ ((updateTrackers workerSeeded 0 jobNewcomer.detections
        TrafficLight.RED).roadTrackers 0).length
    ∧ trackOf workerSeeded 0 jobNewcomer.detections TrafficLight.RED 0 = 0
    ∧ trackOf workerSeeded 0 jobNewcomer.detections TrafficLight.RED 1 = 1
    ∧ (processFrame workerSeeded 0 (some jobNewcomer.frame) jobNewcomer.roi TrafficLight.RED
        jobNewcomer.detectVehiclesYOLO).2
        = some { roadIndex := 0, vehicleCount := 2, violatingVehicleIDs := [] } :=
  ⟨reachable_trackerOK reachable_workerSeeded 0, by decide!,
    (C28_live_count workerSeeded 0 jobNewcomer.detections TrafficLight.RED
      (reachable_trackerOK reachable_workerSeeded 0)).1,
    by decide!, by decide!, by decide!⟩

/-! ## The scheduler: which approach a tick examines -/

theorem tick_idle_state (s : TrafficSystem) (hr : s.systemRunning = true)
    (hb : s.m_workerBusy = false) (readFrame : Option Frame)
    (h : ¬ cameraReady s (nextRoad s.roadToProcess) ∨ readFrame = none) :
    onMainTimerTimeout s readFrame = { s with roadToProcess := nextRoad s.roadToProcess } := by
  have hg : ¬ (s.systemRunning = false ∨ s.m_workerBusy = true) := by simp [hr, hb]
  simp only [onMainTimerTimeout]
  rw [if_neg hg]
  rcases h with h | h
  · have h1 : ¬ ((s.roads (Int.tmod (s.roadToProcess + 1) 4)).cameraConnected = true
        ∧ (s.roads (Int.tmod (s.roadToProcess + 1) 4)).cameraOpened = true) := h
    rw [if_neg h1]
    rfl
  · subst h
    split_ifs <;> rfl

theorem tick_dispatch (s : TrafficSystem) (hr : s.systemRunning = true)
    (hb : s.m_workerBusy = false) (f : Frame)
    (h : cameraReady s (nextRoad s.roadToProcess)) :
    (onMainTimerTimeout s (some f)).events
        = s.events ++ [Event.requestFrameProcessing (nextRoad s.roadToProcess) f
            (s.roads (nextRoad s.roadToProcess)).roi
            (s.currentLights (nextRoad s.roadToProcess))]
    ∧ (onMainTimerTimeout s (some f)).m_workerBusy = true
    ∧ (onMainTimerTimeout s (some f)).roadToProcess = nextRoad s.roadToProcess
    ∧ ((onMainTimerTimeout s (some f)).roads (nextRoad s.roadToProcess)).currentFrame
        = some f := by
  have hg : ¬ (s.systemRunning = false ∨ s.m_workerBusy = true) := by simp [hr, hb]
  have h1 : (s.roads (Int.tmod (s.roadToProcess + 1) 4)).cameraConnected = true
      ∧ (s.roads (Int.tmod (s.roadToProcess + 1) 4)).cameraOpened = true := h
  simp only [onMainTimerTimeout]
  rw [if_neg hg, if_pos h1]
  simp [emit, setRoad, nextRoad]

theorem dispatched_of_events {s t : TrafficSystem} {l : List Event}
    (h : t.events = s.events ++ l) : dispatched s t = l.filterMap Event.job := by
  simp [dispatched, emitted, h]

theorem initializeArduino_roadToProcess (s : TrafficSystem) (p : String) (ps : List String)
    (o : Bool) : (initializeArduino s p ps o).2.roadToProcess = s.roadToProcess := by
  simp only [initializeArduino]
  split_ifs <;> simp [emit]

theorem initializeArduino_m_workerBusy (s : TrafficSystem) (p : String) (ps : List String)
    (o : Bool) : (initializeArduino s p ps o).2.m_workerBusy = s.m_workerBusy := by
  simp only [initializeArduino]
  split_ifs <;> simp [emit]

/-- Only the scheduler tick moves `roadToProcess`. -/
theorem step_roadToProcess (s : TrafficSystem) (a : Action)
    (h : ∀ f : Option Frame, a ≠ Action.mainTimerTimeout f) :
    (step s a).roadToProcess = s.roadToProcess := by
  cases a with
  | startSystem => simp only [step, startSystem]; split_ifs <;> simp
  | stopSystem => simp only [step, stopSystem]; split_ifs <;> simp
  | lightTimerTimeout => simp [step]
  | mainTimerTimeout f => exact absurd rfl (h f)
  | sensorTimerTimeout => simp only [step, onSensorTimerTimeout]; split_ifs <;> simp
  | processingFinished j n ids => simp [step]
  | connectCamera j src o => simp only [step, connectCamera]; split_ifs <;> simp
  | disconnectCamera j => simp [step]
  | initializeArduino p ps o => exact initializeArduino_roadToProcess s p ps o
  | setArduinoSimulationMode b ps o =>
    simp only [step, setArduinoSimulationMode]
    split_ifs <;> simp [emit, initializeArduino_roadToProcess]
  | arduinoError e => simp only [step, onArduinoError]; split_ifs <;> simp
  | setLightTiming d n => rfl
  | setYellowLightDuration n => rfl
  | setEnergySavingEnabled b => rfl
  | setViolationDetectionEnabled b => rfl
  | setRoadROI j r => simp only [step, setRoadROI]; split_ifs <;> simp
  | setYoloThresholds => rfl
  | arduinoDataReceived d ok => simp [step]
  | singleShotTimeout shot ok => simp [step]

/-- Only the scheduler tick and the handling of a result change the busy flag. -/
theorem step_m_workerBusy (s : TrafficSystem) (a : Action)
    (h : ∀ f : Option Frame, a ≠ Action.mainTimerTimeout f)
    (h2 : ∀ (j n : Int) (ids : List Int), a ≠ Action.processingFinished j n ids) :
    (step s a).m_workerBusy = s.m_workerBusy := by
  cases a with
  | startSystem => simp only [step, startSystem]; split_ifs <;> simp
  | stopSystem => simp only [step, stopSystem]; split_ifs <;> simp
  | lightTimerTimeout => simp [step]
  | mainTimerTimeout f => exact absurd rfl (h f)
  | sensorTimerTimeout => simp only [step, onSensorTimerTimeout]; split_ifs <;> simp
  | processingFinished j n ids => exact absurd rfl (h2 j n ids)
  | connectCamera j src o => simp only [step, connectCamera]; split_ifs <;> simp
  | disconnectCamera j => simp [step]
  | initializeArduino p ps o => exact initializeArduino_m_workerBusy s p ps o
  | setArduinoSimulationMode b ps o =>
    simp only [step, setArduinoSimulationMode]
    split_ifs <;> simp [emit, initializeArduino_m_workerBusy]
  | arduinoError e => simp only [step, onArduinoError]; split_ifs <;> simp
  | setLightTiming d n => rfl
  | setYellowLightDuration n => rfl
  | setEnergySavingEnabled b => rfl
  | setViolationDetectionEnabled b => rfl
  | setRoadROI j r => simp only [step, setRoadROI]; split_ifs <;> simp
  | setYoloThresholds => rfl
  | arduinoDataReceived d ok => simp [step]
  | singleShotTimeout shot ok => simp [step]

theorem nextRoad_range {r : Int} (h0 : 0 ≤ r) (_h4 : r < 4) :
    0 ≤ nextRoad r ∧ nextRoad r < 4 := by
  unfold nextRoad
  constructor
  · exact Int.tmod_nonneg _ (by omega)
  · exact Int.tmod_lt_of_pos _ (by decide)

theorem onMainTimerTimeout_roadToProcess (s : TrafficSystem) (f : Option Frame) :
    (onMainTimerTimeout s f).roadToProcess = s.roadToProcess
      ∨ (onMainTimerTimeout s f).roadToProcess = nextRoad s.roadToProcess := by
  simp only [onMainTimerTimeout]
  split_ifs
  · exact Or.inl rfl
  · cases f with
    | none => exact Or.inr rfl
    | some frame => right; simp [nextRoad]
  · exact Or.inr rfl

/-- In every state the controller can be in, `roadToProcess` is one of 0, 1, 2, 3. -/
theorem reachable_roadToProcess {s : TrafficSystem} (h : Reachable s) :
    0 ≤ s.roadToProcess ∧ s.roadToProcess < 4 := by
  induction h with
  | init ports o =>
    have : (initializeSystem ports o).roadToProcess = 0 := by
      simp only [initializeSystem, initializeArduino]
      split_ifs <;> simp [emit, TrafficSystem.constructed]
    rw [this]
    decide
  | @step s a _ _ ih =>
    by_cases hm : ∃ f, a = Action.mainTimerTimeout f
    · obtain ⟨f, rfl⟩ := hm
      rcases onMainTimerTimeout_roadToProcess s f with e | e
      · show 0 ≤ (onMainTimerTimeout s f).roadToProcess
          ∧ (onMainTimerTimeout s f).roadToProcess < 4
        rw [e]
        exact ih
      · show 0 ≤ (onMainTimerTimeout s f).roadToProcess
          ∧ (onMainTimerTimeout s f).roadToProcess < 4
        rw [e]
        exact nextRoad_range ih.1 ih.2
    · rw [step_roadToProcess s a (fun f e => hm ⟨f, e⟩)]
      exact ih

/-! ## C23: the scheduler examines one approach per tick -/

/-- Ticks taken while the system runs and the worker is idle, over approaches whose
camera is not ready, and then a tick that reaches an approach whose camera is ready and
delivers a frame: the one signal emitted is the job for that approach. -/
theorem ticks_until_ready (reads : List (Option Frame)) (f : Frame) :
    ∀ s : TrafficSystem, s.systemRunning = true → s.m_workerBusy = false →
      (∀ n : Nat, n < reads.length → ¬ cameraReady s (nextRoad^[n + 1] s.roadToProcess)) →
      cameraReady s (nextRoad^[reads.length + 1] s.roadToProcess) →
      (run s (tickAll (reads ++ [some f]))).events
        = s.events ++ [Event.requestFrameProcessing
            (nextRoad^[reads.length + 1] s.roadToProcess) f
            (s.roads (nextRoad^[reads.length + 1] s.roadToProcess)).roi
            (s.currentLights (nextRoad^[reads.length + 1] s.roadToProcess))] := by
  induction reads with
  | nil =>
    intro s hr hb _ hc
    exact (tick_dispatch s hr hb f hc).1
  | cons rd rest ih =>
    intro s hr hb hn hc
    have h0 : ¬ cameraReady s (nextRoad s.roadToProcess) := hn 0 (by simp)
    have hs := tick_idle_state s hr hb rd (Or.inl h0)
    have hrun : run s (tickAll ((rd :: rest) ++ [some f]))
        = run (onMainTimerTimeout s rd) (tickAll (rest ++ [some f])) := rfl
    rw [hrun, hs]
    have hi := ih { s with roadToProcess := nextRoad s.roadToProcess } hr hb
      (fun n hlt => by
        have := hn (n + 1) (by simpa using hlt)
        rw [Function.iterate_succ_apply] at this
        exact this)
      (by
        have := hc
        rw [List.length_cons, Function.iterate_succ_apply] at this
        exact this)
    rw [hi, List.length_cons, Function.iterate_succ_apply (n := rest.length + 1)]

theorem nextRoad_cover (r i : Int) (h0 : 0 ≤ r) (h4 : r < 4) (i0 : 0 ≤ i) (i4 : i < 4) :
    i = nextRoad^[1] r ∨ i = nextRoad^[2] r ∨ i = nextRoad^[3] r ∨ i = nextRoad^[4] r := by
  interval_cases r <;> interval_cases i <;> decide

/-- If some approach has its camera ready, the first such approach after `roadToProcess`
in cyclic order is at most four places ahead. -/
theorem first_ready (s : TrafficSystem) (h0 : 0 ≤ s.roadToProcess) (h4 : s.roadToProcess < 4)
    (hex : ∃ i : Int, 0 ≤ i ∧ i < 4 ∧ cameraReady s i) :
    ∃ d : Nat, d < 4 ∧ (∀ n : Nat, n < d → ¬ cameraReady s (nextRoad^[n + 1] s.roadToProcess))
      ∧ cameraReady s (nextRoad^[d + 1] s.roadToProcess) := by
  obtain ⟨i, i0, i4, hi⟩ := hex
  by_cases c1 : cameraReady s (nextRoad^[1] s.roadToProcess)
  · exact ⟨0, by decide, fun n hn => absurd hn (by omega), c1⟩
  by_cases c2 : cameraReady s (nextRoad^[2] s.roadToProcess)
  · refine ⟨1, by decide, fun n hn => ?_, c2⟩
    have : n = 0 := by omega
    subst this
    exact c1
  by_cases c3 : cameraReady s (nextRoad^[3] s.roadToProcess)
  · refine ⟨2, by decide, fun n hn => ?_, c3⟩
    have : n = 0 ∨ n = 1 := by omega
    rcases this with e | e <;> subst e
    · exact c1
    · exact c2
  have c4 : cameraReady s (nextRoad^[4] s.roadToProcess) := by
    rcases nextRoad_cover s.roadToProcess i h0 h4 i0 i4 with e | e | e | e
    · exact absurd (e ▸ hi) c1
    · exact absurd (e ▸ hi) c2
    · exact absurd (e ▸ hi) c3
    · exact e ▸ hi
  refine ⟨3, by decide, fun n hn => ?_, c4⟩
  have : n = 0 ∨ n = 1 ∨ n = 2 := by omega
  rcases this with e | e | e <;> subst e
  · exact c1
  · exact c2
  · exact c3

/-- C23 as claimed fails in the reachable state `demoCamera2`: the system runs, the worker
is idle, approach 2 has a connected camera that delivers a frame, and the previously
examined approach is 0; the tick examines approach 1, which has no camera, dispatches
nothing and only moves `roadToProcess` to 1. -/
theorem C23_round_robin_counterexample :
    Reachable demoCamera2
    ∧ demoCamera2.systemRunning = true ∧ demoCamera2.m_workerBusy = false
    ∧ cameraReady demoCamera2 2 ∧ demoCamera2.roadToProcess = 0
    ∧ dispatched demoCamera2 (onMainTimerTimeout demoCamera2 (some frame0)) = []
    ∧ emitted demoCamera2 (onMainTimerTimeout demoCamera2 (some frame0)) = []
    ∧ (onMainTimerTimeout demoCamera2 (some frame0)).roadToProcess = 1
    ∧ (onMainTimerTimeout demoCamera2 (some frame0)).m_workerBusy = false :=
  ⟨reachable_run (Reachable.init [] false) _ (by decide!), by decide!, by decide!, by decide!,
    by decide!, by decide!, by decide!, by decide!, by decide!⟩

/-- C23 amended: a scheduler tick taken while the system runs and the worker is idle
examines the one approach that follows, in cyclic order, the approach examined by the
tick before, whether or not it has a camera.  If the camera of that approach is
connected and delivers a frame, the tick dispatches a job for it and sets the busy flag;
otherwise it dispatches nothing and changes nothing else.  So over consecutive ticks the
first job goes to the first approach after `roadToProcess` whose camera is connected,
on the tick that reaches it; and if any approach has a connected camera, that is within
four ticks. -/
theorem C23_round_robin_amended (s : TrafficSystem) (hr : s.systemRunning = true)
    (hb : s.m_workerBusy = false) :
    (∀ readFrame : Option Frame,
        (onMainTimerTimeout s readFrame).roadToProcess = nextRoad s.roadToProcess)
    ∧ (∀ f : Frame, cameraReady s (nextRoad s.roadToProcess) →
        dispatched s (onMainTimerTimeout s (some f))
            = [⟨nextRoad s.roadToProcess, f, (s.roads (nextRoad s.roadToProcess)).roi,
                s.currentLights (nextRoad s.roadToProcess)⟩]
        ∧ (onMainTimerTimeout s (some f)).m_workerBusy = true)
    ∧ (∀ readFrame : Option Frame,
        ¬ cameraReady s (nextRoad s.roadToProcess) ∨ readFrame = none →
        onMainTimerTimeout s readFrame = { s with roadToProcess := nextRoad s.roadToProcess }
        ∧ dispatched s (onMainTimerTimeout s readFrame) = [])
    ∧ (∀ (reads : List (Option Frame)) (f : Frame),
        (∀ n : Nat, n < reads.length → ¬ cameraReady s (nextRoad^[n + 1] s.roadToProcess)) →
        cameraReady s (nextRoad^[reads.length + 1] s.roadToProcess) →
        dispatched s (run s (tickAll (reads ++ [some f])))
          = [⟨nextRoad^[reads.length + 1] s.roadToProcess, f,
              (s.roads (nextRoad^[reads.length + 1] s.roadToProcess)).roi,
              s.currentLights (nextRoad^[reads.length + 1] s.roadToProcess)⟩])
    ∧ (0 ≤ s.roadToProcess → s.roadToProcess < 4 →
        (∃ i : Int, 0 ≤ i ∧ i < 4 ∧ cameraReady s i) →
        ∃ d : Nat, d < 4
          ∧ (∀ n : Nat, n < d → ¬ cameraReady s (nextRoad^[n + 1] s.roadToProcess))
          ∧ cameraReady s (nextRoad^[d + 1] s.roadToProcess))
    ∧ (∀ t : TrafficSystem, Reachable t → 0 ≤ t.roadToProcess ∧ t.roadToProcess < 4) := by
  refine ⟨?_, ?_, ?_, ?_, first_ready s, fun t ht => reachable_roadToProcess ht⟩
  · intro readFrame
    by_cases hc : cameraReady s (nextRoad s.roadToProcess)
    · cases readFrame with
      | none => rw [tick_idle_state s hr hb none (Or.inr rfl)]
      | some f => exact (tick_dispatch s hr hb f hc).2.2.1
    · rw [tick_idle_state s hr hb readFrame (Or.inl hc)]
  · intro f hc
    obtain ⟨he, hbusy, _⟩ := tick_dispatch s hr hb f hc
    exact ⟨by rw [dispatched_of_events he]; rfl, hbusy⟩
  · intro readFrame h
    have hs := tick_idle_state s hr hb readFrame h
    refine ⟨hs, ?_⟩
    rw [hs]
    simp [dispatched, emitted]
  · intro reads f hn hc
    rw [dispatched_of_events (ticks_until_ready reads f s hr hb hn hc)]
    rfl

/-- C23 amended on `demoCamera2` (only approach 2 connected, `roadToProcess = 0`): the
first tick examines approach 1 and dispatches nothing; the second dispatches the job for
approach 2, whose light is RED. -/
theorem C23_round_robin_amended_witness :
    demoCamera2.systemRunning = true ∧ demoCamera2.m_workerBusy = false
    ∧ dispatched demoCamera2 (onMainTimerTimeout demoCamera2 (some frame0)) = []
    ∧ dispatched demoCamera2 (run demoCamera2 (tickAll [some frame0, some frame0]))
        = [⟨2, frame0, ⟨0, 0, 0, 0⟩, TrafficLight.RED⟩] :=
  have h := C23_round_robin_amended demoCamera2 (by decide!) (by decide!)
  ⟨by decide!, by decide!, (h.2.2.1 (some frame0) (Or.inl (by decide!))).2,
    (h.2.2.2.1 [some frame0] frame0
      (fun n hn => by
        have e : n = 0 := by simpa using hn
        subst e
        decide!)
      (by decide!)).trans (by decide!)⟩

@[simp]
theorem unlinked_roads (s : TrafficSystem) :
    (unlinked s).roads = s.roads := rfl

@[simp]
theorem unlinked_currentLights (s : TrafficSystem) :
    (unlinked s).currentLights = s.currentLights := rfl

@[simp]
theorem unlinked_systemRunning (s : TrafficSystem) :
    (unlinked s).systemRunning = s.systemRunning := rfl

@[simp]
theorem unlinked_m_workerBusy (s : TrafficSystem) :
    (unlinked s).m_workerBusy = s.m_workerBusy := rfl

@[simp]
theorem unlinked_currentRoadIndex (s : TrafficSystem) :
    (unlinked s).currentRoadIndex = s.currentRoadIndex := rfl

@[simp]
theorem unlinked_lightTimeRemaining (s : TrafficSystem) :
    (unlinked s).lightTimeRemaining = s.lightTimeRemaining := rfl

@[simp]
theorem unlinked_yellowLightActive (s : TrafficSystem) :
    (unlinked s).yellowLightActive = s.yellowLightActive := rfl

@[simp]
theorem unlinked_yellowLightFixedDuration (s : TrafficSystem) :
    (unlinked s).yellowLightFixedDuration = s.yellowLightFixedDuration := rfl

@[simp]
theorem unlinked_energySavingMode (s : TrafficSystem) :
    (unlinked s).energySavingMode = s.energySavingMode := rfl

@[simp]
theorem unlinked_energySavingEnabled (s : TrafficSystem) :
    (unlinked s).energySavingEnabled = s.energySavingEnabled := rfl

@[simp]
theorem unlinked_lightDurations (s : TrafficSystem) :
    (unlinked s).lightDurations = s.lightDurations := rfl

@[simp]
theorem unlinked_violationDetectionEnabled (s : TrafficSystem) :
    (unlinked s).violationDetectionEnabled = s.violationDetectionEnabled := rfl

@[simp]
theorem unlinked_irViolationCooldownActive (s : TrafficSystem) :
    (unlinked s).irViolationCooldownActive = s.irViolationCooldownActive := rfl

@[simp]
theorem unlinked_mainTimer (s : TrafficSystem) :
    (unlinked s).mainTimer = s.mainTimer := rfl

@[simp]
theorem unlinked_lightTimer (s : TrafficSystem) :
    (unlinked s).lightTimer = s.lightTimer := rfl

@[simp]
theorem unlinked_roadToProcess (s : TrafficSystem) :
    (unlinked s).roadToProcess = s.roadToProcess := rfl

@[simp]
theorem unlinked_events (s : TrafficSystem) :
    (unlinked s).events = s.events := rfl

@[simp]
theorem unlinked_singleShots (s : TrafficSystem) :
    (unlinked s).singleShots = s.singleShots := rfl

@[simp]
theorem unlinked_lightHistory (s : TrafficSystem) :
    (unlinked s).lightHistory = s.lightHistory := rfl

@[simp]
theorem unlinked_connected (s : TrafficSystem) :
    (unlinked s).arduinoData.connected = false := rfl

theorem unlinked_setTrafficLight (s : TrafficSystem) (i : Int) (l : TrafficLight) :
    setTrafficLight (unlinked s) i l = unlinked (setTrafficLight s i l) := by
  simp only [setTrafficLight, sendArduinoCommand, unlinked_currentLights, unlinked_connected,
    emit, true_or, if_true]
  split_ifs <;> rfl

theorem unlinked_setAllTrafficLights (s : TrafficSystem) (l : TrafficLight) :
    setAllTrafficLights (unlinked s) l = unlinked (setAllTrafficLights s l) := by
  show setTrafficLight (setTrafficLight (setTrafficLight (setTrafficLight (unlinked s) 0 l)
    1 l) 2 l) 3 l = _
  rw [unlinked_setTrafficLight, unlinked_setTrafficLight, unlinked_setTrafficLight,
    unlinked_setTrafficLight]
  rfl

theorem cycleLights_steps (s : TrafficSystem) :
    cycleLights s = cycleStep 3 (cycleStep 2 (cycleStep 1 (cycleStep 0 s))) := rfl

theorem unlinked_cycleStep (i : Int) (s : TrafficSystem) :
    cycleStep i (unlinked s) = unlinked (cycleStep i s) :=
  unlinked_setTrafficLight s i _

theorem unlinked_cycleLights (s : TrafficSystem) :
    cycleLights (unlinked s) = unlinked (cycleLights s) := by
  rw [cycleLights_steps, cycleLights_steps, unlinked_cycleStep, unlinked_cycleStep,
    unlinked_cycleStep, unlinked_cycleStep]

theorem unlinked_idem0 (s : TrafficSystem) : unlinked (unlinked s) = unlinked s := rfl

theorem unlinked_setRoad (s : TrafficSystem) (i : Int) (r : RoadData) :
    setRoad (unlinked s) i r = unlinked (setRoad s i r) := rfl

theorem unlinked_emit (s : TrafficSystem) (e : Event) :
    emit (unlinked s) e = unlinked (emit s e) := rfl

theorem unlinked_processTrafficCycle (s : TrafficSystem) :
    processTrafficCycle (unlinked s) = unlinked (processTrafficCycle s) := by
  by_cases hg : s.systemRunning = false ∨ s.energySavingMode = true
      ∨ s.yellowLightActive = true ∨ s.lightTimer.active = true
  · rw [@processTrafficCycle_blocked (unlinked s) hg, processTrafficCycle_blocked hg]
  · simp only [not_or, Bool.not_eq_false, Bool.not_eq_true] at hg
    obtain ⟨hr, hm, hy, ht⟩ := hg
    rw [@processTrafficCycle_run (unlinked s) hr hm hy ht, processTrafficCycle_run hr hm hy ht,
      unlinked_cycleLights]
    generalize cycleLights s = X
    rfl

theorem unlinked_afterYellow (s : TrafficSystem) :
    afterYellow (unlinked s) = unlinked (afterYellow s) := by
  have e : ({ unlinked s with yellowLightActive := false } : TrafficSystem)
      = unlinked { s with yellowLightActive := false } := rfl
  unfold afterYellow
  rw [e, unlinked_currentRoadIndex, unlinked_roads, unlinked_setTrafficLight]
  generalize setTrafficLight { s with yellowLightActive := false } s.currentRoadIndex
    TrafficLight.RED = X
  rfl

theorem unlinked_switchToNextRoad (s : TrafficSystem) :
    switchToNextRoad (unlinked s) = unlinked (switchToNextRoad s) := by
  by_cases hm : s.energySavingMode = true
  · have h1 : switchToNextRoad s = s := by
      unfold switchToNextRoad
      rw [if_pos hm]
    have h2 : switchToNextRoad (unlinked s) = unlinked s := by
      unfold switchToNextRoad
      rw [if_pos (show (unlinked s).energySavingMode = true from hm)]
    rw [h1, h2]
  · have hm0 : s.energySavingMode = false := bool_false_of_not_true hm
    by_cases hy : s.yellowLightActive = false
    · rw [@switchToNextRoad_green (unlinked s) hm0 hy, switchToNextRoad_green hm0 hy,
        unlinked_currentRoadIndex, unlinked_setTrafficLight]
      generalize setTrafficLight s s.currentRoadIndex TrafficLight.YELLOW = X
      rfl
    · have hy1 : s.yellowLightActive = true := bool_true_of_not_false hy
      have h1 : switchToNextRoad s = processTrafficCycle (afterYellow s) :=
        switchToNextRoad_yellow hm0 hy1
      have h2 : switchToNextRoad (unlinked s) = processTrafficCycle (afterYellow (unlinked s)) :=
        @switchToNextRoad_yellow (unlinked s) hm0 hy1
      rw [h1, h2, unlinked_afterYellow, unlinked_processTrafficCycle]

theorem unlinked_onLightTimerTimeout (s : TrafficSystem) :
    onLightTimerTimeout (unlinked s) = unlinked (onLightTimerTimeout s) := by
  by_cases h : s.systemRunning = false ∨ s.energySavingMode = true
  · rw [@onLightTimerTimeout_idle (unlinked s) h, onLightTimerTimeout_idle h]
    rfl
  · simp only [not_or, Bool.not_eq_false, Bool.not_eq_true] at h
    obtain ⟨hr, hm⟩ := h
    by_cases hd : 1 < s.lightTimeRemaining
    · rw [@onLightTimerTimeout_count (unlinked s) hr hm hd, onLightTimerTimeout_count hr hm hd]
      rfl
    · have hd1 : s.lightTimeRemaining ≤ 1 := by omega
      rw [@onLightTimerTimeout_expire (unlinked s) hr hm hd1,
        onLightTimerTimeout_expire hr hm hd1]
      exact unlinked_switchToNextRoad { s with
        lightTimeRemaining :=
          if s.lightTimeRemaining > 0 then s.lightTimeRemaining - 1 else s.lightTimeRemaining
        lightTimer := s.lightTimer.stop }

theorem unlinked_processEnergySaving (s : TrafficSystem) :
    processEnergySaving (unlinked s) = unlinked (processEnergySaving s) := by
  rcases processEnergySaving_cases s with ⟨hm, hc⟩ | ⟨hm, he, ha⟩ | hk
  · rw [@processEnergySaving_exit (unlinked s) hm hc, processEnergySaving_exit hm hc]
    exact unlinked_processTrafficCycle
      (emit { s with energySavingMode := false } (Event.energySavingStatusChanged false))
  · rw [@processEnergySaving_enter (unlinked s) hm he ha, processEnergySaving_enter hm he ha]
    have e : ({ unlinked s with
        energySavingMode := true, lightTimer := (unlinked s).lightTimer.stop } : TrafficSystem)
        = unlinked { s with energySavingMode := true, lightTimer := s.lightTimer.stop } := rfl
    rw [e, unlinked_setAllTrafficLights, unlinked_emit]
  · rw [@processEnergySaving_keep (unlinked s) hk, processEnergySaving_keep hk]

theorem unlinked_updateTrafficLights (s : TrafficSystem) :
    updateTrafficLights (unlinked s) = unlinked (updateTrafficLights s) := by
  unfold updateTrafficLights
  by_cases hr : s.systemRunning = false
  · rw [if_pos hr, if_pos (show (unlinked s).systemRunning = false from hr)]
  · rw [if_neg hr, if_neg (show ¬ (unlinked s).systemRunning = false from hr)]
    simp only []
    rw [unlinked_processEnergySaving]
    generalize processEnergySaving s = X
    by_cases hm : X.energySavingMode = true
    · rw [if_pos hm, if_pos (show (unlinked X).energySavingMode = true from hm)]
    · rw [if_neg hm, if_neg (show ¬ (unlinked X).energySavingMode = true from hm)]
      by_cases hc : X.currentLights X.currentRoadIndex = TrafficLight.OFF
          ∧ (X.roads X.currentRoadIndex).vehicleCount > 0
      · rw [if_pos hc, if_pos (show (unlinked X).currentLights (unlinked X).currentRoadIndex
            = TrafficLight.OFF
          ∧ ((unlinked X).roads (unlinked X).currentRoadIndex).vehicleCount > 0 from hc)]
        exact unlinked_processTrafficCycle X
      · rw [if_neg hc, if_neg (show ¬ ((unlinked X).currentLights (unlinked X).currentRoadIndex
            = TrafficLight.OFF
          ∧ ((unlinked X).roads (unlinked X).currentRoadIndex).vehicleCount > 0) from hc)]

theorem unlinked_updateCount (s : TrafficSystem) (i n : Int) :
    updateCount (unlinked s) i n = unlinked (updateCount s i n) := by
  simp only [updateCount, unlinked_roads, unlinked_setRoad, unlinked_emit]
  split_ifs <;> rfl

theorem unlinked_reportViolations (i : Int) (ids : List Int) :
    ∀ s : TrafficSystem,
      reportViolations (unlinked s) i ids = unlinked (reportViolations s i ids) := by
  induction ids with
  | nil => intro s; rfl
  | cons v rest ih =>
    intro s
    simp only [reportViolations, unlinked_roads]
    split_ifs
    · exact ih s
    · exact ih (setRoad
        (emit s (Event.violationDetected i ("Vehicle ID " ++ toString v ++ " ran red light")
          (s.roads i).currentFrame)) i
        { (emit s (Event.violationDetected i ("Vehicle ID " ++ toString v ++ " ran red light")
            (s.roads i).currentFrame)).roads i with
          violatedIDs := ((emit s (Event.violationDetected i
            ("Vehicle ID " ++ toString v ++ " ran red light")
            (s.roads i).currentFrame)).roads i).violatedIDs ++ [v] })

theorem unlinked_handleProcessingFinished (s : TrafficSystem) (i n : Int) (ids : List Int) :
    handleProcessingFinished (unlinked s) i n ids
      = unlinked (handleProcessingFinished s i n ids) := by
  have e : ({ unlinked s with m_workerBusy := false } : TrafficSystem)
      = unlinked { s with m_workerBusy := false } := rfl
  unfold handleProcessingFinished
  simp only []
  rw [e]
  generalize ({ s with m_workerBusy := false } : TrafficSystem) = s0
  by_cases hi : i < 0 ∨ i ≥ 4
  · rw [if_pos hi, if_pos hi]
  · rw [if_neg hi, if_neg hi, unlinked_updateCount, unlinked_emit]
    generalize emit (updateCount s0 i n) (Event.frameUpdated i) = s2
    by_cases hv : s2.violationDetectionEnabled = true
    · rw [if_pos hv, if_pos (show (unlinked s2).violationDetectionEnabled = true from hv),
        unlinked_reportViolations, unlinked_updateTrafficLights]
    · rw [if_neg hv, if_neg (show ¬ (unlinked s2).violationDetectionEnabled = true from hv),
        unlinked_updateTrafficLights]

theorem unlinked_sendArduinoCommand (s : TrafficSystem) (c : String) :
    unlinked (sendArduinoCommand s c) = unlinked s := by
  unfold sendArduinoCommand
  split_ifs <;> rfl

theorem startSystem_eq (s : TrafficSystem) (hr : ¬ s.systemRunning = true) :
    startSystem s
      = emit (processTrafficCycle (withSensorPoll (startState s)))
          (Event.logMessage "Traffic system started." "INFO") := by
  unfold startSystem
  rw [if_neg hr]
  rfl

theorem stopSystem_eq (s : TrafficSystem) (hr : ¬ s.systemRunning = false) :
    stopSystem s
      = emit (setAllTrafficLights (stopTimers s)
            (if (stopTimers s).energySavingEnabled = true then TrafficLight.OFF
              else TrafficLight.RED))
          (Event.logMessage "Traffic system stopped." "INFO") := by
  unfold stopSystem
  rw [if_neg hr]
  rfl

theorem withSensorPoll_unlinked (s : TrafficSystem) :
    withSensorPoll (unlinked s) = unlinked s := by
  unfold withSensorPoll
  rw [if_neg (show ¬ ((unlinked s).arduinoData.connected = true) from Bool.noConfusion)]

theorem unlinked_withSensorPoll (s : TrafficSystem) :
    unlinked (withSensorPoll s) = unlinked s := by
  unfold withSensorPoll
  split_ifs <;> rfl

theorem unlinked_startSystem (s : TrafficSystem) :
    startSystem (unlinked s) = unlinked (startSystem s) := by
  by_cases hr : s.systemRunning = true
  · have h1 : startSystem s = s := by
      unfold startSystem
      rw [if_pos hr]
    have h2 : startSystem (unlinked s) = unlinked s := by
      unfold startSystem
      rw [if_pos (show (unlinked s).systemRunning = true from hr)]
    rw [h1, h2]
  · have e : startState (unlinked s) = unlinked (startState s) := rfl
    rw [startSystem_eq (unlinked s) hr, startSystem_eq s hr, e, withSensorPoll_unlinked,
      unlinked_processTrafficCycle, unlinked_emit]
    rw [← unlinked_emit, ← unlinked_emit, ← unlinked_processTrafficCycle,
      ← unlinked_processTrafficCycle, unlinked_withSensorPoll]

theorem unlinked_stopSystem (s : TrafficSystem) :
    stopSystem (unlinked s) = unlinked (stopSystem s) := by
  by_cases hr : s.systemRunning = false
  · have h1 : stopSystem s = s := by
      unfold stopSystem
      rw [if_pos hr]
    have h2 : stopSystem (unlinked s) = unlinked s := by
      unfold stopSystem
      rw [if_pos (show (unlinked s).systemRunning = false from hr)]
    rw [h1, h2]
  · have e : stopTimers (unlinked s) = unlinked (stopTimers s) := rfl
    rw [stopSystem_eq (unlinked s) hr, stopSystem_eq s hr, e, unlinked_energySavingEnabled,
      unlinked_setAllTrafficLights, unlinked_emit]

theorem unlinked_onSensorTimerTimeout (s : TrafficSystem) :
    onSensorTimerTimeout (unlinked s) = unlinked (onSensorTimerTimeout s) := by
  unfold onSensorTimerTimeout
  rw [if_neg (show ¬ ((unlinked s).arduinoData.connected = true) from Bool.noConfusion)]
  by_cases hc : s.arduinoData.connected = true
  · rw [if_pos hc, unlinked_sendArduinoCommand]
  · rw [if_neg hc]

theorem unlinked_onMainTimerTimeout (s : TrafficSystem) (f : Option Frame) :
    onMainTimerTimeout (unlinked s) f = unlinked (onMainTimerTimeout s f) := by
  simp only [onMainTimerTimeout, unlinked_systemRunning, unlinked_m_workerBusy,
    unlinked_roads, unlinked_roadToProcess]
  split_ifs
  · rfl
  · cases f <;> rfl
  · rfl

theorem unlinked_disconnectCamera (s : TrafficSystem) (i : Int) :
    disconnectCamera (unlinked s) i = unlinked (disconnectCamera s i) := by
  simp only [disconnectCamera, unlinked_roads]
  split_ifs <;> rfl

theorem unlinked_connectCamera (s : TrafficSystem) (i : Int) (src : String) (o : Bool) :
    (connectCamera (unlinked s) i src o).2 = unlinked (connectCamera s i src o).2 := by
  unfold connectCamera
  by_cases hi : i < 0 ∨ i ≥ 4
  · rw [if_pos hi, if_pos hi]
  · rw [if_neg hi, if_neg hi]
    simp only []
    rw [unlinked_disconnectCamera]
    generalize disconnectCamera s i = X
    split_ifs <;> rfl

theorem unlinked_setRoadROI (s : TrafficSystem) (i : Int) (r : Rect) :
    setRoadROI (unlinked s) i r = unlinked (setRoadROI s i r) := by
  simp only [setRoadROI, unlinked_roads]
  split_ifs <;> rfl

theorem unlinked_saveViolationScreenshot (s : TrafficSystem) (i n : Int) (ok : Bool) :
    saveViolationScreenshot (unlinked s) i n ok
      = unlinked (saveViolationScreenshot s i n ok) := by
  unfold saveViolationScreenshot
  rw [unlinked_roads]
  cases (s.roads i).currentFrame with
  | none => rfl
  | some f =>
    simp only []
    split_ifs <;> rfl

theorem unlinked_onSingleShot (s : TrafficSystem) (shot : SingleShot) (ok : Bool) :
    onSingleShot (unlinked s) shot ok = unlinked (onSingleShot s shot ok) := by
  cases shot with
  | screenshot i n => exact unlinked_saveViolationScreenshot s i n ok
  | cooldownOff i => rfl

/-- An action that is not the link's own does to the state without the link what it does
to the state with it, the link taken out afterwards. -/
theorem step_unlinked (s : TrafficSystem) (a : Action) (h : a.ofLink = false) :
    step (unlinked s) a = unlinked (step s a) := by
  cases a with
  | startSystem => exact unlinked_startSystem s
  | stopSystem => exact unlinked_stopSystem s
  | lightTimerTimeout => exact unlinked_onLightTimerTimeout s
  | mainTimerTimeout f => exact unlinked_onMainTimerTimeout s f
  | sensorTimerTimeout => exact unlinked_onSensorTimerTimeout s
  | processingFinished j n ids => exact unlinked_handleProcessingFinished s j n ids
  | connectCamera j src o => exact unlinked_connectCamera s j src o
  | disconnectCamera j => exact unlinked_disconnectCamera s j
  | initializeArduino p ps o => exact Bool.noConfusion h
  | setArduinoSimulationMode b ps o => exact Bool.noConfusion h
  | arduinoError e => exact Bool.noConfusion h
  | setLightTiming d n => rfl
  | setYellowLightDuration n => rfl
  | setEnergySavingEnabled b => rfl
  | setViolationDetectionEnabled b => rfl
  | setRoadROI j r => exact unlinked_setRoadROI s j r
  | setYoloThresholds => rfl
  | arduinoDataReceived d ok => exact Bool.noConfusion h
  | singleShotTimeout shot ok => exact unlinked_onSingleShot s shot ok

theorem run_unlinked (as : List Action) :
    ∀ s : TrafficSystem, (∀ a ∈ as, a.ofLink = false) →
      run (unlinked s) as = unlinked (run s as) := by
  induction as with
  | nil => intro s _; rfl
  | cons a rest ih =>
    intro s h
    show run (step (unlinked s) a) rest = unlinked (run (step s a) rest)
    rw [step_unlinked s a (h a (List.mem_cons_self a rest))]
    exact ih (step s a) (fun b hb => h b (List.mem_cons_of_mem a hb))

theorem unlinked_fields {a b : TrafficSystem} (h : unlinked a = unlinked b) :
    a.currentLights = b.currentLights ∧ a.currentRoadIndex = b.currentRoadIndex
    ∧ a.lightTimeRemaining = b.lightTimeRemaining ∧ a.yellowLightActive = b.yellowLightActive
    ∧ a.energySavingMode = b.energySavingMode ∧ a.roads = b.roads ∧ a.events = b.events := by
  have h1 : (unlinked a).currentLights = (unlinked b).currentLights := by rw [h]
  have h2 : (unlinked a).currentRoadIndex = (unlinked b).currentRoadIndex := by rw [h]
  have h3 : (unlinked a).lightTimeRemaining = (unlinked b).lightTimeRemaining := by rw [h]
  have h4 : (unlinked a).yellowLightActive = (unlinked b).yellowLightActive := by rw [h]
  have h5 : (unlinked a).energySavingMode = (unlinked b).energySavingMode := by rw [h]
  have h6 : (unlinked a).roads = (unlinked b).roads := by rw [h]
  have h7 : (unlinked a).events = (unlinked b).events := by rw [h]
  exact ⟨h1, h2, h3, h4, h5, h6, h7⟩

/-! ## C21: the phase controller does not look at the link -/

/-- C21: two states that differ only in the link (its port, its connection, its receive
buffer and stored sensor states, its poll timer, what was written to it), run through
the same actions none of which is the link's own, agree after every step on the lights,
`currentRoadIndex`, the seconds remaining, the yellow flag, the energy-saving mode, the
record of every approach (so its count and density) and all signals emitted (so the
`trafficLightChanged` among them); they differ at most in the link itself, and without
the link nothing is written. -/
theorem C21_link_indifference (s t : TrafficSystem) (as : List Action)
    (h : unlinked s = unlinked t) (ha : ∀ a ∈ as, a.ofLink = false) (n : Nat) :
    (run s (as.take n)).currentLights = (run t (as.take n)).currentLights
    ∧ (run s (as.take n)).currentRoadIndex = (run t (as.take n)).currentRoadIndex
    ∧ (run s (as.take n)).lightTimeRemaining = (run t (as.take n)).lightTimeRemaining
    ∧ (run s (as.take n)).yellowLightActive = (run t (as.take n)).yellowLightActive
    ∧ (run s (as.take n)).energySavingMode = (run t (as.take n)).energySavingMode
    ∧ (run s (as.take n)).roads = (run t (as.take n)).roads
    ∧ (run s (as.take n)).events = (run t (as.take n)).events
    ∧ (run s (as.take n)).events.filterMap lightChange
        = (run t (as.take n)).events.filterMap lightChange
    ∧ unlinked (run s (as.take n)) = unlinked (run t (as.take n))
    ∧ (run (unlinked s) (as.take n)).serialOut = [] := by
  have hn : ∀ a ∈ as.take n, a.ofLink = false :=
    fun a hm => ha a ((List.take_sublist n as).subset hm)
  have hs := run_unlinked (as.take n) s hn
  have ht := run_unlinked (as.take n) t hn
  have hu : unlinked (run s (as.take n)) = unlinked (run t (as.take n)) := by
    rw [← hs, ← ht, h]
  obtain ⟨f1, f2, f3, f4, f5, f6, he⟩ := unlinked_fields hu
  refine ⟨f1, f2, f3, f4, f5, f6, he, ?_, hu, ?_⟩
  · rw [he]
  · rw [hs]
    rfl

/-- C21 on `s0LinkedCamera` (port open, approach 0 connected) and the same state without
its link, over `busyDay`: after 13 of its actions both have approach 0 YELLOW, one second
remaining and the yellow flag set, and at the end the first has written its light
commands and a sensor poll, the second nothing. -/
theorem C21_link_indifference_witness :
    unlinked s0LinkedCamera = unlinked (unlinked s0LinkedCamera)
    ∧ (∀ a ∈ busyDay, a.ofLink = false)
    ∧ (run (unlinked s0LinkedCamera) (busyDay.take 13)).currentLights 0 = TrafficLight.YELLOW
    ∧ (run s0LinkedCamera (busyDay.take 13)).currentLights 0 = TrafficLight.YELLOW
    ∧ (run s0LinkedCamera (busyDay.take 13)).lightTimeRemaining = 1
    ∧ (run (unlinked s0LinkedCamera) (busyDay.take 13)).lightTimeRemaining = 1
    ∧ (run s0LinkedCamera (busyDay.take 15)).serialOut
        = ["INIT\n", "L_0_G\n", "L_1_R\n", "L_2_R\n", "L_3_R\n", "L_0_Y\n", "GET_SENSORS\n",
           "L_0_F\n", "L_1_F\n", "L_2_F\n", "L_3_F\n"]
    ∧ (run (unlinked s0LinkedCamera) (busyDay.take 15)).serialOut = [] :=
  have ha : ∀ a ∈ busyDay, a.ofLink = false := by decide
  have h13 := C21_link_indifference s0LinkedCamera (unlinked s0LinkedCamera) busyDay rfl ha 13
  have h15 := C21_link_indifference s0LinkedCamera (unlinked s0LinkedCamera) busyDay rfl ha 15
  ⟨rfl, ha, by decide!, (congrFun h13.1 0).trans (by decide!), by decide!,
    h13.2.2.1.symm.trans (by decide!), by decide!, h15.2.2.2.2.2.2.2.2.2⟩

/-! ## Operations that dispatch no job -/

theorem calm_setTrafficLight (s : TrafficSystem) (i : Int) (l : TrafficLight) :
    Silent Event.isRequest s (setTrafficLight s i l) := by
  unfold setTrafficLight
  split_ifs
  · exact silent_refl _ s
  · exact silent_eq_to (silent_emit_to (silent_of_events_eq rfl) _ (by rfl))
      (sendArduinoCommand_events _ _)

theorem calm_setAllTrafficLights (s : TrafficSystem) (l : TrafficLight) :
    Silent Event.isRequest s (setAllTrafficLights s l) := by
  simp only [setAllTrafficLights, List.foldl_cons, List.foldl_nil]
  exact silent_trans (silent_trans (silent_trans (calm_setTrafficLight _ _ _)
    (calm_setTrafficLight _ _ _)) (calm_setTrafficLight _ _ _))
    (calm_setTrafficLight _ _ _)

theorem calm_cycleLights (s : TrafficSystem) : Silent Event.isRequest s (cycleLights s) := by
  simp only [cycleLights, List.foldl_cons, List.foldl_nil]
  exact silent_trans (silent_trans (silent_trans (calm_setTrafficLight _ _ _)
    (calm_setTrafficLight _ _ _)) (calm_setTrafficLight _ _ _))
    (calm_setTrafficLight _ _ _)

theorem calm_processTrafficCycle (s : TrafficSystem) :
    Silent Event.isRequest s (processTrafficCycle s) := by
  simp only [processTrafficCycle]
  split_ifs
  · exact silent_refl _ s
  · exact silent_eq_to (calm_cycleLights s) rfl

theorem calm_switchToNextRoad (s : TrafficSystem) : Silent Event.isRequest s (switchToNextRoad s) := by
  simp only [switchToNextRoad]
  split_ifs
  · exact silent_refl _ s
  · exact silent_eq_to (calm_setTrafficLight s _ _) rfl
  · refine silent_trans ?_ (calm_processTrafficCycle _)
    exact silent_eq_to
      (silent_trans (silent_of_events_eq rfl)
        (calm_setTrafficLight { s with yellowLightActive := false } _ _)) rfl

theorem calm_onLightTimerTimeout (s : TrafficSystem) :
    Silent Event.isRequest s (onLightTimerTimeout s) := by
  simp only [onLightTimerTimeout]
  split_ifs
  · exact silent_of_events_eq rfl
  · exact silent_trans (silent_of_events_eq rfl) (calm_switchToNextRoad _)
  · exact silent_of_events_eq rfl
  · exact silent_trans (silent_of_events_eq rfl) (calm_switchToNextRoad _)
  · exact silent_refl _ s

theorem calm_processEnergySaving (s : TrafficSystem) :
    Silent Event.isRequest s (processEnergySaving s) := by
  simp only [processEnergySaving]
  split_ifs
  · exact silent_trans (silent_emit_to (silent_of_events_eq rfl) _ (by rfl))
      (calm_processTrafficCycle _)
  · exact silent_refl _ s
  · exact silent_emit_to (silent_trans (silent_of_events_eq rfl)
      (calm_setAllTrafficLights _ _)) _ (by rfl)
  · exact silent_trans (silent_emit_to (silent_of_events_eq rfl) _ (by rfl))
      (calm_processTrafficCycle _)
  · exact silent_refl _ s

theorem calm_updateTrafficLights (s : TrafficSystem) :
    Silent Event.isRequest s (updateTrafficLights s) := by
  simp only [updateTrafficLights]
  split_ifs
  · exact silent_refl _ s
  · exact calm_processEnergySaving s
  · exact silent_trans (calm_processEnergySaving s) (calm_processTrafficCycle _)
  · exact calm_processEnergySaving s

theorem calm_updateCount (s : TrafficSystem) (i n : Int) :
    Silent Event.isRequest s (updateCount s i n) := by
  dsimp only [updateCount]
  split_ifs
  · exact silent_emit_to (silent_eq_to (silent_emit_to (silent_of_events_eq rfl) _ (by rfl))
      rfl) _ (by rfl)
  · exact silent_emit_to (silent_of_events_eq rfl) _ (by rfl)
  · exact silent_refl _ s

theorem calm_startSystem (s : TrafficSystem) : Silent Event.isRequest s (startSystem s) := by
  simp only [startSystem]
  split_ifs
  · exact silent_refl _ s
  · exact silent_emit_to (silent_trans (silent_of_events_eq rfl)
      (calm_processTrafficCycle _)) _ (by rfl)
  · exact silent_emit_to (silent_trans (silent_of_events_eq rfl)
      (calm_processTrafficCycle _)) _ (by rfl)

theorem calm_stopSystem (s : TrafficSystem) : Silent Event.isRequest s (stopSystem s) := by
  simp only [stopSystem]
  split_ifs
  · exact silent_refl _ s
  · exact silent_emit_to (silent_trans (silent_of_events_eq rfl)
      (calm_setAllTrafficLights _ _)) _ (by rfl)
  · exact silent_emit_to (silent_trans (silent_of_events_eq rfl)
      (calm_setAllTrafficLights _ _)) _ (by rfl)

theorem calm_onSensorTimerTimeout (s : TrafficSystem) :
    Silent Event.isRequest s (onSensorTimerTimeout s) := by
  simp only [onSensorTimerTimeout]
  split_ifs
  · exact silent_of_events_eq (sendArduinoCommand_events _ _)
  · exact silent_refl _ s

theorem calm_disconnectCamera (s : TrafficSystem) (i : Int) :
    Silent Event.isRequest s (disconnectCamera s i) := by
  simp only [disconnectCamera]
  split_ifs
  · exact silent_refl _ s
  · exact silent_emit_to (silent_emit_to (silent_of_events_eq rfl) _ (by rfl)) _ (by rfl)

theorem calm_connectCamera (s : TrafficSystem) (i : Int) (src : String) (o : Bool) :
    Silent Event.isRequest s (connectCamera s i src o).2 := by
  simp only [connectCamera]
  split_ifs
  · exact silent_refl _ s
  · exact silent_emit_to (silent_emit_to (silent_eq_to (calm_disconnectCamera s i) rfl)
      _ (by rfl)) _ (by rfl)
  · exact silent_emit_to (calm_disconnectCamera s i) _ (by rfl)

theorem calm_initializeArduino (s : TrafficSystem) (p : String) (ports : List String)
    (o : Bool) : Silent Event.isRequest s (initializeArduino s p ports o).2 := by
  unfold Silent
  simp only [initializeArduino]
  split_ifs <;> simp [emit, Event.isRequest]

theorem calm_onArduinoError (s : TrafficSystem) (e : String) :
    Silent Event.isRequest s (onArduinoError s e) := by
  simp only [onArduinoError]
  split_ifs
  · exact silent_emit_to (silent_eq_to (silent_emit s _ (by rfl)) rfl) _ (by rfl)
  · exact silent_refl _ s

theorem calm_setArduinoSimulationMode (s : TrafficSystem) (b : Bool) (ports : List String)
    (o : Bool) : Silent Event.isRequest s (setArduinoSimulationMode s b ports o) := by
  simp only [setArduinoSimulationMode]
  split_ifs
  · exact silent_emit_to (silent_of_events_eq rfl) _ (by rfl)
  · exact silent_emit_to (silent_of_events_eq rfl) _ (by rfl)
  · exact calm_initializeArduino s _ ports o
  · exact silent_refl _ s

theorem calm_setRoadROI (s : TrafficSystem) (i : Int) (r : Rect) :
    Silent Event.isRequest s (setRoadROI s i r) := by
  simp only [setRoadROI]
  split_ifs
  · exact silent_of_events_eq rfl
  · exact silent_refl _ s

theorem calm_saveViolationScreenshot (s : TrafficSystem) (i n : Int) (ok : Bool) :
    Silent Event.isRequest s (saveViolationScreenshot s i n ok) := by
  unfold saveViolationScreenshot
  split
  · exact silent_refl _ s
  · split_ifs
    · exact silent_emit s _ (by rfl)
    · exact silent_emit s _ (by rfl)

theorem calm_onSingleShot (s : TrafficSystem) (shot : SingleShot) (ok : Bool) :
    Silent Event.isRequest s (onSingleShot s shot ok) := by
  cases shot with
  | screenshot i n => exact calm_saveViolationScreenshot s i n ok
  | cooldownOff i => exact silent_of_events_eq rfl

theorem calm_checkSensor (s : TrafficSystem) (ns : Int → Bool) (ok : Int → Bool) (i : Int) :
    Silent Event.isRequest s (checkSensor s ns ok i) := by
  simp only [checkSensor]
  split_ifs
  · exact silent_eq_to (silent_emit_to (silent_emit_to
      (calm_saveViolationScreenshot s i 1 (ok i)) _ (by rfl)) _ (by rfl)) rfl
  · exact silent_refl _ s
  · exact silent_refl _ s

theorem calm_parseArduinoData (s : TrafficSystem) (d : List Char) (ok : Int → Bool) :
    Silent Event.isRequest s (parseArduinoData s d ok) := by
  simp only [parseArduinoData, List.foldl_cons, List.foldl_nil]
  split_ifs
  · exact silent_eq_to (silent_trans (silent_trans (silent_trans
      (calm_checkSensor _ _ _ _) (calm_checkSensor _ _ _ _))
      (calm_checkSensor _ _ _ _)) (calm_checkSensor _ _ _ _)) rfl
  · exact silent_refl _ s
  · exact silent_refl _ s

theorem calm_drainBuffer (ok : Int → Bool) (n : Nat) :
    ∀ s : TrafficSystem, Silent Event.isRequest s (drainBuffer ok n s) := by
  induction n with
  | zero => intro s; exact silent_refl _ s
  | succ n ih =>
    intro s
    simp only [drainBuffer]
    split_ifs
    · refine silent_trans ?_ (ih _)
      exact silent_trans (silent_of_events_eq rfl) (calm_parseArduinoData _ _ ok)
    · exact silent_refl _ s

theorem calm_onArduinoDataReceived (s : TrafficSystem) (d : List Char) (ok : Int → Bool) :
    Silent Event.isRequest s (onArduinoDataReceived s d ok) := by
  simp only [onArduinoDataReceived]
  split_ifs
  · exact silent_refl _ s
  · exact silent_trans (silent_of_events_eq rfl) (calm_drainBuffer ok _ _)

theorem calm_reportViolations (j : Int) (ids : List Int) :
    ∀ s : TrafficSystem, Silent Event.isRequest s (reportViolations s j ids) := by
  induction ids with
  | nil => intro s; exact silent_refl _ s
  | cons v rest ih =>
    intro s
    simp only [reportViolations]
    split_ifs
    · exact ih s
    · refine silent_trans ?_ (ih _)
      exact silent_eq_to (silent_emit s (Event.violationDetected j
        ("Vehicle ID " ++ toString v ++ " ran red light") (s.roads j).currentFrame) rfl) rfl

theorem calm_handleProcessingFinished (s : TrafficSystem) (j n : Int) (ids : List Int) :
    Silent Event.isRequest s (handleProcessingFinished s j n ids) := by
  simp only [handleProcessingFinished]
  split_ifs
  · exact silent_of_events_eq rfl
  · exact silent_trans (silent_trans (silent_emit_to (silent_trans
      (silent_of_events_eq (by rfl)) (calm_updateCount _ j n)) (Event.frameUpdated j) rfl)
      (calm_reportViolations j ids _)) (calm_updateTrafficLights _)
  · exact silent_trans (silent_emit_to (silent_trans (silent_of_events_eq (by rfl))
      (calm_updateCount _ j n)) (Event.frameUpdated j) rfl) (calm_updateTrafficLights _)

/-- Only the scheduler tick dispatches. -/
theorem step_calm (s : TrafficSystem) (a : Action)
    (h : ∀ f : Option Frame, a ≠ Action.mainTimerTimeout f) :
    Silent Event.isRequest s (step s a) := by
  cases a with
  | startSystem => exact calm_startSystem s
  | stopSystem => exact calm_stopSystem s
  | lightTimerTimeout => exact calm_onLightTimerTimeout s
  | mainTimerTimeout f => exact absurd rfl (h f)
  | sensorTimerTimeout => exact calm_onSensorTimerTimeout s
  | processingFinished j n ids => exact calm_handleProcessingFinished s j n ids
  | connectCamera j src o => exact calm_connectCamera s j src o
  | disconnectCamera j => exact calm_disconnectCamera s j
  | initializeArduino p ps o => exact calm_initializeArduino s p ps o
  | setArduinoSimulationMode b ps o => exact calm_setArduinoSimulationMode s b ps o
  | arduinoError e => exact calm_onArduinoError s e
  | setLightTiming d n => exact silent_of_events_eq rfl
  | setYellowLightDuration n => exact silent_of_events_eq rfl
  | setEnergySavingEnabled b => exact silent_of_events_eq rfl
  | setViolationDetectionEnabled b => exact silent_of_events_eq rfl
  | setRoadROI j r => exact calm_setRoadROI s j r
  | setYoloThresholds => exact silent_emit s _ rfl
  | arduinoDataReceived d ok => exact calm_onArduinoDataReceived s d ok
  | singleShotTimeout shot ok => exact calm_onSingleShot s shot ok

theorem dispatched_of_calm {s t : TrafficSystem} (h : Silent Event.isRequest s t) :
    dispatched s t = [] := by
  obtain ⟨l, he, hl⟩ := h
  rw [dispatched_of_events he, List.filterMap_eq_nil_iff]
  intro e hm
  have := hl e hm
  cases e <;> first | rfl | exact Bool.noConfusion this

/-! ## C22: one job in flight -/

theorem tick_blocked (s : TrafficSystem) (f : Option Frame)
    (h : s.systemRunning = false ∨ s.m_workerBusy = true) : onMainTimerTimeout s f = s := by
  simp only [onMainTimerTimeout]
  rw [if_pos h]

theorem handleProcessingFinished_idle (s : TrafficSystem) (j n : Int) (ids : List Int) :
    (handleProcessingFinished s j n ids).m_workerBusy = false := by
  simp only [handleProcessingFinished]
  split_ifs <;> simp

theorem initializeSystem_idle (ports : List String) (o : Bool) :
    (initializeSystem ports o).m_workerBusy = false := by
  simp only [initializeSystem, initializeArduino_m_workerBusy]
  rfl

theorem processFrame_models (w : ProcessingWorker) (road : Int) (f : Option Frame) (roi : Rect)
    (light : TrafficLight) (detect : Rect → List Rect) :
    (processFrame w road f roi light detect).1.yoloInitialized = w.yoloInitialized := by
  cases f with
  | none => rfl
  | some fr =>
    simp only [processFrame]
    split_ifs <;> rfl

/-- What a scheduler tick does to the busy flag and the queue of jobs. -/
theorem tick_cases (s : TrafficSystem) (f : Option Frame) :
    (onMainTimerTimeout s f = s ∧ dispatched s (onMainTimerTimeout s f) = [])
    ∨ (s.m_workerBusy = false ∧ (onMainTimerTimeout s f).m_workerBusy = false
        ∧ dispatched s (onMainTimerTimeout s f) = [])
    ∨ (s.m_workerBusy = false ∧ (onMainTimerTimeout s f).m_workerBusy = true
        ∧ (dispatched s (onMainTimerTimeout s f)).length = 1) := by
  by_cases hg : s.systemRunning = false ∨ s.m_workerBusy = true
  · left
    rw [tick_blocked s f hg]
    exact ⟨rfl, by simp [dispatched, emitted]⟩
  · simp only [not_or, Bool.not_eq_false, Bool.not_eq_true] at hg
    obtain ⟨hr, hb⟩ := hg
    right
    by_cases hc : cameraReady s (nextRoad s.roadToProcess)
    · cases f with
      | none =>
        left
        rw [tick_idle_state s hr hb none (Or.inr rfl)]
        exact ⟨hb, hb, by simp [dispatched, emitted]⟩
      | some fr =>
        right
        obtain ⟨he, hbusy, _⟩ := tick_dispatch s hr hb fr hc
        exact ⟨hb, hbusy, by rw [dispatched_of_events he]; rfl⟩
    · left
      rw [tick_idle_state s hr hb f (Or.inl hc)]
      exact ⟨hb, hb, by simp [dispatched, emitted]⟩

theorem plantInv_init (ports : List String) (o : Bool) : PlantInv (Plant.init ports o) := by
  refine ⟨rfl, ?_⟩
  show (0 : Nat) = if (initializeSystem ports o).m_workerBusy = true then 1 else 0
  rw [initializeSystem_idle]
  rfl

theorem plantInv_control {p : Plant} (h : PlantInv p) (a : Action) (ha : a.isResult = false) :
    PlantInv (p.step (PlantAction.control a)) := by
  refine ⟨h.models, ?_⟩
  show (p.jobs ++ dispatched p.sys (step p.sys a)).length + p.results.length
    = if (step p.sys a).m_workerBusy = true then 1 else 0
  have hf := h.flight
  unfold Plant.inFlight at hf
  by_cases hm : ∃ f, a = Action.mainTimerTimeout f
  · obtain ⟨f, rfl⟩ := hm
    show (p.jobs ++ dispatched p.sys (onMainTimerTimeout p.sys f)).length + p.results.length
      = if (onMainTimerTimeout p.sys f).m_workerBusy = true then 1 else 0
    rcases tick_cases p.sys f with ⟨e, d⟩ | ⟨b0, b1, d⟩ | ⟨b0, b1, d⟩
    · rw [d, e, List.append_nil]
      exact hf
    · rw [d, List.append_nil, b1]
      rw [b0] at hf
      exact hf
    · rw [List.length_append, d, b1]
      rw [b0] at hf
      simp only [Bool.false_eq_true, if_false] at hf
      simp only [if_true]
      omega
  · have hn : ∀ f : Option Frame, a ≠ Action.mainTimerTimeout f := fun f e => hm ⟨f, e⟩
    have hr : ∀ (j n : Int) (ids : List Int), a ≠ Action.processingFinished j n ids := by
      intro j n ids e
      rw [e] at ha
      exact Bool.noConfusion ha
    rw [dispatched_of_calm (step_calm p.sys a hn), List.append_nil,
      step_m_workerBusy p.sys a hn hr]
    exact hf

theorem plantInv_work {p : Plant} (h : PlantInv p) (detect : Rect → List Rect) :
    PlantInv (p.step (PlantAction.work detect)) := by
  cases hj : p.jobs with
  | nil =>
    have : p.step (PlantAction.work detect) = p := by
      simp only [Plant.step, hj]
    rw [this]
    exact h
  | cons job rest =>
    have hs : p.step (PlantAction.work detect)
        = { p with
            worker := (processFrame p.worker job.roadIndex (some job.frame) job.roi
              job.currentLight detect).1
            jobs := rest
            results := p.results ++ (processFrame p.worker job.roadIndex (some job.frame)
              job.roi job.currentLight detect).2.toList } := by
      simp only [Plant.step, hj]
    rw [hs]
    refine ⟨?_, ?_⟩
    · show (processFrame p.worker job.roadIndex (some job.frame) job.roi job.currentLight
        detect).1.yoloInitialized = true
      rw [processFrame_models]
      exact h.models
    · have hf := h.flight
      unfold Plant.inFlight at hf
      rw [hj, List.length_cons] at hf
      have hres : (processFrame p.worker job.roadIndex (some job.frame) job.roi
          job.currentLight detect).2.toList.length = 1 := by
        rw [processFrame_some _ _ _ _ _ _ h.models]
        rfl
      show rest.length + (p.results ++ (processFrame p.worker job.roadIndex (some job.frame)
        job.roi job.currentLight detect).2.toList).length
          = if p.sys.m_workerBusy = true then 1 else 0
      rw [List.length_append, hres]
      generalize (if p.sys.m_workerBusy = true then 1 else 0) = k at hf ⊢
      omega

theorem plantInv_deliver {p : Plant} (h : PlantInv p) :
    PlantInv (p.step PlantAction.deliver) := by
  cases hr : p.results with
  | nil =>
    have : p.step PlantAction.deliver = p := by
      simp only [Plant.step, hr]
    rw [this]
    exact h
  | cons r rest =>
    have hs : p.step PlantAction.deliver
        = { p with
            sys := handleProcessingFinished p.sys r.roadIndex r.vehicleCount
              r.violatingVehicleIDs
            jobs := p.jobs ++ dispatched p.sys
              (handleProcessingFinished p.sys r.roadIndex r.vehicleCount r.violatingVehicleIDs)
            results := rest } := by
      simp only [Plant.step, hr]
    rw [hs]
    refine ⟨h.models, ?_⟩
    have hf := h.flight
    unfold Plant.inFlight at hf ⊢
    rw [hr] at hf
    simp only [dispatched_of_calm (calm_handleProcessingFinished _ _ _ _), List.append_nil,
      handleProcessingFinished_idle, Bool.false_eq_true, if_false, List.length_cons] at hf ⊢
    split_ifs at hf <;> omega

theorem plantInv_step {p : Plant} (h : PlantInv p) (a : PlantAction) (ha : a.enabled p) :
    PlantInv (p.step a) := by
  cases a with
  | control b => exact plantInv_control h b ha.2
  | work detect => exact plantInv_work h detect
  | deliver => exact plantInv_deliver h

theorem reachable_plantInv {p : Plant} (h : PlantReachable p) : PlantInv p := by
  induction h with
  | init ports o => exact plantInv_init ports o
  | step a _ ha ih => exact plantInv_step ih a ha

theorem plantReachable_run (as : List PlantAction) :
    ∀ p : Plant, PlantReachable p → plantEnabled p as = true → PlantReachable (p.run as) := by
  induction as with
  | nil => intro p h _; exact h
  | cons a rest ih =>
    intro p h he
    simp only [plantEnabled, Bool.and_eq_true, decide_eq_true_eq] at he
    exact ih (p.step a) (PlantReachable.step a h he.1) he.2

/-- C22: in every state the plant can be in, at most one job is in flight (dispatched and
its result not handled yet), and one is exactly while the busy flag is set.  A scheduler
tick taken while the system is stopped or the busy flag is set changes nothing and
dispatches nothing; a tick that dispatches sets the busy flag and leaves one job in
flight; no action of the controller other than the handling of a result clears the busy
flag, nor does the worker; and handling a result clears it and leaves nothing in
flight. -/
theorem C22_one_job_in_flight (p : Plant) (hp : PlantReachable p) :
    p.inFlight ≤ 1
    ∧ (p.inFlight = 1 ↔ p.sys.m_workerBusy = true)
    ∧ (∀ f : Option Frame, p.sys.systemRunning = false ∨ p.sys.m_workerBusy = true →
        onMainTimerTimeout p.sys f = p.sys
        ∧ p.step (PlantAction.control (Action.mainTimerTimeout f)) = p)
    ∧ (∀ f : Option Frame, dispatched p.sys (onMainTimerTimeout p.sys f) ≠ [] →
        p.sys.m_workerBusy = false
        ∧ (onMainTimerTimeout p.sys f).m_workerBusy = true
        ∧ (p.step (PlantAction.control (Action.mainTimerTimeout f))).inFlight = 1)
    ∧ (∀ a : Action, a.isResult = false → p.sys.m_workerBusy = true →
        (step p.sys a).m_workerBusy = true)
    ∧ (∀ detect : Rect → List Rect, (p.step (PlantAction.work detect)).sys = p.sys)
    ∧ (p.results ≠ [] →
        (p.step PlantAction.deliver).sys.m_workerBusy = false
        ∧ (p.step PlantAction.deliver).inFlight = 0) := by
  have hi := reachable_plantInv hp
  have hf := hi.flight
  refine ⟨?_, ?_, ?_, ?_, ?_, ?_, ?_⟩
  · rw [hf]
    split_ifs <;> omega
  · rw [hf]
    by_cases hb : p.sys.m_workerBusy = true
    · simp [hb]
    · simp [hb]
  · intro f hg
    have e := tick_blocked p.sys f hg
    refine ⟨e, ?_⟩
    show ({ p with sys := onMainTimerTimeout p.sys f
                   jobs := p.jobs ++ dispatched p.sys (onMainTimerTimeout p.sys f) } : Plant) = p
    rw [e]
    have d : dispatched p.sys p.sys = [] := by simp [dispatched, emitted]
    rw [d, List.append_nil]
  · intro f hd
    have hstep := (plantInv_control hi (Action.mainTimerTimeout f) rfl).flight
    rcases tick_cases p.sys f with ⟨_, d⟩ | ⟨_, _, d⟩ | ⟨b0, b1, _⟩
    · exact absurd d hd
    · exact absurd d hd
    · refine ⟨b0, b1, ?_⟩
      rw [hstep]
      show (if (onMainTimerTimeout p.sys f).m_workerBusy = true then 1 else 0) = 1
      rw [b1]
      rfl
  · intro a ha hb
    by_cases hm : ∃ f, a = Action.mainTimerTimeout f
    · obtain ⟨f, rfl⟩ := hm
      show (onMainTimerTimeout p.sys f).m_workerBusy = true
      rw [tick_blocked p.sys f (Or.inr hb)]
      exact hb
    · have hr : ∀ (j n : Int) (ids : List Int), a ≠ Action.processingFinished j n ids := by
        intro j n ids e
        rw [e] at ha
        exact Bool.noConfusion ha
      rw [step_m_workerBusy p.sys a (fun f e => hm ⟨f, e⟩) hr]
      exact hb
  · intro detect
    simp only [Plant.step]
    split <;> rfl
  · intro hne
    have hd := (plantInv_deliver hi).flight
    cases hr : p.results with
    | nil => exact absurd hr hne
    | cons r rest =>
      have hb : (p.step PlantAction.deliver).sys.m_workerBusy = false := by
        simp only [Plant.step, hr]
        exact handleProcessingFinished_idle _ _ _ _
      refine ⟨hb, ?_⟩
      rw [hd, hb]
      rfl

theorem reachable_plantDispatched : PlantReachable plantDispatched :=
  plantReachable_run _ _ (PlantReachable.init [] false) (by decide!)

theorem reachable_plantProcessed : PlantReachable plantProcessed :=
  plantReachable_run _ _ reachable_plantDispatched (by decide!)

/-- C22 on the plant after start-up with approach 0 connected: the fourth tick has
dispatched the job for approach 0, and one job is in flight; four more ticks dispatch
nothing; the worker turns the job into a result, and one job is in flight still; the
controller handles the result (one vehicle), and none is. -/
theorem C22_one_job_in_flight_witness :
    PlantReachable plantDispatched
    ∧ plantDispatched.inFlight ≤ 1
    ∧ plantDispatched.jobs = [⟨0, frame0, ⟨0, 0, 0, 0⟩, TrafficLight.GREEN⟩]
    ∧ plantDispatched.sys.m_workerBusy = true
    ∧ plantProcessed.jobs = []
    ∧ plantProcessed.results = [⟨0, 1, []⟩]
    ∧ plantProcessed.sys.m_workerBusy = true
    ∧ plantDelivered.inFlight = 0
    ∧ plantDelivered.sys.m_workerBusy = false
    ∧ (plantDelivered.sys.roads 0).vehicleCount = 1 :=
  ⟨reachable_plantDispatched, (C22_one_job_in_flight plantDispatched
      reachable_plantDispatched).1,
    by decide!, by decide!, by decide!, by decide!, by decide!,
    ((C22_one_job_in_flight plantProcessed reachable_plantProcessed).2.2.2.2.2.2
      (by decide!)).2,
    by decide!, by decide!⟩

/-! ## C24: disconnecting and connecting a camera again -/

theorem disconnect_connect_road (s : TrafficSystem) (i : Int) (uri : String) (h0 : 0 ≤ i)
    (h4 : i < 4) (hc : (s.roads i).cameraConnected = true) :
    ((connectCamera (disconnectCamera s i) i uri true).2.roads i)
      = { vehicleCount := 0, density := TrafficDensity.OFF, cameraOpened := true,
          currentFrame := (s.roads i).currentFrame, cameraConnected := true,
          cameraSource := uri, roi := ⟨0, 0, 0, 0⟩, violatedIDs := [] } := by
  have hg : ¬ (i < 0 ∨ i ≥ 4 ∨ (s.roads i).cameraConnected = false) := by
    simp only [hc, Bool.true_eq_false, or_false, not_or, not_lt]
    omega
  have hd : disconnectCamera s i
      = emit (emit (setRoad s i { s.roads i with
            cameraOpened := false, vehicleCount := 0, density := TrafficDensity.OFF,
            cameraConnected := false, cameraSource := "", roi := ⟨0, 0, 0, 0⟩,
            violatedIDs := [] }) (Event.cameraStatusChanged i false))
          (Event.logMessage ("Camera " ++ toString (i + 1) ++ " disconnected.") "INFO") := by
    simp only [disconnectCamera]
    rw [if_neg hg]
  have hdd : disconnectCamera (disconnectCamera s i) i = disconnectCamera s i := by
    rw [hd]
    simp only [disconnectCamera]
    rw [if_pos]
    right; right
    simp [emit, setRoad]
  simp only [connectCamera]
  rw [if_neg (by omega), hdd, hd]
  simp [emit, setRoad]

theorem first_connect_road (ports : List String) (o : Bool) (i : Int) (uri : String)
    (h0 : 0 ≤ i) (h4 : i < 4) :
    ((connectCamera (initializeSystem ports o) i uri true).2.roads i)
      = { vehicleCount := 0, density := TrafficDensity.OFF, cameraOpened := true,
          currentFrame := none, cameraConnected := true,
          cameraSource := uri, roi := ⟨0, 0, 0, 0⟩, violatedIDs := [] } := by
  have hr : (initializeSystem ports o).roads = fun _ => {} := by
    simp only [initializeSystem, initializeArduino]
    split_ifs <;> simp [emit, TrafficSystem.constructed]
  have hg : i < 0 ∨ i ≥ 4 ∨ ((initializeSystem ports o).roads i).cameraConnected = false := by
    right; right
    rw [hr]
  have hd : disconnectCamera (initializeSystem ports o) i = initializeSystem ports o := by
    simp only [disconnectCamera]
    rw [if_pos hg]
  simp only [connectCamera]
  rw [if_neg (by omega), hd]
  simp [emit, setRoad, hr]

theorem reachable_plantDelivered : PlantReachable plantDelivered :=
  plantReachable_run _ _ reachable_plantProcessed (by decide!)

/-- C24, the code at the failing input.  `plantDelivered` is reachable: approach 0 is
connected, one frame of it has been processed, one vehicle is tracked and counted.
Disconnecting and connecting the camera of approach 0 again resets the count, but
approach 0 still holds the frame read before, and the worker still has track 0 in the
map of approach 0 and its ID counter at 1; after a first connect from the initial state
no frame is held, the map is empty and the counter is 0.  The difference shows: the next
frame of approach 0, in which the detector finds no vehicle, is reported with count 1
after the reconnect (track 0 is kept for 15 more frames) and with count 0 after a first
connect, which then enters energy-saving mode.  In every state, the record of a
connected approach after disconnect and connect differs from the record after a first
connect in the held frame only. -/
theorem C24_reconnect_keeps_frame_and_tracks :
    PlantReachable plantDelivered
    ∧ (plantDelivered.sys.roads 0).cameraConnected = true
    ∧ (plantDelivered.sys.roads 0).vehicleCount = 1
    ∧ plantEnabled plantDelivered (reconnect 0 "0" ++ emptyFrame0) = true
    ∧ (plantReconnected.sys.roads 0).vehicleCount = 0
    ∧ (plantReconnected.sys.roads 0).currentFrame = some frame0
    ∧ ((connectCamera (initializeSystem [] false) 0 "0" true).2.roads 0).currentFrame = none
    ∧ (plantReconnected.worker.roadTrackers 0).map Prod.fst = [0]
    ∧ plantReconnected.worker.nextVehicleID 0 = 1
    ∧ (Plant.init [] false).worker.roadTrackers 0 = []
    ∧ (Plant.init [] false).worker.nextVehicleID 0 = 0
    ∧ (((plantReconnected.run emptyFrame0).sys.roads 0).vehicleCount = 1
      ∧ (plantReconnected.run emptyFrame0).sys.energySavingMode = false
      ∧ ((plantFirstConnect.run emptyFrame0).sys.roads 0).vehicleCount = 0
      ∧ (plantFirstConnect.run emptyFrame0).sys.energySavingMode = true)
    ∧ (∀ (s : TrafficSystem) (i : Int) (uri : String), 0 ≤ i → i < 4 →
        (s.roads i).cameraConnected = true →
        (connectCamera (disconnectCamera s i) i uri true).2.roads i
          = { (connectCamera (initializeSystem [] false) i uri true).2.roads i with
              currentFrame := (s.roads i).currentFrame }) :=
  ⟨reachable_plantDelivered, by decide!, by decide!, by decide!, by decide!, by decide!,
    by decide!, by decide!, by decide!, by decide!, by decide!,
    ⟨by decide!, by decide!, by decide!, by decide!⟩,
    fun s i uri h0 h4 hc => by
      rw [disconnect_connect_road s i uri h0 h4 hc, first_connect_road [] false i uri h0 h4]⟩

/-! ## Light commands and light events along a run -/

theorem isLightCommand_lightCommand (c : Int × TrafficLight) :
    isLightCommand (lightCommand c) = true := by
  simp only [isLightCommand, lightCommand, String.data_append, decide_eq_true_eq]
  rfl

theorem paired_refl (s : TrafficSystem) : Paired s s :=
  ⟨[], [], by simp, by simp, rfl⟩

theorem paired_trans {a b c : TrafficSystem} (h1 : Paired a b) (h2 : Paired b c) :
    Paired a c := by
  obtain ⟨e1, c1, he1, hs1, hf1⟩ := h1
  obtain ⟨e2, c2, he2, hs2, hf2⟩ := h2
  refine ⟨e1 ++ e2, c1 ++ c2, by rw [he2, he1, List.append_assoc],
    by rw [hs2, hs1, List.append_assoc], ?_⟩
  rw [List.filter_append, List.filterMap_append, List.map_append, hf1, hf2]

theorem synced_refl (s : TrafficSystem) : Synced s s :=
  fun h => ⟨h, paired_refl s⟩

theorem synced_trans {a b c : TrafficSystem} (h1 : Synced a b) (h2 : Synced b c) :
    Synced a c := fun h =>
  ⟨(h2 (h1 h).1).1, paired_trans (h1 h).2 (h2 (h1 h).1).2⟩

theorem synced_of_eq {s t : TrafficSystem} (he : t.events = s.events)
    (hs : t.serialOut = s.serialOut) (hl : linkUp s → linkUp t) : Synced s t :=
  fun h => ⟨hl h, [], [], by simp [he], by simp [hs], rfl⟩

theorem synced_eq_to {s t u : TrafficSystem} (h : Synced s t) (he : u.events = t.events)
    (hs : u.serialOut = t.serialOut) (hl : linkUp t → linkUp u) : Synced s u :=
  synced_trans h (synced_of_eq he hs hl)

theorem synced_emit (s : TrafficSystem) (e : Event) (he : lightChange e = none) :
    Synced s (emit s e) := fun h =>
  ⟨h, [e], [], rfl, by simp, by simp [List.filterMap_cons, he]⟩

theorem synced_emit_to {s t : TrafficSystem} (h : Synced s t) (e : Event)
    (he : lightChange e = none) : Synced s (emit t e) :=
  synced_trans h (synced_emit t e he)

theorem synced_send (s : TrafficSystem) (cmd : String)
    (hc : isLightCommand (cmd ++ "\n") = false) : Synced s (sendArduinoCommand s cmd) := by
  intro h
  simp only [sendArduinoCommand]
  split_ifs
  · exact ⟨h, paired_refl s⟩
  · exact ⟨h, [], [cmd ++ "\n"], by simp, rfl, by simp [List.filter_cons, hc]⟩

theorem synced_setTrafficLight (s : TrafficSystem) (i : Int) (l : TrafficLight) :
    Synced s (setTrafficLight s i l) := by
  intro h
  refine ⟨linkUp_setTrafficLight h i l, ?_⟩
  by_cases hc : i < 0 ∨ 4 ≤ i ∨ s.currentLights i = l
  · rw [setTrafficLight_unchanged s i l hc]
    exact paired_refl s
  · simp only [not_or, not_lt, not_le] at hc
    obtain ⟨_, h2, h3, _⟩ := setTrafficLight_changed s i l hc.1 hc.2.1 hc.2.2
    refine ⟨[Event.trafficLightChanged i l], [lightCommand (i, l)], h2, h3 h, ?_⟩
    simp [List.filter_cons, isLightCommand_lightCommand, lightChange]

theorem synced_setAllTrafficLights (s : TrafficSystem) (l : TrafficLight) :
    Synced s (setAllTrafficLights s l) := by
  simp only [setAllTrafficLights, List.foldl_cons, List.foldl_nil]
  exact synced_trans (synced_trans (synced_trans (synced_setTrafficLight _ _ _)
    (synced_setTrafficLight _ _ _)) (synced_setTrafficLight _ _ _))
    (synced_setTrafficLight _ _ _)

theorem synced_cycleLights (s : TrafficSystem) : Synced s (cycleLights s) := by
  simp only [cycleLights, List.foldl_cons, List.foldl_nil]
  exact synced_trans (synced_trans (synced_trans (synced_setTrafficLight _ _ _)
    (synced_setTrafficLight _ _ _)) (synced_setTrafficLight _ _ _))
    (synced_setTrafficLight _ _ _)

theorem synced_processTrafficCycle (s : TrafficSystem) :
    Synced s (processTrafficCycle s) := by
  simp only [processTrafficCycle]
  split_ifs
  · exact synced_refl s
  · exact synced_eq_to (synced_cycleLights s) rfl (by rfl) (by exact id)

theorem synced_switchToNextRoad (s : TrafficSystem) : Synced s (switchToNextRoad s) := by
  simp only [switchToNextRoad]
  split_ifs
  · exact synced_refl s
  · exact synced_eq_to (synced_setTrafficLight s _ _) rfl (by rfl) (by exact id)
  · refine synced_trans ?_ (synced_processTrafficCycle _)
    exact synced_eq_to
      (synced_trans (synced_of_eq (by rfl) (by rfl) (by exact id))
        (synced_setTrafficLight { s with yellowLightActive := false } _ _)) rfl (by rfl) (by exact id)

theorem synced_onLightTimerTimeout (s : TrafficSystem) :
    Synced s (onLightTimerTimeout s) := by
  simp only [onLightTimerTimeout]
  split_ifs
  · exact synced_of_eq (by rfl) (by rfl) (by exact id)
  · exact synced_trans (synced_of_eq (by rfl) (by rfl) (by exact id)) (synced_switchToNextRoad _)
  · exact synced_of_eq (by rfl) (by rfl) (by exact id)
  · exact synced_trans (synced_of_eq (by rfl) (by rfl) (by exact id)) (synced_switchToNextRoad _)
  · exact synced_refl s

theorem synced_processEnergySaving (s : TrafficSystem) :
    Synced s (processEnergySaving s) := by
  simp only [processEnergySaving]
  split_ifs
  · exact synced_trans (synced_emit_to (synced_of_eq (by rfl) (by rfl) (by exact id)) _ (by rfl))
      (synced_processTrafficCycle _)
  · exact synced_refl s
  · exact synced_emit_to (synced_trans (synced_of_eq (by rfl) (by rfl) (by exact id))
      (synced_setAllTrafficLights _ _)) _ (by rfl)
  · exact synced_trans (synced_emit_to (synced_of_eq (by rfl) (by rfl) (by exact id)) _ (by rfl))
      (synced_processTrafficCycle _)
  · exact synced_refl s

theorem synced_updateTrafficLights (s : TrafficSystem) :
    Synced s (updateTrafficLights s) := by
  simp only [updateTrafficLights]
  split_ifs
  · exact synced_refl s
  · exact synced_processEnergySaving s
  · exact synced_trans (synced_processEnergySaving s) (synced_processTrafficCycle _)
  · exact synced_processEnergySaving s

theorem synced_updateCount (s : TrafficSystem) (i n : Int) :
    Synced s (updateCount s i n) := by
  dsimp only [updateCount]
  split_ifs
  · exact synced_emit_to (synced_eq_to (synced_emit_to
      (synced_of_eq (by rfl) (by rfl) (by exact id)) (Event.vehicleCountChanged i n) rfl)
      rfl (by rfl) (by exact id)) (Event.densityChanged i (newDensity n)) rfl
  · exact synced_emit_to (synced_of_eq (by rfl) (by rfl) (by exact id)) _ (by rfl)
  · exact synced_refl s

theorem synced_reportViolations (j : Int) (ids : List Int) :
    ∀ s : TrafficSystem, Synced s (reportViolations s j ids) := by
  induction ids with
  | nil => intro s; exact synced_refl s
  | cons v rest ih =>
    intro s
    simp only [reportViolations]
    split_ifs
    · exact ih s
    · refine synced_trans ?_ (ih _)
      exact synced_eq_to (synced_emit s (Event.violationDetected j
        ("Vehicle ID " ++ toString v ++ " ran red light") (s.roads j).currentFrame) rfl)
        rfl (by rfl) (by exact id)

theorem synced_handleProcessingFinished (s : TrafficSystem) (j n : Int) (ids : List Int) :
    Synced s (handleProcessingFinished s j n ids) := by
  simp only [handleProcessingFinished]
  split_ifs
  · exact synced_of_eq (by rfl) (by rfl) (by exact id)
  · exact synced_trans (synced_trans (synced_emit_to (synced_trans (synced_of_eq (by rfl) (by rfl) (by exact id))
      (synced_updateCount _ j n)) _ (by rfl)) (synced_reportViolations j ids _))
      (synced_updateTrafficLights _)
  · exact synced_trans (synced_emit_to (synced_trans (synced_of_eq (by rfl) (by rfl) (by exact id))
      (synced_updateCount _ j n)) _ (by rfl)) (synced_updateTrafficLights _)

theorem synced_startSystem (s : TrafficSystem) : Synced s (startSystem s) := by
  simp only [startSystem]
  split_ifs
  · exact synced_refl s
  · exact synced_emit_to (synced_trans (synced_of_eq (by rfl) (by rfl) (by exact id))
      (synced_processTrafficCycle _)) _ (by rfl)
  · exact synced_emit_to (synced_trans (synced_of_eq (by rfl) (by rfl) (by exact id))
      (synced_processTrafficCycle _)) _ (by rfl)

theorem synced_stopSystem (s : TrafficSystem) : Synced s (stopSystem s) := by
  simp only [stopSystem]
  split_ifs
  · exact synced_refl s
  · exact synced_emit_to (synced_trans (synced_of_eq (by rfl) (by rfl) (by exact id))
      (synced_setAllTrafficLights _ _)) _ (by rfl)
  · exact synced_emit_to (synced_trans (synced_of_eq (by rfl) (by rfl) (by exact id))
      (synced_setAllTrafficLights _ _)) _ (by rfl)

theorem synced_onSensorTimerTimeout (s : TrafficSystem) :
    Synced s (onSensorTimerTimeout s) := by
  simp only [onSensorTimerTimeout]
  split_ifs
  · exact synced_send s _ (by decide)
  · exact synced_refl s

theorem synced_onMainTimerTimeout (s : TrafficSystem) (f : Option Frame) :
    Synced s (onMainTimerTimeout s f) := by
  simp only [onMainTimerTimeout]
  split_ifs
  · exact synced_refl s
  · cases f with
    | none => exact synced_of_eq (by rfl) (by rfl) (by exact id)
    | some frame => exact synced_emit_to (synced_of_eq (by rfl) (by rfl) (by exact id)) _ (by rfl)
  · exact synced_of_eq (by rfl) (by rfl) (by exact id)

theorem synced_disconnectCamera (s : TrafficSystem) (i : Int) :
    Synced s (disconnectCamera s i) := by
  simp only [disconnectCamera]
  split_ifs
  · exact synced_refl s
  · exact synced_emit_to (synced_emit_to (synced_of_eq (by rfl) (by rfl) (by exact id)) _ (by rfl)) _ (by rfl)

theorem synced_connectCamera (s : TrafficSystem) (i : Int) (src : String) (o : Bool) :
    Synced s (connectCamera s i src o).2 := by
  simp only [connectCamera]
  split_ifs
  · exact synced_refl s
  · exact synced_emit_to (synced_emit_to (synced_eq_to (synced_disconnectCamera s i)
      rfl (by rfl) (by exact id)) _ (by rfl)) _ (by rfl)
  · exact synced_emit_to (synced_disconnectCamera s i) _ (by rfl)

theorem synced_setRoadROI (s : TrafficSystem) (i : Int) (r : Rect) :
    Synced s (setRoadROI s i r) := by
  simp only [setRoadROI]
  split_ifs
  · exact synced_of_eq (by rfl) (by rfl) (by exact id)
  · exact synced_refl s

theorem synced_saveViolationScreenshot (s : TrafficSystem) (i n : Int) (ok : Bool) :
    Synced s (saveViolationScreenshot s i n ok) := by
  unfold saveViolationScreenshot
  split
  · exact synced_refl s
  · split_ifs
    · exact synced_emit s _ (by rfl)
    · exact synced_emit s _ (by rfl)

theorem synced_onSingleShot (s : TrafficSystem) (shot : SingleShot) (ok : Bool) :
    Synced s (onSingleShot s shot ok) := by
  cases shot with
  | screenshot i n => exact synced_saveViolationScreenshot s i n ok
  | cooldownOff i => exact synced_of_eq (by rfl) (by rfl) (by exact id)

theorem synced_checkSensor (s : TrafficSystem) (ns : Int → Bool) (ok : Int → Bool) (i : Int) :
    Synced s (checkSensor s ns ok i) := by
  simp only [checkSensor]
  split_ifs
  · exact synced_eq_to (synced_emit_to (synced_emit_to
      (synced_saveViolationScreenshot s i 1 (ok i)) _ (by rfl)) _ (by rfl)) rfl (by rfl) (by exact id)
  · exact synced_refl s
  · exact synced_refl s

theorem synced_parseArduinoData (s : TrafficSystem) (d : List Char) (ok : Int → Bool) :
    Synced s (parseArduinoData s d ok) := by
  simp only [parseArduinoData, List.foldl_cons, List.foldl_nil]
  split_ifs
  · exact synced_eq_to (synced_trans (synced_trans (synced_trans
      (synced_checkSensor _ _ _ _) (synced_checkSensor _ _ _ _))
      (synced_checkSensor _ _ _ _)) (synced_checkSensor _ _ _ _)) rfl (by rfl) (by exact id)
  · exact synced_refl s
  · exact synced_refl s

theorem synced_drainBuffer (ok : Int → Bool) (n : Nat) :
    ∀ s : TrafficSystem, Synced s (drainBuffer ok n s) := by
  induction n with
  | zero => intro s; exact synced_refl s
  | succ n ih =>
    intro s
    simp only [drainBuffer]
    split_ifs
    · refine synced_trans ?_ (ih _)
      exact synced_trans (synced_of_eq (by rfl) (by rfl) (by exact id)) (synced_parseArduinoData _ _ ok)
    · exact synced_refl s

theorem synced_onArduinoDataReceived (s : TrafficSystem) (d : List Char) (ok : Int → Bool) :
    Synced s (onArduinoDataReceived s d ok) := by
  simp only [onArduinoDataReceived]
  split_ifs
  · exact synced_refl s
  · exact synced_trans (synced_of_eq (by rfl) (by rfl) (by exact id)) (synced_drainBuffer ok _ _)

theorem isLightCommand_init : isLightCommand "INIT\n" = false := by decide

/-- The operations that open or close the link write no light command and emit no
`trafficLightChanged`. -/
theorem paired_initializeArduino (s : TrafficSystem) (p : String) (ports : List String)
    (o : Bool) : Paired s (initializeArduino s p ports o).2 := by
  unfold Paired
  simp only [initializeArduino]
  split_ifs <;> simp [emit, lightChange, isLightCommand_init]

theorem paired_onArduinoError (s : TrafficSystem) (e : String) :
    Paired s (onArduinoError s e) := by
  unfold Paired
  simp only [onArduinoError]
  split_ifs <;> simp [emit, lightChange]

theorem paired_setArduinoSimulationMode (s : TrafficSystem) (b : Bool) (ports : List String)
    (o : Bool) : Paired s (setArduinoSimulationMode s b ports o) := by
  simp only [setArduinoSimulationMode]
  split_ifs
  · unfold Paired
    simp [emit, lightChange]
  · unfold Paired
    simp [emit, lightChange]
  · exact paired_initializeArduino s _ ports o
  · exact paired_refl s

/-- One action from a state with the link up. -/
theorem step_paired (s : TrafficSystem) (a : Action) (h : linkUp s) : Paired s (step s a) := by
  cases a with
  | startSystem => exact (synced_startSystem s h).2
  | stopSystem => exact (synced_stopSystem s h).2
  | lightTimerTimeout => exact (synced_onLightTimerTimeout s h).2
  | mainTimerTimeout f => exact (synced_onMainTimerTimeout s f h).2
  | sensorTimerTimeout => exact (synced_onSensorTimerTimeout s h).2
  | processingFinished j n ids => exact (synced_handleProcessingFinished s j n ids h).2
  | connectCamera j src o => exact (synced_connectCamera s j src o h).2
  | disconnectCamera j => exact (synced_disconnectCamera s j h).2
  | initializeArduino p ps o => exact paired_initializeArduino s p ps o
  | setArduinoSimulationMode b ps o => exact paired_setArduinoSimulationMode s b ps o
  | arduinoError e => exact paired_onArduinoError s e
  | setLightTiming d n => exact paired_refl s
  | setYellowLightDuration n => exact paired_refl s
  | setEnergySavingEnabled b => exact paired_refl s
  | setViolationDetectionEnabled b => exact paired_refl s
  | setRoadROI j r => exact (synced_setRoadROI s j r h).2
  | setYoloThresholds => exact (synced_emit s _ (by rfl) h).2
  | arduinoDataReceived d ok => exact (synced_onArduinoDataReceived s d ok h).2
  | singleShotTimeout shot ok => exact (synced_onSingleShot s shot ok h).2

/-- A run during which the link is up before every action. -/
theorem run_paired (as : List Action) :
    ∀ s : TrafficSystem, linkStaysUp s as = true → Paired s (run s as) := by
  induction as with
  | nil => intro s _; exact paired_refl s
  | cons a rest ih =>
    intro s h
    simp only [linkStaysUp, Bool.and_eq_true, decide_eq_true_eq] at h
    exact paired_trans (step_paired s a h.1) (ih (step s a) h.2)

theorem paired_sent {s t : TrafficSystem} (h : Paired s t) :
    (sent s t).filter isLightCommand
      = ((emitted s t).filterMap lightChange).map lightCommand := by
  obtain ⟨evs, cmds, he, hs, hf⟩ := h
  simp only [sent, emitted, he, hs, List.drop_left]
  exact hf

/-! ## C20: the claim -/

/-- C20: `setTrafficLight(i, l)` with `i` in `0..3` and `l` not the light of approach `i`
stores `l` for approach `i` alone, emits the one event `trafficLightChanged(i, l)` and,
if the link is up, writes the one command `L_<i>_<c>` with LF, `c` being R, Y, G or F
for RED, YELLOW, GREEN or OFF (nothing if the link is not up); with `l` the light of
approach `i`, or `i` outside `0..3`, the state afterwards is the state before.  Hence on
a link that is up the commands written by a series of calls are, in order, the commands
of the `trafficLightChanged` events the series emits; and over any run of actions
before each of which the link is up, the light commands among what is written to the
port are, in order, the commands of the `trafficLightChanged` events emitted. -/
theorem C20_set_traffic_light (s : TrafficSystem) (i : Int) (l : TrafficLight) :
    (0 ≤ i → i < 4 → s.currentLights i ≠ l →
        (setTrafficLight s i l).currentLights = Function.update s.currentLights i l
        ∧ (setTrafficLight s i l).events = s.events ++ [Event.trafficLightChanged i l]
        ∧ (linkUp s →
            (setTrafficLight s i l).serialOut = s.serialOut ++ [lightCommand (i, l)])
        ∧ (¬ linkUp s → (setTrafficLight s i l).serialOut = s.serialOut))
    ∧ ((i < 0 ∨ 4 ≤ i ∨ s.currentLights i = l) → setTrafficLight s i l = s)
    ∧ (linkUp s → ∀ calls : List (Int × TrafficLight),
        ∃ changes : List (Int × TrafficLight),
          (calls.foldl (fun st c => setTrafficLight st c.1 c.2) s).events
              = s.events ++ changes.map (fun c => Event.trafficLightChanged c.1 c.2)
          ∧ (calls.foldl (fun st c => setTrafficLight st c.1 c.2) s).serialOut
              = s.serialOut ++ changes.map lightCommand)
    ∧ (∀ as : List Action, linkStaysUp s as = true →
        (sent s (run s as)).filter isLightCommand
          = ((emitted s (run s as)).filterMap lightChange).map lightCommand) :=
  ⟨setTrafficLight_changed s i l, setTrafficLight_unchanged s i l,
    fun hu calls => setTrafficLight_series calls s hu,
    fun as h => paired_sent (run_paired as s h)⟩

/-- C20 on `demoLinkedStarted` (link up, approach 0 GREEN, approach 2 RED): setting
approach 2 to GREEN emits `trafficLightChanged(2, GREEN)` and writes `L_2_G` with LF;
setting approach 0 to GREEN, or approach 7 to RED, changes nothing.  And on `s0Linked` a
start, two polls of the sensors, a tick and a stop write eight light commands, those of
the eight light changes, and the two polls between them. -/
theorem C20_set_traffic_light_witness :
    linkUp demoLinkedStarted
    ∧ demoLinkedStarted.currentLights 2 ≠ TrafficLight.GREEN
    ∧ (setTrafficLight demoLinkedStarted 2 TrafficLight.GREEN).events
        = demoLinkedStarted.events ++ [Event.trafficLightChanged 2 TrafficLight.GREEN]
    ∧ (setTrafficLight demoLinkedStarted 2 TrafficLight.GREEN).serialOut
        = demoLinkedStarted.serialOut ++ ["L_2_G\n"]
    ∧ setTrafficLight demoLinkedStarted 0 TrafficLight.GREEN = demoLinkedStarted
    ∧ setTrafficLight demoLinkedStarted 7 TrafficLight.RED = demoLinkedStarted
    ∧ linkStaysUp s0Linked startPollStop = true
    ∧ sent s0Linked (run s0Linked startPollStop)
        = ["L_0_G\n", "L_1_R\n", "L_2_R\n", "L_3_R\n", "GET_SENSORS\n", "GET_SENSORS\n",
           "L_0_F\n", "L_1_F\n", "L_2_F\n", "L_3_F\n"]
    ∧ (sent s0Linked (run s0Linked startPollStop)).filter isLightCommand
        = ["L_0_G\n", "L_1_R\n", "L_2_R\n", "L_3_R\n", "L_0_F\n", "L_1_F\n", "L_2_F\n",
           "L_3_F\n"] :=
  have hu : linkUp demoLinkedStarted := by decide!
  have hl : demoLinkedStarted.currentLights 2 ≠ TrafficLight.GREEN := by decide!
  have h := (C20_set_traffic_light demoLinkedStarted 2 TrafficLight.GREEN).1
    (by decide) (by decide) hl
  ⟨hu, hl, h.2.1, (h.2.2.1 hu).trans (by decide!),
    (C20_set_traffic_light demoLinkedStarted 0 TrafficLight.GREEN).2.1
      (Or.inr (Or.inr (by decide!))),
    (C20_set_traffic_light demoLinkedStarted 7 TrafficLight.RED).2.1
      (Or.inr (Or.inl (by decide))),
    by decide!, by decide!,
    ((C20_set_traffic_light s0Linked 0 TrafficLight.RED).2.2.2 startPollStop
      (by decide!)).trans (by decide!)⟩

end STMS
